import Mathlib

/-!
# STM32H7S78-DK board support package: audio subsystem

A shallow embedding of `stm32h7s78_discovery_audio.c` (the `BSP_AUDIO_OUT_*` and
`BSP_AUDIO_IN_*` operations, the codec probe and the weak `MX_*` helpers) together with
theorems about its stream state machines.

Conventions of the embedding.

* `uint32_t` values are natural numbers; pointers are addresses, `0` being `NULL`.
* The three global stream contexts, the codec binding and the MSP-callback flags form the
  record `AudioState`, which every operation takes and returns.
* Everything the driver does outside these globals (HAL calls, codec commands, writes into the
  peripheral handles) is appended to `AudioState.log` as an `Ev`; the writes of the context
  `State` fields are recorded there as well, so that intermediate states can be observed.
* The results of the external collaborators (HAL, codec driver, bus) are not determined by the
  sources; one call of a public operation reads them from a record `Hal`.
* Constants of headers that are not part of the sources are fields of `BoardConf`.
-/

namespace STM32H7S78

/-! ## Status codes and configuration -/

/-- Modelled from the spec: the header `stm32h7s78_discovery_errno.h`, which gives the numeric
values of the `BSP_ERROR_*` codes, is not among the sources. Section 7 of the specification says
that every public operation returns one discriminated status, so the codes used by the audio
driver are the constructors of an enumeration. -/
inductive BspStatus
  | BSP_ERROR_NONE
  | BSP_ERROR_WRONG_PARAM
  | BSP_ERROR_BUSY
  | BSP_ERROR_PERIPH_FAILURE
  | BSP_ERROR_COMPONENT_FAILURE
  | BSP_ERROR_UNKNOWN_COMPONENT
  | BSP_ERROR_BUS_FAILURE
  | BSP_ERROR_CLOCK_FAILURE
  | BSP_ERROR_FEATURE_NOT_SUPPORTED
  deriving DecidableEq, Repr

open BspStatus

/-- The status type of the HAL collaborators; the driver only ever tests `!= HAL_OK`. -/
inductive HAL_StatusTypeDef
  | HAL_OK
  | HAL_ERROR
  | HAL_BUSY
  | HAL_TIMEOUT
  deriving DecidableEq, Repr

open HAL_StatusTypeDef

/-- Compile-time constants taken from headers outside the sources
(`stm32h7s78_discovery_conf.h`, the HAL configuration and `wm8904.h`). The two
`USE_HAL_*_REGISTER_CALLBACKS` switches are `true` when the macro equals 1. -/
structure BoardConf where
  USE_HAL_I2S_REGISTER_CALLBACKS : Bool
  USE_HAL_MDF_REGISTER_CALLBACKS : Bool
  DEFAULT_AUDIO_IN_BUFFER_SIZE : Nat
  WM8904_OK : Int
  WM8904_ID : Nat
  WM8904_ID_MASK : Nat
  deriving DecidableEq, Repr

@[simp] def AUDIO_OUT_INSTANCES_NBR : Nat := 1
@[simp] def AUDIO_IN_INSTANCES_NBR : Nat := 2

@[simp] def AUDIO_OUT_HEADPHONE : Nat := 1
@[simp] def AUDIO_IN_ANALOG_MIC : Nat := 0x01
@[simp] def AUDIO_IN_DIGITAL_MIC : Nat := 0x10

@[simp] def AUDIO_OUT_STATE_RESET : Nat := 0
@[simp] def AUDIO_OUT_STATE_PLAYING : Nat := 1
@[simp] def AUDIO_OUT_STATE_STOP : Nat := 2
@[simp] def AUDIO_OUT_STATE_PAUSE : Nat := 3
@[simp] def AUDIO_OUT_STATE_INIT : Nat := 4

@[simp] def AUDIO_IN_STATE_RESET : Nat := 0
@[simp] def AUDIO_IN_STATE_RECORDING : Nat := 1
@[simp] def AUDIO_IN_STATE_STOP : Nat := 2
@[simp] def AUDIO_IN_STATE_PAUSE : Nat := 3
@[simp] def AUDIO_IN_STATE_INIT : Nat := 4

@[simp] def AUDIO_FREQUENCY_192K : Nat := 192000
@[simp] def AUDIO_FREQUENCY_176K : Nat := 176400
@[simp] def AUDIO_FREQUENCY_96K : Nat := 96000
@[simp] def AUDIO_FREQUENCY_88K : Nat := 88200
@[simp] def AUDIO_FREQUENCY_48K : Nat := 48000
@[simp] def AUDIO_FREQUENCY_44K : Nat := 44100
@[simp] def AUDIO_FREQUENCY_32K : Nat := 32000
@[simp] def AUDIO_FREQUENCY_22K : Nat := 22050
@[simp] def AUDIO_FREQUENCY_16K : Nat := 16000
@[simp] def AUDIO_FREQUENCY_11K : Nat := 11025
@[simp] def AUDIO_FREQUENCY_8K : Nat := 8000

@[simp] def AUDIO_RESOLUTION_8B : Nat := 8
@[simp] def AUDIO_RESOLUTION_16B : Nat := 16
@[simp] def AUDIO_RESOLUTION_24B : Nat := 24
@[simp] def AUDIO_RESOLUTION_32B : Nat := 32

@[simp] def AUDIO_MUTE_DISABLED : Nat := 0
@[simp] def AUDIO_MUTE_ENABLED : Nat := 1

/-! ## Data model -/

/-- The init structure passed to `BSP_AUDIO_OUT_Init` and `BSP_AUDIO_IN_Init`. -/
structure BSP_AUDIO_Init_t where
  Device : Nat
  SampleRate : Nat
  BitsPerSample : Nat
  ChannelsNbr : Nat
  Volume : Nat
  deriving DecidableEq, Repr

/-- The audio-out context. -/
structure AUDIO_OUT_Ctx_t where
  Device : Nat
  SampleRate : Nat
  BitsPerSample : Nat
  Volume : Nat
  ChannelsNbr : Nat
  IsMute : Nat
  State : Nat
  deriving DecidableEq, Repr

/-- The audio-in context; `pBuff` is the address of the record buffer (`0` is `NULL`). -/
structure AUDIO_IN_Ctx_t where
  Device : Nat
  SampleRate : Nat
  BitsPerSample : Nat
  ChannelsNbr : Nat
  pBuff : Nat
  Size : Nat
  Volume : Nat
  State : Nat
  deriving DecidableEq, Repr

/-- The two I2S handles of the driver, both bound to the SPI6 peripheral. -/
inductive I2S_Handle
  | haudio_out_i2s
  | haudio_in_i2s
  deriving DecidableEq, Repr

/-- Identifiers passed to `HAL_I2S_RegisterCallback`. -/
inductive I2S_CallbackID
  | HAL_I2S_TX_COMPLETE_CB_ID
  | HAL_I2S_TX_HALF_COMPLETE_CB_ID
  | HAL_I2S_RX_COMPLETE_CB_ID
  | HAL_I2S_RX_HALF_COMPLETE_CB_ID
  | HAL_I2S_ERROR_CB_ID
  | HAL_I2S_MSPINIT_CB_ID
  | HAL_I2S_MSPDEINIT_CB_ID
  deriving DecidableEq, Repr

/-- Identifiers passed to `HAL_MDF_RegisterCallback`. -/
inductive MDF_CallbackID
  | HAL_MDF_ACQ_COMPLETE_CB_ID
  | HAL_MDF_ACQ_HALFCOMPLETE_CB_ID
  | HAL_MDF_ERROR_CB_ID
  | HAL_MDF_MSPINIT_CB_ID
  | HAL_MDF_MSPDEINIT_CB_ID
  deriving DecidableEq, Repr

/-- The `Mode` values written into `MX_I2S_Config_t`. -/
inductive I2S_Mode
  | I2S_MODE_MASTER_TX
  | I2S_MODE_MASTER_RX
  deriving DecidableEq, Repr

/-- The `DataFormat` values written into `MX_I2S_Config_t` and the I2S handle. -/
inductive I2S_DataFormat
  | I2S_DATAFORMAT_16B
  | I2S_DATAFORMAT_24B
  deriving DecidableEq, Repr

/-- The configuration structure taken by `MX_I2S6_Init`. -/
structure MX_I2S_Config_t where
  AudioFrequency : Nat
  Mode : I2S_Mode
  DataFormat : I2S_DataFormat
  deriving DecidableEq, Repr

/-- The one CIC mode that the `MDF_CIC_MODE` table ever selects. -/
inductive MDF_CicMode
  | MDF_ONE_FILTER_SINC4
  deriving DecidableEq, Repr

/-- The configuration structure taken by `MX_ADF1_Init`. -/
structure MX_MDF_Config_t where
  Gain : Int
  DecimationRatio : Nat
  CicMode : MDF_CicMode
  ProcClockDivider : Nat
  OutputClockDivider : Nat
  deriving DecidableEq, Repr

/-- State of one PLL in `RCC_OscInitTypeDef`. -/
inductive RCC_PLLState
  | RCC_PLL_NONE
  | RCC_PLL_ON
  deriving DecidableEq, Repr

/-- The part of `RCC_OscInitTypeDef` that the clock configurators fill in: the state of the
three PLLs and the dividers of the one PLL that is switched on (`PLLDiv` is the output divider
that feeds the peripheral: Q of PLL2 for SPI6, P of PLL3 for ADF1). -/
structure RCC_OscInitTypeDef where
  PLL1State : RCC_PLLState
  PLL2State : RCC_PLLState
  PLL3State : RCC_PLLState
  PLLM : Nat
  PLLN : Nat
  PLLDiv : Nat
  PLLFractional : Nat
  deriving DecidableEq, Repr

/-- The peripheral clock routes requested through `HAL_RCCEx_PeriphCLKConfig`. -/
inductive RCC_PeriphCLK
  | RCC_PERIPHCLK_SPI6_from_PLL2Q
  | RCC_PERIPHCLK_ADF1_from_PLL3P
  deriving DecidableEq, Repr

/-- The input devices named in `WM8904_Init_t`. -/
inductive WM8904_InputDevice
  | WM8904_IN_NONE
  | WM8904_IN_MIC1
  deriving DecidableEq, Repr

/-- The output devices named in `WM8904_Init_t`. -/
inductive WM8904_OutputDevice
  | WM8904_OUT_NONE
  | WM8904_OUT_HEADPHONE
  deriving DecidableEq, Repr

/-- The `WM8904_Init_t` structure handed to the codec `Init` command; `Resolution` is always
`WM8904_RESOLUTION_16B` in this driver and is left out. -/
structure WM8904_Init_t where
  InputDevice : WM8904_InputDevice
  OutputDevice : WM8904_OutputDevice
  Frequency : Nat
  Volume : Nat
  deriving DecidableEq, Repr

/-- The fields of the static `Audio_AdfFilterConfig` that depend on the sample rate; the
remaining fields are written with fixed values by `MX_ADF1_Init`. -/
structure MDF_FilterConfigTypeDef where
  CicMode : MDF_CicMode
  DecimationRatio : Nat
  Gain : Int
  deriving DecidableEq, Repr

/-- Everything the driver does outside the three contexts, in program order. -/
inductive Ev
  /-- The call of `WM8904_RegisterBusIO`. -/
  | WM8904_RegisterBus
  | WM8904_ReadID
  | HAL_RCC_OscConfig (osc : RCC_OscInitTypeDef)
  | HAL_RCCEx_PeriphCLKConfig (clk : RCC_PeriphCLK)
  | I2S_MspInit (hi2s : I2S_Handle)
  | I2S_MspDeInit (hi2s : I2S_Handle)
  | MDF_MspInit
  | MDF_MspDeInit
  | I2S_Instance_SPI6 (hi2s : I2S_Handle)
  | I2S_Init_AudioFreq (hi2s : I2S_Handle) (freq : Nat)
  | I2S_Init_DataFormat (hi2s : I2S_Handle) (fmt : I2S_DataFormat)
  | I2S_Init_Mode (hi2s : I2S_Handle) (mode : I2S_Mode)
  | I2S_State_RESET (hi2s : I2S_Handle)
  | I2S_DISABLE (hi2s : I2S_Handle)
  | I2S_ENABLE (hi2s : I2S_Handle)
  | HAL_I2S_Init (hi2s : I2S_Handle)
  | HAL_I2S_DeInit (hi2s : I2S_Handle)
  | HAL_I2S_RegisterCallback (hi2s : I2S_Handle) (id : I2S_CallbackID)
  | HAL_I2S_Transmit_DMA (pData : Nat) (size : Nat)
  | HAL_I2S_Receive_DMA (pData : Nat) (size : Nat)
  | HAL_I2S_DMAPause (hi2s : I2S_Handle)
  | HAL_I2S_DMAResume (hi2s : I2S_Handle)
  | HAL_I2S_DMAStop (hi2s : I2S_Handle)
  | MDF_Instance_ADF1_Filter0
  | MDF_Init_Params (procDiv : Nat) (outDiv : Nat)
  | HAL_MDF_Init
  | HAL_MDF_DeInit
  | HAL_MDF_RegisterCallback (id : MDF_CallbackID)
  /-- The call of `HAL_MDF_AcqStart_DMA` on `Audio_DigMicRecBuff` (always that address), with the
  filter configuration in force (`none`: never written) and the DMA data length. -/
  | HAL_MDF_AcqStart_DMA (filter : Option MDF_FilterConfigTypeDef) (dataLength : Nat)
  | HAL_MDF_AcqStop_DMA
  | HAL_DMA_IRQHandler_i2s_tx
  | HAL_DMA_IRQHandler_i2s_rx
  | HAL_DMA_IRQHandler_mdf
  | Drv_Init (init : WM8904_Init_t)
  | Drv_DeInit
  | Drv_Play
  | Drv_Pause
  | Drv_Resume
  | Drv_Stop
  | Drv_SetMute (mute : Bool)
  | Drv_SetVolume (volume : Nat)
  | Audio_Out_Ctx_State (v : Nat)
  | Audio_In_Ctx_State (idx : Nat) (v : Nat)
  deriving DecidableEq, Repr

/-- The results handed back by the external collaborators during one call of a public
operation. Codec and bus functions return an `int32_t`; HAL functions a `HAL_StatusTypeDef`. -/
structure Hal where
  /-- Result of `WM8904_RegisterBusIO`. -/
  WM8904_RegisterBus : Int
  WM8904_ReadID : Int
  wm8904_id : Nat
  HAL_RCC_OscConfig : HAL_StatusTypeDef
  HAL_RCCEx_PeriphCLKConfig : HAL_StatusTypeDef
  HAL_I2S_Init : HAL_StatusTypeDef
  HAL_I2S_DeInit : HAL_StatusTypeDef
  HAL_I2S_RegisterCallback : I2S_CallbackID → HAL_StatusTypeDef
  HAL_I2S_Transmit_DMA : HAL_StatusTypeDef
  HAL_I2S_Receive_DMA : HAL_StatusTypeDef
  HAL_I2S_DMAPause : HAL_StatusTypeDef
  HAL_I2S_DMAResume : HAL_StatusTypeDef
  HAL_I2S_DMAStop : HAL_StatusTypeDef
  HAL_MDF_Init : HAL_StatusTypeDef
  HAL_MDF_DeInit : HAL_StatusTypeDef
  HAL_MDF_RegisterCallback : MDF_CallbackID → HAL_StatusTypeDef
  HAL_MDF_AcqStart_DMA : HAL_StatusTypeDef
  HAL_MDF_AcqStop_DMA : HAL_StatusTypeDef
  Drv_Init : Int
  Drv_DeInit : Int
  Drv_Play : Int
  Drv_Pause : Int
  Drv_Resume : Int
  Drv_Stop : Int
  Drv_SetMute : Int
  Drv_SetVolume : Int

/-- The global variables of the audio driver. `Audio_Drv` and `Audio_CompObj` record whether the
pointer is non-`NULL`. -/
structure AudioState where
  Audio_Out_Ctx : AUDIO_OUT_Ctx_t
  Audio_In_Ctx_0 : AUDIO_IN_Ctx_t
  Audio_In_Ctx_1 : AUDIO_IN_Ctx_t
  Audio_Drv : Bool
  Audio_CompObj : Bool
  AudioOut_IsMspCbValid : Nat
  AudioIn_IsMspCbValid_0 : Nat
  AudioIn_IsMspCbValid_1 : Nat
  /-- The static `Audio_AdfFilterConfig`; `none` until `MX_ADF1_Init` writes it. -/
  Audio_AdfFilterConfig : Option MDF_FilterConfigTypeDef
  log : List Ev
  deriving DecidableEq, Repr

/-- The initialisers of the global variables. -/
def AudioState.initial : AudioState where
  Audio_Out_Ctx :=
    { Device := AUDIO_OUT_HEADPHONE, SampleRate := AUDIO_FREQUENCY_8K,
      BitsPerSample := AUDIO_RESOLUTION_16B, Volume := 50, ChannelsNbr := 2,
      IsMute := AUDIO_MUTE_DISABLED, State := AUDIO_OUT_STATE_RESET }
  Audio_In_Ctx_0 :=
    { Device := AUDIO_IN_ANALOG_MIC, SampleRate := AUDIO_FREQUENCY_8K,
      BitsPerSample := AUDIO_RESOLUTION_16B, ChannelsNbr := 2, pBuff := 0, Size := 0,
      Volume := 50, State := AUDIO_IN_STATE_RESET }
  Audio_In_Ctx_1 :=
    { Device := AUDIO_IN_DIGITAL_MIC, SampleRate := AUDIO_FREQUENCY_8K,
      BitsPerSample := AUDIO_RESOLUTION_16B, ChannelsNbr := 2, pBuff := 0, Size := 0,
      Volume := 50, State := AUDIO_IN_STATE_RESET }
  Audio_Drv := false
  Audio_CompObj := false
  AudioOut_IsMspCbValid := 0
  AudioIn_IsMspCbValid_0 := 0
  AudioIn_IsMspCbValid_1 := 0
  Audio_AdfFilterConfig := none
  log := []

/-- Append one event to the log. -/
def AudioState.emit (s : AudioState) (e : Ev) : AudioState :=
  { s with log := s.log ++ [e] }

/-- `Audio_Out_Ctx[0].State = v`. -/
def AudioState.setOutState (s : AudioState) (v : Nat) : AudioState :=
  { s with Audio_Out_Ctx := { s.Audio_Out_Ctx with State := v },
           log := s.log ++ [Ev.Audio_Out_Ctx_State v] }

/-- `Audio_In_Ctx[Instance]` for `Instance < AUDIO_IN_INSTANCES_NBR`. -/
def AudioState.Audio_In_Ctx (s : AudioState) (Instance : Nat) : AUDIO_IN_Ctx_t :=
  if Instance = 0 then s.Audio_In_Ctx_0 else s.Audio_In_Ctx_1

/-- Overwrite `Audio_In_Ctx[Instance]` for `Instance < AUDIO_IN_INSTANCES_NBR`. -/
def AudioState.setIn (s : AudioState) (Instance : Nat) (c : AUDIO_IN_Ctx_t) : AudioState :=
  if Instance = 0 then { s with Audio_In_Ctx_0 := c } else { s with Audio_In_Ctx_1 := c }

/-- `Audio_In_Ctx[Instance].State = v`. -/
def AudioState.setInState (s : AudioState) (Instance : Nat) (v : Nat) : AudioState :=
  (s.setIn Instance { s.Audio_In_Ctx Instance with State := v }).emit
    (Ev.Audio_In_Ctx_State Instance v)

/-- Append the events of one collaborator call to the log. -/
def AudioState.emitAll (s : AudioState) (l : List Ev) : AudioState :=
  { s with log := s.log ++ l }

/-! ## Collaborators implemented in the sources

The helpers below that touch none of the driver's globals return their status together with
the events they produce; the caller appends the events to the log. -/

open I2S_Handle I2S_CallbackID MDF_CallbackID I2S_Mode I2S_DataFormat

/-- The oscillator settings that `MX_I2S6_ClockConfig` builds: only PLL2 is switched on, with
`M = 32` and `(N, Q)` chosen from the sample rate. -/
def MX_I2S6_ClockConfig_osc (SampleRate : Nat) : RCC_OscInitTypeDef :=
  let nq : Nat × Nat :=
    if SampleRate = AUDIO_FREQUENCY_11K ∨ SampleRate = AUDIO_FREQUENCY_22K
        ∨ SampleRate = AUDIO_FREQUENCY_44K then (96, 17)
    else if SampleRate = AUDIO_FREQUENCY_88K ∨ SampleRate = AUDIO_FREQUENCY_176K then (384, 17)
    else (172, 7)
  { PLL1State := RCC_PLLState.RCC_PLL_NONE, PLL2State := RCC_PLLState.RCC_PLL_ON,
    PLL3State := RCC_PLLState.RCC_PLL_NONE, PLLM := 32, PLLN := nq.1, PLLDiv := nq.2,
    PLLFractional := 0 }

/-- `MX_I2S6_ClockConfig` (weak default): configure PLL2, then route the SPI6 kernel clock to
PLL2Q. -/
def MX_I2S6_ClockConfig (h : Hal) (SampleRate : Nat) : HAL_StatusTypeDef × List Ev :=
  if h.HAL_RCC_OscConfig ≠ HAL_OK then
    (HAL_ERROR, [Ev.HAL_RCC_OscConfig (MX_I2S6_ClockConfig_osc SampleRate)])
  else
    (h.HAL_RCCEx_PeriphCLKConfig,
      [Ev.HAL_RCC_OscConfig (MX_I2S6_ClockConfig_osc SampleRate),
       Ev.HAL_RCCEx_PeriphCLKConfig RCC_PeriphCLK.RCC_PERIPHCLK_SPI6_from_PLL2Q])

/-- `MX_I2S6_Init` (weak default). -/
def MX_I2S6_Init (h : Hal) (hi2s : I2S_Handle) (MXInit : MX_I2S_Config_t) :
    HAL_StatusTypeDef × List Ev :=
  (if h.HAL_I2S_Init ≠ HAL_OK then HAL_ERROR else HAL_OK,
    [Ev.I2S_DISABLE hi2s, Ev.I2S_Init_Mode hi2s MXInit.Mode,
     Ev.I2S_Init_DataFormat hi2s MXInit.DataFormat,
     Ev.I2S_Init_AudioFreq hi2s MXInit.AudioFrequency,
     Ev.HAL_I2S_Init hi2s, Ev.I2S_ENABLE hi2s])

/-- `WM8904_Probe`: register the bus, read the identifier, bind the driver. -/
def WM8904_Probe (c : BoardConf) (h : Hal) (s : AudioState) : BspStatus × AudioState :=
  if h.WM8904_RegisterBus ≠ c.WM8904_OK then
    (BSP_ERROR_BUS_FAILURE, s.emit Ev.WM8904_RegisterBus)
  else if h.WM8904_ReadID ≠ c.WM8904_OK then
    (BSP_ERROR_COMPONENT_FAILURE, s.emitAll [Ev.WM8904_RegisterBus, Ev.WM8904_ReadID])
  else if (h.wm8904_id &&& c.WM8904_ID_MASK) ≠ c.WM8904_ID then
    (BSP_ERROR_UNKNOWN_COMPONENT, s.emitAll [Ev.WM8904_RegisterBus, Ev.WM8904_ReadID])
  else
    (BSP_ERROR_NONE,
      { s.emitAll [Ev.WM8904_RegisterBus, Ev.WM8904_ReadID] with
        Audio_Drv := true, Audio_CompObj := true })

/-- `I2S_MspInit`: GPIO, clock and DMA-descriptor set-up of the SPI6 peripheral. It returns
nothing and writes none of the stream contexts; it is recorded as one event. -/
def I2S_MspInit (hi2s : I2S_Handle) : List Ev := [Ev.I2S_MspInit hi2s]

/-- `I2S_MspDeInit`, recorded as one event like `I2S_MspInit`. -/
def I2S_MspDeInit (hi2s : I2S_Handle) : List Ev := [Ev.I2S_MspDeInit hi2s]

/-- The `else if` chain, compiled in when `USE_HAL_I2S_REGISTER_CALLBACKS == 1`, that registers
three callbacks on a handle with `HAL_I2S_RegisterCallback`, one after the other, and stops at
the first failure. The status is `HAL_OK` when all three registrations succeeded. -/
def I2S_RegisterCallbacks (h : Hal) (hi2s : I2S_Handle) (a b d : I2S_CallbackID) :
    HAL_StatusTypeDef × List Ev :=
  if h.HAL_I2S_RegisterCallback a ≠ HAL_OK then
    (h.HAL_I2S_RegisterCallback a, [Ev.HAL_I2S_RegisterCallback hi2s a])
  else if h.HAL_I2S_RegisterCallback b ≠ HAL_OK then
    (h.HAL_I2S_RegisterCallback b,
      [Ev.HAL_I2S_RegisterCallback hi2s a, Ev.HAL_I2S_RegisterCallback hi2s b])
  else
    (h.HAL_I2S_RegisterCallback d,
      [Ev.HAL_I2S_RegisterCallback hi2s a, Ev.HAL_I2S_RegisterCallback hi2s b,
       Ev.HAL_I2S_RegisterCallback hi2s d])

/-- `BSP_AUDIO_OUT_RegisterDefaultMspCallbacks` (exists when
`USE_HAL_I2S_REGISTER_CALLBACKS == 1`). -/
def BSP_AUDIO_OUT_RegisterDefaultMspCallbacks (h : Hal) (Instance : Nat) (s : AudioState) :
    BspStatus × AudioState :=
  if Instance ≥ AUDIO_OUT_INSTANCES_NBR then (BSP_ERROR_WRONG_PARAM, s)
  else if h.HAL_I2S_RegisterCallback HAL_I2S_MSPINIT_CB_ID ≠ HAL_OK then
    (BSP_ERROR_PERIPH_FAILURE,
      s.emit (Ev.HAL_I2S_RegisterCallback haudio_out_i2s HAL_I2S_MSPINIT_CB_ID))
  else if h.HAL_I2S_RegisterCallback HAL_I2S_MSPDEINIT_CB_ID ≠ HAL_OK then
    (BSP_ERROR_PERIPH_FAILURE,
      s.emitAll [Ev.HAL_I2S_RegisterCallback haudio_out_i2s HAL_I2S_MSPINIT_CB_ID,
                 Ev.HAL_I2S_RegisterCallback haudio_out_i2s HAL_I2S_MSPDEINIT_CB_ID])
  else
    (BSP_ERROR_NONE,
      { s.emitAll [Ev.HAL_I2S_RegisterCallback haudio_out_i2s HAL_I2S_MSPINIT_CB_ID,
                   Ev.HAL_I2S_RegisterCallback haudio_out_i2s HAL_I2S_MSPDEINIT_CB_ID] with
        AudioOut_IsMspCbValid := 1 })

/-- `BSP_AUDIO_OUT_RegisterMspCallbacks` (exists when
`USE_HAL_I2S_REGISTER_CALLBACKS == 1`); it differs from the default registration only in the
function pointers handed to the HAL, which are not modelled. -/
def BSP_AUDIO_OUT_RegisterMspCallbacks (h : Hal) (Instance : Nat) (s : AudioState) :
    BspStatus × AudioState :=
  BSP_AUDIO_OUT_RegisterDefaultMspCallbacks h Instance s

/-! ## Audio out: public operations

Where the C code records a failure in `status` and tests `status == BSP_ERROR_NONE` further
down, the embedding returns at the failure and goes on along the success path: the same
control flow written without the flag. -/

/-- The last block of `BSP_AUDIO_OUT_Init`: initialise the codec and move to Stopped. -/
def BSP_AUDIO_OUT_Init_codec (h : Hal) (AudioInit : BSP_AUDIO_Init_t) (s : AudioState) :
    BspStatus × AudioState :=
  let codec_init : WM8904_Init_t :=
    { InputDevice := WM8904_InputDevice.WM8904_IN_NONE,
      OutputDevice := WM8904_OutputDevice.WM8904_OUT_HEADPHONE,
      Frequency := AudioInit.SampleRate, Volume := AudioInit.Volume }
  if h.Drv_Init < 0 then (BSP_ERROR_COMPONENT_FAILURE, s.emit (Ev.Drv_Init codec_init))
  else
    /- Update audio out context state -/
    (BSP_ERROR_NONE, (s.emit (Ev.Drv_Init codec_init)).setOutState AUDIO_OUT_STATE_STOP)

/-- The block of `BSP_AUDIO_OUT_Init` under `if (status == BSP_ERROR_NONE)`: I2S peripheral
initialisation, callback registration where compiled in, then the codec. -/
def BSP_AUDIO_OUT_Init_i2s (c : BoardConf) (h : Hal) (AudioInit : BSP_AUDIO_Init_t)
    (s : AudioState) : BspStatus × AudioState :=
  let mxI2sInit : MX_I2S_Config_t :=
    { AudioFrequency := AudioInit.SampleRate, Mode := I2S_MODE_MASTER_TX,
      DataFormat := if AudioInit.BitsPerSample = AUDIO_RESOLUTION_16B
        then I2S_DATAFORMAT_16B else I2S_DATAFORMAT_24B }
  let s := s.emitAll (MX_I2S6_Init h haudio_out_i2s mxI2sInit).2
  if (MX_I2S6_Init h haudio_out_i2s mxI2sInit).1 ≠ HAL_OK then (BSP_ERROR_PERIPH_FAILURE, s)
  else if c.USE_HAL_I2S_REGISTER_CALLBACKS = true then
    /- Register I2S TC, HT and Error callbacks -/
    let r := I2S_RegisterCallbacks h haudio_out_i2s HAL_I2S_TX_COMPLETE_CB_ID
      HAL_I2S_TX_HALF_COMPLETE_CB_ID HAL_I2S_ERROR_CB_ID
    if r.1 ≠ HAL_OK then (BSP_ERROR_PERIPH_FAILURE, s.emitAll r.2)
    else BSP_AUDIO_OUT_Init_codec h AudioInit (s.emitAll r.2)
  else BSP_AUDIO_OUT_Init_codec h AudioInit s

/-- `BSP_AUDIO_OUT_Init`. -/
def BSP_AUDIO_OUT_Init (c : BoardConf) (h : Hal) (Instance : Nat) (AudioInit : BSP_AUDIO_Init_t)
    (s : AudioState) : BspStatus × AudioState :=
  if Instance ≥ AUDIO_OUT_INSTANCES_NBR then (BSP_ERROR_WRONG_PARAM, s)
  else if Instance = 0 ∧ (AudioInit.BitsPerSample = AUDIO_RESOLUTION_32B
      ∨ AudioInit.BitsPerSample = AUDIO_RESOLUTION_8B) then
    (BSP_ERROR_FEATURE_NOT_SUPPORTED, s)
  else if Instance = 0 ∧ AudioInit.ChannelsNbr ≠ 2 then (BSP_ERROR_FEATURE_NOT_SUPPORTED, s)
  else if Instance = 0 ∧ s.Audio_In_Ctx_0.State ≠ AUDIO_IN_STATE_RESET then
    (BSP_ERROR_FEATURE_NOT_SUPPORTED, s)
  else if s.Audio_Out_Ctx.State ≠ AUDIO_OUT_STATE_RESET then (BSP_ERROR_BUSY, s)
  else
    /- Fill audio out context structure -/
    let s := { s with Audio_Out_Ctx :=
      { s.Audio_Out_Ctx with
        Device := AudioInit.Device, SampleRate := AudioInit.SampleRate,
        BitsPerSample := AudioInit.BitsPerSample, ChannelsNbr := AudioInit.ChannelsNbr,
        Volume := AudioInit.Volume } }
    /- Probe the audio codec -/
    if (WM8904_Probe c h s).1 ≠ BSP_ERROR_NONE then
      (BSP_ERROR_COMPONENT_FAILURE, (WM8904_Probe c h s).2)
    else
      /- Set I2S instance and state -/
      let s := ((WM8904_Probe c h s).2.emit (Ev.I2S_Instance_SPI6 haudio_out_i2s)).setOutState
        AUDIO_OUT_STATE_INIT
      /- Configure the I2S PLL according to the requested audio frequency -/
      let s := s.emitAll (MX_I2S6_ClockConfig h AudioInit.SampleRate).2
      if (MX_I2S6_ClockConfig h AudioInit.SampleRate).1 ≠ HAL_OK then
        (BSP_ERROR_CLOCK_FAILURE, s)
      else if c.USE_HAL_I2S_REGISTER_CALLBACKS = false then
        BSP_AUDIO_OUT_Init_i2s c h AudioInit (s.emitAll (I2S_MspInit haudio_out_i2s))
      /- Register the I2S MSP Callbacks -/
      else if s.AudioOut_IsMspCbValid = 0 then
        if (BSP_AUDIO_OUT_RegisterDefaultMspCallbacks h Instance s).1 ≠ BSP_ERROR_NONE then
          (BSP_ERROR_PERIPH_FAILURE, (BSP_AUDIO_OUT_RegisterDefaultMspCallbacks h Instance s).2)
        else
          BSP_AUDIO_OUT_Init_i2s c h AudioInit
            (BSP_AUDIO_OUT_RegisterDefaultMspCallbacks h Instance s).2
      else BSP_AUDIO_OUT_Init_i2s c h AudioInit s

/-- `BSP_AUDIO_OUT_DeInit`. -/
def BSP_AUDIO_OUT_DeInit (c : BoardConf) (h : Hal) (Instance : Nat) (s : AudioState) :
    BspStatus × AudioState :=
  if Instance ≥ AUDIO_OUT_INSTANCES_NBR then (BSP_ERROR_WRONG_PARAM, s)
  else if s.Audio_Out_Ctx.State ≠ AUDIO_OUT_STATE_RESET then
    /- I2S peripheral de-initialization -/
    if h.HAL_I2S_DeInit ≠ HAL_OK then
      (BSP_ERROR_PERIPH_FAILURE, s.emit (Ev.HAL_I2S_DeInit haudio_out_i2s))
    else
      let s := (s.emit (Ev.HAL_I2S_DeInit haudio_out_i2s)).emitAll
        (if c.USE_HAL_I2S_REGISTER_CALLBACKS = false then I2S_MspDeInit haudio_out_i2s else [])
      /- De-initialize audio codec -/
      if h.Drv_DeInit < 0 then (BSP_ERROR_COMPONENT_FAILURE, s.emit Ev.Drv_DeInit)
      else
        /- Update audio out context -/
        let s := (s.emit Ev.Drv_DeInit).setOutState AUDIO_OUT_STATE_RESET
        (BSP_ERROR_NONE, { s with Audio_Out_Ctx := { s.Audio_Out_Ctx with IsMute := 0 } })
  else (BSP_ERROR_NONE, s)

/-- `BSP_AUDIO_OUT_Play`; `pData` is the buffer address and `NbrOfDmaDatas` is a `uint16_t`. -/
def BSP_AUDIO_OUT_Play (h : Hal) (Instance : Nat) (pData : Nat) (NbrOfBytes : Nat)
    (s : AudioState) : BspStatus × AudioState :=
  if Instance ≥ AUDIO_OUT_INSTANCES_NBR ∨ pData = 0 ∨ NbrOfBytes > 65535 then
    (BSP_ERROR_WRONG_PARAM, s)
  else if s.Audio_Out_Ctx.State ≠ AUDIO_OUT_STATE_STOP then (BSP_ERROR_BUSY, s)
  else
    /- Compute number of DMA data to transfer according resolution -/
    let NbrOfDmaDatas : Nat :=
      if s.Audio_Out_Ctx.BitsPerSample = AUDIO_RESOLUTION_16B then (NbrOfBytes / 2) % 65536
      else (NbrOfBytes / 4) % 65536
    let s := s.emitAll [Ev.I2S_DISABLE haudio_out_i2s, Ev.HAL_I2S_Transmit_DMA pData NbrOfDmaDatas]
    if h.HAL_I2S_Transmit_DMA ≠ HAL_OK then (BSP_ERROR_PERIPH_FAILURE, s)
    /- Call the audio codec play function -/
    else if h.Drv_Play < 0 then (BSP_ERROR_COMPONENT_FAILURE, s.emit Ev.Drv_Play)
    else (BSP_ERROR_NONE, (s.emit Ev.Drv_Play).setOutState AUDIO_OUT_STATE_PLAYING)

/-- `BSP_AUDIO_OUT_Pause`. -/
def BSP_AUDIO_OUT_Pause (h : Hal) (Instance : Nat) (s : AudioState) : BspStatus × AudioState :=
  if Instance ≥ AUDIO_OUT_INSTANCES_NBR then (BSP_ERROR_WRONG_PARAM, s)
  else if s.Audio_Out_Ctx.State ≠ AUDIO_OUT_STATE_PLAYING then (BSP_ERROR_BUSY, s)
  else if h.Drv_Pause < 0 then (BSP_ERROR_COMPONENT_FAILURE, s.emit Ev.Drv_Pause)
  else if h.HAL_I2S_DMAPause ≠ HAL_OK then
    (BSP_ERROR_PERIPH_FAILURE, s.emitAll [Ev.Drv_Pause, Ev.HAL_I2S_DMAPause haudio_out_i2s])
  else
    (BSP_ERROR_NONE,
      (s.emitAll [Ev.Drv_Pause, Ev.HAL_I2S_DMAPause haudio_out_i2s]).setOutState
        AUDIO_OUT_STATE_PAUSE)

/-- `BSP_AUDIO_OUT_Resume`. -/
def BSP_AUDIO_OUT_Resume (h : Hal) (Instance : Nat) (s : AudioState) : BspStatus × AudioState :=
  if Instance ≥ AUDIO_OUT_INSTANCES_NBR then (BSP_ERROR_WRONG_PARAM, s)
  else if s.Audio_Out_Ctx.State ≠ AUDIO_OUT_STATE_PAUSE then (BSP_ERROR_BUSY, s)
  else if h.HAL_I2S_DMAResume ≠ HAL_OK then
    (BSP_ERROR_PERIPH_FAILURE, s.emit (Ev.HAL_I2S_DMAResume haudio_out_i2s))
  else if h.Drv_Resume < 0 then
    (BSP_ERROR_COMPONENT_FAILURE,
      s.emitAll [Ev.HAL_I2S_DMAResume haudio_out_i2s, Ev.Drv_Resume])
  else
    (BSP_ERROR_NONE,
      (s.emitAll [Ev.HAL_I2S_DMAResume haudio_out_i2s, Ev.Drv_Resume]).setOutState
        AUDIO_OUT_STATE_PLAYING)

/-- `BSP_AUDIO_OUT_Stop`. -/
def BSP_AUDIO_OUT_Stop (h : Hal) (Instance : Nat) (s : AudioState) : BspStatus × AudioState :=
  if Instance ≥ AUDIO_OUT_INSTANCES_NBR then (BSP_ERROR_WRONG_PARAM, s)
  else if s.Audio_Out_Ctx.State = AUDIO_OUT_STATE_STOP then (BSP_ERROR_NONE, s)
  else if s.Audio_Out_Ctx.State ≠ AUDIO_OUT_STATE_PLAYING
      ∧ s.Audio_Out_Ctx.State ≠ AUDIO_OUT_STATE_PAUSE then (BSP_ERROR_BUSY, s)
  else if h.Drv_Stop < 0 then (BSP_ERROR_COMPONENT_FAILURE, s.emit Ev.Drv_Stop)
  else if h.HAL_I2S_DMAStop ≠ HAL_OK then
    (BSP_ERROR_PERIPH_FAILURE, s.emitAll [Ev.Drv_Stop, Ev.HAL_I2S_DMAStop haudio_out_i2s])
  else
    (BSP_ERROR_NONE,
      (s.emitAll [Ev.Drv_Stop, Ev.HAL_I2S_DMAStop haudio_out_i2s]).setOutState
        AUDIO_OUT_STATE_STOP)

/-- `BSP_AUDIO_OUT_Mute`. -/
def BSP_AUDIO_OUT_Mute (h : Hal) (Instance : Nat) (s : AudioState) : BspStatus × AudioState :=
  if Instance ≥ AUDIO_OUT_INSTANCES_NBR then (BSP_ERROR_WRONG_PARAM, s)
  else if s.Audio_Out_Ctx.State = AUDIO_OUT_STATE_RESET then (BSP_ERROR_BUSY, s)
  else if s.Audio_Out_Ctx.IsMute = 1 then (BSP_ERROR_NONE, s)
  else if h.Drv_SetMute < 0 then (BSP_ERROR_COMPONENT_FAILURE, s.emit (Ev.Drv_SetMute true))
  else
    (BSP_ERROR_NONE,
      { s.emit (Ev.Drv_SetMute true) with
        Audio_Out_Ctx := { s.Audio_Out_Ctx with IsMute := 1 } })

/-- `BSP_AUDIO_OUT_UnMute`. -/
def BSP_AUDIO_OUT_UnMute (h : Hal) (Instance : Nat) (s : AudioState) : BspStatus × AudioState :=
  if Instance ≥ AUDIO_OUT_INSTANCES_NBR then (BSP_ERROR_WRONG_PARAM, s)
  else if s.Audio_Out_Ctx.State = AUDIO_OUT_STATE_RESET then (BSP_ERROR_BUSY, s)
  else if s.Audio_Out_Ctx.IsMute = 0 then (BSP_ERROR_NONE, s)
  else if h.Drv_SetMute < 0 then (BSP_ERROR_COMPONENT_FAILURE, s.emit (Ev.Drv_SetMute false))
  else
    (BSP_ERROR_NONE,
      { s.emit (Ev.Drv_SetMute false) with
        Audio_Out_Ctx := { s.Audio_Out_Ctx with IsMute := 0 } })

/-- `BSP_AUDIO_OUT_IsMute`. In this and the other readers the second component is the value
stored through the output pointer, `none` when the pointer is left untouched. -/
def BSP_AUDIO_OUT_IsMute (Instance : Nat) (s : AudioState) : BspStatus × Option Nat :=
  if Instance ≥ AUDIO_OUT_INSTANCES_NBR then (BSP_ERROR_WRONG_PARAM, none)
  else if s.Audio_Out_Ctx.State = AUDIO_OUT_STATE_RESET then (BSP_ERROR_BUSY, none)
  else (BSP_ERROR_NONE, some s.Audio_Out_Ctx.IsMute)

/-- `BSP_AUDIO_OUT_SetVolume`; the codec receives `(uint8_t) Volume`. -/
def BSP_AUDIO_OUT_SetVolume (h : Hal) (Instance : Nat) (Volume : Nat) (s : AudioState) :
    BspStatus × AudioState :=
  if Instance ≥ AUDIO_OUT_INSTANCES_NBR ∨ Volume > 100 then (BSP_ERROR_WRONG_PARAM, s)
  else if s.Audio_Out_Ctx.State = AUDIO_OUT_STATE_RESET then (BSP_ERROR_BUSY, s)
  /- Call the audio codec volume control function -/
  else if h.Drv_SetVolume < 0 then
    (BSP_ERROR_COMPONENT_FAILURE, s.emit (Ev.Drv_SetVolume (Volume % 256)))
  else
    /- Store volume on audio out context -/
    (BSP_ERROR_NONE,
      { s.emit (Ev.Drv_SetVolume (Volume % 256)) with
        Audio_Out_Ctx := { s.Audio_Out_Ctx with Volume := Volume } })

/-- `BSP_AUDIO_OUT_GetVolume`. -/
def BSP_AUDIO_OUT_GetVolume (Instance : Nat) (s : AudioState) : BspStatus × Option Nat :=
  if Instance ≥ AUDIO_OUT_INSTANCES_NBR then (BSP_ERROR_WRONG_PARAM, none)
  else if s.Audio_Out_Ctx.State = AUDIO_OUT_STATE_RESET then (BSP_ERROR_BUSY, none)
  else (BSP_ERROR_NONE, some s.Audio_Out_Ctx.Volume)

/-- `BSP_AUDIO_OUT_SetSampleRate`. -/
def BSP_AUDIO_OUT_SetSampleRate (c : BoardConf) (h : Hal) (Instance : Nat) (SampleRate : Nat)
    (s : AudioState) : BspStatus × AudioState :=
  if Instance ≥ AUDIO_OUT_INSTANCES_NBR then (BSP_ERROR_WRONG_PARAM, s)
  else if s.Audio_Out_Ctx.State ≠ AUDIO_OUT_STATE_STOP then (BSP_ERROR_BUSY, s)
  else if s.Audio_Out_Ctx.SampleRate = SampleRate then (BSP_ERROR_NONE, s)
  else
    /- Update I2S6 clock config -/
    let s := (s.emit (Ev.I2S_Init_AudioFreq haudio_out_i2s SampleRate)).emitAll
      (MX_I2S6_ClockConfig h SampleRate).2
    if (MX_I2S6_ClockConfig h SampleRate).1 ≠ HAL_OK then (BSP_ERROR_CLOCK_FAILURE, s)
    /- Re-initialize I2S6 with new sample rate -/
    else if h.HAL_I2S_Init ≠ HAL_OK then
      (BSP_ERROR_PERIPH_FAILURE, s.emit (Ev.HAL_I2S_Init haudio_out_i2s))
    else
      let r : HAL_StatusTypeDef × List Ev :=
        if c.USE_HAL_I2S_REGISTER_CALLBACKS = true then
          I2S_RegisterCallbacks h haudio_out_i2s HAL_I2S_TX_COMPLETE_CB_ID
            HAL_I2S_TX_HALF_COMPLETE_CB_ID HAL_I2S_ERROR_CB_ID
        else (HAL_OK, [])
      let s := (s.emit (Ev.HAL_I2S_Init haudio_out_i2s)).emitAll r.2
      if r.1 ≠ HAL_OK then (BSP_ERROR_PERIPH_FAILURE, s)
      else
        /- Store new sample rate on audio out context -/
        (BSP_ERROR_NONE,
          { s with Audio_Out_Ctx := { s.Audio_Out_Ctx with SampleRate := SampleRate } })

/-- `BSP_AUDIO_OUT_GetSampleRate`. -/
def BSP_AUDIO_OUT_GetSampleRate (Instance : Nat) (s : AudioState) : BspStatus × Option Nat :=
  if Instance ≥ AUDIO_OUT_INSTANCES_NBR then (BSP_ERROR_WRONG_PARAM, none)
  else if s.Audio_Out_Ctx.State = AUDIO_OUT_STATE_RESET then (BSP_ERROR_BUSY, none)
  else (BSP_ERROR_NONE, some s.Audio_Out_Ctx.SampleRate)

/-- `BSP_AUDIO_OUT_SetDevice`; the `Device` argument is unused. -/
def BSP_AUDIO_OUT_SetDevice (Instance : Nat) (_Device : Nat) (s : AudioState) :
    BspStatus × AudioState :=
  if Instance ≥ AUDIO_OUT_INSTANCES_NBR then (BSP_ERROR_WRONG_PARAM, s)
  else if s.Audio_Out_Ctx.State ≠ AUDIO_OUT_STATE_STOP then (BSP_ERROR_BUSY, s)
  else (BSP_ERROR_NONE, s)

/-- `BSP_AUDIO_OUT_GetDevice`. -/
def BSP_AUDIO_OUT_GetDevice (Instance : Nat) (s : AudioState) : BspStatus × Option Nat :=
  if Instance ≥ AUDIO_OUT_INSTANCES_NBR then (BSP_ERROR_WRONG_PARAM, none)
  else if s.Audio_Out_Ctx.State = AUDIO_OUT_STATE_RESET then (BSP_ERROR_BUSY, none)
  else (BSP_ERROR_NONE, some s.Audio_Out_Ctx.Device)

/-- `BSP_AUDIO_OUT_SetBitsPerSample`. -/
def BSP_AUDIO_OUT_SetBitsPerSample (c : BoardConf) (h : Hal) (Instance : Nat)
    (BitsPerSample : Nat) (s : AudioState) : BspStatus × AudioState :=
  if Instance ≥ AUDIO_OUT_INSTANCES_NBR then (BSP_ERROR_WRONG_PARAM, s)
  else if Instance = 0 ∧ (BitsPerSample = AUDIO_RESOLUTION_32B
      ∨ BitsPerSample = AUDIO_RESOLUTION_8B) then (BSP_ERROR_FEATURE_NOT_SUPPORTED, s)
  else if s.Audio_Out_Ctx.State ≠ AUDIO_OUT_STATE_STOP then (BSP_ERROR_BUSY, s)
  else if s.Audio_Out_Ctx.BitsPerSample = BitsPerSample then (BSP_ERROR_NONE, s)
  else
    /- Store new bits per sample on audio out context -/
    let s := { s with Audio_Out_Ctx := { s.Audio_Out_Ctx with BitsPerSample := BitsPerSample } }
    /- Update data size, frame length and active frame length parameters of I2S handle -/
    let s := s.emit (Ev.I2S_Init_DataFormat haudio_out_i2s
      (if BitsPerSample = AUDIO_RESOLUTION_24B then I2S_DATAFORMAT_24B else I2S_DATAFORMAT_16B))
    let s := s.emitAll (if c.USE_HAL_I2S_REGISTER_CALLBACKS = false
      then I2S_MspInit haudio_out_i2s else [Ev.I2S_State_RESET haudio_out_i2s])
    /- Re-initialize I2S1 with new parameters -/
    let s := s.emit (Ev.HAL_I2S_Init haudio_out_i2s)
    if h.HAL_I2S_Init ≠ HAL_OK then (BSP_ERROR_PERIPH_FAILURE, s)
    else
      let r : HAL_StatusTypeDef × List Ev :=
        if c.USE_HAL_I2S_REGISTER_CALLBACKS = true then
          I2S_RegisterCallbacks h haudio_out_i2s HAL_I2S_TX_COMPLETE_CB_ID
            HAL_I2S_TX_HALF_COMPLETE_CB_ID HAL_I2S_ERROR_CB_ID
        else (HAL_OK, [])
      if r.1 ≠ HAL_OK then (BSP_ERROR_PERIPH_FAILURE, s.emitAll r.2)
      else (BSP_ERROR_NONE, s.emitAll r.2)

/-- `BSP_AUDIO_OUT_GetBitsPerSample`. -/
def BSP_AUDIO_OUT_GetBitsPerSample (Instance : Nat) (s : AudioState) : BspStatus × Option Nat :=
  if Instance ≥ AUDIO_OUT_INSTANCES_NBR then (BSP_ERROR_WRONG_PARAM, none)
  else if s.Audio_Out_Ctx.State = AUDIO_OUT_STATE_RESET then (BSP_ERROR_BUSY, none)
  else (BSP_ERROR_NONE, some s.Audio_Out_Ctx.BitsPerSample)

/-- `BSP_AUDIO_OUT_SetChannelsNbr`. -/
def BSP_AUDIO_OUT_SetChannelsNbr (Instance : Nat) (ChannelNbr : Nat) (s : AudioState) :
    BspStatus × AudioState :=
  if Instance ≥ AUDIO_OUT_INSTANCES_NBR then (BSP_ERROR_WRONG_PARAM, s)
  else if Instance = 0 ∧ ChannelNbr ≠ 2 then (BSP_ERROR_FEATURE_NOT_SUPPORTED, s)
  else if s.Audio_Out_Ctx.State ≠ AUDIO_OUT_STATE_STOP then (BSP_ERROR_BUSY, s)
  else (BSP_ERROR_NONE, s)

/-- `BSP_AUDIO_OUT_GetChannelsNbr`. -/
def BSP_AUDIO_OUT_GetChannelsNbr (Instance : Nat) (s : AudioState) : BspStatus × Option Nat :=
  if Instance ≥ AUDIO_OUT_INSTANCES_NBR then (BSP_ERROR_WRONG_PARAM, none)
  else if s.Audio_Out_Ctx.State = AUDIO_OUT_STATE_RESET then (BSP_ERROR_BUSY, none)
  else (BSP_ERROR_NONE, some s.Audio_Out_Ctx.ChannelsNbr)

/-- `BSP_AUDIO_OUT_GetState`. -/
def BSP_AUDIO_OUT_GetState (Instance : Nat) (s : AudioState) : BspStatus × Option Nat :=
  if Instance ≥ AUDIO_OUT_INSTANCES_NBR then (BSP_ERROR_WRONG_PARAM, none)
  else (BSP_ERROR_NONE, some s.Audio_Out_Ctx.State)

/-- `BSP_AUDIO_OUT_IRQHandler`: hands the interrupt to the DMA channel of the Tx handle. -/
def BSP_AUDIO_OUT_IRQHandler (_Instance : Nat) (_Device : Nat) (s : AudioState) : AudioState :=
  s.emit Ev.HAL_DMA_IRQHandler_i2s_tx

/-! ## Audio in: collaborators implemented in the sources -/

/-- The macro `MDF_DECIMATION_RATIO`. -/
def MDF_DECIMATION_RATIO (f : Nat) : Nat :=
  if f = AUDIO_FREQUENCY_8K then 64
  else if f = AUDIO_FREQUENCY_11K then 64
  else if f = AUDIO_FREQUENCY_16K then 32
  else if f = AUDIO_FREQUENCY_22K then 32
  else if f = AUDIO_FREQUENCY_32K then 16
  else if f = AUDIO_FREQUENCY_44K then 16
  else if f = AUDIO_FREQUENCY_48K then 16
  else if f = AUDIO_FREQUENCY_88K then 8
  else if f = AUDIO_FREQUENCY_96K then 8
  else if f = AUDIO_FREQUENCY_176K then 4 else 4

/-- The macro `MDF_GAIN`. -/
def MDF_GAIN (f : Nat) : Int :=
  if f = AUDIO_FREQUENCY_8K then -4
  else if f = AUDIO_FREQUENCY_11K then -6
  else if f = AUDIO_FREQUENCY_16K then 2
  else if f = AUDIO_FREQUENCY_22K then 2
  else if f = AUDIO_FREQUENCY_32K then 10
  else if f = AUDIO_FREQUENCY_44K then 10
  else if f = AUDIO_FREQUENCY_48K then 10
  else if f = AUDIO_FREQUENCY_88K then 18
  else if f = AUDIO_FREQUENCY_96K then 18
  else if f = AUDIO_FREQUENCY_176K then 24 else 24

/-- The macro `MDF_CIC_MODE`: every branch selects `MDF_ONE_FILTER_SINC4`. -/
def MDF_CIC_MODE (_f : Nat) : MDF_CicMode := MDF_CicMode.MDF_ONE_FILTER_SINC4

/-- The macro `MDF_PROC_CLOCK_DIVIDER`. -/
def MDF_PROC_CLOCK_DIVIDER (f : Nat) : Nat :=
  if f = AUDIO_FREQUENCY_8K then 2
  else if f = AUDIO_FREQUENCY_11K then 1
  else if f = AUDIO_FREQUENCY_16K then 2
  else if f = AUDIO_FREQUENCY_22K then 1
  else if f = AUDIO_FREQUENCY_32K then 2
  else if f = AUDIO_FREQUENCY_44K then 1
  else if f = AUDIO_FREQUENCY_48K then 2
  else if f = AUDIO_FREQUENCY_88K then 1
  else if f = AUDIO_FREQUENCY_96K then 2
  else if f = AUDIO_FREQUENCY_176K then 1 else 2

/-- The macro `MDF_OUTPUT_CLOCK_DIVIDER`. -/
def MDF_OUTPUT_CLOCK_DIVIDER (f : Nat) : Nat :=
  if f = AUDIO_FREQUENCY_8K then 12
  else if f = AUDIO_FREQUENCY_11K then 4
  else if f = AUDIO_FREQUENCY_16K then 12
  else if f = AUDIO_FREQUENCY_22K then 4
  else if f = AUDIO_FREQUENCY_32K then 12
  else if f = AUDIO_FREQUENCY_44K then 4
  else if f = AUDIO_FREQUENCY_48K then 8
  else if f = AUDIO_FREQUENCY_88K then 16
  else if f = AUDIO_FREQUENCY_96K then 16
  else if f = AUDIO_FREQUENCY_176K then 16 else 16

/-- The `MX_MDF_Config_t` that `BSP_AUDIO_IN_Init` and `BSP_AUDIO_IN_SetSampleRate` fill in
from the five macros. -/
def mxMdfInit (SampleRate : Nat) : MX_MDF_Config_t :=
  { Gain := MDF_GAIN SampleRate,
    DecimationRatio := MDF_DECIMATION_RATIO SampleRate,
    CicMode := MDF_CIC_MODE SampleRate,
    ProcClockDivider := MDF_PROC_CLOCK_DIVIDER SampleRate,
    OutputClockDivider := MDF_OUTPUT_CLOCK_DIVIDER SampleRate }

/-- The oscillator settings that `MX_ADF1_ClockConfig` builds: only PLL3 is switched on, with
`M = 32` and `(N, P)` chosen from the sample rate. -/
def MX_ADF1_ClockConfig_osc (SampleRate : Nat) : RCC_OscInitTypeDef :=
  let np : Nat × Nat :=
    if SampleRate = AUDIO_FREQUENCY_11K ∨ SampleRate = AUDIO_FREQUENCY_22K
        ∨ SampleRate = AUDIO_FREQUENCY_44K then (96, 17)
    else if SampleRate = AUDIO_FREQUENCY_88K ∨ SampleRate = AUDIO_FREQUENCY_176K then (384, 17)
    else if SampleRate = AUDIO_FREQUENCY_96K ∨ SampleRate = AUDIO_FREQUENCY_192K then (344, 7)
    else (172, 7)
  { PLL1State := RCC_PLLState.RCC_PLL_NONE, PLL2State := RCC_PLLState.RCC_PLL_NONE,
    PLL3State := RCC_PLLState.RCC_PLL_ON, PLLM := 32, PLLN := np.1, PLLDiv := np.2,
    PLLFractional := 0 }

/-- `MX_ADF1_ClockConfig` (weak default): configure PLL3, then route the ADF1 kernel clock to
PLL3P. -/
def MX_ADF1_ClockConfig (h : Hal) (SampleRate : Nat) : HAL_StatusTypeDef × List Ev :=
  if h.HAL_RCC_OscConfig ≠ HAL_OK then
    (HAL_ERROR, [Ev.HAL_RCC_OscConfig (MX_ADF1_ClockConfig_osc SampleRate)])
  else
    (h.HAL_RCCEx_PeriphCLKConfig,
      [Ev.HAL_RCC_OscConfig (MX_ADF1_ClockConfig_osc SampleRate),
       Ev.HAL_RCCEx_PeriphCLKConfig RCC_PeriphCLK.RCC_PERIPHCLK_ADF1_from_PLL3P])

/-- `MX_ADF1_Init` (weak default): the static filter configuration is written whatever
`HAL_MDF_Init` answers. -/
def MX_ADF1_Init (h : Hal) (MXInit : MX_MDF_Config_t) (s : AudioState) :
    HAL_StatusTypeDef × AudioState :=
  (if h.HAL_MDF_Init ≠ HAL_OK then HAL_ERROR else HAL_OK,
    { s.emitAll [Ev.MDF_Init_Params MXInit.ProcClockDivider MXInit.OutputClockDivider,
                 Ev.HAL_MDF_Init] with
      Audio_AdfFilterConfig := some
        (MDF_FilterConfigTypeDef.mk MXInit.CicMode MXInit.DecimationRatio MXInit.Gain) })

/-- `MDF_MspInit`: GPIO, clock and DMA-descriptor set-up of the ADF1 filter, recorded as one
event; it writes none of the stream contexts. -/
def MDF_MspInit : List Ev := [Ev.MDF_MspInit]

/-- `MDF_MspDeInit`, recorded as one event like `MDF_MspInit`. -/
def MDF_MspDeInit : List Ev := [Ev.MDF_MspDeInit]

/-- The block, compiled in when `USE_HAL_MDF_REGISTER_CALLBACKS == 1`, that registers the MDF
acquisition-complete, half-complete and error callbacks with `HAL_MDF_RegisterCallback`,
stopping at the first failure. -/
def MDF_RegisterCallbacks (h : Hal) : HAL_StatusTypeDef × List Ev :=
  if h.HAL_MDF_RegisterCallback HAL_MDF_ACQ_COMPLETE_CB_ID ≠ HAL_OK then
    (h.HAL_MDF_RegisterCallback HAL_MDF_ACQ_COMPLETE_CB_ID,
      [Ev.HAL_MDF_RegisterCallback HAL_MDF_ACQ_COMPLETE_CB_ID])
  else if h.HAL_MDF_RegisterCallback HAL_MDF_ACQ_HALFCOMPLETE_CB_ID ≠ HAL_OK then
    (h.HAL_MDF_RegisterCallback HAL_MDF_ACQ_HALFCOMPLETE_CB_ID,
      [Ev.HAL_MDF_RegisterCallback HAL_MDF_ACQ_COMPLETE_CB_ID,
       Ev.HAL_MDF_RegisterCallback HAL_MDF_ACQ_HALFCOMPLETE_CB_ID])
  else
    (h.HAL_MDF_RegisterCallback HAL_MDF_ERROR_CB_ID,
      [Ev.HAL_MDF_RegisterCallback HAL_MDF_ACQ_COMPLETE_CB_ID,
       Ev.HAL_MDF_RegisterCallback HAL_MDF_ACQ_HALFCOMPLETE_CB_ID,
       Ev.HAL_MDF_RegisterCallback HAL_MDF_ERROR_CB_ID])

/-- `BSP_AUDIO_IN_RegisterDefaultMspCallbacks` (exists when one of the two
`USE_HAL_*_REGISTER_CALLBACKS` macros is 1). -/
def BSP_AUDIO_IN_RegisterDefaultMspCallbacks (h : Hal) (Instance : Nat) (s : AudioState) :
    BspStatus × AudioState :=
  if Instance ≥ AUDIO_IN_INSTANCES_NBR then (BSP_ERROR_WRONG_PARAM, s)
  else if Instance = 0 then
    if h.HAL_I2S_RegisterCallback HAL_I2S_MSPINIT_CB_ID ≠ HAL_OK then
      (BSP_ERROR_PERIPH_FAILURE,
        s.emit (Ev.HAL_I2S_RegisterCallback haudio_in_i2s HAL_I2S_MSPINIT_CB_ID))
    else if h.HAL_I2S_RegisterCallback HAL_I2S_MSPDEINIT_CB_ID ≠ HAL_OK then
      (BSP_ERROR_PERIPH_FAILURE,
        s.emitAll [Ev.HAL_I2S_RegisterCallback haudio_in_i2s HAL_I2S_MSPINIT_CB_ID,
                   Ev.HAL_I2S_RegisterCallback haudio_in_i2s HAL_I2S_MSPDEINIT_CB_ID])
    else
      (BSP_ERROR_NONE,
        { s.emitAll [Ev.HAL_I2S_RegisterCallback haudio_in_i2s HAL_I2S_MSPINIT_CB_ID,
                     Ev.HAL_I2S_RegisterCallback haudio_in_i2s HAL_I2S_MSPDEINIT_CB_ID] with
          AudioIn_IsMspCbValid_0 := 1 })
  else
    if h.HAL_MDF_RegisterCallback HAL_MDF_MSPINIT_CB_ID ≠ HAL_OK then
      (BSP_ERROR_PERIPH_FAILURE, s.emit (Ev.HAL_MDF_RegisterCallback HAL_MDF_MSPINIT_CB_ID))
    else if h.HAL_MDF_RegisterCallback HAL_MDF_MSPDEINIT_CB_ID ≠ HAL_OK then
      (BSP_ERROR_PERIPH_FAILURE,
        s.emitAll [Ev.HAL_MDF_RegisterCallback HAL_MDF_MSPINIT_CB_ID,
                   Ev.HAL_MDF_RegisterCallback HAL_MDF_MSPDEINIT_CB_ID])
    else
      (BSP_ERROR_NONE,
        { s.emitAll [Ev.HAL_MDF_RegisterCallback HAL_MDF_MSPINIT_CB_ID,
                     Ev.HAL_MDF_RegisterCallback HAL_MDF_MSPDEINIT_CB_ID] with
          AudioIn_IsMspCbValid_1 := 1 })

/-- `BSP_AUDIO_IN_RegisterMspCallbacks`; it differs from the default registration only in the
function pointers handed to the HAL, which are not modelled. -/
def BSP_AUDIO_IN_RegisterMspCallbacks (h : Hal) (Instance : Nat) (s : AudioState) :
    BspStatus × AudioState :=
  BSP_AUDIO_IN_RegisterDefaultMspCallbacks h Instance s

/-! ## Audio in: public operations -/

/-- In `BSP_AUDIO_IN_Init` for `Instance == 0`, the block under
`if (status == BSP_ERROR_NONE)`: I2S peripheral initialisation, callback registration where
compiled in, then the codec, whose volume is read back from `Audio_In_Ctx[0]`. -/
def BSP_AUDIO_IN_Init_0_i2s (c : BoardConf) (h : Hal) (AudioInit : BSP_AUDIO_Init_t)
    (s : AudioState) : BspStatus × AudioState :=
  let mxI2sInit : MX_I2S_Config_t :=
    { AudioFrequency := AudioInit.SampleRate, Mode := I2S_MODE_MASTER_RX,
      DataFormat := I2S_DATAFORMAT_16B }
  let r : HAL_StatusTypeDef × List Ev :=
    if c.USE_HAL_I2S_REGISTER_CALLBACKS = true then
      I2S_RegisterCallbacks h haudio_in_i2s HAL_I2S_RX_COMPLETE_CB_ID
        HAL_I2S_RX_HALF_COMPLETE_CB_ID HAL_I2S_ERROR_CB_ID
    else (HAL_OK, [])
  let codec_init : WM8904_Init_t :=
    { InputDevice := WM8904_InputDevice.WM8904_IN_MIC1,
      OutputDevice := WM8904_OutputDevice.WM8904_OUT_NONE,
      Frequency := AudioInit.SampleRate, Volume := s.Audio_In_Ctx_0.Volume }
  let s := s.emitAll (MX_I2S6_Init h haudio_in_i2s mxI2sInit).2
  if (MX_I2S6_Init h haudio_in_i2s mxI2sInit).1 ≠ HAL_OK then (BSP_ERROR_PERIPH_FAILURE, s)
  else if r.1 ≠ HAL_OK then (BSP_ERROR_PERIPH_FAILURE, s.emitAll r.2)
  /- Initialize audio codec -/
  else if h.Drv_Init < 0 then
    (BSP_ERROR_COMPONENT_FAILURE, (s.emitAll r.2).emit (Ev.Drv_Init codec_init))
  else
    /- Update audio in context state -/
    (BSP_ERROR_NONE,
      ((s.emitAll r.2).emit (Ev.Drv_Init codec_init)).setInState 0 AUDIO_IN_STATE_STOP)

/-- The part of `BSP_AUDIO_IN_Init` that runs for `Instance == 0` once the arguments are
accepted (analog microphone through SPI6 and the codec). -/
def BSP_AUDIO_IN_Init_0 (c : BoardConf) (h : Hal) (AudioInit : BSP_AUDIO_Init_t)
    (s : AudioState) : BspStatus × AudioState :=
  /- Fill audio in context structure -/
  let s := { s with Audio_In_Ctx_0 :=
    { s.Audio_In_Ctx_0 with
      Device := AudioInit.Device, SampleRate := AudioInit.SampleRate,
      BitsPerSample := AudioInit.BitsPerSample, ChannelsNbr := AudioInit.ChannelsNbr,
      Volume := AudioInit.Volume } }
  /- Probe the audio codec -/
  if (WM8904_Probe c h s).1 ≠ BSP_ERROR_NONE then
    (BSP_ERROR_COMPONENT_FAILURE, (WM8904_Probe c h s).2)
  else
    /- Set I2S instance and state -/
    let s := ((WM8904_Probe c h s).2.emit (Ev.I2S_Instance_SPI6 haudio_in_i2s)).setInState 0
      AUDIO_IN_STATE_INIT
    /- Configure the I2S PLL according to the requested audio frequency -/
    let s := s.emitAll (MX_I2S6_ClockConfig h AudioInit.SampleRate).2
    if (MX_I2S6_ClockConfig h AudioInit.SampleRate).1 ≠ HAL_OK then (BSP_ERROR_CLOCK_FAILURE, s)
    else if c.USE_HAL_I2S_REGISTER_CALLBACKS = false then
      BSP_AUDIO_IN_Init_0_i2s c h AudioInit (s.emitAll (I2S_MspInit haudio_in_i2s))
    /- Register the I2S MSP Callbacks -/
    else if s.AudioIn_IsMspCbValid_0 = 0 then
      if (BSP_AUDIO_IN_RegisterDefaultMspCallbacks h 0 s).1 ≠ BSP_ERROR_NONE then
        (BSP_ERROR_PERIPH_FAILURE, (BSP_AUDIO_IN_RegisterDefaultMspCallbacks h 0 s).2)
      else
        BSP_AUDIO_IN_Init_0_i2s c h AudioInit (BSP_AUDIO_IN_RegisterDefaultMspCallbacks h 0 s).2
    else BSP_AUDIO_IN_Init_0_i2s c h AudioInit s

/-- In `BSP_AUDIO_IN_Init` for `Instance == 1`, the block that follows the MSP set-up: MDF
peripheral initialisation, callback registration where compiled in, then the move to Stopped. -/
def BSP_AUDIO_IN_Init_1_mdf (c : BoardConf) (h : Hal) (AudioInit : BSP_AUDIO_Init_t)
    (s : AudioState) : BspStatus × AudioState :=
  let r : HAL_StatusTypeDef × List Ev :=
    if c.USE_HAL_MDF_REGISTER_CALLBACKS = true then MDF_RegisterCallbacks h else (HAL_OK, [])
  if (MX_ADF1_Init h (mxMdfInit AudioInit.SampleRate) s).1 ≠ HAL_OK then
    (BSP_ERROR_PERIPH_FAILURE, (MX_ADF1_Init h (mxMdfInit AudioInit.SampleRate) s).2)
  else if r.1 ≠ HAL_OK then
    (BSP_ERROR_PERIPH_FAILURE,
      (MX_ADF1_Init h (mxMdfInit AudioInit.SampleRate) s).2.emitAll r.2)
  else
    /- Update audio in context state -/
    (BSP_ERROR_NONE,
      ((MX_ADF1_Init h (mxMdfInit AudioInit.SampleRate) s).2.emitAll r.2).setInState 1
        AUDIO_IN_STATE_STOP)

/-- The part of `BSP_AUDIO_IN_Init` that runs for `Instance == 1` once the arguments are
accepted (digital microphone through the ADF1 filter). -/
def BSP_AUDIO_IN_Init_1 (c : BoardConf) (h : Hal) (AudioInit : BSP_AUDIO_Init_t)
    (s : AudioState) : BspStatus × AudioState :=
  /- Fill audio in context structure -/
  let s := { s with Audio_In_Ctx_1 :=
    { s.Audio_In_Ctx_1 with
      Device := AudioInit.Device, SampleRate := AudioInit.SampleRate,
      BitsPerSample := AudioInit.BitsPerSample, ChannelsNbr := AudioInit.ChannelsNbr,
      Volume := AudioInit.Volume } }
  /- Set MDF instances; configure MDF clock according to the requested audio frequency -/
  let s := (s.emit Ev.MDF_Instance_ADF1_Filter0).emitAll
    (MX_ADF1_ClockConfig h AudioInit.SampleRate).2
  if (MX_ADF1_ClockConfig h AudioInit.SampleRate).1 ≠ HAL_OK then (BSP_ERROR_CLOCK_FAILURE, s)
  else if c.USE_HAL_MDF_REGISTER_CALLBACKS = false then
    BSP_AUDIO_IN_Init_1_mdf c h AudioInit (s.emitAll MDF_MspInit)
  /- Register the MDF MSP Callbacks -/
  else if s.AudioIn_IsMspCbValid_1 = 0 then
    if (BSP_AUDIO_IN_RegisterDefaultMspCallbacks h 1 s).1 ≠ BSP_ERROR_NONE then
      (BSP_ERROR_PERIPH_FAILURE, (BSP_AUDIO_IN_RegisterDefaultMspCallbacks h 1 s).2)
    else
      BSP_AUDIO_IN_Init_1_mdf c h AudioInit (BSP_AUDIO_IN_RegisterDefaultMspCallbacks h 1 s).2
  else BSP_AUDIO_IN_Init_1_mdf c h AudioInit s

/-- `BSP_AUDIO_IN_Init`. -/
def BSP_AUDIO_IN_Init (c : BoardConf) (h : Hal) (Instance : Nat) (AudioInit : BSP_AUDIO_Init_t)
    (s : AudioState) : BspStatus × AudioState :=
  if Instance ≥ AUDIO_IN_INSTANCES_NBR then (BSP_ERROR_WRONG_PARAM, s)
  else if (s.Audio_In_Ctx Instance).State ≠ AUDIO_IN_STATE_RESET then (BSP_ERROR_BUSY, s)
  else if AudioInit.BitsPerSample ≠ AUDIO_RESOLUTION_16B then
    (BSP_ERROR_FEATURE_NOT_SUPPORTED, s)
  else if Instance = 0 ∧ AudioInit.ChannelsNbr ≠ 2 then (BSP_ERROR_FEATURE_NOT_SUPPORTED, s)
  else if Instance = 1 ∧ AudioInit.ChannelsNbr ≠ 1 then (BSP_ERROR_FEATURE_NOT_SUPPORTED, s)
  else if Instance = 0 ∧ s.Audio_Out_Ctx.State ≠ AUDIO_OUT_STATE_RESET then
    (BSP_ERROR_FEATURE_NOT_SUPPORTED, s)
  else if Instance = 0 then BSP_AUDIO_IN_Init_0 c h AudioInit s
  else BSP_AUDIO_IN_Init_1 c h AudioInit s

/-- `BSP_AUDIO_IN_DeInit`. -/
def BSP_AUDIO_IN_DeInit (c : BoardConf) (h : Hal) (Instance : Nat) (s : AudioState) :
    BspStatus × AudioState :=
  if Instance ≥ AUDIO_IN_INSTANCES_NBR then (BSP_ERROR_WRONG_PARAM, s)
  else if (s.Audio_In_Ctx Instance).State ≠ AUDIO_IN_STATE_RESET then
    if Instance = 0 then
      /- I2S peripheral de-initialization -/
      if h.HAL_I2S_DeInit ≠ HAL_OK then
        (BSP_ERROR_PERIPH_FAILURE, s.emit (Ev.HAL_I2S_DeInit haudio_in_i2s))
      else
        let s := (s.emit (Ev.HAL_I2S_DeInit haudio_in_i2s)).emitAll
          (if c.USE_HAL_I2S_REGISTER_CALLBACKS = false then I2S_MspDeInit haudio_in_i2s else [])
        /- De-initialize audio codec -/
        if h.Drv_DeInit < 0 then (BSP_ERROR_COMPONENT_FAILURE, s.emit Ev.Drv_DeInit)
        else (BSP_ERROR_NONE, (s.emit Ev.Drv_DeInit).setInState Instance AUDIO_IN_STATE_RESET)
    else
      /- MDF peripheral de-initialization -/
      if h.HAL_MDF_DeInit ≠ HAL_OK then (BSP_ERROR_PERIPH_FAILURE, s.emit Ev.HAL_MDF_DeInit)
      else
        (BSP_ERROR_NONE,
          ((s.emit Ev.HAL_MDF_DeInit).emitAll
            (if c.USE_HAL_MDF_REGISTER_CALLBACKS = false then MDF_MspDeInit else [])).setInState
            Instance AUDIO_IN_STATE_RESET)
  else (BSP_ERROR_NONE, s)

/-- `BSP_AUDIO_IN_Record`; `pData` is the buffer address. The scratch buffer handed to
`HAL_MDF_AcqStart_DMA` is `Audio_DigMicRecBuff`. -/
def BSP_AUDIO_IN_Record (c : BoardConf) (h : Hal) (Instance : Nat) (pData : Nat)
    (NbrOfBytes : Nat) (s : AudioState) : BspStatus × AudioState :=
  if Instance ≥ AUDIO_IN_INSTANCES_NBR ∨ pData = 0 ∨ NbrOfBytes > 65535 then
    (BSP_ERROR_WRONG_PARAM, s)
  /- Check the internal buffer size -/
  else if Instance = 1 ∧ NbrOfBytes / 2 > c.DEFAULT_AUDIO_IN_BUFFER_SIZE then
    (BSP_ERROR_WRONG_PARAM, s)
  else if (s.Audio_In_Ctx Instance).State ≠ AUDIO_IN_STATE_STOP then (BSP_ERROR_BUSY, s)
  else
    let s := s.setIn Instance { s.Audio_In_Ctx Instance with pBuff := pData, Size := NbrOfBytes }
    if Instance = 0 then
      /- Call the audio Codec Play function -/
      if h.Drv_Play < 0 then (BSP_ERROR_COMPONENT_FAILURE, s.emit Ev.Drv_Play)
      else
        let s := s.emitAll [Ev.Drv_Play, Ev.I2S_DISABLE haudio_in_i2s,
          Ev.HAL_I2S_Receive_DMA pData ((NbrOfBytes / 2) % 65536)]
        if h.HAL_I2S_Receive_DMA ≠ HAL_OK then (BSP_ERROR_PERIPH_FAILURE, s)
        else (BSP_ERROR_NONE, s.setInState Instance AUDIO_IN_STATE_RECORDING)
    else
      /- Call the MDF acquisition start function -/
      let s := s.emit
        (Ev.HAL_MDF_AcqStart_DMA s.Audio_AdfFilterConfig ((2 * NbrOfBytes) % 4294967296))
      if h.HAL_MDF_AcqStart_DMA ≠ HAL_OK then (BSP_ERROR_PERIPH_FAILURE, s)
      else (BSP_ERROR_NONE, s.setInState Instance AUDIO_IN_STATE_RECORDING)

/-- `BSP_AUDIO_IN_Pause`. -/
def BSP_AUDIO_IN_Pause (h : Hal) (Instance : Nat) (s : AudioState) : BspStatus × AudioState :=
  if Instance ≥ AUDIO_IN_INSTANCES_NBR then (BSP_ERROR_WRONG_PARAM, s)
  else if (s.Audio_In_Ctx Instance).State ≠ AUDIO_IN_STATE_RECORDING then (BSP_ERROR_BUSY, s)
  else if Instance = 0 then
    /- Pause DMA transfer of audio samples from the serial audio interface -/
    if h.HAL_I2S_DMAPause ≠ HAL_OK then
      (BSP_ERROR_PERIPH_FAILURE, s.emit (Ev.HAL_I2S_DMAPause haudio_in_i2s))
    else
      (BSP_ERROR_NONE,
        (s.emit (Ev.HAL_I2S_DMAPause haudio_in_i2s)).setInState Instance AUDIO_IN_STATE_PAUSE)
  else
    /- Call the MDF acquisition stop function -/
    if h.HAL_MDF_AcqStop_DMA ≠ HAL_OK then
      (BSP_ERROR_PERIPH_FAILURE, s.emit Ev.HAL_MDF_AcqStop_DMA)
    else
      (BSP_ERROR_NONE, (s.emit Ev.HAL_MDF_AcqStop_DMA).setInState Instance AUDIO_IN_STATE_PAUSE)

/-- `BSP_AUDIO_IN_Resume`. -/
def BSP_AUDIO_IN_Resume (h : Hal) (Instance : Nat) (s : AudioState) : BspStatus × AudioState :=
  if Instance ≥ AUDIO_IN_INSTANCES_NBR then (BSP_ERROR_WRONG_PARAM, s)
  else if (s.Audio_In_Ctx Instance).State ≠ AUDIO_IN_STATE_PAUSE then (BSP_ERROR_BUSY, s)
  else if Instance = 0 then
    /- Resume DMA transfer of audio samples from the serial audio interface -/
    if h.HAL_I2S_DMAResume ≠ HAL_OK then
      (BSP_ERROR_PERIPH_FAILURE, s.emit (Ev.HAL_I2S_DMAResume haudio_in_i2s))
    else
      (BSP_ERROR_NONE,
        (s.emit (Ev.HAL_I2S_DMAResume haudio_in_i2s)).setInState Instance
          AUDIO_IN_STATE_RECORDING)
  else
    /- Call the MDF acquisition start function -/
    let s := s.emit (Ev.HAL_MDF_AcqStart_DMA s.Audio_AdfFilterConfig
      ((2 * (s.Audio_In_Ctx Instance).Size) % 4294967296))
    if h.HAL_MDF_AcqStart_DMA ≠ HAL_OK then (BSP_ERROR_PERIPH_FAILURE, s)
    else (BSP_ERROR_NONE, s.setInState Instance AUDIO_IN_STATE_RECORDING)

/-- `BSP_AUDIO_IN_Stop`. -/
def BSP_AUDIO_IN_Stop (h : Hal) (Instance : Nat) (s : AudioState) : BspStatus × AudioState :=
  if Instance ≥ AUDIO_IN_INSTANCES_NBR then (BSP_ERROR_WRONG_PARAM, s)
  else if (s.Audio_In_Ctx Instance).State = AUDIO_IN_STATE_STOP then (BSP_ERROR_NONE, s)
  else if (s.Audio_In_Ctx Instance).State ≠ AUDIO_IN_STATE_RECORDING
      ∧ (s.Audio_In_Ctx Instance).State ≠ AUDIO_IN_STATE_PAUSE then (BSP_ERROR_BUSY, s)
  else if Instance = 0 then
    /- Call the audio codec stop function -/
    if h.Drv_Stop < 0 then (BSP_ERROR_COMPONENT_FAILURE, s.emit Ev.Drv_Stop)
    /- Stop DMA transfer of audio samples from the serial audio interface -/
    else if h.HAL_I2S_DMAStop ≠ HAL_OK then
      (BSP_ERROR_PERIPH_FAILURE, s.emitAll [Ev.Drv_Stop, Ev.HAL_I2S_DMAStop haudio_in_i2s])
    else
      (BSP_ERROR_NONE,
        (s.emitAll [Ev.Drv_Stop, Ev.HAL_I2S_DMAStop haudio_in_i2s]).setInState Instance
          AUDIO_IN_STATE_STOP)
  else
    /- Call the MDF acquisition stop function -/
    if h.HAL_MDF_AcqStop_DMA ≠ HAL_OK then
      (BSP_ERROR_PERIPH_FAILURE, s.emit Ev.HAL_MDF_AcqStop_DMA)
    else
      (BSP_ERROR_NONE, (s.emit Ev.HAL_MDF_AcqStop_DMA).setInState Instance AUDIO_IN_STATE_STOP)

/-- `BSP_AUDIO_IN_SetVolume`. -/
def BSP_AUDIO_IN_SetVolume (Instance : Nat) (Volume : Nat) (s : AudioState) :
    BspStatus × AudioState :=
  if Instance ≥ AUDIO_IN_INSTANCES_NBR ∨ Volume > 100 then (BSP_ERROR_WRONG_PARAM, s)
  else (BSP_ERROR_FEATURE_NOT_SUPPORTED, s)

/-- `BSP_AUDIO_IN_GetVolume`: stores 0 through the pointer and reports the feature as
unsupported. -/
def BSP_AUDIO_IN_GetVolume (Instance : Nat) (_s : AudioState) : BspStatus × Option Nat :=
  if Instance ≥ AUDIO_IN_INSTANCES_NBR then (BSP_ERROR_WRONG_PARAM, none)
  else (BSP_ERROR_FEATURE_NOT_SUPPORTED, some 0)

/-- In `BSP_AUDIO_IN_SetSampleRate`, the branch for `Instance == 0`. -/
def BSP_AUDIO_IN_SetSampleRate_0 (c : BoardConf) (h : Hal) (SampleRate : Nat)
    (s : AudioState) : BspStatus × AudioState :=
  /- Update I2S6 clock config -/
  let s := (s.emit (Ev.I2S_Init_AudioFreq haudio_in_i2s SampleRate)).emitAll
    (MX_I2S6_ClockConfig h SampleRate).2
  if (MX_I2S6_ClockConfig h SampleRate).1 ≠ HAL_OK then (BSP_ERROR_CLOCK_FAILURE, s)
  /- Re-initialize I2S6 with new sample rate -/
  else if h.HAL_I2S_Init ≠ HAL_OK then
    (BSP_ERROR_PERIPH_FAILURE, s.emit (Ev.HAL_I2S_Init haudio_in_i2s))
  else
    let r : HAL_StatusTypeDef × List Ev :=
      if c.USE_HAL_I2S_REGISTER_CALLBACKS = true then
        I2S_RegisterCallbacks h haudio_in_i2s HAL_I2S_RX_COMPLETE_CB_ID
          HAL_I2S_RX_HALF_COMPLETE_CB_ID HAL_I2S_ERROR_CB_ID
      else (HAL_OK, [])
    let s := (s.emit (Ev.HAL_I2S_Init haudio_in_i2s)).emitAll r.2
    if r.1 ≠ HAL_OK then (BSP_ERROR_PERIPH_FAILURE, s)
    else
      /- Store new sample rate on audio out context -/
      (BSP_ERROR_NONE,
        { s with Audio_In_Ctx_0 := { s.Audio_In_Ctx_0 with SampleRate := SampleRate } })

/-- In `BSP_AUDIO_IN_SetSampleRate`, the branch for `Instance == 1`. -/
def BSP_AUDIO_IN_SetSampleRate_1 (c : BoardConf) (h : Hal) (SampleRate : Nat)
    (s : AudioState) : BspStatus × AudioState :=
  /- Update ADF1 clock config -/
  let s := s.emitAll (MX_ADF1_ClockConfig h SampleRate).2
  if (MX_ADF1_ClockConfig h SampleRate).1 ≠ HAL_OK then (BSP_ERROR_CLOCK_FAILURE, s)
  /- Re-initialize ADF1 with new sample rate -/
  else if h.HAL_MDF_DeInit ≠ HAL_OK then (BSP_ERROR_PERIPH_FAILURE, s.emit Ev.HAL_MDF_DeInit)
  else
    let s := (s.emit Ev.HAL_MDF_DeInit).emitAll
      (if c.USE_HAL_MDF_REGISTER_CALLBACKS = false then MDF_MspInit else [])
    let r : HAL_StatusTypeDef × List Ev :=
      if c.USE_HAL_MDF_REGISTER_CALLBACKS = true then MDF_RegisterCallbacks h else (HAL_OK, [])
    if (MX_ADF1_Init h (mxMdfInit SampleRate) s).1 ≠ HAL_OK then
      (BSP_ERROR_PERIPH_FAILURE, (MX_ADF1_Init h (mxMdfInit SampleRate) s).2)
    else if r.1 ≠ HAL_OK then
      (BSP_ERROR_PERIPH_FAILURE, (MX_ADF1_Init h (mxMdfInit SampleRate) s).2.emitAll r.2)
    else
      /- Store new sample rate on audio in context -/
      let s := (MX_ADF1_Init h (mxMdfInit SampleRate) s).2.emitAll r.2
      (BSP_ERROR_NONE,
        { s with Audio_In_Ctx_1 := { s.Audio_In_Ctx_1 with SampleRate := SampleRate } })

/-- `BSP_AUDIO_IN_SetSampleRate`. -/
def BSP_AUDIO_IN_SetSampleRate (c : BoardConf) (h : Hal) (Instance : Nat) (SampleRate : Nat)
    (s : AudioState) : BspStatus × AudioState :=
  if Instance ≥ AUDIO_IN_INSTANCES_NBR then (BSP_ERROR_WRONG_PARAM, s)
  else if (s.Audio_In_Ctx Instance).State ≠ AUDIO_IN_STATE_STOP then (BSP_ERROR_BUSY, s)
  else if (s.Audio_In_Ctx Instance).SampleRate = SampleRate then (BSP_ERROR_NONE, s)
  else if Instance = 0 then BSP_AUDIO_IN_SetSampleRate_0 c h SampleRate s
  else BSP_AUDIO_IN_SetSampleRate_1 c h SampleRate s

/-- `BSP_AUDIO_IN_GetSampleRate`. -/
def BSP_AUDIO_IN_GetSampleRate (Instance : Nat) (s : AudioState) : BspStatus × Option Nat :=
  if Instance ≥ AUDIO_IN_INSTANCES_NBR then (BSP_ERROR_WRONG_PARAM, none)
  else if (s.Audio_In_Ctx Instance).State = AUDIO_IN_STATE_RESET then (BSP_ERROR_BUSY, none)
  else (BSP_ERROR_NONE, some (s.Audio_In_Ctx Instance).SampleRate)

/-- `BSP_AUDIO_IN_SetDevice`; the `Device` argument is unused. -/
def BSP_AUDIO_IN_SetDevice (Instance : Nat) (_Device : Nat) (s : AudioState) :
    BspStatus × AudioState :=
  if Instance ≥ AUDIO_IN_INSTANCES_NBR then (BSP_ERROR_WRONG_PARAM, s)
  else if (s.Audio_In_Ctx Instance).State ≠ AUDIO_IN_STATE_STOP then (BSP_ERROR_BUSY, s)
  else (BSP_ERROR_NONE, s)

/-- `BSP_AUDIO_IN_GetDevice`. -/
def BSP_AUDIO_IN_GetDevice (Instance : Nat) (s : AudioState) : BspStatus × Option Nat :=
  if Instance ≥ AUDIO_IN_INSTANCES_NBR then (BSP_ERROR_WRONG_PARAM, none)
  else if (s.Audio_In_Ctx Instance).State = AUDIO_IN_STATE_RESET then (BSP_ERROR_BUSY, none)
  else (BSP_ERROR_NONE, some (s.Audio_In_Ctx Instance).Device)

/-- `BSP_AUDIO_IN_SetBitsPerSample`. -/
def BSP_AUDIO_IN_SetBitsPerSample (Instance : Nat) (BitsPerSample : Nat) (s : AudioState) :
    BspStatus × AudioState :=
  if Instance ≥ AUDIO_IN_INSTANCES_NBR then (BSP_ERROR_WRONG_PARAM, s)
  else if BitsPerSample ≠ AUDIO_RESOLUTION_16B then (BSP_ERROR_FEATURE_NOT_SUPPORTED, s)
  else if (s.Audio_In_Ctx Instance).State ≠ AUDIO_IN_STATE_STOP then (BSP_ERROR_BUSY, s)
  else (BSP_ERROR_NONE, s)

/-- `BSP_AUDIO_IN_GetBitsPerSample`. -/
def BSP_AUDIO_IN_GetBitsPerSample (Instance : Nat) (s : AudioState) : BspStatus × Option Nat :=
  if Instance ≥ AUDIO_IN_INSTANCES_NBR then (BSP_ERROR_WRONG_PARAM, none)
  else if (s.Audio_In_Ctx Instance).State = AUDIO_IN_STATE_RESET then (BSP_ERROR_BUSY, none)
  else (BSP_ERROR_NONE, some (s.Audio_In_Ctx Instance).BitsPerSample)

/-- `BSP_AUDIO_IN_SetChannelsNbr`. -/
def BSP_AUDIO_IN_SetChannelsNbr (Instance : Nat) (ChannelNbr : Nat) (s : AudioState) :
    BspStatus × AudioState :=
  if Instance ≥ AUDIO_IN_INSTANCES_NBR then (BSP_ERROR_WRONG_PARAM, s)
  else if Instance = 0 ∧ ChannelNbr ≠ 2 then (BSP_ERROR_FEATURE_NOT_SUPPORTED, s)
  else if Instance = 1 ∧ ChannelNbr ≠ 1 then (BSP_ERROR_FEATURE_NOT_SUPPORTED, s)
  else if (s.Audio_In_Ctx Instance).State ≠ AUDIO_IN_STATE_STOP then (BSP_ERROR_BUSY, s)
  else (BSP_ERROR_NONE, s)

/-- `BSP_AUDIO_IN_GetChannelsNbr`. -/
def BSP_AUDIO_IN_GetChannelsNbr (Instance : Nat) (s : AudioState) : BspStatus × Option Nat :=
  if Instance ≥ AUDIO_IN_INSTANCES_NBR then (BSP_ERROR_WRONG_PARAM, none)
  else if (s.Audio_In_Ctx Instance).State = AUDIO_IN_STATE_RESET then (BSP_ERROR_BUSY, none)
  else (BSP_ERROR_NONE, some (s.Audio_In_Ctx Instance).ChannelsNbr)

/-- `BSP_AUDIO_IN_GetState`. -/
def BSP_AUDIO_IN_GetState (Instance : Nat) (s : AudioState) : BspStatus × Option Nat :=
  if Instance ≥ AUDIO_IN_INSTANCES_NBR then (BSP_ERROR_WRONG_PARAM, none)
  else (BSP_ERROR_NONE, some (s.Audio_In_Ctx Instance).State)

/-- `BSP_AUDIO_IN_IRQHandler`: hands the interrupt to the DMA channel of the Rx handle or of
the MDF handle. -/
def BSP_AUDIO_IN_IRQHandler (Instance : Nat) (_Device : Nat) (s : AudioState) : AudioState :=
  if Instance = 0 then s.emit Ev.HAL_DMA_IRQHandler_i2s_rx
  else s.emit Ev.HAL_DMA_IRQHandler_mdf

/-! ## The driver as a transition system -/

/-- One call of a public function of the audio driver, with its arguments. -/
inductive Op
  | OUT_Init (Instance : Nat) (AudioInit : BSP_AUDIO_Init_t)
  | OUT_DeInit (Instance : Nat)
  | OUT_Play (Instance : Nat) (pData : Nat) (NbrOfBytes : Nat)
  | OUT_Pause (Instance : Nat)
  | OUT_Resume (Instance : Nat)
  | OUT_Stop (Instance : Nat)
  | OUT_Mute (Instance : Nat)
  | OUT_UnMute (Instance : Nat)
  | OUT_IsMute (Instance : Nat)
  | OUT_SetVolume (Instance : Nat) (Volume : Nat)
  | OUT_GetVolume (Instance : Nat)
  | OUT_SetSampleRate (Instance : Nat) (SampleRate : Nat)
  | OUT_GetSampleRate (Instance : Nat)
  | OUT_SetDevice (Instance : Nat) (Device : Nat)
  | OUT_GetDevice (Instance : Nat)
  | OUT_SetBitsPerSample (Instance : Nat) (BitsPerSample : Nat)
  | OUT_GetBitsPerSample (Instance : Nat)
  | OUT_SetChannelsNbr (Instance : Nat) (ChannelNbr : Nat)
  | OUT_GetChannelsNbr (Instance : Nat)
  | OUT_GetState (Instance : Nat)
  | OUT_RegisterDefaultMspCallbacks (Instance : Nat)
  | OUT_RegisterMspCallbacks (Instance : Nat)
  | OUT_IRQHandler (Instance : Nat) (Device : Nat)
  | IN_Init (Instance : Nat) (AudioInit : BSP_AUDIO_Init_t)
  | IN_DeInit (Instance : Nat)
  | IN_Record (Instance : Nat) (pData : Nat) (NbrOfBytes : Nat)
  | IN_Pause (Instance : Nat)
  | IN_Resume (Instance : Nat)
  | IN_Stop (Instance : Nat)
  | IN_SetVolume (Instance : Nat) (Volume : Nat)
  | IN_GetVolume (Instance : Nat)
  | IN_SetSampleRate (Instance : Nat) (SampleRate : Nat)
  | IN_GetSampleRate (Instance : Nat)
  | IN_SetDevice (Instance : Nat) (Device : Nat)
  | IN_GetDevice (Instance : Nat)
  | IN_SetBitsPerSample (Instance : Nat) (BitsPerSample : Nat)
  | IN_GetBitsPerSample (Instance : Nat)
  | IN_SetChannelsNbr (Instance : Nat) (ChannelNbr : Nat)
  | IN_GetChannelsNbr (Instance : Nat)
  | IN_GetState (Instance : Nat)
  | IN_RegisterDefaultMspCallbacks (Instance : Nat)
  | IN_RegisterMspCallbacks (Instance : Nat)
  | IN_IRQHandler (Instance : Nat) (Device : Nat)
  deriving DecidableEq, Repr

/-- Run one public operation: the returned status (`none` for the two `void` interrupt
handlers) and the globals after the call. The readers leave the globals as they are. -/
def step (c : BoardConf) (h : Hal) (o : Op) (s : AudioState) : Option BspStatus × AudioState :=
  match o with
  | Op.OUT_Init i a => let r := BSP_AUDIO_OUT_Init c h i a s; (some r.1, r.2)
  | Op.OUT_DeInit i => let r := BSP_AUDIO_OUT_DeInit c h i s; (some r.1, r.2)
  | Op.OUT_Play i p n => let r := BSP_AUDIO_OUT_Play h i p n s; (some r.1, r.2)
  | Op.OUT_Pause i => let r := BSP_AUDIO_OUT_Pause h i s; (some r.1, r.2)
  | Op.OUT_Resume i => let r := BSP_AUDIO_OUT_Resume h i s; (some r.1, r.2)
  | Op.OUT_Stop i => let r := BSP_AUDIO_OUT_Stop h i s; (some r.1, r.2)
  | Op.OUT_Mute i => let r := BSP_AUDIO_OUT_Mute h i s; (some r.1, r.2)
  | Op.OUT_UnMute i => let r := BSP_AUDIO_OUT_UnMute h i s; (some r.1, r.2)
  | Op.OUT_IsMute i => (some (BSP_AUDIO_OUT_IsMute i s).1, s)
  | Op.OUT_SetVolume i v => let r := BSP_AUDIO_OUT_SetVolume h i v s; (some r.1, r.2)
  | Op.OUT_GetVolume i => (some (BSP_AUDIO_OUT_GetVolume i s).1, s)
  | Op.OUT_SetSampleRate i f => let r := BSP_AUDIO_OUT_SetSampleRate c h i f s; (some r.1, r.2)
  | Op.OUT_GetSampleRate i => (some (BSP_AUDIO_OUT_GetSampleRate i s).1, s)
  | Op.OUT_SetDevice i d => let r := BSP_AUDIO_OUT_SetDevice i d s; (some r.1, r.2)
  | Op.OUT_GetDevice i => (some (BSP_AUDIO_OUT_GetDevice i s).1, s)
  | Op.OUT_SetBitsPerSample i b =>
      let r := BSP_AUDIO_OUT_SetBitsPerSample c h i b s; (some r.1, r.2)
  | Op.OUT_GetBitsPerSample i => (some (BSP_AUDIO_OUT_GetBitsPerSample i s).1, s)
  | Op.OUT_SetChannelsNbr i n => let r := BSP_AUDIO_OUT_SetChannelsNbr i n s; (some r.1, r.2)
  | Op.OUT_GetChannelsNbr i => (some (BSP_AUDIO_OUT_GetChannelsNbr i s).1, s)
  | Op.OUT_GetState i => (some (BSP_AUDIO_OUT_GetState i s).1, s)
  | Op.OUT_RegisterDefaultMspCallbacks i =>
      let r := BSP_AUDIO_OUT_RegisterDefaultMspCallbacks h i s; (some r.1, r.2)
  | Op.OUT_RegisterMspCallbacks i =>
      let r := BSP_AUDIO_OUT_RegisterMspCallbacks h i s; (some r.1, r.2)
  | Op.OUT_IRQHandler i d => (none, BSP_AUDIO_OUT_IRQHandler i d s)
  | Op.IN_Init i a => let r := BSP_AUDIO_IN_Init c h i a s; (some r.1, r.2)
  | Op.IN_DeInit i => let r := BSP_AUDIO_IN_DeInit c h i s; (some r.1, r.2)
  | Op.IN_Record i p n => let r := BSP_AUDIO_IN_Record c h i p n s; (some r.1, r.2)
  | Op.IN_Pause i => let r := BSP_AUDIO_IN_Pause h i s; (some r.1, r.2)
  | Op.IN_Resume i => let r := BSP_AUDIO_IN_Resume h i s; (some r.1, r.2)
  | Op.IN_Stop i => let r := BSP_AUDIO_IN_Stop h i s; (some r.1, r.2)
  | Op.IN_SetVolume i v => let r := BSP_AUDIO_IN_SetVolume i v s; (some r.1, r.2)
  | Op.IN_GetVolume i => (some (BSP_AUDIO_IN_GetVolume i s).1, s)
  | Op.IN_SetSampleRate i f => let r := BSP_AUDIO_IN_SetSampleRate c h i f s; (some r.1, r.2)
  | Op.IN_GetSampleRate i => (some (BSP_AUDIO_IN_GetSampleRate i s).1, s)
  | Op.IN_SetDevice i d => let r := BSP_AUDIO_IN_SetDevice i d s; (some r.1, r.2)
  | Op.IN_GetDevice i => (some (BSP_AUDIO_IN_GetDevice i s).1, s)
  | Op.IN_SetBitsPerSample i b => let r := BSP_AUDIO_IN_SetBitsPerSample i b s; (some r.1, r.2)
  | Op.IN_GetBitsPerSample i => (some (BSP_AUDIO_IN_GetBitsPerSample i s).1, s)
  | Op.IN_SetChannelsNbr i n => let r := BSP_AUDIO_IN_SetChannelsNbr i n s; (some r.1, r.2)
  | Op.IN_GetChannelsNbr i => (some (BSP_AUDIO_IN_GetChannelsNbr i s).1, s)
  | Op.IN_GetState i => (some (BSP_AUDIO_IN_GetState i s).1, s)
  | Op.IN_RegisterDefaultMspCallbacks i =>
      let r := BSP_AUDIO_IN_RegisterDefaultMspCallbacks h i s; (some r.1, r.2)
  | Op.IN_RegisterMspCallbacks i =>
      let r := BSP_AUDIO_IN_RegisterMspCallbacks h i s; (some r.1, r.2)
  | Op.IN_IRQHandler i d => (none, BSP_AUDIO_IN_IRQHandler i d s)

/-- The states the driver can be in: the initial globals, and whatever one more public call
(with any arguments and any answers of the collaborators) makes of a reachable state. -/
inductive Reachable (c : BoardConf) : AudioState → Prop
  | init : Reachable c AudioState.initial
  | step (h : Hal) (o : Op) (s : AudioState) :
      Reachable c s → Reachable c (step c h o s).2

/-- The values written to `Audio_Out_Ctx[0].State`, in order, as recorded in a log. -/
def outStateWrites (l : List Ev) : List Nat :=
  l.filterMap fun e =>
    match e with
    | Ev.Audio_Out_Ctx_State v => some v
    | _ => none

/-- The values written to `Audio_In_Ctx[i].State`, in order, as recorded in a log. -/
def inStateWrites (i : Nat) (l : List Ev) : List Nat :=
  l.filterMap fun e =>
    match e with
    | Ev.Audio_In_Ctx_State j v => if j = i then some v else none
    | _ => none

/-- A collaborator record in which every call succeeds, for a board whose codec answers with
the identifier `id`. -/
def Hal.allOk (c : BoardConf) : Hal where
  WM8904_RegisterBus := c.WM8904_OK
  WM8904_ReadID := c.WM8904_OK
  wm8904_id := c.WM8904_ID
  HAL_RCC_OscConfig := HAL_OK
  HAL_RCCEx_PeriphCLKConfig := HAL_OK
  HAL_I2S_Init := HAL_OK
  HAL_I2S_DeInit := HAL_OK
  HAL_I2S_RegisterCallback := fun _ => HAL_OK
  HAL_I2S_Transmit_DMA := HAL_OK
  HAL_I2S_Receive_DMA := HAL_OK
  HAL_I2S_DMAPause := HAL_OK
  HAL_I2S_DMAResume := HAL_OK
  HAL_I2S_DMAStop := HAL_OK
  HAL_MDF_Init := HAL_OK
  HAL_MDF_DeInit := HAL_OK
  HAL_MDF_RegisterCallback := fun _ => HAL_OK
  HAL_MDF_AcqStart_DMA := HAL_OK
  HAL_MDF_AcqStop_DMA := HAL_OK
  Drv_Init := 0
  Drv_DeInit := 0
  Drv_Play := 0
  Drv_Pause := 0
  Drv_Resume := 0
  Drv_Stop := 0
  Drv_SetMute := 0
  Drv_SetVolume := 0

/-- A board configuration used for concrete runs: HAL callback registration compiled out, a
2048-word scratch buffer and the identifier constants of the WM8904 driver. -/
def BoardConf.dk : BoardConf where
  USE_HAL_I2S_REGISTER_CALLBACKS := false
  USE_HAL_MDF_REGISTER_CALLBACKS := false
  DEFAULT_AUDIO_IN_BUFFER_SIZE := 2048
  WM8904_OK := 0
  WM8904_ID := 0x8904
  WM8904_ID_MASK := 0xFFFF

/-- The same board with HAL callback registration compiled in. -/
def BoardConf.dkCb : BoardConf :=
  { BoardConf.dk with USE_HAL_I2S_REGISTER_CALLBACKS := true,
                      USE_HAL_MDF_REGISTER_CALLBACKS := true }

/-! ## Predicates used in the theorems -/

/-- The three statuses with which an operation turns a call down before doing anything. -/
def isReject (st : BspStatus) : Prop :=
  st = BSP_ERROR_WRONG_PARAM ∨ st = BSP_ERROR_BUSY ∨ st = BSP_ERROR_FEATURE_NOT_SUPPORTED

/-- A call that returned `r` from the globals `s` changed nothing if it was turned down: the
three contexts, the codec binding, the callback flags and the log are all as before. -/
def RejectFrame (s : AudioState) (r : BspStatus × AudioState) : Prop :=
  isReject r.1 → r.2 = s

/-- The five values of a context's `State` field: Reset, Playing or Recording, Stopped,
Paused, Init. -/
def StateInRange (v : Nat) : Prop :=
  v = AUDIO_OUT_STATE_RESET ∨ v = AUDIO_OUT_STATE_PLAYING ∨ v = AUDIO_OUT_STATE_STOP
    ∨ v = AUDIO_OUT_STATE_PAUSE ∨ v = AUDIO_OUT_STATE_INIT

/-- The invariant of the three state machines: the output and the analog input are not both
out of Reset, and each `State` field holds one of the five state values. -/
def Inv (s : AudioState) : Prop :=
  (s.Audio_Out_Ctx.State = AUDIO_OUT_STATE_RESET ∨ s.Audio_In_Ctx_0.State = AUDIO_IN_STATE_RESET)
  ∧ StateInRange s.Audio_Out_Ctx.State
  ∧ StateInRange s.Audio_In_Ctx_0.State
  ∧ StateInRange s.Audio_In_Ctx_1.State

/-- A call that returned `r` from the globals `s` kept the invariant. -/
def KeepsInv (s : AudioState) (r : BspStatus × AudioState) : Prop :=
  Inv s → Inv r.2

/-- The probe of the codec succeeds: the bus registers, the identifier is read and matches. -/
def Hal.probeOk (c : BoardConf) (h : Hal) : Prop :=
  h.WM8904_RegisterBus = c.WM8904_OK ∧ h.WM8904_ReadID = c.WM8904_OK
    ∧ h.wm8904_id &&& c.WM8904_ID_MASK = c.WM8904_ID

/-- Every HAL call of the streaming operations answers `HAL_OK` and every codec command answers
a non-negative value. -/
def Hal.streamOk (h : Hal) : Prop :=
  h.HAL_I2S_DeInit = HAL_OK ∧ h.HAL_I2S_Transmit_DMA = HAL_OK ∧ h.HAL_I2S_Receive_DMA = HAL_OK
    ∧ h.HAL_I2S_DMAPause = HAL_OK ∧ h.HAL_I2S_DMAResume = HAL_OK ∧ h.HAL_I2S_DMAStop = HAL_OK
    ∧ h.HAL_MDF_DeInit = HAL_OK ∧ h.HAL_MDF_AcqStart_DMA = HAL_OK
    ∧ h.HAL_MDF_AcqStop_DMA = HAL_OK
    ∧ 0 ≤ h.Drv_DeInit ∧ 0 ≤ h.Drv_Play ∧ 0 ≤ h.Drv_Pause ∧ 0 ≤ h.Drv_Resume ∧ 0 ≤ h.Drv_Stop

/-- What a failed `BSP_AUDIO_OUT_Init`, called with the output in Reset, leaves in the output
`State`: Reset when the call was refused or the probe of the codec failed, Init when the probe
succeeded and a later step failed. -/
def FailedInitOut (c : BoardConf) (h : Hal) (s : AudioState) (r : BspStatus × AudioState) :
    Prop :=
  s.Audio_Out_Ctx.State = AUDIO_OUT_STATE_RESET → r.1 ≠ BSP_ERROR_NONE →
    ((r.1 = BSP_ERROR_WRONG_PARAM ∨ r.1 = BSP_ERROR_FEATURE_NOT_SUPPORTED ∨ ¬ h.probeOk c →
        r.2.Audio_Out_Ctx.State = AUDIO_OUT_STATE_RESET)
    ∧ (r.1 ≠ BSP_ERROR_WRONG_PARAM ∧ r.1 ≠ BSP_ERROR_FEATURE_NOT_SUPPORTED ∧ h.probeOk c →
        r.2.Audio_Out_Ctx.State = AUDIO_OUT_STATE_INIT))

/-- What a failed `BSP_AUDIO_IN_Init`, called with input `i` in Reset, leaves in that input's
`State`: Reset for the digital input, and for the analog input when the call was refused or the
probe of the codec failed; Init for the analog input when the probe succeeded and a later step
failed. -/
def FailedInitIn (c : BoardConf) (h : Hal) (i : Nat) (s : AudioState)
    (r : BspStatus × AudioState) : Prop :=
  (s.Audio_In_Ctx i).State = AUDIO_IN_STATE_RESET → r.1 ≠ BSP_ERROR_NONE →
    ((i = 1 ∨ r.1 = BSP_ERROR_WRONG_PARAM ∨ r.1 = BSP_ERROR_FEATURE_NOT_SUPPORTED
        ∨ ¬ h.probeOk c → (r.2.Audio_In_Ctx i).State = AUDIO_IN_STATE_RESET)
    ∧ (i = 0 ∧ r.1 ≠ BSP_ERROR_WRONG_PARAM ∧ r.1 ≠ BSP_ERROR_FEATURE_NOT_SUPPORTED
        ∧ h.probeOk c → (r.2.Audio_In_Ctx i).State = AUDIO_IN_STATE_INIT))

/-- The output `State` after a call that returned `r` from the globals `s`: `target` when the
call succeeded, the old value when it reported an error. -/
def OutOutcome (target : Nat) (s : AudioState) (r : BspStatus × AudioState) : Prop :=
  (r.1 = BSP_ERROR_NONE → r.2.Audio_Out_Ctx.State = target)
    ∧ (r.1 ≠ BSP_ERROR_NONE → r.2.Audio_Out_Ctx.State = s.Audio_Out_Ctx.State)

/-- The `State` of input `i` after a call that returned `r` from the globals `s`: `target` when
the call succeeded, the old value when it reported an error. -/
def InOutcome (target : Nat) (i : Nat) (s : AudioState) (r : BspStatus × AudioState) : Prop :=
  (r.1 = BSP_ERROR_NONE → (r.2.Audio_In_Ctx i).State = target)
    ∧ (r.1 ≠ BSP_ERROR_NONE → (r.2.Audio_In_Ctx i).State = (s.Audio_In_Ctx i).State)

/-- The five operations of the stream transition table. -/
inductive StreamOp
  | Start
  | Pause
  | Resume
  | Stop
  | DeInit
  deriving DecidableEq, Repr

/-- The transition table of the specification as a function of the operation and the current
state: the status returned and the next state, for valid arguments and collaborators that
succeed. Streaming is Playing for the output and Recording for an input (the same value). -/
def transitionTable (op : StreamOp) (st : Nat) : BspStatus × Nat :=
  match op with
  | StreamOp.Start =>
      if st = AUDIO_OUT_STATE_STOP then (BSP_ERROR_NONE, AUDIO_OUT_STATE_PLAYING)
      else (BSP_ERROR_BUSY, st)
  | StreamOp.Pause =>
      if st = AUDIO_OUT_STATE_PLAYING then (BSP_ERROR_NONE, AUDIO_OUT_STATE_PAUSE)
      else (BSP_ERROR_BUSY, st)
  | StreamOp.Resume =>
      if st = AUDIO_OUT_STATE_PAUSE then (BSP_ERROR_NONE, AUDIO_OUT_STATE_PLAYING)
      else (BSP_ERROR_BUSY, st)
  | StreamOp.Stop =>
      if st = AUDIO_OUT_STATE_PLAYING ∨ st = AUDIO_OUT_STATE_PAUSE ∨ st = AUDIO_OUT_STATE_STOP
      then (BSP_ERROR_NONE, AUDIO_OUT_STATE_STOP)
      else (BSP_ERROR_BUSY, st)
  | StreamOp.DeInit => (BSP_ERROR_NONE, AUDIO_OUT_STATE_RESET)

/-- The driver function that carries out a stream operation on the output. -/
def StreamOp.runOut (op : StreamOp) (c : BoardConf) (h : Hal) (pData NbrOfBytes : Nat)
    (s : AudioState) : BspStatus × AudioState :=
  match op with
  | StreamOp.Start => BSP_AUDIO_OUT_Play h 0 pData NbrOfBytes s
  | StreamOp.Pause => BSP_AUDIO_OUT_Pause h 0 s
  | StreamOp.Resume => BSP_AUDIO_OUT_Resume h 0 s
  | StreamOp.Stop => BSP_AUDIO_OUT_Stop h 0 s
  | StreamOp.DeInit => BSP_AUDIO_OUT_DeInit c h 0 s

/-- The driver function that carries out a stream operation on input `i`. -/
def StreamOp.runIn (op : StreamOp) (c : BoardConf) (h : Hal) (i : Nat) (pData NbrOfBytes : Nat)
    (s : AudioState) : BspStatus × AudioState :=
  match op with
  | StreamOp.Start => BSP_AUDIO_IN_Record c h i pData NbrOfBytes s
  | StreamOp.Pause => BSP_AUDIO_IN_Pause h i s
  | StreamOp.Resume => BSP_AUDIO_IN_Resume h i s
  | StreamOp.Stop => BSP_AUDIO_IN_Stop h i s
  | StreamOp.DeInit => BSP_AUDIO_IN_DeInit c h i s

/-- A call that returned `r` from the globals `s`, where the stream was in state `st`, did what
the row of the transition table for `op` says, and changed nothing when the row says Busy. -/
def FollowsTable (op : StreamOp) (st : Nat) (after : AudioState → Nat) (s : AudioState)
    (r : BspStatus × AudioState) : Prop :=
  r.1 = (transitionTable op st).1 ∧ after r.2 = (transitionTable op st).2
    ∧ ((transitionTable op st).1 = BSP_ERROR_BUSY → r.2 = s)

/-! ## Concrete runs -/

/-- The output configuration of scenario A: headphone, 48 kHz, 16 bit, stereo, volume 50. -/
def Scenario.cfgOut : BSP_AUDIO_Init_t :=
  { Device := AUDIO_OUT_HEADPHONE, SampleRate := AUDIO_FREQUENCY_48K,
    BitsPerSample := AUDIO_RESOLUTION_16B, ChannelsNbr := 2, Volume := 50 }

/-- An analog-microphone configuration: 16 kHz, 16 bit, stereo. -/
def Scenario.cfgIn0 : BSP_AUDIO_Init_t :=
  { Device := AUDIO_IN_ANALOG_MIC, SampleRate := AUDIO_FREQUENCY_16K,
    BitsPerSample := AUDIO_RESOLUTION_16B, ChannelsNbr := 2, Volume := 50 }

/-- The address of a sample buffer in RAM. -/
def Scenario.buf : Nat := 0x24000000

/-- The globals after a successful `BSP_AUDIO_OUT_Init`: output Stopped. -/
def Scenario.outStopped : AudioState :=
  (BSP_AUDIO_OUT_Init BoardConf.dk (Hal.allOk BoardConf.dk) 0 Scenario.cfgOut
    AudioState.initial).2

/-- The globals after a successful `BSP_AUDIO_OUT_Play` of 4800 bytes: output Playing. -/
def Scenario.outPlaying : AudioState :=
  (BSP_AUDIO_OUT_Play (Hal.allOk BoardConf.dk) 0 Scenario.buf 4800 Scenario.outStopped).2

/-- The globals after a successful `BSP_AUDIO_IN_Init` of the analog input: input 0 Stopped. -/
def Scenario.in0Stopped : AudioState :=
  (BSP_AUDIO_IN_Init BoardConf.dk (Hal.allOk BoardConf.dk) 0 Scenario.cfgIn0
    AudioState.initial).2

/-- Collaborators that all succeed except `HAL_RCC_OscConfig`. -/
def Hal.oscFails (c : BoardConf) : Hal :=
  { Hal.allOk c with HAL_RCC_OscConfig := HAL_ERROR }

/-- Collaborators that all succeed except the codec command `Stop`. -/
def Hal.codecStopFails (c : BoardConf) : Hal :=
  { Hal.allOk c with Drv_Stop := -1 }

/-- Collaborators that all succeed except `HAL_I2S_DeInit`. -/
def Hal.i2sDeInitFails (c : BoardConf) : Hal :=
  { Hal.allOk c with HAL_I2S_DeInit := HAL_ERROR }

/-- Collaborators that all succeed except `HAL_I2S_Transmit_DMA`. -/
def Hal.txDmaFails (c : BoardConf) : Hal :=
  { Hal.allOk c with HAL_I2S_Transmit_DMA := HAL_ERROR }

/-- A digital-microphone configuration: 16 kHz, 16 bit, mono. -/
def Scenario.cfgIn1 : BSP_AUDIO_Init_t :=
  { Device := AUDIO_IN_DIGITAL_MIC, SampleRate := AUDIO_FREQUENCY_16K,
    BitsPerSample := AUDIO_RESOLUTION_16B, ChannelsNbr := 1, Volume := 50 }

/-- Collaborators that all succeed except `HAL_I2S_Receive_DMA`. -/
def Hal.rxDmaFails (c : BoardConf) : Hal :=
  { Hal.allOk c with HAL_I2S_Receive_DMA := HAL_ERROR }

/-! ## Interrupt-side handlers

The handlers run from the DMA interrupts. They read the input contexts, rewrite sample memory
and call the user callbacks (weak functions with an empty default body). Each handler returns
the memory it may have written and the user callbacks it called, in order. The handlers
compiled in when the HAL register-callback switches are 1 (`I2S_RxCpltCallback`,
`MDF_AcqCpltCallback`, ...) have the same bodies as the `HAL_*` overrides compiled in
otherwise, so one definition stands for both.

A loop `for (index = a; index < b; index++)` is a recursive function of the current `index`
and the number of iterations left, called with `a` and `b - a`. All index arithmetic is in
`uint32_t`; with `Size` a `uint32_t` the products `2 * index` stay below `2 ^ 32`. -/

/-- A call of one of the six user callbacks, with its `Instance` argument. -/
inductive UserCallback
  | BSP_AUDIO_OUT_TransferComplete_CallBack (Instance : Nat)
  | BSP_AUDIO_OUT_HalfTransfer_CallBack (Instance : Nat)
  | BSP_AUDIO_OUT_Error_CallBack (Instance : Nat)
  | BSP_AUDIO_IN_TransferComplete_CallBack (Instance : Nat)
  | BSP_AUDIO_IN_HalfTransfer_CallBack (Instance : Nat)
  | BSP_AUDIO_IN_Error_CallBack (Instance : Nat)
  deriving DecidableEq, Repr

open UserCallback

/-- `HAL_I2S_TxCpltCallback` (and `I2S_TxCpltCallback`). -/
def HAL_I2S_TxCpltCallback : List UserCallback :=
  [BSP_AUDIO_OUT_TransferComplete_CallBack 0]

/-- `HAL_I2S_TxHalfCpltCallback` (and `I2S_TxHalfCpltCallback`). -/
def HAL_I2S_TxHalfCpltCallback : List UserCallback :=
  [BSP_AUDIO_OUT_HalfTransfer_CallBack 0]

/-- The loop of the two I2S Rx handlers over the `uint16_t` array `RecBuff`:
`RecBuff[(2U * index) + 1U] = RecBuff[2U * index]`, then `index++`. -/
def I2S_Rx_loop (RecBuff : Nat → Nat) (index : Nat) : Nat → Nat → Nat
  | 0 => RecBuff
  | left + 1 =>
      I2S_Rx_loop (Function.update RecBuff (2 * index + 1) (RecBuff (2 * index))) (index + 1)
        left

/-- `HAL_I2S_RxCpltCallback` (and `I2S_RxCpltCallback`). `RecBuff` is the memory at
`Audio_In_Ctx[0].pBuff + Audio_In_Ctx[0].Size / 2` seen as an array of `uint16_t`. -/
def HAL_I2S_RxCpltCallback (s : AudioState) (RecBuff : Nat → Nat) :
    (Nat → Nat) × List UserCallback :=
  (I2S_Rx_loop RecBuff 0 (s.Audio_In_Ctx_0.Size / 8),
    [BSP_AUDIO_IN_TransferComplete_CallBack 0])

/-- `HAL_I2S_RxHalfCpltCallback` (and `I2S_RxHalfCpltCallback`). `RecBuff` is the memory at
`Audio_In_Ctx[0].pBuff` seen as an array of `uint16_t`. -/
def HAL_I2S_RxHalfCpltCallback (s : AudioState) (RecBuff : Nat → Nat) :
    (Nat → Nat) × List UserCallback :=
  (I2S_Rx_loop RecBuff 0 (s.Audio_In_Ctx_0.Size / 8), [BSP_AUDIO_IN_HalfTransfer_CallBack 0])

/-- `HAL_I2S_ErrorCallback` (and `I2S_ErrorCallback`). -/
def HAL_I2S_ErrorCallback : List UserCallback :=
  [BSP_AUDIO_OUT_Error_CallBack 0, BSP_AUDIO_IN_Error_CallBack 0]

/-- The macro `SaturaLH(N, L, H)`. -/
def SaturaLH (N L H : Int) : Int :=
  if N < L then L else if N > H then H else N

/-- The loop of the two MDF acquisition handlers. `Audio_DigMicRecBuff` holds `int32_t` values,
`pBuff` is the byte memory at `Audio_In_Ctx[1].pBuff`. The division of an `int32_t` by 256
truncates toward zero; `(uint8_t) tmp` keeps the low eight bits of the two's-complement value
and `(uint8_t)((uint32_t) tmp >> 8)` the next eight. -/
def MDF_Acq_loop (Audio_DigMicRecBuff : Nat → Int) (pBuff : Nat → Nat) (index : Nat) :
    Nat → Nat → Nat
  | 0 => pBuff
  | left + 1 =>
      let tmp : Int := Int.tdiv (Audio_DigMicRecBuff index) 256
      let tmp : Int := SaturaLH tmp (-32768) 32767
      let pBuff := Function.update pBuff (2 * index) (tmp % 256).toNat
      let pBuff := Function.update pBuff (2 * index + 1)
        (((tmp % 4294967296).toNat >>> 8) % 256)
      MDF_Acq_loop Audio_DigMicRecBuff pBuff (index + 1) left

/-- `HAL_MDF_AcqCpltCallback` (and `MDF_AcqCpltCallback`): drains the second half of the
scratch buffer. -/
def HAL_MDF_AcqCpltCallback (s : AudioState) (Audio_DigMicRecBuff : Nat → Int)
    (pBuff : Nat → Nat) : (Nat → Nat) × List UserCallback :=
  let recbufsize : Nat := s.Audio_In_Ctx_1.Size / 2
  (MDF_Acq_loop Audio_DigMicRecBuff pBuff (recbufsize / 2) (recbufsize - recbufsize / 2),
    [BSP_AUDIO_IN_TransferComplete_CallBack 1])

/-- `HAL_MDF_AcqHalfCpltCallback` (and `MDF_AcqHalfCpltCallback`): drains the first half of the
scratch buffer. -/
def HAL_MDF_AcqHalfCpltCallback (s : AudioState) (Audio_DigMicRecBuff : Nat → Int)
    (pBuff : Nat → Nat) : (Nat → Nat) × List UserCallback :=
  let recbufsize : Nat := s.Audio_In_Ctx_1.Size / 2
  (MDF_Acq_loop Audio_DigMicRecBuff pBuff 0 (recbufsize / 2),
    [BSP_AUDIO_IN_HalfTransfer_CallBack 1])

/-- `HAL_MDF_ErrorCallback` (and `MDF_ErrorCallback`). -/
def HAL_MDF_ErrorCallback : List UserCallback :=
  [BSP_AUDIO_IN_Error_CallBack 1]

/-- The little-endian two's-complement 16-bit encoding of `v`: low byte, high byte. -/
def int16LE (v : Int) : Nat × Nat :=
  ((v % 65536).toNat % 256, (v % 65536).toNat / 256)

/-- The value `clamp(r / 256, -32768, 32767)` of the specification, `/` truncating toward
zero. -/
def clampDiv256 (r : Int) : Int :=
  max (-32768) (min 32767 (Int.tdiv r 256))

/-! ## Sequences of operations -/

/-- Run the operations of a list one after the other: the statuses returned, in order, and
the globals after the last call. -/
def runOps (c : BoardConf) (h : Hal) : List Op → AudioState →
    List (Option BspStatus) × AudioState
  | [], s => ([], s)
  | o :: os, s =>
      ((step c h o s).1 :: (runOps c h os (step c h o s).2).1,
        (runOps c h os (step c h o s).2).2)

/-- On the output: `Play; Stop` repeated `n` times, then `Play`, always with the same buffer
and length. -/
def roundTripOut (pData NbrOfBytes : Nat) : Nat → List Op
  | 0 => [Op.OUT_Play 0 pData NbrOfBytes]
  | n + 1 => Op.OUT_Play 0 pData NbrOfBytes :: Op.OUT_Stop 0 :: roundTripOut pData NbrOfBytes n

/-- On input `i`: `Record; Stop` repeated `n` times, then `Record`, always with the same
buffer and length. -/
def roundTripIn (i pData NbrOfBytes : Nat) : Nat → List Op
  | 0 => [Op.IN_Record i pData NbrOfBytes]
  | n + 1 =>
      Op.IN_Record i pData NbrOfBytes :: Op.IN_Stop i :: roundTripIn i pData NbrOfBytes n

/-- The configured parameters held by an output context. -/
def AUDIO_OUT_Ctx_t.config (x : AUDIO_OUT_Ctx_t) : BSP_AUDIO_Init_t :=
  { Device := x.Device, SampleRate := x.SampleRate, BitsPerSample := x.BitsPerSample,
    ChannelsNbr := x.ChannelsNbr, Volume := x.Volume }

/-- The configured parameters held by an input context. -/
def AUDIO_IN_Ctx_t.config (x : AUDIO_IN_Ctx_t) : BSP_AUDIO_Init_t :=
  { Device := x.Device, SampleRate := x.SampleRate, BitsPerSample := x.BitsPerSample,
    ChannelsNbr := x.ChannelsNbr, Volume := x.Volume }

/-- A call that returned `r` from the globals `s` left the configured parameters of the
output as they were. -/
def OutConfigKept (s : AudioState) (r : BspStatus × AudioState) : Prop :=
  r.2.Audio_Out_Ctx.config = s.Audio_Out_Ctx.config

/-- A call that returned `r` from the globals `s` left the configured parameters of input `i`
as they were. -/
def InConfigKept (i : Nat) (s : AudioState) (r : BspStatus × AudioState) : Prop :=
  (r.2.Audio_In_Ctx i).config = (s.Audio_In_Ctx i).config

/-- A successful `BSP_AUDIO_OUT_Init` with the configuration `a` leaves the output Stopped
with the parameters of `a`. -/
def InitOutDone (a : BSP_AUDIO_Init_t) (r : BspStatus × AudioState) : Prop :=
  r.1 = BSP_ERROR_NONE →
    r.2.Audio_Out_Ctx.State = AUDIO_OUT_STATE_STOP ∧ r.2.Audio_Out_Ctx.config = a

/-- A successful `BSP_AUDIO_IN_Init` of input `i` with the configuration `a` leaves that input
Stopped with the parameters of `a`. -/
def InitInDone (i : Nat) (a : BSP_AUDIO_Init_t) (r : BspStatus × AudioState) : Prop :=
  r.1 = BSP_ERROR_NONE →
    (r.2.Audio_In_Ctx i).State = AUDIO_IN_STATE_STOP ∧ (r.2.Audio_In_Ctx i).config = a

/-- A successful `BSP_AUDIO_OUT_Mute` leaves the output out of Reset and muted. -/
def MuteDone (r : BspStatus × AudioState) : Prop :=
  r.1 = BSP_ERROR_NONE →
    r.2.Audio_Out_Ctx.State ≠ AUDIO_OUT_STATE_RESET ∧ r.2.Audio_Out_Ctx.IsMute = 1

/-- The contract of `BSP_AUDIO_OUT_SetSampleRate` with the rate `f`, for a call that returned
`r` from the globals `s`. -/
def SetRateOut (h : Hal) (f : Nat) (s : AudioState) (r : BspStatus × AudioState) : Prop :=
  (s.Audio_Out_Ctx.State ≠ AUDIO_OUT_STATE_STOP → r = (BSP_ERROR_BUSY, s))
  ∧ (s.Audio_Out_Ctx.State = AUDIO_OUT_STATE_STOP → s.Audio_Out_Ctx.SampleRate = f →
      r = (BSP_ERROR_NONE, s))
  ∧ (r.1 = BSP_ERROR_NONE → r.2.Audio_Out_Ctx.SampleRate = f)
  ∧ (r.1 ≠ BSP_ERROR_NONE → r.2.Audio_Out_Ctx.SampleRate = s.Audio_Out_Ctx.SampleRate)
  ∧ (s.Audio_Out_Ctx.State = AUDIO_OUT_STATE_STOP → s.Audio_Out_Ctx.SampleRate ≠ f →
      (MX_I2S6_ClockConfig h f).1 ≠ HAL_OK → r.1 = BSP_ERROR_CLOCK_FAILURE)
  ∧ (r.1 = BSP_ERROR_NONE → BSP_AUDIO_OUT_GetSampleRate 0 r.2 = (BSP_ERROR_NONE, some f))

/-- The clock configurator that `BSP_AUDIO_IN_SetSampleRate` runs for input `i`:
`MX_I2S6_ClockConfig` for the analog input, `MX_ADF1_ClockConfig` for the digital one. -/
def inClockConfig (h : Hal) (i : Nat) (f : Nat) : HAL_StatusTypeDef :=
  if i = 0 then (MX_I2S6_ClockConfig h f).1 else (MX_ADF1_ClockConfig h f).1

/-- The contract of `BSP_AUDIO_IN_SetSampleRate` on input `i` with the rate `f`, for a call
that returned `r` from the globals `s`. -/
def SetRateIn (h : Hal) (i : Nat) (f : Nat) (s : AudioState) (r : BspStatus × AudioState) :
    Prop :=
  ((s.Audio_In_Ctx i).State ≠ AUDIO_IN_STATE_STOP → r = (BSP_ERROR_BUSY, s))
  ∧ ((s.Audio_In_Ctx i).State = AUDIO_IN_STATE_STOP → (s.Audio_In_Ctx i).SampleRate = f →
      r = (BSP_ERROR_NONE, s))
  ∧ (r.1 = BSP_ERROR_NONE → (r.2.Audio_In_Ctx i).SampleRate = f)
  ∧ (r.1 ≠ BSP_ERROR_NONE → (r.2.Audio_In_Ctx i).SampleRate = (s.Audio_In_Ctx i).SampleRate)
  ∧ ((s.Audio_In_Ctx i).State = AUDIO_IN_STATE_STOP → (s.Audio_In_Ctx i).SampleRate ≠ f →
      inClockConfig h i f ≠ HAL_OK → r.1 = BSP_ERROR_CLOCK_FAILURE)
  ∧ (r.1 = BSP_ERROR_NONE → BSP_AUDIO_IN_GetSampleRate i r.2 = (BSP_ERROR_NONE, some f))

/-- What a successful `BSP_AUDIO_OUT_DeInit` of an output that is out of Reset leaves in the
output context: `State` and `IsMute` are reset, the other fields keep their values. -/
def DeInitOutCtx (s : AudioState) (r : BspStatus × AudioState) : Prop :=
  s.Audio_Out_Ctx.State ≠ AUDIO_OUT_STATE_RESET → r.1 = BSP_ERROR_NONE →
    r.2.Audio_Out_Ctx
      = { s.Audio_Out_Ctx with State := AUDIO_OUT_STATE_RESET, IsMute := AUDIO_MUTE_DISABLED }

/-- The capability check of `BSP_AUDIO_OUT_Init`: it succeeds only with a bit depth other than
8 and 32 and with two channels, and turns every other request down unchanged. -/
def InitCapOut (a : BSP_AUDIO_Init_t) (s : AudioState) (r : BspStatus × AudioState) : Prop :=
  (r.1 = BSP_ERROR_NONE →
    a.BitsPerSample ≠ AUDIO_RESOLUTION_8B ∧ a.BitsPerSample ≠ AUDIO_RESOLUTION_32B
      ∧ a.ChannelsNbr = 2)
  ∧ (a.BitsPerSample = AUDIO_RESOLUTION_8B ∨ a.BitsPerSample = AUDIO_RESOLUTION_32B
      ∨ a.ChannelsNbr ≠ 2 → r = (BSP_ERROR_FEATURE_NOT_SUPPORTED, s))

/-- The fixed channel count of input `i`: 2 for the analog input, 1 for the digital one. -/
def inChannels (i : Nat) : Nat := if i = 0 then 2 else 1

/-- The capability check of `BSP_AUDIO_IN_Init` on input `i`: it succeeds only with 16 bits and
the fixed channel count, and turns every other request down unchanged. -/
def InitCapIn (i : Nat) (a : BSP_AUDIO_Init_t) (s : AudioState) (r : BspStatus × AudioState) :
    Prop :=
  (r.1 = BSP_ERROR_NONE →
    a.BitsPerSample = AUDIO_RESOLUTION_16B ∧ a.ChannelsNbr = inChannels i)
  ∧ (a.BitsPerSample ≠ AUDIO_RESOLUTION_16B ∨ a.ChannelsNbr ≠ inChannels i →
      (r.1 = BSP_ERROR_BUSY ∨ r.1 = BSP_ERROR_FEATURE_NOT_SUPPORTED) ∧ r.2 = s)

/-- Scenario A with 24 bits per sample in place of 16. -/
def Scenario.cfgOut24 : BSP_AUDIO_Init_t :=
  { Scenario.cfgOut with BitsPerSample := AUDIO_RESOLUTION_24B }

/-- The globals after the output was initialised, muted and given volume 70: output Stopped,
muted, 48 kHz, volume 70. -/
def Scenario.outTuned : AudioState :=
  (BSP_AUDIO_OUT_SetVolume (Hal.allOk BoardConf.dk) 0 70
    (BSP_AUDIO_OUT_Mute (Hal.allOk BoardConf.dk) 0 Scenario.outStopped).2).2

/-- Collaborators whose bus registration fails. -/
def Hal.busFails (c : BoardConf) : Hal :=
  { Hal.allOk c with WM8904_RegisterBus := c.WM8904_OK + 1 }

/-- Collaborators whose read of the codec identifier fails. -/
def Hal.readIdFails (c : BoardConf) : Hal :=
  { Hal.allOk c with WM8904_ReadID := c.WM8904_OK + 1 }

/-- Collaborators whose codec answers with the identifier `id`. -/
def Hal.withId (c : BoardConf) (id : Nat) : Hal :=
  { Hal.allOk c with wm8904_id := id }

/-- The record buffer of an input context is usable: while the input is Recording or Paused
the buffer pointer is not `NULL` and the length is at most 65535 bytes. -/
def BufValid (x : AUDIO_IN_Ctx_t) : Prop :=
  (x.State = AUDIO_IN_STATE_RECORDING ∨ x.State = AUDIO_IN_STATE_PAUSE) →
    x.pBuff ≠ 0 ∧ x.Size ≤ 65535

/-- Both inputs have a usable record buffer. -/
def BufInv (s : AudioState) : Prop :=
  BufValid s.Audio_In_Ctx_0 ∧ BufValid s.Audio_In_Ctx_1

/-- A call that returned `r` from the globals `s` kept the record buffers usable. -/
def KeepsBufInv (s : AudioState) (r : BspStatus × AudioState) : Prop :=
  BufInv s → BufInv r.2

/-- A call that returned `r` from the globals `s` left the buffer pointer and the length of
input `i` as they were. -/
def InBufKept (i : Nat) (s : AudioState) (r : BspStatus × AudioState) : Prop :=
  (r.2.Audio_In_Ctx i).pBuff = (s.Audio_In_Ctx i).pBuff
    ∧ (r.2.Audio_In_Ctx i).Size = (s.Audio_In_Ctx i).Size

/-- The globals after a successful `BSP_AUDIO_IN_Record` of 4800 bytes on the analog input:
input 0 Recording. -/
def Scenario.in0Recording : AudioState :=
  (BSP_AUDIO_IN_Record BoardConf.dk (Hal.allOk BoardConf.dk) 0 Scenario.buf 4800
    Scenario.in0Stopped).2

/-! ## Observations on the log -/

/-- Is the event a call through `Audio_Drv`? -/
def Ev.isDrvCall : Ev → Bool
  | Ev.Drv_Init _ => true
  | Ev.Drv_DeInit => true
  | Ev.Drv_Play => true
  | Ev.Drv_Pause => true
  | Ev.Drv_Resume => true
  | Ev.Drv_Stop => true
  | Ev.Drv_SetMute _ => true
  | Ev.Drv_SetVolume _ => true
  | _ => false

/-- The arguments of the event when it is a call of `HAL_MDF_AcqStart_DMA`: the filter
configuration and the DMA data length. -/
def Ev.acqStartArgs : Ev → Option (Option MDF_FilterConfigTypeDef × Nat)
  | Ev.HAL_MDF_AcqStart_DMA filter dataLength => some (filter, dataLength)
  | _ => none

/-- The number of calls through `Audio_Drv` recorded in a log. -/
def drvCalls (l : List Ev) : Nat := l.countP Ev.isDrvCall

/-- The starts of the MDF acquisition recorded in a log, in order: the filter configuration
and the DMA data length handed to `HAL_MDF_AcqStart_DMA`. -/
def acqStarts (l : List Ev) : List (Option MDF_FilterConfigTypeDef × Nat) :=
  l.filterMap Ev.acqStartArgs

/-- The codec driver is bound while the output or the analog input is out of Reset. -/
def DrvInv (s : AudioState) : Prop :=
  (s.Audio_Out_Ctx.State ≠ AUDIO_OUT_STATE_RESET
      ∨ s.Audio_In_Ctx_0.State ≠ AUDIO_IN_STATE_RESET) →
    s.Audio_Drv = true ∧ s.Audio_CompObj = true

/-- From the globals `s` to the globals `t`, with collaborators answering as `h`, the codec
driver was kept bound: the invariant `DrvInv` holds of `t`; a bound driver and component object
stay bound; and if a call through `Audio_Drv` was added to the log, the driver and the
component object are bound in `t`, and were bound already in `s` unless the probe of the codec
succeeds under `h`. -/
def DrvKept (c : BoardConf) (h : Hal) (s t : AudioState) : Prop :=
  DrvInv t
  ∧ (s.Audio_Drv = true → t.Audio_Drv = true)
  ∧ (s.Audio_CompObj = true → t.Audio_CompObj = true)
  ∧ (drvCalls s.log < drvCalls t.log →
      (t.Audio_Drv = true ∧ t.Audio_CompObj = true)
      ∧ (¬ h.probeOk c → s.Audio_Drv = true ∧ s.Audio_CompObj = true))

/-- A call that returned `r` from globals `s` that satisfy `DrvInv` kept the codec driver
bound. -/
def KeepsDrv (c : BoardConf) (h : Hal) (s : AudioState) (r : BspStatus × AudioState) : Prop :=
  DrvInv s → DrvKept c h s r.2

/-- The digital input is Recording or Paused: an acquisition was started and not stopped for
good. -/
def AcqAlive (s : AudioState) : Prop :=
  s.Audio_In_Ctx_1.State = AUDIO_IN_STATE_RECORDING
    ∨ s.Audio_In_Ctx_1.State = AUDIO_IN_STATE_PAUSE

/-- While the digital input is Recording or Paused, the last start of the MDF acquisition in
the log was made with the filter configuration now in force and with twice the stored length
as DMA data length. -/
def AcqInv (s : AudioState) : Prop :=
  AcqAlive s →
    (acqStarts s.log).getLast?
      = some (s.Audio_AdfFilterConfig, (2 * s.Audio_In_Ctx_1.Size) % 4294967296)

/-- From the globals `s` to the globals `t` the acquisition start in force was kept: `AcqInv`
holds of `t`, and if the digital input is Recording or Paused in both, the last start of the
acquisition has the same arguments in both logs. -/
def AcqKept (s t : AudioState) : Prop :=
  AcqInv t
  ∧ (AcqAlive s → AcqAlive t → (acqStarts t.log).getLast? = (acqStarts s.log).getLast?)

/-- A call that returned `r` from globals `s` that satisfy `AcqInv` kept the acquisition start
in force. -/
def KeepsAcq (s : AudioState) (r : BspStatus × AudioState) : Prop :=
  AcqInv s → AcqKept s r.2

/-! ## Both halves of the analog record buffer -/

/-- Modelled from the spec: the frequency of the HSI oscillator, `HSI_VALUE` of the device
header, in Hz. -/
def HSI_VALUE : Nat := 64000000

/-- Modelled from the spec: the decimation ratio that `MDF_RSF_DECIMATION_RATIO_4`, the value
`MX_ADF1_Init` writes to `ReshapeFilter.DecimationRatio`, selects. -/
def MDF_RSF_DECIMATION_RATIO_4 : Nat := 4

/-- The frequency of PLL3P, the kernel clock of ADF1, under the settings of
`MX_ADF1_ClockConfig`: `HSI_VALUE / M * N / P`. -/
def ADF1_kernelClock (SampleRate : Nat) : ℚ :=
  (HSI_VALUE : ℚ) / ((MX_ADF1_ClockConfig_osc SampleRate).PLLM : ℚ)
    * ((MX_ADF1_ClockConfig_osc SampleRate).PLLN : ℚ)
    / ((MX_ADF1_ClockConfig_osc SampleRate).PLLDiv : ℚ)

/-- The sample frequency at the output of the filter: the kernel clock divided by the
processing clock divider, the output clock divider, the decimation ratio of the CIC filter and
the decimation ratio of the reshape filter. -/
def ADF1_sampleFrequency (SampleRate : Nat) : ℚ :=
  ADF1_kernelClock SampleRate
    / (((mxMdfInit SampleRate).ProcClockDivider : ℚ)
        * ((mxMdfInit SampleRate).OutputClockDivider : ℚ)
        * ((mxMdfInit SampleRate).DecimationRatio : ℚ)
        * (MDF_RSF_DECIMATION_RATIO_4 : ℚ))

/-- The eleven sample rates of `AUDIO_FREQUENCY_*`. -/
def audioFrequencies : List Nat :=
  [AUDIO_FREQUENCY_8K, AUDIO_FREQUENCY_11K, AUDIO_FREQUENCY_16K, AUDIO_FREQUENCY_22K,
   AUDIO_FREQUENCY_32K, AUDIO_FREQUENCY_44K, AUDIO_FREQUENCY_48K, AUDIO_FREQUENCY_88K,
   AUDIO_FREQUENCY_96K, AUDIO_FREQUENCY_176K, AUDIO_FREQUENCY_192K]

/-! ## What a successful start stores -/

/-- A `BSP_AUDIO_IN_Record` on instance `i` that answered `BSP_ERROR_NONE` stored the buffer
and its length, left the filter configuration alone and, on the digital input, added one start
of the acquisition, with the filter configuration in force and twice the length. -/
def RecordDone (i p n : Nat) (s : AudioState) (r : BspStatus × AudioState) : Prop :=
  r.1 = BSP_ERROR_NONE →
    (r.2.Audio_In_Ctx i).Size = n ∧ (r.2.Audio_In_Ctx i).pBuff = p
    ∧ r.2.Audio_AdfFilterConfig = s.Audio_AdfFilterConfig
    ∧ acqStarts r.2.log
        = acqStarts s.log ++ (if i = 1 then [(s.Audio_AdfFilterConfig, 2 * n)] else [])

/-! ## Further concrete runs -/

/-- An output configuration that asks for a volume of 200. -/
def Scenario.cfgOutLoud : BSP_AUDIO_Init_t :=
  { Device := AUDIO_OUT_HEADPHONE, SampleRate := AUDIO_FREQUENCY_48K,
    BitsPerSample := AUDIO_RESOLUTION_16B, ChannelsNbr := 2, Volume := 200 }

/-- The globals after `BSP_AUDIO_OUT_Init` with `Scenario.cfgOutLoud`. -/
def Scenario.outLoud : AudioState :=
  (BSP_AUDIO_OUT_Init BoardConf.dk (Hal.allOk BoardConf.dk) 0 Scenario.cfgOutLoud
    AudioState.initial).2

/-- The globals after a successful `BSP_AUDIO_IN_Init` of the digital input: input 1
Stopped. -/
def Scenario.in1Stopped : AudioState :=
  (BSP_AUDIO_IN_Init BoardConf.dk (Hal.allOk BoardConf.dk) 1 Scenario.cfgIn1
    AudioState.initial).2

/-- The globals after `BSP_AUDIO_IN_Record` of 4097 bytes on the digital input. -/
def Scenario.in1Recording4097 : AudioState :=
  (BSP_AUDIO_IN_Record BoardConf.dk (Hal.allOk BoardConf.dk) 1 Scenario.buf 4097
    Scenario.in1Stopped).2

/-- The globals after a successful `BSP_AUDIO_IN_Record` of 4096 bytes on the digital input
followed by a successful `BSP_AUDIO_IN_Pause`: input 1 Paused. -/
def Scenario.in1Paused : AudioState :=
  (BSP_AUDIO_IN_Pause (Hal.allOk BoardConf.dk) 1
    (BSP_AUDIO_IN_Record BoardConf.dk (Hal.allOk BoardConf.dk) 1 Scenario.buf 4096
      Scenario.in1Stopped).2).2

/-- Collaborators that all succeed except the codec command `Play`. -/
def Hal.codecPlayFails (c : BoardConf) : Hal :=
  { Hal.allOk c with Drv_Play := -1 }

/-- Collaborators that all succeed except `HAL_I2S_Init`. -/
def Hal.i2sInitFails (c : BoardConf) : Hal :=
  { Hal.allOk c with HAL_I2S_Init := HAL_ERROR }

/-- The globals after `BSP_AUDIO_OUT_SetBitsPerSample(0, 24)` on the Stopped 16-bit output
when `HAL_I2S_Init` fails. -/
def Scenario.outFailed24 : AudioState :=
  (BSP_AUDIO_OUT_SetBitsPerSample BoardConf.dk (Hal.i2sInitFails BoardConf.dk) 0
    AUDIO_RESOLUTION_24B Scenario.outStopped).2

/-! ## Projections of the state updates -/

section Projections

variable (s : AudioState) (e : Ev) (v i : Nat) (x : AUDIO_IN_Ctx_t)

@[simp] theorem emit_Out : (s.emit e).Audio_Out_Ctx = s.Audio_Out_Ctx := rfl
@[simp] theorem emit_In0 : (s.emit e).Audio_In_Ctx_0 = s.Audio_In_Ctx_0 := rfl
@[simp] theorem emit_In1 : (s.emit e).Audio_In_Ctx_1 = s.Audio_In_Ctx_1 := rfl
@[simp] theorem emit_Drv : (s.emit e).Audio_Drv = s.Audio_Drv := rfl
@[simp] theorem emit_CompObj : (s.emit e).Audio_CompObj = s.Audio_CompObj := rfl
@[simp] theorem emit_OutCb : (s.emit e).AudioOut_IsMspCbValid = s.AudioOut_IsMspCbValid := rfl
@[simp] theorem emit_InCb0 : (s.emit e).AudioIn_IsMspCbValid_0 = s.AudioIn_IsMspCbValid_0 := rfl
@[simp] theorem emit_InCb1 : (s.emit e).AudioIn_IsMspCbValid_1 = s.AudioIn_IsMspCbValid_1 := rfl
@[simp] theorem emit_Filter : (s.emit e).Audio_AdfFilterConfig = s.Audio_AdfFilterConfig := rfl
@[simp] theorem emit_log : (s.emit e).log = s.log ++ [e] := rfl
@[simp] theorem emit_In : (s.emit e).Audio_In_Ctx i = s.Audio_In_Ctx i := rfl

@[simp] theorem emitAll_Out (l : List Ev) : (s.emitAll l).Audio_Out_Ctx = s.Audio_Out_Ctx := rfl
@[simp] theorem emitAll_In0 (l : List Ev) : (s.emitAll l).Audio_In_Ctx_0 = s.Audio_In_Ctx_0 := rfl
@[simp] theorem emitAll_In1 (l : List Ev) : (s.emitAll l).Audio_In_Ctx_1 = s.Audio_In_Ctx_1 := rfl
@[simp] theorem emitAll_Drv (l : List Ev) : (s.emitAll l).Audio_Drv = s.Audio_Drv := rfl
@[simp] theorem emitAll_CompObj (l : List Ev) : (s.emitAll l).Audio_CompObj = s.Audio_CompObj := rfl
@[simp] theorem emitAll_OutCb (l : List Ev) : (s.emitAll l).AudioOut_IsMspCbValid = s.AudioOut_IsMspCbValid := rfl
@[simp] theorem emitAll_InCb0 (l : List Ev) : (s.emitAll l).AudioIn_IsMspCbValid_0 = s.AudioIn_IsMspCbValid_0 := rfl
@[simp] theorem emitAll_InCb1 (l : List Ev) : (s.emitAll l).AudioIn_IsMspCbValid_1 = s.AudioIn_IsMspCbValid_1 := rfl
@[simp] theorem emitAll_Filter (l : List Ev) : (s.emitAll l).Audio_AdfFilterConfig = s.Audio_AdfFilterConfig := rfl
@[simp] theorem emitAll_log (l : List Ev) : (s.emitAll l).log = s.log ++ l := rfl
@[simp] theorem emitAll_In (l : List Ev) : (s.emitAll l).Audio_In_Ctx i = s.Audio_In_Ctx i := rfl

@[simp] theorem setOutState_Out :
    (s.setOutState v).Audio_Out_Ctx = { s.Audio_Out_Ctx with State := v } := rfl
@[simp] theorem setOutState_In0 : (s.setOutState v).Audio_In_Ctx_0 = s.Audio_In_Ctx_0 := rfl
@[simp] theorem setOutState_In1 : (s.setOutState v).Audio_In_Ctx_1 = s.Audio_In_Ctx_1 := rfl
@[simp] theorem setOutState_Drv : (s.setOutState v).Audio_Drv = s.Audio_Drv := rfl
@[simp] theorem setOutState_CompObj : (s.setOutState v).Audio_CompObj = s.Audio_CompObj := rfl
@[simp] theorem setOutState_OutCb :
    (s.setOutState v).AudioOut_IsMspCbValid = s.AudioOut_IsMspCbValid := rfl
@[simp] theorem setOutState_InCb0 :
    (s.setOutState v).AudioIn_IsMspCbValid_0 = s.AudioIn_IsMspCbValid_0 := rfl
@[simp] theorem setOutState_InCb1 :
    (s.setOutState v).AudioIn_IsMspCbValid_1 = s.AudioIn_IsMspCbValid_1 := rfl
@[simp] theorem setOutState_Filter :
    (s.setOutState v).Audio_AdfFilterConfig = s.Audio_AdfFilterConfig := rfl
@[simp] theorem setOutState_log :
    (s.setOutState v).log = s.log ++ [Ev.Audio_Out_Ctx_State v] := rfl
@[simp] theorem setOutState_In : (s.setOutState v).Audio_In_Ctx i = s.Audio_In_Ctx i := rfl

@[simp] theorem setIn_Out : (s.setIn i x).Audio_Out_Ctx = s.Audio_Out_Ctx := by
  unfold AudioState.setIn; split <;> rfl
@[simp] theorem setIn_In0 :
    (s.setIn i x).Audio_In_Ctx_0 = if i = 0 then x else s.Audio_In_Ctx_0 := by
  unfold AudioState.setIn; split <;> rfl
@[simp] theorem setIn_In1 :
    (s.setIn i x).Audio_In_Ctx_1 = if i = 0 then s.Audio_In_Ctx_1 else x := by
  unfold AudioState.setIn; split <;> rfl
@[simp] theorem setIn_Drv : (s.setIn i x).Audio_Drv = s.Audio_Drv := by
  unfold AudioState.setIn; split <;> rfl
@[simp] theorem setIn_CompObj : (s.setIn i x).Audio_CompObj = s.Audio_CompObj := by
  unfold AudioState.setIn; split <;> rfl
@[simp] theorem setIn_OutCb :
    (s.setIn i x).AudioOut_IsMspCbValid = s.AudioOut_IsMspCbValid := by
  unfold AudioState.setIn; split <;> rfl
@[simp] theorem setIn_InCb0 :
    (s.setIn i x).AudioIn_IsMspCbValid_0 = s.AudioIn_IsMspCbValid_0 := by
  unfold AudioState.setIn; split <;> rfl
@[simp] theorem setIn_InCb1 :
    (s.setIn i x).AudioIn_IsMspCbValid_1 = s.AudioIn_IsMspCbValid_1 := by
  unfold AudioState.setIn; split <;> rfl
@[simp] theorem setIn_Filter :
    (s.setIn i x).Audio_AdfFilterConfig = s.Audio_AdfFilterConfig := by
  unfold AudioState.setIn; split <;> rfl
@[simp] theorem setIn_log : (s.setIn i x).log = s.log := by
  unfold AudioState.setIn; split <;> rfl
@[simp] theorem setIn_In_same : (s.setIn i x).Audio_In_Ctx i = x := by
  unfold AudioState.setIn AudioState.Audio_In_Ctx; split <;> simp_all

@[simp] theorem setInState_Out : (s.setInState i v).Audio_Out_Ctx = s.Audio_Out_Ctx := by
  simp [AudioState.setInState]
@[simp] theorem setInState_In0 :
    (s.setInState i v).Audio_In_Ctx_0
      = if i = 0 then { s.Audio_In_Ctx_0 with State := v } else s.Audio_In_Ctx_0 := by
  by_cases hi : i = 0 <;> simp [AudioState.setInState, AudioState.Audio_In_Ctx, hi]
@[simp] theorem setInState_In1 :
    (s.setInState i v).Audio_In_Ctx_1
      = if i = 0 then s.Audio_In_Ctx_1 else { s.Audio_In_Ctx_1 with State := v } := by
  by_cases hi : i = 0 <;> simp [AudioState.setInState, AudioState.Audio_In_Ctx, hi]
@[simp] theorem setInState_Drv : (s.setInState i v).Audio_Drv = s.Audio_Drv := by
  simp [AudioState.setInState]
@[simp] theorem setInState_CompObj : (s.setInState i v).Audio_CompObj = s.Audio_CompObj := by
  simp [AudioState.setInState]
@[simp] theorem setInState_OutCb :
    (s.setInState i v).AudioOut_IsMspCbValid = s.AudioOut_IsMspCbValid := by
  simp [AudioState.setInState]
@[simp] theorem setInState_InCb0 :
    (s.setInState i v).AudioIn_IsMspCbValid_0 = s.AudioIn_IsMspCbValid_0 := by
  simp [AudioState.setInState]
@[simp] theorem setInState_InCb1 :
    (s.setInState i v).AudioIn_IsMspCbValid_1 = s.AudioIn_IsMspCbValid_1 := by
  simp [AudioState.setInState]
@[simp] theorem setInState_Filter :
    (s.setInState i v).Audio_AdfFilterConfig = s.Audio_AdfFilterConfig := by
  simp [AudioState.setInState]
@[simp] theorem setInState_log :
    (s.setInState i v).log = s.log ++ [Ev.Audio_In_Ctx_State i v] := by
  simp [AudioState.setInState]


@[simp] theorem WM8904_Probe_Out (c : BoardConf) (h : Hal) :
    (WM8904_Probe c h s).2.Audio_Out_Ctx = s.Audio_Out_Ctx := by
  unfold WM8904_Probe; (try split_ifs) <;> rfl
@[simp] theorem WM8904_Probe_In0 (c : BoardConf) (h : Hal) :
    (WM8904_Probe c h s).2.Audio_In_Ctx_0 = s.Audio_In_Ctx_0 := by
  unfold WM8904_Probe; (try split_ifs) <;> rfl
@[simp] theorem WM8904_Probe_In1 (c : BoardConf) (h : Hal) :
    (WM8904_Probe c h s).2.Audio_In_Ctx_1 = s.Audio_In_Ctx_1 := by
  unfold WM8904_Probe; (try split_ifs) <;> rfl
@[simp] theorem WM8904_Probe_OutCb (c : BoardConf) (h : Hal) :
    (WM8904_Probe c h s).2.AudioOut_IsMspCbValid = s.AudioOut_IsMspCbValid := by
  unfold WM8904_Probe; (try split_ifs) <;> rfl
@[simp] theorem WM8904_Probe_InCb0 (c : BoardConf) (h : Hal) :
    (WM8904_Probe c h s).2.AudioIn_IsMspCbValid_0 = s.AudioIn_IsMspCbValid_0 := by
  unfold WM8904_Probe; (try split_ifs) <;> rfl
@[simp] theorem WM8904_Probe_InCb1 (c : BoardConf) (h : Hal) :
    (WM8904_Probe c h s).2.AudioIn_IsMspCbValid_1 = s.AudioIn_IsMspCbValid_1 := by
  unfold WM8904_Probe; (try split_ifs) <;> rfl
@[simp] theorem WM8904_Probe_Filter (c : BoardConf) (h : Hal) :
    (WM8904_Probe c h s).2.Audio_AdfFilterConfig = s.Audio_AdfFilterConfig := by
  unfold WM8904_Probe; (try split_ifs) <;> rfl
@[simp] theorem WM8904_Probe_In (c : BoardConf) (h : Hal) :
    (WM8904_Probe c h s).2.Audio_In_Ctx i = s.Audio_In_Ctx i := by
  simp [AudioState.Audio_In_Ctx]
@[simp] theorem BSP_AUDIO_OUT_RegisterDefaultMspCallbacks_Out (h : Hal) (n : Nat) :
    (BSP_AUDIO_OUT_RegisterDefaultMspCallbacks h n s).2.Audio_Out_Ctx = s.Audio_Out_Ctx := by
  unfold BSP_AUDIO_OUT_RegisterDefaultMspCallbacks; (try split_ifs) <;> rfl
@[simp] theorem BSP_AUDIO_OUT_RegisterDefaultMspCallbacks_In0 (h : Hal) (n : Nat) :
    (BSP_AUDIO_OUT_RegisterDefaultMspCallbacks h n s).2.Audio_In_Ctx_0 = s.Audio_In_Ctx_0 := by
  unfold BSP_AUDIO_OUT_RegisterDefaultMspCallbacks; (try split_ifs) <;> rfl
@[simp] theorem BSP_AUDIO_OUT_RegisterDefaultMspCallbacks_In1 (h : Hal) (n : Nat) :
    (BSP_AUDIO_OUT_RegisterDefaultMspCallbacks h n s).2.Audio_In_Ctx_1 = s.Audio_In_Ctx_1 := by
  unfold BSP_AUDIO_OUT_RegisterDefaultMspCallbacks; (try split_ifs) <;> rfl
@[simp] theorem BSP_AUDIO_OUT_RegisterDefaultMspCallbacks_Drv (h : Hal) (n : Nat) :
    (BSP_AUDIO_OUT_RegisterDefaultMspCallbacks h n s).2.Audio_Drv = s.Audio_Drv := by
  unfold BSP_AUDIO_OUT_RegisterDefaultMspCallbacks; (try split_ifs) <;> rfl
@[simp] theorem BSP_AUDIO_OUT_RegisterDefaultMspCallbacks_CompObj (h : Hal) (n : Nat) :
    (BSP_AUDIO_OUT_RegisterDefaultMspCallbacks h n s).2.Audio_CompObj = s.Audio_CompObj := by
  unfold BSP_AUDIO_OUT_RegisterDefaultMspCallbacks; (try split_ifs) <;> rfl
@[simp] theorem BSP_AUDIO_OUT_RegisterDefaultMspCallbacks_InCb0 (h : Hal) (n : Nat) :
    (BSP_AUDIO_OUT_RegisterDefaultMspCallbacks h n s).2.AudioIn_IsMspCbValid_0 = s.AudioIn_IsMspCbValid_0 := by
  unfold BSP_AUDIO_OUT_RegisterDefaultMspCallbacks; (try split_ifs) <;> rfl
@[simp] theorem BSP_AUDIO_OUT_RegisterDefaultMspCallbacks_InCb1 (h : Hal) (n : Nat) :
    (BSP_AUDIO_OUT_RegisterDefaultMspCallbacks h n s).2.AudioIn_IsMspCbValid_1 = s.AudioIn_IsMspCbValid_1 := by
  unfold BSP_AUDIO_OUT_RegisterDefaultMspCallbacks; (try split_ifs) <;> rfl
@[simp] theorem BSP_AUDIO_OUT_RegisterDefaultMspCallbacks_Filter (h : Hal) (n : Nat) :
    (BSP_AUDIO_OUT_RegisterDefaultMspCallbacks h n s).2.Audio_AdfFilterConfig = s.Audio_AdfFilterConfig := by
  unfold BSP_AUDIO_OUT_RegisterDefaultMspCallbacks; (try split_ifs) <;> rfl
@[simp] theorem BSP_AUDIO_OUT_RegisterDefaultMspCallbacks_In (h : Hal) (n : Nat) :
    (BSP_AUDIO_OUT_RegisterDefaultMspCallbacks h n s).2.Audio_In_Ctx i = s.Audio_In_Ctx i := by
  simp [AudioState.Audio_In_Ctx]
@[simp] theorem BSP_AUDIO_IN_RegisterDefaultMspCallbacks_Out (h : Hal) (n : Nat) :
    (BSP_AUDIO_IN_RegisterDefaultMspCallbacks h n s).2.Audio_Out_Ctx = s.Audio_Out_Ctx := by
  unfold BSP_AUDIO_IN_RegisterDefaultMspCallbacks; (try split_ifs) <;> rfl
@[simp] theorem BSP_AUDIO_IN_RegisterDefaultMspCallbacks_In0 (h : Hal) (n : Nat) :
    (BSP_AUDIO_IN_RegisterDefaultMspCallbacks h n s).2.Audio_In_Ctx_0 = s.Audio_In_Ctx_0 := by
  unfold BSP_AUDIO_IN_RegisterDefaultMspCallbacks; (try split_ifs) <;> rfl
@[simp] theorem BSP_AUDIO_IN_RegisterDefaultMspCallbacks_In1 (h : Hal) (n : Nat) :
    (BSP_AUDIO_IN_RegisterDefaultMspCallbacks h n s).2.Audio_In_Ctx_1 = s.Audio_In_Ctx_1 := by
  unfold BSP_AUDIO_IN_RegisterDefaultMspCallbacks; (try split_ifs) <;> rfl
@[simp] theorem BSP_AUDIO_IN_RegisterDefaultMspCallbacks_Drv (h : Hal) (n : Nat) :
    (BSP_AUDIO_IN_RegisterDefaultMspCallbacks h n s).2.Audio_Drv = s.Audio_Drv := by
  unfold BSP_AUDIO_IN_RegisterDefaultMspCallbacks; (try split_ifs) <;> rfl
@[simp] theorem BSP_AUDIO_IN_RegisterDefaultMspCallbacks_CompObj (h : Hal) (n : Nat) :
    (BSP_AUDIO_IN_RegisterDefaultMspCallbacks h n s).2.Audio_CompObj = s.Audio_CompObj := by
  unfold BSP_AUDIO_IN_RegisterDefaultMspCallbacks; (try split_ifs) <;> rfl
@[simp] theorem BSP_AUDIO_IN_RegisterDefaultMspCallbacks_OutCb (h : Hal) (n : Nat) :
    (BSP_AUDIO_IN_RegisterDefaultMspCallbacks h n s).2.AudioOut_IsMspCbValid = s.AudioOut_IsMspCbValid := by
  unfold BSP_AUDIO_IN_RegisterDefaultMspCallbacks; (try split_ifs) <;> rfl
@[simp] theorem BSP_AUDIO_IN_RegisterDefaultMspCallbacks_Filter (h : Hal) (n : Nat) :
    (BSP_AUDIO_IN_RegisterDefaultMspCallbacks h n s).2.Audio_AdfFilterConfig = s.Audio_AdfFilterConfig := by
  unfold BSP_AUDIO_IN_RegisterDefaultMspCallbacks; (try split_ifs) <;> rfl
@[simp] theorem BSP_AUDIO_IN_RegisterDefaultMspCallbacks_In (h : Hal) (n : Nat) :
    (BSP_AUDIO_IN_RegisterDefaultMspCallbacks h n s).2.Audio_In_Ctx i = s.Audio_In_Ctx i := by
  simp [AudioState.Audio_In_Ctx]
@[simp] theorem MX_ADF1_Init_Out (h : Hal) (m : MX_MDF_Config_t) :
    (MX_ADF1_Init h m s).2.Audio_Out_Ctx = s.Audio_Out_Ctx := by
  unfold MX_ADF1_Init; (try split_ifs) <;> rfl
@[simp] theorem MX_ADF1_Init_In0 (h : Hal) (m : MX_MDF_Config_t) :
    (MX_ADF1_Init h m s).2.Audio_In_Ctx_0 = s.Audio_In_Ctx_0 := by
  unfold MX_ADF1_Init; (try split_ifs) <;> rfl
@[simp] theorem MX_ADF1_Init_In1 (h : Hal) (m : MX_MDF_Config_t) :
    (MX_ADF1_Init h m s).2.Audio_In_Ctx_1 = s.Audio_In_Ctx_1 := by
  unfold MX_ADF1_Init; (try split_ifs) <;> rfl
@[simp] theorem MX_ADF1_Init_Drv (h : Hal) (m : MX_MDF_Config_t) :
    (MX_ADF1_Init h m s).2.Audio_Drv = s.Audio_Drv := by
  unfold MX_ADF1_Init; (try split_ifs) <;> rfl
@[simp] theorem MX_ADF1_Init_CompObj (h : Hal) (m : MX_MDF_Config_t) :
    (MX_ADF1_Init h m s).2.Audio_CompObj = s.Audio_CompObj := by
  unfold MX_ADF1_Init; (try split_ifs) <;> rfl
@[simp] theorem MX_ADF1_Init_OutCb (h : Hal) (m : MX_MDF_Config_t) :
    (MX_ADF1_Init h m s).2.AudioOut_IsMspCbValid = s.AudioOut_IsMspCbValid := by
  unfold MX_ADF1_Init; (try split_ifs) <;> rfl
@[simp] theorem MX_ADF1_Init_InCb0 (h : Hal) (m : MX_MDF_Config_t) :
    (MX_ADF1_Init h m s).2.AudioIn_IsMspCbValid_0 = s.AudioIn_IsMspCbValid_0 := by
  unfold MX_ADF1_Init; (try split_ifs) <;> rfl
@[simp] theorem MX_ADF1_Init_InCb1 (h : Hal) (m : MX_MDF_Config_t) :
    (MX_ADF1_Init h m s).2.AudioIn_IsMspCbValid_1 = s.AudioIn_IsMspCbValid_1 := by
  unfold MX_ADF1_Init; (try split_ifs) <;> rfl
@[simp] theorem MX_ADF1_Init_In (h : Hal) (m : MX_MDF_Config_t) :
    (MX_ADF1_Init h m s).2.Audio_In_Ctx i = s.Audio_In_Ctx i := by
  simp [AudioState.Audio_In_Ctx]

/-- A successful probe leaves the driver and the component object bound. -/
theorem WM8904_Probe_binds (c : BoardConf) (h : Hal)
    (hp : (WM8904_Probe c h s).1 = BspStatus.BSP_ERROR_NONE) :
    (WM8904_Probe c h s).2.Audio_Drv = true ∧ (WM8904_Probe c h s).2.Audio_CompObj = true := by
  revert hp; unfold WM8904_Probe; split_ifs <;> simp

/-- The probe never unbinds the driver. -/
theorem WM8904_Probe_keeps (c : BoardConf) (h : Hal) (hd : s.Audio_Drv = true) :
    (WM8904_Probe c h s).2.Audio_Drv = true := by
  unfold WM8904_Probe; split_ifs <;> simp [hd]

end Projections

/-! ## Case analysis along the control flow -/

/-- A property of a conditional holds when it holds of each branch under the branch's
condition. -/
theorem ite_elim {α : Type} (P : α → Prop) (c : Prop) [Decidable c] (a b : α)
    (ha : c → P a) (hb : ¬ c → P b) : P (if c then a else b) := by
  by_cases hc : c
  · rw [if_pos hc]; exact ha hc
  · rw [if_neg hc]; exact hb hc

/-! ## Rejected calls change nothing: one lemma per operation -/

/-- A rejected call of `BSP_AUDIO_OUT_Init` leaves the globals as they were. -/
theorem OUT_Init_rejectFrame (c : BoardConf) (h : Hal) (i : Nat) (a : BSP_AUDIO_Init_t) (s : AudioState) :
    RejectFrame s (BSP_AUDIO_OUT_Init c h i a s) := by
  simp only [BSP_AUDIO_OUT_Init, BSP_AUDIO_OUT_Init_i2s, BSP_AUDIO_OUT_Init_codec]
  repeat' (with_reducible apply ite_elim (RejectFrame s) <;> intro _)
  all_goals simp [RejectFrame, isReject]

/-- A rejected call of `BSP_AUDIO_OUT_DeInit` leaves the globals as they were. -/
theorem OUT_DeInit_rejectFrame (c : BoardConf) (h : Hal) (i : Nat) (s : AudioState) :
    RejectFrame s (BSP_AUDIO_OUT_DeInit c h i s) := by
  simp only [BSP_AUDIO_OUT_DeInit]
  repeat' (with_reducible apply ite_elim (RejectFrame s) <;> intro _)
  all_goals simp [RejectFrame, isReject]

/-- A rejected call of `BSP_AUDIO_OUT_Play` leaves the globals as they were. -/
theorem OUT_Play_rejectFrame (h : Hal) (i p n : Nat) (s : AudioState) :
    RejectFrame s (BSP_AUDIO_OUT_Play h i p n s) := by
  simp only [BSP_AUDIO_OUT_Play]
  repeat' (with_reducible apply ite_elim (RejectFrame s) <;> intro _)
  all_goals simp [RejectFrame, isReject]

/-- A rejected call of `BSP_AUDIO_OUT_Pause` leaves the globals as they were. -/
theorem OUT_Pause_rejectFrame (h : Hal) (i : Nat) (s : AudioState) :
    RejectFrame s (BSP_AUDIO_OUT_Pause h i s) := by
  simp only [BSP_AUDIO_OUT_Pause]
  repeat' (with_reducible apply ite_elim (RejectFrame s) <;> intro _)
  all_goals simp [RejectFrame, isReject]

/-- A rejected call of `BSP_AUDIO_OUT_Resume` leaves the globals as they were. -/
theorem OUT_Resume_rejectFrame (h : Hal) (i : Nat) (s : AudioState) :
    RejectFrame s (BSP_AUDIO_OUT_Resume h i s) := by
  simp only [BSP_AUDIO_OUT_Resume]
  repeat' (with_reducible apply ite_elim (RejectFrame s) <;> intro _)
  all_goals simp [RejectFrame, isReject]

/-- A rejected call of `BSP_AUDIO_OUT_Stop` leaves the globals as they were. -/
theorem OUT_Stop_rejectFrame (h : Hal) (i : Nat) (s : AudioState) :
    RejectFrame s (BSP_AUDIO_OUT_Stop h i s) := by
  simp only [BSP_AUDIO_OUT_Stop]
  repeat' (with_reducible apply ite_elim (RejectFrame s) <;> intro _)
  all_goals simp [RejectFrame, isReject]

/-- A rejected call of `BSP_AUDIO_OUT_Mute` leaves the globals as they were. -/
theorem OUT_Mute_rejectFrame (h : Hal) (i : Nat) (s : AudioState) :
    RejectFrame s (BSP_AUDIO_OUT_Mute h i s) := by
  simp only [BSP_AUDIO_OUT_Mute]
  repeat' (with_reducible apply ite_elim (RejectFrame s) <;> intro _)
  all_goals simp [RejectFrame, isReject]

/-- A rejected call of `BSP_AUDIO_OUT_UnMute` leaves the globals as they were. -/
theorem OUT_UnMute_rejectFrame (h : Hal) (i : Nat) (s : AudioState) :
    RejectFrame s (BSP_AUDIO_OUT_UnMute h i s) := by
  simp only [BSP_AUDIO_OUT_UnMute]
  repeat' (with_reducible apply ite_elim (RejectFrame s) <;> intro _)
  all_goals simp [RejectFrame, isReject]

/-- A rejected call of `BSP_AUDIO_OUT_SetVolume` leaves the globals as they were. -/
theorem OUT_SetVolume_rejectFrame (h : Hal) (i v : Nat) (s : AudioState) :
    RejectFrame s (BSP_AUDIO_OUT_SetVolume h i v s) := by
  simp only [BSP_AUDIO_OUT_SetVolume]
  repeat' (with_reducible apply ite_elim (RejectFrame s) <;> intro _)
  all_goals simp [RejectFrame, isReject]

/-- A rejected call of `BSP_AUDIO_OUT_SetSampleRate` leaves the globals as they were. -/
theorem OUT_SetSampleRate_rejectFrame (c : BoardConf) (h : Hal) (i f : Nat) (s : AudioState) :
    RejectFrame s (BSP_AUDIO_OUT_SetSampleRate c h i f s) := by
  simp only [BSP_AUDIO_OUT_SetSampleRate]
  repeat' (with_reducible apply ite_elim (RejectFrame s) <;> intro _)
  all_goals simp [RejectFrame, isReject]

/-- A rejected call of `BSP_AUDIO_OUT_SetDevice` leaves the globals as they were. -/
theorem OUT_SetDevice_rejectFrame (i d : Nat) (s : AudioState) :
    RejectFrame s (BSP_AUDIO_OUT_SetDevice i d s) := by
  simp only [BSP_AUDIO_OUT_SetDevice]
  repeat' (with_reducible apply ite_elim (RejectFrame s) <;> intro _)
  all_goals simp [RejectFrame, isReject]

/-- A rejected call of `BSP_AUDIO_OUT_SetBitsPerSample` leaves the globals as they were. -/
theorem OUT_SetBitsPerSample_rejectFrame (c : BoardConf) (h : Hal) (i b : Nat) (s : AudioState) :
    RejectFrame s (BSP_AUDIO_OUT_SetBitsPerSample c h i b s) := by
  simp only [BSP_AUDIO_OUT_SetBitsPerSample]
  repeat' (with_reducible apply ite_elim (RejectFrame s) <;> intro _)
  all_goals simp [RejectFrame, isReject]

/-- A rejected call of `BSP_AUDIO_OUT_SetChannelsNbr` leaves the globals as they were. -/
theorem OUT_SetChannelsNbr_rejectFrame (i n : Nat) (s : AudioState) :
    RejectFrame s (BSP_AUDIO_OUT_SetChannelsNbr i n s) := by
  simp only [BSP_AUDIO_OUT_SetChannelsNbr]
  repeat' (with_reducible apply ite_elim (RejectFrame s) <;> intro _)
  all_goals simp [RejectFrame, isReject]

/-- A rejected call of `BSP_AUDIO_OUT_RegisterDefaultMspCallbacks` leaves the globals as they were. -/
theorem OUT_RegisterDefaultMspCallbacks_rejectFrame (h : Hal) (i : Nat) (s : AudioState) :
    RejectFrame s (BSP_AUDIO_OUT_RegisterDefaultMspCallbacks h i s) := by
  simp only [BSP_AUDIO_OUT_RegisterDefaultMspCallbacks]
  repeat' (with_reducible apply ite_elim (RejectFrame s) <;> intro _)
  all_goals simp [RejectFrame, isReject]

/-- A rejected call of `BSP_AUDIO_IN_Init` leaves the globals as they were. -/
theorem IN_Init_rejectFrame (c : BoardConf) (h : Hal) (i : Nat) (a : BSP_AUDIO_Init_t) (s : AudioState) :
    RejectFrame s (BSP_AUDIO_IN_Init c h i a s) := by
  simp only [BSP_AUDIO_IN_Init, BSP_AUDIO_IN_Init_0, BSP_AUDIO_IN_Init_0_i2s, BSP_AUDIO_IN_Init_1, BSP_AUDIO_IN_Init_1_mdf]
  repeat' (with_reducible apply ite_elim (RejectFrame s) <;> intro _)
  all_goals simp [RejectFrame, isReject]

/-- A rejected call of `BSP_AUDIO_IN_DeInit` leaves the globals as they were. -/
theorem IN_DeInit_rejectFrame (c : BoardConf) (h : Hal) (i : Nat) (s : AudioState) :
    RejectFrame s (BSP_AUDIO_IN_DeInit c h i s) := by
  simp only [BSP_AUDIO_IN_DeInit]
  repeat' (with_reducible apply ite_elim (RejectFrame s) <;> intro _)
  all_goals simp [RejectFrame, isReject]

/-- A rejected call of `BSP_AUDIO_IN_Record` leaves the globals as they were. -/
theorem IN_Record_rejectFrame (c : BoardConf) (h : Hal) (i p n : Nat) (s : AudioState) :
    RejectFrame s (BSP_AUDIO_IN_Record c h i p n s) := by
  simp only [BSP_AUDIO_IN_Record]
  repeat' (with_reducible apply ite_elim (RejectFrame s) <;> intro _)
  all_goals simp [RejectFrame, isReject]

/-- A rejected call of `BSP_AUDIO_IN_Pause` leaves the globals as they were. -/
theorem IN_Pause_rejectFrame (h : Hal) (i : Nat) (s : AudioState) :
    RejectFrame s (BSP_AUDIO_IN_Pause h i s) := by
  simp only [BSP_AUDIO_IN_Pause]
  repeat' (with_reducible apply ite_elim (RejectFrame s) <;> intro _)
  all_goals simp [RejectFrame, isReject]

/-- A rejected call of `BSP_AUDIO_IN_Resume` leaves the globals as they were. -/
theorem IN_Resume_rejectFrame (h : Hal) (i : Nat) (s : AudioState) :
    RejectFrame s (BSP_AUDIO_IN_Resume h i s) := by
  simp only [BSP_AUDIO_IN_Resume]
  repeat' (with_reducible apply ite_elim (RejectFrame s) <;> intro _)
  all_goals simp [RejectFrame, isReject]

/-- A rejected call of `BSP_AUDIO_IN_Stop` leaves the globals as they were. -/
theorem IN_Stop_rejectFrame (h : Hal) (i : Nat) (s : AudioState) :
    RejectFrame s (BSP_AUDIO_IN_Stop h i s) := by
  simp only [BSP_AUDIO_IN_Stop]
  repeat' (with_reducible apply ite_elim (RejectFrame s) <;> intro _)
  all_goals simp [RejectFrame, isReject]

/-- A rejected call of `BSP_AUDIO_IN_SetVolume` leaves the globals as they were. -/
theorem IN_SetVolume_rejectFrame (i v : Nat) (s : AudioState) :
    RejectFrame s (BSP_AUDIO_IN_SetVolume i v s) := by
  simp only [BSP_AUDIO_IN_SetVolume]
  repeat' (with_reducible apply ite_elim (RejectFrame s) <;> intro _)
  all_goals simp [RejectFrame, isReject]

/-- A rejected call of `BSP_AUDIO_IN_SetSampleRate` leaves the globals as they were. -/
theorem IN_SetSampleRate_rejectFrame (c : BoardConf) (h : Hal) (i f : Nat) (s : AudioState) :
    RejectFrame s (BSP_AUDIO_IN_SetSampleRate c h i f s) := by
  simp only [BSP_AUDIO_IN_SetSampleRate, BSP_AUDIO_IN_SetSampleRate_0, BSP_AUDIO_IN_SetSampleRate_1]
  repeat' (with_reducible apply ite_elim (RejectFrame s) <;> intro _)
  all_goals simp [RejectFrame, isReject]

/-- A rejected call of `BSP_AUDIO_IN_SetDevice` leaves the globals as they were. -/
theorem IN_SetDevice_rejectFrame (i d : Nat) (s : AudioState) :
    RejectFrame s (BSP_AUDIO_IN_SetDevice i d s) := by
  simp only [BSP_AUDIO_IN_SetDevice]
  repeat' (with_reducible apply ite_elim (RejectFrame s) <;> intro _)
  all_goals simp [RejectFrame, isReject]

/-- A rejected call of `BSP_AUDIO_IN_SetBitsPerSample` leaves the globals as they were. -/
theorem IN_SetBitsPerSample_rejectFrame (i b : Nat) (s : AudioState) :
    RejectFrame s (BSP_AUDIO_IN_SetBitsPerSample i b s) := by
  simp only [BSP_AUDIO_IN_SetBitsPerSample]
  repeat' (with_reducible apply ite_elim (RejectFrame s) <;> intro _)
  all_goals simp [RejectFrame, isReject]

/-- A rejected call of `BSP_AUDIO_IN_SetChannelsNbr` leaves the globals as they were. -/
theorem IN_SetChannelsNbr_rejectFrame (i n : Nat) (s : AudioState) :
    RejectFrame s (BSP_AUDIO_IN_SetChannelsNbr i n s) := by
  simp only [BSP_AUDIO_IN_SetChannelsNbr]
  repeat' (with_reducible apply ite_elim (RejectFrame s) <;> intro _)
  all_goals simp [RejectFrame, isReject]

/-- A rejected call of `BSP_AUDIO_IN_RegisterDefaultMspCallbacks` leaves the globals as they were. -/
theorem IN_RegisterDefaultMspCallbacks_rejectFrame (h : Hal) (i : Nat) (s : AudioState) :
    RejectFrame s (BSP_AUDIO_IN_RegisterDefaultMspCallbacks h i s) := by
  simp only [BSP_AUDIO_IN_RegisterDefaultMspCallbacks]
  repeat' (with_reducible apply ite_elim (RejectFrame s) <;> intro _)
  all_goals simp [RejectFrame, isReject]

/-! ## The invariant is kept: one lemma per operation -/

/-- `BSP_AUDIO_OUT_Init` keeps the invariant. -/
theorem OUT_Init_keepsInv (c : BoardConf) (h : Hal) (i : Nat) (a : BSP_AUDIO_Init_t) (s : AudioState) :
    KeepsInv s (BSP_AUDIO_OUT_Init c h i a s) := by
  simp only [BSP_AUDIO_OUT_Init, BSP_AUDIO_OUT_Init_i2s, BSP_AUDIO_OUT_Init_codec]
  repeat' (with_reducible apply ite_elim (KeepsInv s) <;> intro _)
  all_goals (intro hI; simp only [Inv, StateInRange] at hI ⊢; simp_all [AudioState.Audio_In_Ctx] <;> omega)

/-- `BSP_AUDIO_OUT_DeInit` keeps the invariant. -/
theorem OUT_DeInit_keepsInv (c : BoardConf) (h : Hal) (i : Nat) (s : AudioState) :
    KeepsInv s (BSP_AUDIO_OUT_DeInit c h i s) := by
  simp only [BSP_AUDIO_OUT_DeInit]
  repeat' (with_reducible apply ite_elim (KeepsInv s) <;> intro _)
  all_goals (intro hI; simp only [Inv, StateInRange] at hI ⊢; simp_all [AudioState.Audio_In_Ctx] <;> omega)

/-- `BSP_AUDIO_OUT_Play` keeps the invariant. -/
theorem OUT_Play_keepsInv (h : Hal) (i p n : Nat) (s : AudioState) :
    KeepsInv s (BSP_AUDIO_OUT_Play h i p n s) := by
  simp only [BSP_AUDIO_OUT_Play]
  repeat' (with_reducible apply ite_elim (KeepsInv s) <;> intro _)
  all_goals (intro hI; simp only [Inv, StateInRange] at hI ⊢; simp_all [AudioState.Audio_In_Ctx] <;> omega)

/-- `BSP_AUDIO_OUT_Pause` keeps the invariant. -/
theorem OUT_Pause_keepsInv (h : Hal) (i : Nat) (s : AudioState) :
    KeepsInv s (BSP_AUDIO_OUT_Pause h i s) := by
  simp only [BSP_AUDIO_OUT_Pause]
  repeat' (with_reducible apply ite_elim (KeepsInv s) <;> intro _)
  all_goals (intro hI; simp only [Inv, StateInRange] at hI ⊢; simp_all [AudioState.Audio_In_Ctx] <;> omega)

/-- `BSP_AUDIO_OUT_Resume` keeps the invariant. -/
theorem OUT_Resume_keepsInv (h : Hal) (i : Nat) (s : AudioState) :
    KeepsInv s (BSP_AUDIO_OUT_Resume h i s) := by
  simp only [BSP_AUDIO_OUT_Resume]
  repeat' (with_reducible apply ite_elim (KeepsInv s) <;> intro _)
  all_goals (intro hI; simp only [Inv, StateInRange] at hI ⊢; simp_all [AudioState.Audio_In_Ctx] <;> omega)

/-- `BSP_AUDIO_OUT_Stop` keeps the invariant. -/
theorem OUT_Stop_keepsInv (h : Hal) (i : Nat) (s : AudioState) :
    KeepsInv s (BSP_AUDIO_OUT_Stop h i s) := by
  simp only [BSP_AUDIO_OUT_Stop]
  repeat' (with_reducible apply ite_elim (KeepsInv s) <;> intro _)
  all_goals (intro hI; simp only [Inv, StateInRange] at hI ⊢; simp_all [AudioState.Audio_In_Ctx] <;> omega)

/-- `BSP_AUDIO_OUT_Mute` keeps the invariant. -/
theorem OUT_Mute_keepsInv (h : Hal) (i : Nat) (s : AudioState) :
    KeepsInv s (BSP_AUDIO_OUT_Mute h i s) := by
  simp only [BSP_AUDIO_OUT_Mute]
  repeat' (with_reducible apply ite_elim (KeepsInv s) <;> intro _)
  all_goals (intro hI; simp only [Inv, StateInRange] at hI ⊢; simp_all [AudioState.Audio_In_Ctx] <;> omega)

/-- `BSP_AUDIO_OUT_UnMute` keeps the invariant. -/
theorem OUT_UnMute_keepsInv (h : Hal) (i : Nat) (s : AudioState) :
    KeepsInv s (BSP_AUDIO_OUT_UnMute h i s) := by
  simp only [BSP_AUDIO_OUT_UnMute]
  repeat' (with_reducible apply ite_elim (KeepsInv s) <;> intro _)
  all_goals (intro hI; simp only [Inv, StateInRange] at hI ⊢; simp_all [AudioState.Audio_In_Ctx] <;> omega)

/-- `BSP_AUDIO_OUT_SetVolume` keeps the invariant. -/
theorem OUT_SetVolume_keepsInv (h : Hal) (i v : Nat) (s : AudioState) :
    KeepsInv s (BSP_AUDIO_OUT_SetVolume h i v s) := by
  simp only [BSP_AUDIO_OUT_SetVolume]
  repeat' (with_reducible apply ite_elim (KeepsInv s) <;> intro _)
  all_goals (intro hI; simp only [Inv, StateInRange] at hI ⊢; simp_all [AudioState.Audio_In_Ctx] <;> omega)

/-- `BSP_AUDIO_OUT_SetSampleRate` keeps the invariant. -/
theorem OUT_SetSampleRate_keepsInv (c : BoardConf) (h : Hal) (i f : Nat) (s : AudioState) :
    KeepsInv s (BSP_AUDIO_OUT_SetSampleRate c h i f s) := by
  simp only [BSP_AUDIO_OUT_SetSampleRate]
  repeat' (with_reducible apply ite_elim (KeepsInv s) <;> intro _)
  all_goals (intro hI; simp only [Inv, StateInRange] at hI ⊢; simp_all [AudioState.Audio_In_Ctx] <;> omega)

/-- `BSP_AUDIO_OUT_SetDevice` keeps the invariant. -/
theorem OUT_SetDevice_keepsInv (i d : Nat) (s : AudioState) :
    KeepsInv s (BSP_AUDIO_OUT_SetDevice i d s) := by
  simp only [BSP_AUDIO_OUT_SetDevice]
  repeat' (with_reducible apply ite_elim (KeepsInv s) <;> intro _)
  all_goals (intro hI; simp only [Inv, StateInRange] at hI ⊢; simp_all [AudioState.Audio_In_Ctx] <;> omega)

/-- `BSP_AUDIO_OUT_SetBitsPerSample` keeps the invariant. -/
theorem OUT_SetBitsPerSample_keepsInv (c : BoardConf) (h : Hal) (i b : Nat) (s : AudioState) :
    KeepsInv s (BSP_AUDIO_OUT_SetBitsPerSample c h i b s) := by
  simp only [BSP_AUDIO_OUT_SetBitsPerSample]
  repeat' (with_reducible apply ite_elim (KeepsInv s) <;> intro _)
  all_goals (intro hI; simp only [Inv, StateInRange] at hI ⊢; simp_all [AudioState.Audio_In_Ctx] <;> omega)

/-- `BSP_AUDIO_OUT_SetChannelsNbr` keeps the invariant. -/
theorem OUT_SetChannelsNbr_keepsInv (i n : Nat) (s : AudioState) :
    KeepsInv s (BSP_AUDIO_OUT_SetChannelsNbr i n s) := by
  simp only [BSP_AUDIO_OUT_SetChannelsNbr]
  repeat' (with_reducible apply ite_elim (KeepsInv s) <;> intro _)
  all_goals (intro hI; simp only [Inv, StateInRange] at hI ⊢; simp_all [AudioState.Audio_In_Ctx] <;> omega)

/-- `BSP_AUDIO_OUT_RegisterDefaultMspCallbacks` keeps the invariant. -/
theorem OUT_RegisterDefaultMspCallbacks_keepsInv (h : Hal) (i : Nat) (s : AudioState) :
    KeepsInv s (BSP_AUDIO_OUT_RegisterDefaultMspCallbacks h i s) := by
  simp only [BSP_AUDIO_OUT_RegisterDefaultMspCallbacks]
  repeat' (with_reducible apply ite_elim (KeepsInv s) <;> intro _)
  all_goals (intro hI; simp only [Inv, StateInRange] at hI ⊢; simp_all [AudioState.Audio_In_Ctx] <;> omega)

/-- `BSP_AUDIO_IN_Init` keeps the invariant. -/
theorem IN_Init_keepsInv (c : BoardConf) (h : Hal) (i : Nat) (a : BSP_AUDIO_Init_t) (s : AudioState) :
    KeepsInv s (BSP_AUDIO_IN_Init c h i a s) := by
  rcases Nat.lt_or_ge i AUDIO_IN_INSTANCES_NBR with hi | hi
  · simp only [AUDIO_IN_INSTANCES_NBR] at hi
    interval_cases i
    all_goals simp only [BSP_AUDIO_IN_Init, BSP_AUDIO_IN_Init_0, BSP_AUDIO_IN_Init_0_i2s, BSP_AUDIO_IN_Init_1, BSP_AUDIO_IN_Init_1_mdf]
    all_goals repeat' (with_reducible apply ite_elim (KeepsInv s) <;> intro _)
    all_goals (intro hI; simp only [Inv, StateInRange] at hI ⊢; simp_all [AudioState.Audio_In_Ctx] <;> omega)
  · unfold BSP_AUDIO_IN_Init
    rw [if_pos (by first | exact hi | exact Or.inl hi)]
    exact fun hI => hI

/-- `BSP_AUDIO_IN_DeInit` keeps the invariant. -/
theorem IN_DeInit_keepsInv (c : BoardConf) (h : Hal) (i : Nat) (s : AudioState) :
    KeepsInv s (BSP_AUDIO_IN_DeInit c h i s) := by
  rcases Nat.lt_or_ge i AUDIO_IN_INSTANCES_NBR with hi | hi
  · simp only [AUDIO_IN_INSTANCES_NBR] at hi
    interval_cases i
    all_goals simp only [BSP_AUDIO_IN_DeInit]
    all_goals repeat' (with_reducible apply ite_elim (KeepsInv s) <;> intro _)
    all_goals (intro hI; simp only [Inv, StateInRange] at hI ⊢; simp_all [AudioState.Audio_In_Ctx] <;> omega)
  · unfold BSP_AUDIO_IN_DeInit
    rw [if_pos (by first | exact hi | exact Or.inl hi)]
    exact fun hI => hI

/-- `BSP_AUDIO_IN_Record` keeps the invariant. -/
theorem IN_Record_keepsInv (c : BoardConf) (h : Hal) (i p n : Nat) (s : AudioState) :
    KeepsInv s (BSP_AUDIO_IN_Record c h i p n s) := by
  rcases Nat.lt_or_ge i AUDIO_IN_INSTANCES_NBR with hi | hi
  · simp only [AUDIO_IN_INSTANCES_NBR] at hi
    interval_cases i
    all_goals simp only [BSP_AUDIO_IN_Record]
    all_goals repeat' (with_reducible apply ite_elim (KeepsInv s) <;> intro _)
    all_goals (intro hI; simp only [Inv, StateInRange] at hI ⊢; simp_all [AudioState.Audio_In_Ctx] <;> omega)
  · unfold BSP_AUDIO_IN_Record
    rw [if_pos (by first | exact hi | exact Or.inl hi)]
    exact fun hI => hI

/-- `BSP_AUDIO_IN_Pause` keeps the invariant. -/
theorem IN_Pause_keepsInv (h : Hal) (i : Nat) (s : AudioState) :
    KeepsInv s (BSP_AUDIO_IN_Pause h i s) := by
  rcases Nat.lt_or_ge i AUDIO_IN_INSTANCES_NBR with hi | hi
  · simp only [AUDIO_IN_INSTANCES_NBR] at hi
    interval_cases i
    all_goals simp only [BSP_AUDIO_IN_Pause]
    all_goals repeat' (with_reducible apply ite_elim (KeepsInv s) <;> intro _)
    all_goals (intro hI; simp only [Inv, StateInRange] at hI ⊢; simp_all [AudioState.Audio_In_Ctx] <;> omega)
  · unfold BSP_AUDIO_IN_Pause
    rw [if_pos (by first | exact hi | exact Or.inl hi)]
    exact fun hI => hI

/-- `BSP_AUDIO_IN_Resume` keeps the invariant. -/
theorem IN_Resume_keepsInv (h : Hal) (i : Nat) (s : AudioState) :
    KeepsInv s (BSP_AUDIO_IN_Resume h i s) := by
  rcases Nat.lt_or_ge i AUDIO_IN_INSTANCES_NBR with hi | hi
  · simp only [AUDIO_IN_INSTANCES_NBR] at hi
    interval_cases i
    all_goals simp only [BSP_AUDIO_IN_Resume]
    all_goals repeat' (with_reducible apply ite_elim (KeepsInv s) <;> intro _)
    all_goals (intro hI; simp only [Inv, StateInRange] at hI ⊢; simp_all [AudioState.Audio_In_Ctx] <;> omega)
  · unfold BSP_AUDIO_IN_Resume
    rw [if_pos (by first | exact hi | exact Or.inl hi)]
    exact fun hI => hI

/-- `BSP_AUDIO_IN_Stop` keeps the invariant. -/
theorem IN_Stop_keepsInv (h : Hal) (i : Nat) (s : AudioState) :
    KeepsInv s (BSP_AUDIO_IN_Stop h i s) := by
  rcases Nat.lt_or_ge i AUDIO_IN_INSTANCES_NBR with hi | hi
  · simp only [AUDIO_IN_INSTANCES_NBR] at hi
    interval_cases i
    all_goals simp only [BSP_AUDIO_IN_Stop]
    all_goals repeat' (with_reducible apply ite_elim (KeepsInv s) <;> intro _)
    all_goals (intro hI; simp only [Inv, StateInRange] at hI ⊢; simp_all [AudioState.Audio_In_Ctx] <;> omega)
  · unfold BSP_AUDIO_IN_Stop
    rw [if_pos (by first | exact hi | exact Or.inl hi)]
    exact fun hI => hI

/-- `BSP_AUDIO_IN_SetVolume` keeps the invariant. -/
theorem IN_SetVolume_keepsInv (i v : Nat) (s : AudioState) :
    KeepsInv s (BSP_AUDIO_IN_SetVolume i v s) := by
  simp only [BSP_AUDIO_IN_SetVolume]
  repeat' (with_reducible apply ite_elim (KeepsInv s) <;> intro _)
  all_goals (intro hI; simp only [Inv, StateInRange] at hI ⊢; simp_all [AudioState.Audio_In_Ctx] <;> omega)

/-- `BSP_AUDIO_IN_SetSampleRate` keeps the invariant. -/
theorem IN_SetSampleRate_keepsInv (c : BoardConf) (h : Hal) (i f : Nat) (s : AudioState) :
    KeepsInv s (BSP_AUDIO_IN_SetSampleRate c h i f s) := by
  rcases Nat.lt_or_ge i AUDIO_IN_INSTANCES_NBR with hi | hi
  · simp only [AUDIO_IN_INSTANCES_NBR] at hi
    interval_cases i
    all_goals simp only [BSP_AUDIO_IN_SetSampleRate, BSP_AUDIO_IN_SetSampleRate_0, BSP_AUDIO_IN_SetSampleRate_1]
    all_goals repeat' (with_reducible apply ite_elim (KeepsInv s) <;> intro _)
    all_goals (intro hI; simp only [Inv, StateInRange] at hI ⊢; simp_all [AudioState.Audio_In_Ctx] <;> omega)
  · unfold BSP_AUDIO_IN_SetSampleRate
    rw [if_pos (by first | exact hi | exact Or.inl hi)]
    exact fun hI => hI

/-- `BSP_AUDIO_IN_SetDevice` keeps the invariant. -/
theorem IN_SetDevice_keepsInv (i d : Nat) (s : AudioState) :
    KeepsInv s (BSP_AUDIO_IN_SetDevice i d s) := by
  simp only [BSP_AUDIO_IN_SetDevice]
  repeat' (with_reducible apply ite_elim (KeepsInv s) <;> intro _)
  all_goals (intro hI; simp only [Inv, StateInRange] at hI ⊢; simp_all [AudioState.Audio_In_Ctx] <;> omega)

/-- `BSP_AUDIO_IN_SetBitsPerSample` keeps the invariant. -/
theorem IN_SetBitsPerSample_keepsInv (i b : Nat) (s : AudioState) :
    KeepsInv s (BSP_AUDIO_IN_SetBitsPerSample i b s) := by
  simp only [BSP_AUDIO_IN_SetBitsPerSample]
  repeat' (with_reducible apply ite_elim (KeepsInv s) <;> intro _)
  all_goals (intro hI; simp only [Inv, StateInRange] at hI ⊢; simp_all [AudioState.Audio_In_Ctx] <;> omega)

/-- `BSP_AUDIO_IN_SetChannelsNbr` keeps the invariant. -/
theorem IN_SetChannelsNbr_keepsInv (i n : Nat) (s : AudioState) :
    KeepsInv s (BSP_AUDIO_IN_SetChannelsNbr i n s) := by
  simp only [BSP_AUDIO_IN_SetChannelsNbr]
  repeat' (with_reducible apply ite_elim (KeepsInv s) <;> intro _)
  all_goals (intro hI; simp only [Inv, StateInRange] at hI ⊢; simp_all [AudioState.Audio_In_Ctx] <;> omega)

/-- `BSP_AUDIO_IN_RegisterDefaultMspCallbacks` keeps the invariant. -/
theorem IN_RegisterDefaultMspCallbacks_keepsInv (h : Hal) (i : Nat) (s : AudioState) :
    KeepsInv s (BSP_AUDIO_IN_RegisterDefaultMspCallbacks h i s) := by
  simp only [BSP_AUDIO_IN_RegisterDefaultMspCallbacks]
  repeat' (with_reducible apply ite_elim (KeepsInv s) <;> intro _)
  all_goals (intro hI; simp only [Inv, StateInRange] at hI ⊢; simp_all [AudioState.Audio_In_Ctx] <;> omega)

/-! ## The two facts for every operation of the transition system -/

/-- Whatever public operation is run, if it answers `BSP_ERROR_WRONG_PARAM`, `BSP_ERROR_BUSY` or
`BSP_ERROR_FEATURE_NOT_SUPPORTED` the globals, log included, are as before the call. -/
theorem step_rejectFrame (c : BoardConf) (h : Hal) (o : Op) (s : AudioState) (st : BspStatus)
    (hst : (step c h o s).1 = some st) (hrej : isReject st) : (step c h o s).2 = s := by
  cases o
  case OUT_Init i a =>
    simp only [step, Option.some.injEq] at hst
    exact OUT_Init_rejectFrame c h i a s (hst ▸ hrej)
  case OUT_DeInit i =>
    simp only [step, Option.some.injEq] at hst
    exact OUT_DeInit_rejectFrame c h i s (hst ▸ hrej)
  case OUT_Play i p n =>
    simp only [step, Option.some.injEq] at hst
    exact OUT_Play_rejectFrame h i p n s (hst ▸ hrej)
  case OUT_Pause i =>
    simp only [step, Option.some.injEq] at hst
    exact OUT_Pause_rejectFrame h i s (hst ▸ hrej)
  case OUT_Resume i =>
    simp only [step, Option.some.injEq] at hst
    exact OUT_Resume_rejectFrame h i s (hst ▸ hrej)
  case OUT_Stop i =>
    simp only [step, Option.some.injEq] at hst
    exact OUT_Stop_rejectFrame h i s (hst ▸ hrej)
  case OUT_Mute i =>
    simp only [step, Option.some.injEq] at hst
    exact OUT_Mute_rejectFrame h i s (hst ▸ hrej)
  case OUT_UnMute i =>
    simp only [step, Option.some.injEq] at hst
    exact OUT_UnMute_rejectFrame h i s (hst ▸ hrej)
  case OUT_IsMute i => rfl
  case OUT_SetVolume i v =>
    simp only [step, Option.some.injEq] at hst
    exact OUT_SetVolume_rejectFrame h i v s (hst ▸ hrej)
  case OUT_GetVolume i => rfl
  case OUT_SetSampleRate i f =>
    simp only [step, Option.some.injEq] at hst
    exact OUT_SetSampleRate_rejectFrame c h i f s (hst ▸ hrej)
  case OUT_GetSampleRate i => rfl
  case OUT_SetDevice i d =>
    simp only [step, Option.some.injEq] at hst
    exact OUT_SetDevice_rejectFrame i d s (hst ▸ hrej)
  case OUT_GetDevice i => rfl
  case OUT_SetBitsPerSample i b =>
    simp only [step, Option.some.injEq] at hst
    exact OUT_SetBitsPerSample_rejectFrame c h i b s (hst ▸ hrej)
  case OUT_GetBitsPerSample i => rfl
  case OUT_SetChannelsNbr i n =>
    simp only [step, Option.some.injEq] at hst
    exact OUT_SetChannelsNbr_rejectFrame i n s (hst ▸ hrej)
  case OUT_GetChannelsNbr i => rfl
  case OUT_GetState i => rfl
  case OUT_RegisterDefaultMspCallbacks i =>
    simp only [step, Option.some.injEq] at hst
    exact OUT_RegisterDefaultMspCallbacks_rejectFrame h i s (hst ▸ hrej)
  case OUT_RegisterMspCallbacks i =>
    simp only [step, Option.some.injEq] at hst
    exact OUT_RegisterDefaultMspCallbacks_rejectFrame h i s (hst ▸ hrej)
  case OUT_IRQHandler i d => simp [step] at hst
  case IN_Init i a =>
    simp only [step, Option.some.injEq] at hst
    exact IN_Init_rejectFrame c h i a s (hst ▸ hrej)
  case IN_DeInit i =>
    simp only [step, Option.some.injEq] at hst
    exact IN_DeInit_rejectFrame c h i s (hst ▸ hrej)
  case IN_Record i p n =>
    simp only [step, Option.some.injEq] at hst
    exact IN_Record_rejectFrame c h i p n s (hst ▸ hrej)
  case IN_Pause i =>
    simp only [step, Option.some.injEq] at hst
    exact IN_Pause_rejectFrame h i s (hst ▸ hrej)
  case IN_Resume i =>
    simp only [step, Option.some.injEq] at hst
    exact IN_Resume_rejectFrame h i s (hst ▸ hrej)
  case IN_Stop i =>
    simp only [step, Option.some.injEq] at hst
    exact IN_Stop_rejectFrame h i s (hst ▸ hrej)
  case IN_SetVolume i v =>
    simp only [step, Option.some.injEq] at hst
    exact IN_SetVolume_rejectFrame i v s (hst ▸ hrej)
  case IN_GetVolume i => rfl
  case IN_SetSampleRate i f =>
    simp only [step, Option.some.injEq] at hst
    exact IN_SetSampleRate_rejectFrame c h i f s (hst ▸ hrej)
  case IN_GetSampleRate i => rfl
  case IN_SetDevice i d =>
    simp only [step, Option.some.injEq] at hst
    exact IN_SetDevice_rejectFrame i d s (hst ▸ hrej)
  case IN_GetDevice i => rfl
  case IN_SetBitsPerSample i b =>
    simp only [step, Option.some.injEq] at hst
    exact IN_SetBitsPerSample_rejectFrame i b s (hst ▸ hrej)
  case IN_GetBitsPerSample i => rfl
  case IN_SetChannelsNbr i n =>
    simp only [step, Option.some.injEq] at hst
    exact IN_SetChannelsNbr_rejectFrame i n s (hst ▸ hrej)
  case IN_GetChannelsNbr i => rfl
  case IN_GetState i => rfl
  case IN_RegisterDefaultMspCallbacks i =>
    simp only [step, Option.some.injEq] at hst
    exact IN_RegisterDefaultMspCallbacks_rejectFrame h i s (hst ▸ hrej)
  case IN_RegisterMspCallbacks i =>
    simp only [step, Option.some.injEq] at hst
    exact IN_RegisterDefaultMspCallbacks_rejectFrame h i s (hst ▸ hrej)
  case IN_IRQHandler i d => simp [step] at hst

/-- Every public operation keeps the invariant. -/
theorem step_keepsInv (c : BoardConf) (h : Hal) (o : Op) (s : AudioState) (hI : Inv s) :
    Inv (step c h o s).2 := by
  cases o
  case OUT_Init i a => exact OUT_Init_keepsInv c h i a s hI
  case OUT_DeInit i => exact OUT_DeInit_keepsInv c h i s hI
  case OUT_Play i p n => exact OUT_Play_keepsInv h i p n s hI
  case OUT_Pause i => exact OUT_Pause_keepsInv h i s hI
  case OUT_Resume i => exact OUT_Resume_keepsInv h i s hI
  case OUT_Stop i => exact OUT_Stop_keepsInv h i s hI
  case OUT_Mute i => exact OUT_Mute_keepsInv h i s hI
  case OUT_UnMute i => exact OUT_UnMute_keepsInv h i s hI
  case OUT_IsMute i => exact hI
  case OUT_SetVolume i v => exact OUT_SetVolume_keepsInv h i v s hI
  case OUT_GetVolume i => exact hI
  case OUT_SetSampleRate i f => exact OUT_SetSampleRate_keepsInv c h i f s hI
  case OUT_GetSampleRate i => exact hI
  case OUT_SetDevice i d => exact OUT_SetDevice_keepsInv i d s hI
  case OUT_GetDevice i => exact hI
  case OUT_SetBitsPerSample i b => exact OUT_SetBitsPerSample_keepsInv c h i b s hI
  case OUT_GetBitsPerSample i => exact hI
  case OUT_SetChannelsNbr i n => exact OUT_SetChannelsNbr_keepsInv i n s hI
  case OUT_GetChannelsNbr i => exact hI
  case OUT_GetState i => exact hI
  case OUT_RegisterDefaultMspCallbacks i => exact OUT_RegisterDefaultMspCallbacks_keepsInv h i s hI
  case OUT_RegisterMspCallbacks i => exact OUT_RegisterDefaultMspCallbacks_keepsInv h i s hI
  case OUT_IRQHandler i d =>
    simp only [step, BSP_AUDIO_OUT_IRQHandler, BSP_AUDIO_IN_IRQHandler]
    first | exact hI | (split_ifs <;> exact hI)
  case IN_Init i a => exact IN_Init_keepsInv c h i a s hI
  case IN_DeInit i => exact IN_DeInit_keepsInv c h i s hI
  case IN_Record i p n => exact IN_Record_keepsInv c h i p n s hI
  case IN_Pause i => exact IN_Pause_keepsInv h i s hI
  case IN_Resume i => exact IN_Resume_keepsInv h i s hI
  case IN_Stop i => exact IN_Stop_keepsInv h i s hI
  case IN_SetVolume i v => exact IN_SetVolume_keepsInv i v s hI
  case IN_GetVolume i => exact hI
  case IN_SetSampleRate i f => exact IN_SetSampleRate_keepsInv c h i f s hI
  case IN_GetSampleRate i => exact hI
  case IN_SetDevice i d => exact IN_SetDevice_keepsInv i d s hI
  case IN_GetDevice i => exact hI
  case IN_SetBitsPerSample i b => exact IN_SetBitsPerSample_keepsInv i b s hI
  case IN_GetBitsPerSample i => exact hI
  case IN_SetChannelsNbr i n => exact IN_SetChannelsNbr_keepsInv i n s hI
  case IN_GetChannelsNbr i => exact hI
  case IN_GetState i => exact hI
  case IN_RegisterDefaultMspCallbacks i => exact IN_RegisterDefaultMspCallbacks_keepsInv h i s hI
  case IN_RegisterMspCallbacks i => exact IN_RegisterDefaultMspCallbacks_keepsInv h i s hI
  case IN_IRQHandler i d =>
    simp only [step, BSP_AUDIO_OUT_IRQHandler, BSP_AUDIO_IN_IRQHandler]
    first | exact hI | (split_ifs <;> exact hI)

/-- The initial globals satisfy the invariant. -/
theorem initial_Inv : Inv AudioState.initial := by
  simp [Inv, StateInRange, AudioState.initial]

/-! ## Outcome of the stream operations -/

/-- The probe reports success exactly when its three steps succeed. -/
theorem WM8904_Probe_fst (c : BoardConf) (h : Hal) (s : AudioState) :
    (WM8904_Probe c h s).1 = BSP_ERROR_NONE ↔ h.probeOk c := by
  unfold WM8904_Probe Hal.probeOk
  split_ifs <;> simp_all

/-- Every reachable state satisfies the invariant. -/
theorem reachable_Inv (c : BoardConf) (s : AudioState) (hr : Reachable c s) : Inv s := by
  induction hr with
  | init => exact initial_Inv
  | step h o s _ ih => exact step_keepsInv c h o s ih

/-- The globals of the scenario in which the output is Stopped are reachable. -/
theorem outStopped_reachable : Reachable BoardConf.dk Scenario.outStopped :=
  Reachable.step (Hal.allOk BoardConf.dk) (Op.OUT_Init 0 Scenario.cfgOut) AudioState.initial
    Reachable.init

/-- The globals of the scenario in which the output is Playing are reachable. -/
theorem outPlaying_reachable : Reachable BoardConf.dk Scenario.outPlaying :=
  Reachable.step (Hal.allOk BoardConf.dk) (Op.OUT_Play 0 Scenario.buf 4800) Scenario.outStopped
    outStopped_reachable

/-- The globals of the scenario in which the analog input is Stopped are reachable. -/
theorem in0Stopped_reachable : Reachable BoardConf.dk Scenario.in0Stopped :=
  Reachable.step (Hal.allOk BoardConf.dk) (Op.IN_Init 0 Scenario.cfgIn0) AudioState.initial
    Reachable.init

/-- The output state after a failed `BSP_AUDIO_OUT_Init`. -/
theorem OUT_Init_failed (c : BoardConf) (h : Hal) (i : Nat) (a : BSP_AUDIO_Init_t)
    (s : AudioState) : FailedInitOut c h s (BSP_AUDIO_OUT_Init c h i a s) := by
  simp only [BSP_AUDIO_OUT_Init, BSP_AUDIO_OUT_Init_i2s, BSP_AUDIO_OUT_Init_codec]
  repeat' (with_reducible apply ite_elim (FailedInitOut c h s) <;> intro _)
  all_goals (intro h0 hne; simp_all [WM8904_Probe_fst])

/-- The input state after a failed `BSP_AUDIO_IN_Init`. -/
theorem IN_Init_failed (c : BoardConf) (h : Hal) (i : Nat) (hi : i < AUDIO_IN_INSTANCES_NBR)
    (a : BSP_AUDIO_Init_t) (s : AudioState) :
    FailedInitIn c h i s (BSP_AUDIO_IN_Init c h i a s) := by
  simp only [AUDIO_IN_INSTANCES_NBR] at hi
  interval_cases i
  all_goals simp only [BSP_AUDIO_IN_Init, BSP_AUDIO_IN_Init_0, BSP_AUDIO_IN_Init_0_i2s,
    BSP_AUDIO_IN_Init_1, BSP_AUDIO_IN_Init_1_mdf]
  all_goals repeat' (with_reducible apply ite_elim (FailedInitIn c h _ s) <;> intro _)
  all_goals (intro h0 hne; simp_all [WM8904_Probe_fst, AudioState.Audio_In_Ctx])

/-- `BSP_AUDIO_OUT_Play`: Playing on success, the old state on failure. -/
theorem OUT_Play_outcome (h : Hal) (i p n : Nat) (s : AudioState) :
    OutOutcome AUDIO_OUT_STATE_PLAYING s (BSP_AUDIO_OUT_Play h i p n s) := by
  simp only [BSP_AUDIO_OUT_Play]
  repeat' (with_reducible apply ite_elim (OutOutcome _ s) <;> intro _)
  all_goals simp [OutOutcome]

/-- `BSP_AUDIO_OUT_Stop`: Stopped on success, the old state on failure. -/
theorem OUT_Stop_outcome (h : Hal) (i : Nat) (s : AudioState) :
    OutOutcome AUDIO_OUT_STATE_STOP s (BSP_AUDIO_OUT_Stop h i s) := by
  simp only [BSP_AUDIO_OUT_Stop]
  repeat' (with_reducible apply ite_elim (OutOutcome _ s) <;> intro _)
  all_goals simp_all [OutOutcome]

/-- `BSP_AUDIO_OUT_DeInit`: Reset on success, the old state on failure. -/
theorem OUT_DeInit_outcome (c : BoardConf) (h : Hal) (i : Nat) (s : AudioState) :
    OutOutcome AUDIO_OUT_STATE_RESET s (BSP_AUDIO_OUT_DeInit c h i s) := by
  simp only [BSP_AUDIO_OUT_DeInit]
  repeat' (with_reducible apply ite_elim (OutOutcome _ s) <;> intro _)
  all_goals simp_all [OutOutcome]

/-- `BSP_AUDIO_IN_Record`: Recording on success, the old state on failure. -/
theorem IN_Record_outcome (c : BoardConf) (h : Hal) (i : Nat) (hi : i < AUDIO_IN_INSTANCES_NBR)
    (p n : Nat) (s : AudioState) :
    InOutcome AUDIO_IN_STATE_RECORDING i s (BSP_AUDIO_IN_Record c h i p n s) := by
  simp only [AUDIO_IN_INSTANCES_NBR] at hi
  interval_cases i
  all_goals simp only [BSP_AUDIO_IN_Record]
  all_goals repeat' (with_reducible apply ite_elim (InOutcome _ _ s) <;> intro _)
  all_goals simp_all [InOutcome, AudioState.Audio_In_Ctx]

/-- `BSP_AUDIO_IN_Stop`: Stopped on success, the old state on failure. -/
theorem IN_Stop_outcome (h : Hal) (i : Nat) (hi : i < AUDIO_IN_INSTANCES_NBR) (s : AudioState) :
    InOutcome AUDIO_IN_STATE_STOP i s (BSP_AUDIO_IN_Stop h i s) := by
  simp only [AUDIO_IN_INSTANCES_NBR] at hi
  interval_cases i
  all_goals simp only [BSP_AUDIO_IN_Stop]
  all_goals repeat' (with_reducible apply ite_elim (InOutcome _ _ s) <;> intro _)
  all_goals simp_all [InOutcome, AudioState.Audio_In_Ctx]

/-- `BSP_AUDIO_IN_DeInit`: Reset on success, the old state on failure. -/
theorem IN_DeInit_outcome (c : BoardConf) (h : Hal) (i : Nat) (hi : i < AUDIO_IN_INSTANCES_NBR)
    (s : AudioState) :
    InOutcome AUDIO_IN_STATE_RESET i s (BSP_AUDIO_IN_DeInit c h i s) := by
  simp only [AUDIO_IN_INSTANCES_NBR] at hi
  interval_cases i
  all_goals simp only [BSP_AUDIO_IN_DeInit]
  all_goals repeat' (with_reducible apply ite_elim (InOutcome _ _ s) <;> intro _)
  all_goals simp_all [InOutcome, AudioState.Audio_In_Ctx]

/-- With valid arguments and collaborators that succeed, the five stream operations on the
output follow the transition table. -/
theorem runOut_followsTable (c : BoardConf) (h : Hal) (op : StreamOp) (p n : Nat)
    (s : AudioState) (hp : p ≠ 0) (hn : n ≤ 65535) (hok : h.streamOk) :
    FollowsTable op s.Audio_Out_Ctx.State (fun t => t.Audio_Out_Ctx.State) s
      (op.runOut c h p n s) := by
  obtain ⟨h1, h2, h3, h4, h5, h6, h7, h8, h9, h10, h11, h12, h13, h14⟩ := hok
  have g10 := not_lt.mpr h10
  have g11 := not_lt.mpr h11
  have g12 := not_lt.mpr h12
  have g13 := not_lt.mpr h13
  have g14 := not_lt.mpr h14
  have gn := not_lt.mpr hn
  cases op
  all_goals simp only [StreamOp.runOut, BSP_AUDIO_OUT_Play, BSP_AUDIO_OUT_Pause,
    BSP_AUDIO_OUT_Resume, BSP_AUDIO_OUT_Stop, BSP_AUDIO_OUT_DeInit]
  all_goals repeat' (with_reducible apply ite_elim (FollowsTable _ _ _ s) <;> intro _)
  all_goals (simp only [FollowsTable, transitionTable]; (try split_ifs) <;>
    (try simp_all) <;> (try omega))

/-- With valid arguments and collaborators that succeed, the five stream operations on an
input follow the transition table. -/
theorem runIn_followsTable (c : BoardConf) (h : Hal) (op : StreamOp) (i : Nat)
    (hi : i < AUDIO_IN_INSTANCES_NBR) (p n : Nat) (s : AudioState) (hp : p ≠ 0)
    (hn : n ≤ 65535) (hbuf : i = 1 → n / 2 ≤ c.DEFAULT_AUDIO_IN_BUFFER_SIZE)
    (hok : h.streamOk) :
    FollowsTable op (s.Audio_In_Ctx i).State (fun t => (t.Audio_In_Ctx i).State) s
      (op.runIn c h i p n s) := by
  obtain ⟨h1, h2, h3, h4, h5, h6, h7, h8, h9, h10, h11, h12, h13, h14⟩ := hok
  have g10 := not_lt.mpr h10
  have g11 := not_lt.mpr h11
  have g12 := not_lt.mpr h12
  have g13 := not_lt.mpr h13
  have g14 := not_lt.mpr h14
  have gn := not_lt.mpr hn
  simp only [AUDIO_IN_INSTANCES_NBR] at hi
  interval_cases i
  all_goals cases op
  all_goals simp only [StreamOp.runIn, BSP_AUDIO_IN_Record, BSP_AUDIO_IN_Pause,
    BSP_AUDIO_IN_Resume, BSP_AUDIO_IN_Stop, BSP_AUDIO_IN_DeInit]
  all_goals repeat' (with_reducible apply ite_elim (FollowsTable _ _ _ s) <;> intro _)
  all_goals (simp only [FollowsTable, transitionTable]; (try split_ifs) <;>
    (try simp_all [AudioState.Audio_In_Ctx]) <;> (try omega))

/-! ## The sample loops of the interrupt handlers -/

/-- What the loop of the I2S Rx handlers leaves at every sample index. -/
theorem I2S_Rx_loop_spec (left : Nat) : ∀ (RecBuff : Nat → Nat) (index k : Nat),
    I2S_Rx_loop RecBuff index left k
      = if 2 * index ≤ k ∧ k < 2 * (index + left) ∧ k % 2 = 1 then RecBuff (k - 1)
        else RecBuff k := by
  induction left with
  | zero =>
    intro RecBuff index k
    rw [I2S_Rx_loop, if_neg (by omega)]
  | succ n ih =>
    intro RecBuff index k
    rw [I2S_Rx_loop, ih]
    by_cases h1 : k = 2 * index + 1
    · subst h1
      rw [if_neg (by omega), if_pos (by omega), Function.update_same]
      congr 1
    · by_cases h2 : 2 * (index + 1) ≤ k ∧ k < 2 * (index + 1 + n) ∧ k % 2 = 1
      · rw [if_pos h2, if_pos (by omega), Function.update_noteq (by omega)]
      · rw [if_neg h2, Function.update_noteq h1, if_neg (by omega)]

/-- The macro `SaturaLH` with the 16-bit bounds is the clamp of the specification. -/
theorem SaturaLH_eq_clamp (r : Int) :
    SaturaLH (Int.tdiv r 256) (-32768) 32767 = clampDiv256 r := by
  unfold SaturaLH clampDiv256
  split_ifs <;> omega

/-- The clamp stays in the signed 16-bit range. -/
theorem clampDiv256_range (r : Int) : -32768 ≤ clampDiv256 r ∧ clampDiv256 r ≤ 32767 := by
  unfold clampDiv256
  omega

/-- The two bytes the MDF handlers store for a value in the signed 16-bit range are its
little-endian 16-bit encoding. -/
theorem bytes_eq_int16LE (t : Int) (h1 : -32768 ≤ t) (h2 : t ≤ 32767) :
    (t % 256).toNat = (int16LE t).1
    ∧ ((t % 4294967296).toNat >>> 8) % 256 = (int16LE t).2 := by
  unfold int16LE
  simp only [Nat.shiftRight_eq_div_pow]
  constructor <;> omega

/-- What the loop of the MDF handlers leaves at every byte offset. -/
theorem MDF_Acq_loop_spec (scratch : Nat → Int) (left : Nat) :
    ∀ (pBuff : Nat → Nat) (index k : Nat),
    MDF_Acq_loop scratch pBuff index left k
      = if 2 * index ≤ k ∧ k < 2 * (index + left) then
          (if k % 2 = 0 then (int16LE (clampDiv256 (scratch (k / 2)))).1
           else (int16LE (clampDiv256 (scratch (k / 2)))).2)
        else pBuff k := by
  induction left with
  | zero =>
    intro pBuff index k
    rw [MDF_Acq_loop, if_neg (by omega)]
  | succ n ih =>
    intro pBuff index k
    have hb := bytes_eq_int16LE (clampDiv256 (scratch index)) (clampDiv256_range _).1
      (clampDiv256_range _).2
    rw [MDF_Acq_loop]
    simp only [SaturaLH_eq_clamp]
    rw [ih]
    by_cases h1 : k = 2 * index + 1
    · subst h1
      have hd : (2 * index + 1) / 2 = index := by omega
      rw [if_neg (by omega), Function.update_same, if_pos (by omega), if_neg (by omega), hd,
        hb.2]
    · by_cases h0 : k = 2 * index
      · subst h0
        have hd : 2 * index / 2 = index := by omega
        rw [if_neg (by omega), Function.update_noteq h1, Function.update_same,
          if_pos (by omega), if_pos (by omega), hd, hb.1]
      · by_cases h2 : 2 * (index + 1) ≤ k ∧ k < 2 * (index + 1 + n)
        · rw [if_pos h2]
          rw [if_pos (show 2 * index ≤ k ∧ k < 2 * (index + (n + 1)) from by omega)]
        · rw [if_neg h2, Function.update_noteq h1, Function.update_noteq h0]
          rw [if_neg (show ¬ (2 * index ≤ k ∧ k < 2 * (index + (n + 1))) from by omega)]

/-! ## Start and Stop in sequence -/

/-- `BSP_AUDIO_OUT_Play` leaves the configured parameters as they were. -/
theorem OUT_Play_configKept (h : Hal) (i p n : Nat) (s : AudioState) :
    OutConfigKept s (BSP_AUDIO_OUT_Play h i p n s) := by
  simp only [BSP_AUDIO_OUT_Play]
  repeat' (with_reducible apply ite_elim (OutConfigKept s) <;> intro _)
  all_goals simp [OutConfigKept, AUDIO_OUT_Ctx_t.config]

/-- `BSP_AUDIO_OUT_Stop` leaves the configured parameters as they were. -/
theorem OUT_Stop_configKept (h : Hal) (i : Nat) (s : AudioState) :
    OutConfigKept s (BSP_AUDIO_OUT_Stop h i s) := by
  simp only [BSP_AUDIO_OUT_Stop]
  repeat' (with_reducible apply ite_elim (OutConfigKept s) <;> intro _)
  all_goals simp [OutConfigKept, AUDIO_OUT_Ctx_t.config]

/-- `BSP_AUDIO_IN_Record` leaves the configured parameters as they were. -/
theorem IN_Record_configKept (c : BoardConf) (h : Hal) (i : Nat)
    (hi : i < AUDIO_IN_INSTANCES_NBR) (p n : Nat) (s : AudioState) :
    InConfigKept i s (BSP_AUDIO_IN_Record c h i p n s) := by
  simp only [AUDIO_IN_INSTANCES_NBR] at hi
  interval_cases i
  all_goals simp only [BSP_AUDIO_IN_Record]
  all_goals repeat' (with_reducible apply ite_elim (InConfigKept _ s) <;> intro _)
  all_goals simp_all [InConfigKept, AUDIO_IN_Ctx_t.config, AudioState.Audio_In_Ctx]

/-- `BSP_AUDIO_IN_Stop` leaves the configured parameters as they were. -/
theorem IN_Stop_configKept (h : Hal) (i : Nat) (hi : i < AUDIO_IN_INSTANCES_NBR)
    (s : AudioState) : InConfigKept i s (BSP_AUDIO_IN_Stop h i s) := by
  simp only [AUDIO_IN_INSTANCES_NBR] at hi
  interval_cases i
  all_goals simp only [BSP_AUDIO_IN_Stop]
  all_goals repeat' (with_reducible apply ite_elim (InConfigKept _ s) <;> intro _)
  all_goals simp_all [InConfigKept, AUDIO_IN_Ctx_t.config, AudioState.Audio_In_Ctx]

/-- A successful `BSP_AUDIO_OUT_Init` leaves the output Stopped with the requested
parameters. -/
theorem OUT_Init_done (c : BoardConf) (h : Hal) (i : Nat) (a : BSP_AUDIO_Init_t)
    (s : AudioState) : InitOutDone a (BSP_AUDIO_OUT_Init c h i a s) := by
  simp only [BSP_AUDIO_OUT_Init, BSP_AUDIO_OUT_Init_i2s, BSP_AUDIO_OUT_Init_codec]
  repeat' (with_reducible apply ite_elim (InitOutDone a) <;> intro _)
  all_goals simp [InitOutDone, AUDIO_OUT_Ctx_t.config]

/-- A successful `BSP_AUDIO_IN_Init` leaves the input Stopped with the requested
parameters. -/
theorem IN_Init_done (c : BoardConf) (h : Hal) (i : Nat) (hi : i < AUDIO_IN_INSTANCES_NBR)
    (a : BSP_AUDIO_Init_t) (s : AudioState) :
    InitInDone i a (BSP_AUDIO_IN_Init c h i a s) := by
  simp only [AUDIO_IN_INSTANCES_NBR] at hi
  interval_cases i
  all_goals simp only [BSP_AUDIO_IN_Init, BSP_AUDIO_IN_Init_0, BSP_AUDIO_IN_Init_0_i2s,
    BSP_AUDIO_IN_Init_1, BSP_AUDIO_IN_Init_1_mdf]
  all_goals repeat' (with_reducible apply ite_elim (InitInDone _ a) <;> intro _)
  all_goals (simp_all [InitInDone, AUDIO_IN_Ctx_t.config, AudioState.Audio_In_Ctx] <;>
    (cases a; simp_all))

/-- From a Stopped output, with valid arguments and collaborators that succeed, the round trip
returns `BSP_ERROR_NONE` at every step and ends Playing with the configured parameters kept. -/
theorem roundTripOut_ok (c : BoardConf) (h : Hal) (p len : Nat) (hp : p ≠ 0)
    (hlen : len ≤ 65535) (hok : h.streamOk) (n : Nat) : ∀ s : AudioState,
    s.Audio_Out_Ctx.State = AUDIO_OUT_STATE_STOP →
    (runOps c h (roundTripOut p len n) s).1 = List.replicate (2 * n + 1) (some BSP_ERROR_NONE)
    ∧ (runOps c h (roundTripOut p len n) s).2.Audio_Out_Ctx.State = AUDIO_OUT_STATE_PLAYING
    ∧ (runOps c h (roundTripOut p len n) s).2.Audio_Out_Ctx.config
        = s.Audio_Out_Ctx.config := by
  induction n with
  | zero =>
    intro s h0
    have t := runOut_followsTable c h StreamOp.Start p len s hp hlen hok
    have k := OUT_Play_configKept h 0 p len s
    simp only [FollowsTable, transitionTable, StreamOp.runOut, h0, if_true] at t
    exact ⟨by simp [runOps, roundTripOut, step, t.1], by simpa [runOps, roundTripOut, step] using t.2.1,
      by simpa [runOps, roundTripOut, step] using k⟩
  | succ n ih =>
    intro s h0
    have t := runOut_followsTable c h StreamOp.Start p len s hp hlen hok
    have k := OUT_Play_configKept h 0 p len s
    simp only [FollowsTable, transitionTable, StreamOp.runOut, h0, if_true] at t
    have t2 := runOut_followsTable c h StreamOp.Stop p len (BSP_AUDIO_OUT_Play h 0 p len s).2
      hp hlen hok
    have k2 := OUT_Stop_configKept h 0 (BSP_AUDIO_OUT_Play h 0 p len s).2
    simp only [FollowsTable, transitionTable, StreamOp.runOut, t.2.1, true_or, if_true] at t2
    have w := ih (BSP_AUDIO_OUT_Stop h 0 (BSP_AUDIO_OUT_Play h 0 p len s).2).2 t2.2.1
    refine ⟨?_, ?_, ?_⟩
    · simp only [runOps, roundTripOut, step, t.1, t2.1, w.1]
      rw [show 2 * (n + 1) + 1 = (2 * n + 1) + 1 + 1 from by omega]
      rfl
    · simpa only [runOps, roundTripOut, step] using w.2.1
    · simp only [runOps, roundTripOut, step]
      rw [w.2.2, k2, k]

/-- From a Stopped input, with valid arguments and collaborators that succeed, the round trip
returns `BSP_ERROR_NONE` at every step and ends Recording with the configured parameters
kept. -/
theorem roundTripIn_ok (c : BoardConf) (h : Hal) (i : Nat) (hi : i < AUDIO_IN_INSTANCES_NBR)
    (p len : Nat) (hp : p ≠ 0) (hlen : len ≤ 65535)
    (hbuf : i = 1 → len / 2 ≤ c.DEFAULT_AUDIO_IN_BUFFER_SIZE) (hok : h.streamOk) (n : Nat) :
    ∀ s : AudioState, (s.Audio_In_Ctx i).State = AUDIO_IN_STATE_STOP →
    (runOps c h (roundTripIn i p len n) s).1 = List.replicate (2 * n + 1) (some BSP_ERROR_NONE)
    ∧ ((runOps c h (roundTripIn i p len n) s).2.Audio_In_Ctx i).State
        = AUDIO_IN_STATE_RECORDING
    ∧ ((runOps c h (roundTripIn i p len n) s).2.Audio_In_Ctx i).config
        = (s.Audio_In_Ctx i).config := by
  induction n with
  | zero =>
    intro s h0
    have t := runIn_followsTable c h StreamOp.Start i hi p len s hp hlen hbuf hok
    have k := IN_Record_configKept c h i hi p len s
    simp only [FollowsTable, transitionTable, StreamOp.runIn, h0, if_true] at t
    exact ⟨by simp [runOps, roundTripIn, step, t.1],
      by simpa [runOps, roundTripIn, step] using t.2.1,
      by simpa [runOps, roundTripIn, step] using k⟩
  | succ n ih =>
    intro s h0
    have t := runIn_followsTable c h StreamOp.Start i hi p len s hp hlen hbuf hok
    have k := IN_Record_configKept c h i hi p len s
    simp only [FollowsTable, transitionTable, StreamOp.runIn, h0, if_true] at t
    have t2 := runIn_followsTable c h StreamOp.Stop i hi p len
      (BSP_AUDIO_IN_Record c h i p len s).2 hp hlen hbuf hok
    have k2 := IN_Stop_configKept h i hi (BSP_AUDIO_IN_Record c h i p len s).2
    simp only [FollowsTable, transitionTable, StreamOp.runIn, t.2.1, true_or, if_true] at t2
    have w := ih (BSP_AUDIO_IN_Stop h i (BSP_AUDIO_IN_Record c h i p len s).2).2 t2.2.1
    refine ⟨?_, ?_, ?_⟩
    · simp only [runOps, roundTripIn, step, t.1, t2.1, w.1]
      rw [show 2 * (n + 1) + 1 = (2 * n + 1) + 1 + 1 from by omega]
      rfl
    · simpa only [runOps, roundTripIn, step] using w.2.1
    · simp only [runOps, roundTripIn, step]
      rw [w.2.2, k2, k]

/-- A successful `BSP_AUDIO_OUT_Mute` leaves the output out of Reset and muted. -/
theorem OUT_Mute_muted (h : Hal) (i : Nat) (s : AudioState) :
    MuteDone (BSP_AUDIO_OUT_Mute h i s) := by
  simp only [BSP_AUDIO_OUT_Mute]
  repeat' (with_reducible apply ite_elim MuteDone <;> intro _)
  all_goals simp_all [MuteDone]

/-! ## Setters, DeInit and the capability checks -/

/-- `BSP_AUDIO_OUT_SetSampleRate` on the output meets its contract. -/
theorem OUT_SetSampleRate_contract (c : BoardConf) (h : Hal) (f : Nat) (s : AudioState) :
    SetRateOut h f s (BSP_AUDIO_OUT_SetSampleRate c h 0 f s) := by
  simp only [BSP_AUDIO_OUT_SetSampleRate]
  repeat' (with_reducible apply ite_elim (SetRateOut h f s) <;> intro _)
  all_goals simp_all [SetRateOut, BSP_AUDIO_OUT_GetSampleRate]

/-- `BSP_AUDIO_IN_SetSampleRate` on input 0 or 1 meets its contract. -/
theorem IN_SetSampleRate_contract (c : BoardConf) (h : Hal) (i : Nat)
    (hi : i < AUDIO_IN_INSTANCES_NBR) (f : Nat) (s : AudioState) :
    SetRateIn h i f s (BSP_AUDIO_IN_SetSampleRate c h i f s) := by
  simp only [AUDIO_IN_INSTANCES_NBR] at hi
  interval_cases i
  all_goals simp only [BSP_AUDIO_IN_SetSampleRate, BSP_AUDIO_IN_SetSampleRate_0,
    BSP_AUDIO_IN_SetSampleRate_1]
  all_goals repeat' (with_reducible apply ite_elim (SetRateIn h _ f s) <;> intro _)
  all_goals simp_all [SetRateIn, inClockConfig, BSP_AUDIO_IN_GetSampleRate,
    AudioState.Audio_In_Ctx]

/-- A successful `BSP_AUDIO_OUT_DeInit` resets `State` and `IsMute` and nothing else of the
output context. -/
theorem OUT_DeInit_ctx (c : BoardConf) (h : Hal) (i : Nat) (s : AudioState) :
    DeInitOutCtx s (BSP_AUDIO_OUT_DeInit c h i s) := by
  simp only [BSP_AUDIO_OUT_DeInit]
  repeat' (with_reducible apply ite_elim (DeInitOutCtx s) <;> intro _)
  all_goals simp_all [DeInitOutCtx]

/-- The capability check of `BSP_AUDIO_OUT_Init` on the output. -/
theorem OUT_Init_cap (c : BoardConf) (h : Hal) (a : BSP_AUDIO_Init_t) (s : AudioState) :
    InitCapOut a s (BSP_AUDIO_OUT_Init c h 0 a s) := by
  simp only [BSP_AUDIO_OUT_Init, BSP_AUDIO_OUT_Init_i2s, BSP_AUDIO_OUT_Init_codec]
  repeat' (with_reducible apply ite_elim (InitCapOut a s) <;> intro _)
  all_goals simp_all [InitCapOut]

/-- The capability check of `BSP_AUDIO_IN_Init` on input 0 or 1. -/
theorem IN_Init_cap (c : BoardConf) (h : Hal) (i : Nat) (hi : i < AUDIO_IN_INSTANCES_NBR)
    (a : BSP_AUDIO_Init_t) (s : AudioState) :
    InitCapIn i a s (BSP_AUDIO_IN_Init c h i a s) := by
  simp only [AUDIO_IN_INSTANCES_NBR] at hi
  interval_cases i
  all_goals simp only [BSP_AUDIO_IN_Init, BSP_AUDIO_IN_Init_0, BSP_AUDIO_IN_Init_0_i2s,
    BSP_AUDIO_IN_Init_1, BSP_AUDIO_IN_Init_1_mdf]
  all_goals repeat' (with_reducible apply ite_elim (InitCapIn _ a s) <;> intro _)
  all_goals simp_all [InitCapIn, inChannels]

/-! ## The record buffers stay usable: one lemma per operation -/

/-- `BSP_AUDIO_OUT_Init` keeps the record buffers usable. -/
theorem OUT_Init_keepsBuf (c : BoardConf) (h : Hal) (i : Nat) (a : BSP_AUDIO_Init_t) (s : AudioState) :
    KeepsBufInv s (BSP_AUDIO_OUT_Init c h i a s) := by
  simp only [BSP_AUDIO_OUT_Init, BSP_AUDIO_OUT_Init_i2s, BSP_AUDIO_OUT_Init_codec]
  repeat' (with_reducible apply ite_elim (KeepsBufInv s) <;> intro _)
  all_goals (intro hI; simp only [BufInv, BufValid] at hI ⊢; simp_all [AudioState.Audio_In_Ctx] <;> omega)

/-- `BSP_AUDIO_OUT_DeInit` keeps the record buffers usable. -/
theorem OUT_DeInit_keepsBuf (c : BoardConf) (h : Hal) (i : Nat) (s : AudioState) :
    KeepsBufInv s (BSP_AUDIO_OUT_DeInit c h i s) := by
  simp only [BSP_AUDIO_OUT_DeInit]
  repeat' (with_reducible apply ite_elim (KeepsBufInv s) <;> intro _)
  all_goals (intro hI; simp only [BufInv, BufValid] at hI ⊢; simp_all [AudioState.Audio_In_Ctx] <;> omega)

/-- `BSP_AUDIO_OUT_Play` keeps the record buffers usable. -/
theorem OUT_Play_keepsBuf (h : Hal) (i p n : Nat) (s : AudioState) :
    KeepsBufInv s (BSP_AUDIO_OUT_Play h i p n s) := by
  simp only [BSP_AUDIO_OUT_Play]
  repeat' (with_reducible apply ite_elim (KeepsBufInv s) <;> intro _)
  all_goals (intro hI; simp only [BufInv, BufValid] at hI ⊢; simp_all [AudioState.Audio_In_Ctx] <;> omega)

/-- `BSP_AUDIO_OUT_Pause` keeps the record buffers usable. -/
theorem OUT_Pause_keepsBuf (h : Hal) (i : Nat) (s : AudioState) :
    KeepsBufInv s (BSP_AUDIO_OUT_Pause h i s) := by
  simp only [BSP_AUDIO_OUT_Pause]
  repeat' (with_reducible apply ite_elim (KeepsBufInv s) <;> intro _)
  all_goals (intro hI; simp only [BufInv, BufValid] at hI ⊢; simp_all [AudioState.Audio_In_Ctx] <;> omega)

/-- `BSP_AUDIO_OUT_Resume` keeps the record buffers usable. -/
theorem OUT_Resume_keepsBuf (h : Hal) (i : Nat) (s : AudioState) :
    KeepsBufInv s (BSP_AUDIO_OUT_Resume h i s) := by
  simp only [BSP_AUDIO_OUT_Resume]
  repeat' (with_reducible apply ite_elim (KeepsBufInv s) <;> intro _)
  all_goals (intro hI; simp only [BufInv, BufValid] at hI ⊢; simp_all [AudioState.Audio_In_Ctx] <;> omega)

/-- `BSP_AUDIO_OUT_Stop` keeps the record buffers usable. -/
theorem OUT_Stop_keepsBuf (h : Hal) (i : Nat) (s : AudioState) :
    KeepsBufInv s (BSP_AUDIO_OUT_Stop h i s) := by
  simp only [BSP_AUDIO_OUT_Stop]
  repeat' (with_reducible apply ite_elim (KeepsBufInv s) <;> intro _)
  all_goals (intro hI; simp only [BufInv, BufValid] at hI ⊢; simp_all [AudioState.Audio_In_Ctx] <;> omega)

/-- `BSP_AUDIO_OUT_Mute` keeps the record buffers usable. -/
theorem OUT_Mute_keepsBuf (h : Hal) (i : Nat) (s : AudioState) :
    KeepsBufInv s (BSP_AUDIO_OUT_Mute h i s) := by
  simp only [BSP_AUDIO_OUT_Mute]
  repeat' (with_reducible apply ite_elim (KeepsBufInv s) <;> intro _)
  all_goals (intro hI; simp only [BufInv, BufValid] at hI ⊢; simp_all [AudioState.Audio_In_Ctx] <;> omega)

/-- `BSP_AUDIO_OUT_UnMute` keeps the record buffers usable. -/
theorem OUT_UnMute_keepsBuf (h : Hal) (i : Nat) (s : AudioState) :
    KeepsBufInv s (BSP_AUDIO_OUT_UnMute h i s) := by
  simp only [BSP_AUDIO_OUT_UnMute]
  repeat' (with_reducible apply ite_elim (KeepsBufInv s) <;> intro _)
  all_goals (intro hI; simp only [BufInv, BufValid] at hI ⊢; simp_all [AudioState.Audio_In_Ctx] <;> omega)

/-- `BSP_AUDIO_OUT_SetVolume` keeps the record buffers usable. -/
theorem OUT_SetVolume_keepsBuf (h : Hal) (i v : Nat) (s : AudioState) :
    KeepsBufInv s (BSP_AUDIO_OUT_SetVolume h i v s) := by
  simp only [BSP_AUDIO_OUT_SetVolume]
  repeat' (with_reducible apply ite_elim (KeepsBufInv s) <;> intro _)
  all_goals (intro hI; simp only [BufInv, BufValid] at hI ⊢; simp_all [AudioState.Audio_In_Ctx] <;> omega)

/-- `BSP_AUDIO_OUT_SetSampleRate` keeps the record buffers usable. -/
theorem OUT_SetSampleRate_keepsBuf (c : BoardConf) (h : Hal) (i f : Nat) (s : AudioState) :
    KeepsBufInv s (BSP_AUDIO_OUT_SetSampleRate c h i f s) := by
  simp only [BSP_AUDIO_OUT_SetSampleRate]
  repeat' (with_reducible apply ite_elim (KeepsBufInv s) <;> intro _)
  all_goals (intro hI; simp only [BufInv, BufValid] at hI ⊢; simp_all [AudioState.Audio_In_Ctx] <;> omega)

/-- `BSP_AUDIO_OUT_SetDevice` keeps the record buffers usable. -/
theorem OUT_SetDevice_keepsBuf (i d : Nat) (s : AudioState) :
    KeepsBufInv s (BSP_AUDIO_OUT_SetDevice i d s) := by
  simp only [BSP_AUDIO_OUT_SetDevice]
  repeat' (with_reducible apply ite_elim (KeepsBufInv s) <;> intro _)
  all_goals (intro hI; simp only [BufInv, BufValid] at hI ⊢; simp_all [AudioState.Audio_In_Ctx] <;> omega)

/-- `BSP_AUDIO_OUT_SetBitsPerSample` keeps the record buffers usable. -/
theorem OUT_SetBitsPerSample_keepsBuf (c : BoardConf) (h : Hal) (i b : Nat) (s : AudioState) :
    KeepsBufInv s (BSP_AUDIO_OUT_SetBitsPerSample c h i b s) := by
  simp only [BSP_AUDIO_OUT_SetBitsPerSample]
  repeat' (with_reducible apply ite_elim (KeepsBufInv s) <;> intro _)
  all_goals (intro hI; simp only [BufInv, BufValid] at hI ⊢; simp_all [AudioState.Audio_In_Ctx] <;> omega)

/-- `BSP_AUDIO_OUT_SetChannelsNbr` keeps the record buffers usable. -/
theorem OUT_SetChannelsNbr_keepsBuf (i n : Nat) (s : AudioState) :
    KeepsBufInv s (BSP_AUDIO_OUT_SetChannelsNbr i n s) := by
  simp only [BSP_AUDIO_OUT_SetChannelsNbr]
  repeat' (with_reducible apply ite_elim (KeepsBufInv s) <;> intro _)
  all_goals (intro hI; simp only [BufInv, BufValid] at hI ⊢; simp_all [AudioState.Audio_In_Ctx] <;> omega)

/-- `BSP_AUDIO_OUT_RegisterDefaultMspCallbacks` keeps the record buffers usable. -/
theorem OUT_RegisterDefaultMspCallbacks_keepsBuf (h : Hal) (i : Nat) (s : AudioState) :
    KeepsBufInv s (BSP_AUDIO_OUT_RegisterDefaultMspCallbacks h i s) := by
  simp only [BSP_AUDIO_OUT_RegisterDefaultMspCallbacks]
  repeat' (with_reducible apply ite_elim (KeepsBufInv s) <;> intro _)
  all_goals (intro hI; simp only [BufInv, BufValid] at hI ⊢; simp_all [AudioState.Audio_In_Ctx] <;> omega)

/-- `BSP_AUDIO_IN_Init` keeps the record buffers usable. -/
theorem IN_Init_keepsBuf (c : BoardConf) (h : Hal) (i : Nat) (a : BSP_AUDIO_Init_t) (s : AudioState) :
    KeepsBufInv s (BSP_AUDIO_IN_Init c h i a s) := by
  rcases Nat.lt_or_ge i AUDIO_IN_INSTANCES_NBR with hi | hi
  · simp only [AUDIO_IN_INSTANCES_NBR] at hi
    interval_cases i
    all_goals simp only [BSP_AUDIO_IN_Init, BSP_AUDIO_IN_Init_0, BSP_AUDIO_IN_Init_0_i2s, BSP_AUDIO_IN_Init_1, BSP_AUDIO_IN_Init_1_mdf]
    all_goals repeat' (with_reducible apply ite_elim (KeepsBufInv s) <;> intro _)
    all_goals (intro hI; simp only [BufInv, BufValid] at hI ⊢; simp_all [AudioState.Audio_In_Ctx] <;> omega)
  · unfold BSP_AUDIO_IN_Init
    rw [if_pos (by first | exact hi | exact Or.inl hi)]
    exact fun hI => hI

/-- `BSP_AUDIO_IN_DeInit` keeps the record buffers usable. -/
theorem IN_DeInit_keepsBuf (c : BoardConf) (h : Hal) (i : Nat) (s : AudioState) :
    KeepsBufInv s (BSP_AUDIO_IN_DeInit c h i s) := by
  rcases Nat.lt_or_ge i AUDIO_IN_INSTANCES_NBR with hi | hi
  · simp only [AUDIO_IN_INSTANCES_NBR] at hi
    interval_cases i
    all_goals simp only [BSP_AUDIO_IN_DeInit]
    all_goals repeat' (with_reducible apply ite_elim (KeepsBufInv s) <;> intro _)
    all_goals (intro hI; simp only [BufInv, BufValid] at hI ⊢; simp_all [AudioState.Audio_In_Ctx] <;> omega)
  · unfold BSP_AUDIO_IN_DeInit
    rw [if_pos (by first | exact hi | exact Or.inl hi)]
    exact fun hI => hI

/-- `BSP_AUDIO_IN_Record` keeps the record buffers usable. -/
theorem IN_Record_keepsBuf (c : BoardConf) (h : Hal) (i p n : Nat) (s : AudioState) :
    KeepsBufInv s (BSP_AUDIO_IN_Record c h i p n s) := by
  rcases Nat.lt_or_ge i AUDIO_IN_INSTANCES_NBR with hi | hi
  · simp only [AUDIO_IN_INSTANCES_NBR] at hi
    interval_cases i
    all_goals simp only [BSP_AUDIO_IN_Record]
    all_goals repeat' (with_reducible apply ite_elim (KeepsBufInv s) <;> intro _)
    all_goals (intro hI; simp only [BufInv, BufValid] at hI ⊢; simp_all [AudioState.Audio_In_Ctx] <;> omega)
  · unfold BSP_AUDIO_IN_Record
    rw [if_pos (by first | exact hi | exact Or.inl hi)]
    exact fun hI => hI

/-- `BSP_AUDIO_IN_Pause` keeps the record buffers usable. -/
theorem IN_Pause_keepsBuf (h : Hal) (i : Nat) (s : AudioState) :
    KeepsBufInv s (BSP_AUDIO_IN_Pause h i s) := by
  rcases Nat.lt_or_ge i AUDIO_IN_INSTANCES_NBR with hi | hi
  · simp only [AUDIO_IN_INSTANCES_NBR] at hi
    interval_cases i
    all_goals simp only [BSP_AUDIO_IN_Pause]
    all_goals repeat' (with_reducible apply ite_elim (KeepsBufInv s) <;> intro _)
    all_goals (intro hI; simp only [BufInv, BufValid] at hI ⊢; simp_all [AudioState.Audio_In_Ctx] <;> omega)
  · unfold BSP_AUDIO_IN_Pause
    rw [if_pos (by first | exact hi | exact Or.inl hi)]
    exact fun hI => hI

/-- `BSP_AUDIO_IN_Resume` keeps the record buffers usable. -/
theorem IN_Resume_keepsBuf (h : Hal) (i : Nat) (s : AudioState) :
    KeepsBufInv s (BSP_AUDIO_IN_Resume h i s) := by
  rcases Nat.lt_or_ge i AUDIO_IN_INSTANCES_NBR with hi | hi
  · simp only [AUDIO_IN_INSTANCES_NBR] at hi
    interval_cases i
    all_goals simp only [BSP_AUDIO_IN_Resume]
    all_goals repeat' (with_reducible apply ite_elim (KeepsBufInv s) <;> intro _)
    all_goals (intro hI; simp only [BufInv, BufValid] at hI ⊢; simp_all [AudioState.Audio_In_Ctx] <;> omega)
  · unfold BSP_AUDIO_IN_Resume
    rw [if_pos (by first | exact hi | exact Or.inl hi)]
    exact fun hI => hI

/-- `BSP_AUDIO_IN_Stop` keeps the record buffers usable. -/
theorem IN_Stop_keepsBuf (h : Hal) (i : Nat) (s : AudioState) :
    KeepsBufInv s (BSP_AUDIO_IN_Stop h i s) := by
  rcases Nat.lt_or_ge i AUDIO_IN_INSTANCES_NBR with hi | hi
  · simp only [AUDIO_IN_INSTANCES_NBR] at hi
    interval_cases i
    all_goals simp only [BSP_AUDIO_IN_Stop]
    all_goals repeat' (with_reducible apply ite_elim (KeepsBufInv s) <;> intro _)
    all_goals (intro hI; simp only [BufInv, BufValid] at hI ⊢; simp_all [AudioState.Audio_In_Ctx] <;> omega)
  · unfold BSP_AUDIO_IN_Stop
    rw [if_pos (by first | exact hi | exact Or.inl hi)]
    exact fun hI => hI

/-- `BSP_AUDIO_IN_SetVolume` keeps the record buffers usable. -/
theorem IN_SetVolume_keepsBuf (i v : Nat) (s : AudioState) :
    KeepsBufInv s (BSP_AUDIO_IN_SetVolume i v s) := by
  simp only [BSP_AUDIO_IN_SetVolume]
  repeat' (with_reducible apply ite_elim (KeepsBufInv s) <;> intro _)
  all_goals (intro hI; simp only [BufInv, BufValid] at hI ⊢; simp_all [AudioState.Audio_In_Ctx] <;> omega)

/-- `BSP_AUDIO_IN_SetSampleRate` keeps the record buffers usable. -/
theorem IN_SetSampleRate_keepsBuf (c : BoardConf) (h : Hal) (i f : Nat) (s : AudioState) :
    KeepsBufInv s (BSP_AUDIO_IN_SetSampleRate c h i f s) := by
  rcases Nat.lt_or_ge i AUDIO_IN_INSTANCES_NBR with hi | hi
  · simp only [AUDIO_IN_INSTANCES_NBR] at hi
    interval_cases i
    all_goals simp only [BSP_AUDIO_IN_SetSampleRate, BSP_AUDIO_IN_SetSampleRate_0, BSP_AUDIO_IN_SetSampleRate_1]
    all_goals repeat' (with_reducible apply ite_elim (KeepsBufInv s) <;> intro _)
    all_goals (intro hI; simp only [BufInv, BufValid] at hI ⊢; simp_all [AudioState.Audio_In_Ctx] <;> omega)
  · unfold BSP_AUDIO_IN_SetSampleRate
    rw [if_pos (by first | exact hi | exact Or.inl hi)]
    exact fun hI => hI

/-- `BSP_AUDIO_IN_SetDevice` keeps the record buffers usable. -/
theorem IN_SetDevice_keepsBuf (i d : Nat) (s : AudioState) :
    KeepsBufInv s (BSP_AUDIO_IN_SetDevice i d s) := by
  simp only [BSP_AUDIO_IN_SetDevice]
  repeat' (with_reducible apply ite_elim (KeepsBufInv s) <;> intro _)
  all_goals (intro hI; simp only [BufInv, BufValid] at hI ⊢; simp_all [AudioState.Audio_In_Ctx] <;> omega)

/-- `BSP_AUDIO_IN_SetBitsPerSample` keeps the record buffers usable. -/
theorem IN_SetBitsPerSample_keepsBuf (i b : Nat) (s : AudioState) :
    KeepsBufInv s (BSP_AUDIO_IN_SetBitsPerSample i b s) := by
  simp only [BSP_AUDIO_IN_SetBitsPerSample]
  repeat' (with_reducible apply ite_elim (KeepsBufInv s) <;> intro _)
  all_goals (intro hI; simp only [BufInv, BufValid] at hI ⊢; simp_all [AudioState.Audio_In_Ctx] <;> omega)

/-- `BSP_AUDIO_IN_SetChannelsNbr` keeps the record buffers usable. -/
theorem IN_SetChannelsNbr_keepsBuf (i n : Nat) (s : AudioState) :
    KeepsBufInv s (BSP_AUDIO_IN_SetChannelsNbr i n s) := by
  simp only [BSP_AUDIO_IN_SetChannelsNbr]
  repeat' (with_reducible apply ite_elim (KeepsBufInv s) <;> intro _)
  all_goals (intro hI; simp only [BufInv, BufValid] at hI ⊢; simp_all [AudioState.Audio_In_Ctx] <;> omega)

/-- `BSP_AUDIO_IN_RegisterDefaultMspCallbacks` keeps the record buffers usable. -/
theorem IN_RegisterDefaultMspCallbacks_keepsBuf (h : Hal) (i : Nat) (s : AudioState) :
    KeepsBufInv s (BSP_AUDIO_IN_RegisterDefaultMspCallbacks h i s) := by
  simp only [BSP_AUDIO_IN_RegisterDefaultMspCallbacks]
  repeat' (with_reducible apply ite_elim (KeepsBufInv s) <;> intro _)
  all_goals (intro hI; simp only [BufInv, BufValid] at hI ⊢; simp_all [AudioState.Audio_In_Ctx] <;> omega)

/-- Every public operation keeps the record buffers usable. -/
theorem step_keepsBuf (c : BoardConf) (h : Hal) (o : Op) (s : AudioState) (hI : BufInv s) :
    BufInv (step c h o s).2 := by
  cases o
  case OUT_Init i a => exact OUT_Init_keepsBuf c h i a s hI
  case OUT_DeInit i => exact OUT_DeInit_keepsBuf c h i s hI
  case OUT_Play i p n => exact OUT_Play_keepsBuf h i p n s hI
  case OUT_Pause i => exact OUT_Pause_keepsBuf h i s hI
  case OUT_Resume i => exact OUT_Resume_keepsBuf h i s hI
  case OUT_Stop i => exact OUT_Stop_keepsBuf h i s hI
  case OUT_Mute i => exact OUT_Mute_keepsBuf h i s hI
  case OUT_UnMute i => exact OUT_UnMute_keepsBuf h i s hI
  case OUT_IsMute i => exact hI
  case OUT_SetVolume i v => exact OUT_SetVolume_keepsBuf h i v s hI
  case OUT_GetVolume i => exact hI
  case OUT_SetSampleRate i f => exact OUT_SetSampleRate_keepsBuf c h i f s hI
  case OUT_GetSampleRate i => exact hI
  case OUT_SetDevice i d => exact OUT_SetDevice_keepsBuf i d s hI
  case OUT_GetDevice i => exact hI
  case OUT_SetBitsPerSample i b => exact OUT_SetBitsPerSample_keepsBuf c h i b s hI
  case OUT_GetBitsPerSample i => exact hI
  case OUT_SetChannelsNbr i n => exact OUT_SetChannelsNbr_keepsBuf i n s hI
  case OUT_GetChannelsNbr i => exact hI
  case OUT_GetState i => exact hI
  case OUT_RegisterDefaultMspCallbacks i => exact OUT_RegisterDefaultMspCallbacks_keepsBuf h i s hI
  case OUT_RegisterMspCallbacks i => exact OUT_RegisterDefaultMspCallbacks_keepsBuf h i s hI
  case OUT_IRQHandler i d =>
    simp only [step, BSP_AUDIO_OUT_IRQHandler, BSP_AUDIO_IN_IRQHandler]
    first | exact hI | (split_ifs <;> exact hI)
  case IN_Init i a => exact IN_Init_keepsBuf c h i a s hI
  case IN_DeInit i => exact IN_DeInit_keepsBuf c h i s hI
  case IN_Record i p n => exact IN_Record_keepsBuf c h i p n s hI
  case IN_Pause i => exact IN_Pause_keepsBuf h i s hI
  case IN_Resume i => exact IN_Resume_keepsBuf h i s hI
  case IN_Stop i => exact IN_Stop_keepsBuf h i s hI
  case IN_SetVolume i v => exact IN_SetVolume_keepsBuf i v s hI
  case IN_GetVolume i => exact hI
  case IN_SetSampleRate i f => exact IN_SetSampleRate_keepsBuf c h i f s hI
  case IN_GetSampleRate i => exact hI
  case IN_SetDevice i d => exact IN_SetDevice_keepsBuf i d s hI
  case IN_GetDevice i => exact hI
  case IN_SetBitsPerSample i b => exact IN_SetBitsPerSample_keepsBuf i b s hI
  case IN_GetBitsPerSample i => exact hI
  case IN_SetChannelsNbr i n => exact IN_SetChannelsNbr_keepsBuf i n s hI
  case IN_GetChannelsNbr i => exact hI
  case IN_GetState i => exact hI
  case IN_RegisterDefaultMspCallbacks i => exact IN_RegisterDefaultMspCallbacks_keepsBuf h i s hI
  case IN_RegisterMspCallbacks i => exact IN_RegisterDefaultMspCallbacks_keepsBuf h i s hI
  case IN_IRQHandler i d =>
    simp only [step, BSP_AUDIO_OUT_IRQHandler, BSP_AUDIO_IN_IRQHandler]
    first | exact hI | (split_ifs <;> exact hI)

/-- The initial globals have usable record buffers. -/
theorem initial_BufInv : BufInv AudioState.initial := by
  simp [BufInv, BufValid, AudioState.initial]

/-- In every reachable state the record buffers are usable. -/
theorem reachable_BufInv (c : BoardConf) (s : AudioState) (hr : Reachable c s) : BufInv s := by
  induction hr with
  | init => exact initial_BufInv
  | step h o s _ ih => exact step_keepsBuf c h o s ih

/-- `BSP_AUDIO_IN_Stop` leaves the buffer pointer and the length as they were. -/
theorem IN_Stop_bufKept (h : Hal) (i : Nat) (hi : i < AUDIO_IN_INSTANCES_NBR) (s : AudioState) :
    InBufKept i s (BSP_AUDIO_IN_Stop h i s) := by
  simp only [AUDIO_IN_INSTANCES_NBR] at hi
  interval_cases i
  all_goals simp only [BSP_AUDIO_IN_Stop]
  all_goals repeat' (with_reducible apply ite_elim (InBufKept _ s) <;> intro _)
  all_goals simp_all [InBufKept, AudioState.Audio_In_Ctx]

/-- The globals of the scenario in which the analog input is Recording are reachable. -/
theorem in0Recording_reachable : Reachable BoardConf.dk Scenario.in0Recording :=
  Reachable.step (Hal.allOk BoardConf.dk) (Op.IN_Record 0 Scenario.buf 4800)
    Scenario.in0Stopped in0Stopped_reachable

/-- The globals of the scenario in which the output was muted and given volume 70 are
reachable. -/
theorem outTuned_reachable : Reachable BoardConf.dk Scenario.outTuned :=
  Reachable.step (Hal.allOk BoardConf.dk) (Op.OUT_SetVolume 0 70) _
    (Reachable.step (Hal.allOk BoardConf.dk) (Op.OUT_Mute 0) Scenario.outStopped
      outStopped_reachable)

/-! ## Observations on the log: the collaborators -/

section LogObservations

variable (s : AudioState) (e : Ev) (l l2 : List Ev)

@[simp] theorem drvCalls_nil : drvCalls [] = 0 := rfl
@[simp] theorem drvCalls_append : drvCalls (l ++ l2) = drvCalls l + drvCalls l2 := by
  simp [drvCalls]
@[simp] theorem drvCalls_cons : drvCalls (e :: l) = (if e.isDrvCall then 1 else 0) + drvCalls l := by
  simp [drvCalls, List.countP_cons, Nat.add_comm]
@[simp] theorem acqStarts_nil : acqStarts [] = [] := rfl
@[simp] theorem acqStarts_append : acqStarts (l ++ l2) = acqStarts l ++ acqStarts l2 := by
  simp [acqStarts]
@[simp] theorem acqStarts_cons :
    acqStarts (e :: l) = e.acqStartArgs.toList ++ acqStarts l := by
  cases h : e.acqStartArgs <;> simp [acqStarts, List.filterMap_cons, h]

@[simp] theorem drvCalls_MX_I2S6_ClockConfig (h : Hal) (f : Nat) :
    drvCalls (MX_I2S6_ClockConfig h f).2 = 0 := by
  unfold MX_I2S6_ClockConfig; split_ifs <;> rfl
@[simp] theorem acqStarts_MX_I2S6_ClockConfig (h : Hal) (f : Nat) :
    acqStarts (MX_I2S6_ClockConfig h f).2 = [] := by
  unfold MX_I2S6_ClockConfig; split_ifs <;> rfl
@[simp] theorem drvCalls_MX_ADF1_ClockConfig (h : Hal) (f : Nat) :
    drvCalls (MX_ADF1_ClockConfig h f).2 = 0 := by
  unfold MX_ADF1_ClockConfig; split_ifs <;> rfl
@[simp] theorem acqStarts_MX_ADF1_ClockConfig (h : Hal) (f : Nat) :
    acqStarts (MX_ADF1_ClockConfig h f).2 = [] := by
  unfold MX_ADF1_ClockConfig; split_ifs <;> rfl
@[simp] theorem drvCalls_MX_I2S6_Init (h : Hal) (x : I2S_Handle) (m : MX_I2S_Config_t) :
    drvCalls (MX_I2S6_Init h x m).2 = 0 := rfl
@[simp] theorem acqStarts_MX_I2S6_Init (h : Hal) (x : I2S_Handle) (m : MX_I2S_Config_t) :
    acqStarts (MX_I2S6_Init h x m).2 = [] := rfl
@[simp] theorem drvCalls_I2S_RegisterCallbacks (h : Hal) (x : I2S_Handle)
    (a b d : I2S_CallbackID) : drvCalls (I2S_RegisterCallbacks h x a b d).2 = 0 := by
  unfold I2S_RegisterCallbacks; split_ifs <;> rfl
@[simp] theorem acqStarts_I2S_RegisterCallbacks (h : Hal) (x : I2S_Handle)
    (a b d : I2S_CallbackID) : acqStarts (I2S_RegisterCallbacks h x a b d).2 = [] := by
  unfold I2S_RegisterCallbacks; split_ifs <;> rfl
@[simp] theorem drvCalls_MDF_RegisterCallbacks (h : Hal) :
    drvCalls (MDF_RegisterCallbacks h).2 = 0 := by
  unfold MDF_RegisterCallbacks; split_ifs <;> rfl
@[simp] theorem acqStarts_MDF_RegisterCallbacks (h : Hal) :
    acqStarts (MDF_RegisterCallbacks h).2 = [] := by
  unfold MDF_RegisterCallbacks; split_ifs <;> rfl
@[simp] theorem drvCalls_I2S_MspInit (x : I2S_Handle) : drvCalls (I2S_MspInit x) = 0 := rfl
@[simp] theorem acqStarts_I2S_MspInit (x : I2S_Handle) : acqStarts (I2S_MspInit x) = [] := rfl
@[simp] theorem drvCalls_I2S_MspDeInit (x : I2S_Handle) : drvCalls (I2S_MspDeInit x) = 0 := rfl
@[simp] theorem acqStarts_I2S_MspDeInit (x : I2S_Handle) : acqStarts (I2S_MspDeInit x) = [] :=
  rfl
@[simp] theorem drvCalls_MDF_MspInit : drvCalls MDF_MspInit = 0 := rfl
@[simp] theorem acqStarts_MDF_MspInit : acqStarts MDF_MspInit = [] := rfl
@[simp] theorem drvCalls_MDF_MspDeInit : drvCalls MDF_MspDeInit = 0 := rfl
@[simp] theorem acqStarts_MDF_MspDeInit : acqStarts MDF_MspDeInit = [] := rfl

@[simp] theorem drvCalls_WM8904_Probe (c : BoardConf) (h : Hal) :
    drvCalls (WM8904_Probe c h s).2.log = drvCalls s.log := by
  unfold WM8904_Probe; split_ifs <;> simp [AudioState.emit, AudioState.emitAll, Ev.isDrvCall]
@[simp] theorem acqStarts_WM8904_Probe (c : BoardConf) (h : Hal) :
    acqStarts (WM8904_Probe c h s).2.log = acqStarts s.log := by
  unfold WM8904_Probe; split_ifs <;> simp [AudioState.emit, AudioState.emitAll, Ev.acqStartArgs]
@[simp] theorem WM8904_Probe_Drv (c : BoardConf) (h : Hal) :
    (WM8904_Probe c h s).2.Audio_Drv
      = (if (WM8904_Probe c h s).1 = BSP_ERROR_NONE then true else s.Audio_Drv) := by
  unfold WM8904_Probe; split_ifs <;> simp_all [AudioState.emit, AudioState.emitAll]
@[simp] theorem WM8904_Probe_CompObj (c : BoardConf) (h : Hal) :
    (WM8904_Probe c h s).2.Audio_CompObj
      = (if (WM8904_Probe c h s).1 = BSP_ERROR_NONE then true else s.Audio_CompObj) := by
  unfold WM8904_Probe; split_ifs <;> simp_all [AudioState.emit, AudioState.emitAll]
@[simp] theorem drvCalls_OUT_RegisterDefaultMspCallbacks (h : Hal) (n : Nat) :
    drvCalls (BSP_AUDIO_OUT_RegisterDefaultMspCallbacks h n s).2.log = drvCalls s.log := by
  unfold BSP_AUDIO_OUT_RegisterDefaultMspCallbacks
  split_ifs <;> simp [AudioState.emit, AudioState.emitAll, Ev.isDrvCall]
@[simp] theorem acqStarts_OUT_RegisterDefaultMspCallbacks (h : Hal) (n : Nat) :
    acqStarts (BSP_AUDIO_OUT_RegisterDefaultMspCallbacks h n s).2.log = acqStarts s.log := by
  unfold BSP_AUDIO_OUT_RegisterDefaultMspCallbacks
  split_ifs <;> simp [AudioState.emit, AudioState.emitAll, Ev.acqStartArgs]
@[simp] theorem drvCalls_IN_RegisterDefaultMspCallbacks (h : Hal) (n : Nat) :
    drvCalls (BSP_AUDIO_IN_RegisterDefaultMspCallbacks h n s).2.log = drvCalls s.log := by
  unfold BSP_AUDIO_IN_RegisterDefaultMspCallbacks
  split_ifs <;> simp [AudioState.emit, AudioState.emitAll, Ev.isDrvCall]
@[simp] theorem acqStarts_IN_RegisterDefaultMspCallbacks (h : Hal) (n : Nat) :
    acqStarts (BSP_AUDIO_IN_RegisterDefaultMspCallbacks h n s).2.log = acqStarts s.log := by
  unfold BSP_AUDIO_IN_RegisterDefaultMspCallbacks
  split_ifs <;> simp [AudioState.emit, AudioState.emitAll, Ev.acqStartArgs]
@[simp] theorem drvCalls_MX_ADF1_Init (h : Hal) (m : MX_MDF_Config_t) :
    drvCalls (MX_ADF1_Init h m s).2.log = drvCalls s.log := by
  simp [MX_ADF1_Init, AudioState.emitAll, Ev.isDrvCall]
@[simp] theorem acqStarts_MX_ADF1_Init (h : Hal) (m : MX_MDF_Config_t) :
    acqStarts (MX_ADF1_Init h m s).2.log = acqStarts s.log := by
  simp [MX_ADF1_Init, AudioState.emitAll, Ev.acqStartArgs]

@[simp] theorem drvCalls_ite (p : Prop) [Decidable p] :
    drvCalls (if p then l else l2) = if p then drvCalls l else drvCalls l2 := by
  split_ifs <;> rfl

@[simp] theorem acqStarts_ite (p : Prop) [Decidable p] :
    acqStarts (if p then l else l2) = if p then acqStarts l else acqStarts l2 := by
  split_ifs <;> rfl

@[simp] theorem drvCalls_ite_snd (p : Prop) [Decidable p] (a b : HAL_StatusTypeDef × List Ev) :
    drvCalls (if p then a else b).2 = if p then drvCalls a.2 else drvCalls b.2 := by
  split_ifs <;> rfl

@[simp] theorem acqStarts_ite_snd (p : Prop) [Decidable p] (a b : HAL_StatusTypeDef × List Ev) :
    acqStarts (if p then a else b).2 = if p then acqStarts a.2 else acqStarts b.2 := by
  split_ifs <;> rfl


end LogObservations

/-! ## The codec driver stays bound: one lemma per operation -/

/-- `BSP_AUDIO_OUT_Init` keeps the codec driver bound. -/
theorem OUT_Init_keepsDrv (c : BoardConf) (h : Hal) (i : Nat) (a : BSP_AUDIO_Init_t) (s : AudioState) :
    KeepsDrv c h s (BSP_AUDIO_OUT_Init c h i a s) := by
  simp only [BSP_AUDIO_OUT_Init, BSP_AUDIO_OUT_Init_i2s, BSP_AUDIO_OUT_Init_codec]
  repeat' (with_reducible apply ite_elim (KeepsDrv c h s) <;> intro _)
  all_goals (intro hI; simp only [DrvKept, DrvInv] at hI ⊢; simp_all [AudioState.Audio_In_Ctx, Ev.isDrvCall, WM8904_Probe_fst] <;> (have hb := hI (by first | (left; omega) | (right; omega)); simp [hb]))

/-- `BSP_AUDIO_OUT_DeInit` keeps the codec driver bound. -/
theorem OUT_DeInit_keepsDrv (c : BoardConf) (h : Hal) (i : Nat) (s : AudioState) :
    KeepsDrv c h s (BSP_AUDIO_OUT_DeInit c h i s) := by
  simp only [BSP_AUDIO_OUT_DeInit]
  repeat' (with_reducible apply ite_elim (KeepsDrv c h s) <;> intro _)
  all_goals (intro hI; simp only [DrvKept, DrvInv] at hI ⊢; simp_all [AudioState.Audio_In_Ctx, Ev.isDrvCall, WM8904_Probe_fst] <;> (have hb := hI (by first | (left; omega) | (right; omega)); simp [hb]))

/-- `BSP_AUDIO_OUT_Play` keeps the codec driver bound. -/
theorem OUT_Play_keepsDrv (c : BoardConf) (h : Hal) (i p n : Nat) (s : AudioState) :
    KeepsDrv c h s (BSP_AUDIO_OUT_Play h i p n s) := by
  simp only [BSP_AUDIO_OUT_Play]
  repeat' (with_reducible apply ite_elim (KeepsDrv c h s) <;> intro _)
  all_goals (intro hI; simp only [DrvKept, DrvInv] at hI ⊢; simp_all [AudioState.Audio_In_Ctx, Ev.isDrvCall, WM8904_Probe_fst] <;> (have hb := hI (by first | (left; omega) | (right; omega)); simp [hb]))

/-- `BSP_AUDIO_OUT_Pause` keeps the codec driver bound. -/
theorem OUT_Pause_keepsDrv (c : BoardConf) (h : Hal) (i : Nat) (s : AudioState) :
    KeepsDrv c h s (BSP_AUDIO_OUT_Pause h i s) := by
  simp only [BSP_AUDIO_OUT_Pause]
  repeat' (with_reducible apply ite_elim (KeepsDrv c h s) <;> intro _)
  all_goals (intro hI; simp only [DrvKept, DrvInv] at hI ⊢; simp_all [AudioState.Audio_In_Ctx, Ev.isDrvCall, WM8904_Probe_fst] <;> (have hb := hI (by first | (left; omega) | (right; omega)); simp [hb]))

/-- `BSP_AUDIO_OUT_Resume` keeps the codec driver bound. -/
theorem OUT_Resume_keepsDrv (c : BoardConf) (h : Hal) (i : Nat) (s : AudioState) :
    KeepsDrv c h s (BSP_AUDIO_OUT_Resume h i s) := by
  simp only [BSP_AUDIO_OUT_Resume]
  repeat' (with_reducible apply ite_elim (KeepsDrv c h s) <;> intro _)
  all_goals (intro hI; simp only [DrvKept, DrvInv] at hI ⊢; simp_all [AudioState.Audio_In_Ctx, Ev.isDrvCall, WM8904_Probe_fst] <;> (have hb := hI (by first | (left; omega) | (right; omega)); simp [hb]))

/-- `BSP_AUDIO_OUT_Stop` keeps the codec driver bound. -/
theorem OUT_Stop_keepsDrv (c : BoardConf) (h : Hal) (i : Nat) (s : AudioState) :
    KeepsDrv c h s (BSP_AUDIO_OUT_Stop h i s) := by
  simp only [BSP_AUDIO_OUT_Stop]
  repeat' (with_reducible apply ite_elim (KeepsDrv c h s) <;> intro _)
  all_goals (intro hI; simp only [DrvKept, DrvInv] at hI ⊢; simp_all [AudioState.Audio_In_Ctx, Ev.isDrvCall, WM8904_Probe_fst] <;> (have hb := hI (by first | (left; omega) | (right; omega)); simp [hb]))

/-- `BSP_AUDIO_OUT_Mute` keeps the codec driver bound. -/
theorem OUT_Mute_keepsDrv (c : BoardConf) (h : Hal) (i : Nat) (s : AudioState) :
    KeepsDrv c h s (BSP_AUDIO_OUT_Mute h i s) := by
  simp only [BSP_AUDIO_OUT_Mute]
  repeat' (with_reducible apply ite_elim (KeepsDrv c h s) <;> intro _)
  all_goals (intro hI; simp only [DrvKept, DrvInv] at hI ⊢; simp_all [AudioState.Audio_In_Ctx, Ev.isDrvCall, WM8904_Probe_fst] <;> (have hb := hI (by first | (left; omega) | (right; omega)); simp [hb]))

/-- `BSP_AUDIO_OUT_UnMute` keeps the codec driver bound. -/
theorem OUT_UnMute_keepsDrv (c : BoardConf) (h : Hal) (i : Nat) (s : AudioState) :
    KeepsDrv c h s (BSP_AUDIO_OUT_UnMute h i s) := by
  simp only [BSP_AUDIO_OUT_UnMute]
  repeat' (with_reducible apply ite_elim (KeepsDrv c h s) <;> intro _)
  all_goals (intro hI; simp only [DrvKept, DrvInv] at hI ⊢; simp_all [AudioState.Audio_In_Ctx, Ev.isDrvCall, WM8904_Probe_fst] <;> (have hb := hI (by first | (left; omega) | (right; omega)); simp [hb]))

/-- `BSP_AUDIO_OUT_SetVolume` keeps the codec driver bound. -/
theorem OUT_SetVolume_keepsDrv (c : BoardConf) (h : Hal) (i v : Nat) (s : AudioState) :
    KeepsDrv c h s (BSP_AUDIO_OUT_SetVolume h i v s) := by
  simp only [BSP_AUDIO_OUT_SetVolume]
  repeat' (with_reducible apply ite_elim (KeepsDrv c h s) <;> intro _)
  all_goals (intro hI; simp only [DrvKept, DrvInv] at hI ⊢; simp_all [AudioState.Audio_In_Ctx, Ev.isDrvCall, WM8904_Probe_fst] <;> (have hb := hI (by first | (left; omega) | (right; omega)); simp [hb]))

/-- `BSP_AUDIO_OUT_SetSampleRate` keeps the codec driver bound. -/
theorem OUT_SetSampleRate_keepsDrv (c : BoardConf) (h : Hal) (i f : Nat) (s : AudioState) :
    KeepsDrv c h s (BSP_AUDIO_OUT_SetSampleRate c h i f s) := by
  simp only [BSP_AUDIO_OUT_SetSampleRate]
  repeat' (with_reducible apply ite_elim (KeepsDrv c h s) <;> intro _)
  all_goals (intro hI; simp only [DrvKept, DrvInv] at hI ⊢; simp_all [AudioState.Audio_In_Ctx, Ev.isDrvCall, WM8904_Probe_fst] <;> (have hb := hI (by first | (left; omega) | (right; omega)); simp [hb]))

/-- `BSP_AUDIO_OUT_SetDevice` keeps the codec driver bound. -/
theorem OUT_SetDevice_keepsDrv (c : BoardConf) (h : Hal) (i d : Nat) (s : AudioState) :
    KeepsDrv c h s (BSP_AUDIO_OUT_SetDevice i d s) := by
  simp only [BSP_AUDIO_OUT_SetDevice]
  repeat' (with_reducible apply ite_elim (KeepsDrv c h s) <;> intro _)
  all_goals (intro hI; simp only [DrvKept, DrvInv] at hI ⊢; simp_all [AudioState.Audio_In_Ctx, Ev.isDrvCall, WM8904_Probe_fst] <;> (have hb := hI (by first | (left; omega) | (right; omega)); simp [hb]))

/-- `BSP_AUDIO_OUT_SetBitsPerSample` keeps the codec driver bound. -/
theorem OUT_SetBitsPerSample_keepsDrv (c : BoardConf) (h : Hal) (i b : Nat) (s : AudioState) :
    KeepsDrv c h s (BSP_AUDIO_OUT_SetBitsPerSample c h i b s) := by
  simp only [BSP_AUDIO_OUT_SetBitsPerSample]
  repeat' (with_reducible apply ite_elim (KeepsDrv c h s) <;> intro _)
  all_goals (intro hI; simp only [DrvKept, DrvInv] at hI ⊢; simp_all [AudioState.Audio_In_Ctx, Ev.isDrvCall, WM8904_Probe_fst] <;> (have hb := hI (by first | (left; omega) | (right; omega)); simp [hb]))

/-- `BSP_AUDIO_OUT_SetChannelsNbr` keeps the codec driver bound. -/
theorem OUT_SetChannelsNbr_keepsDrv (c : BoardConf) (h : Hal) (i n : Nat) (s : AudioState) :
    KeepsDrv c h s (BSP_AUDIO_OUT_SetChannelsNbr i n s) := by
  simp only [BSP_AUDIO_OUT_SetChannelsNbr]
  repeat' (with_reducible apply ite_elim (KeepsDrv c h s) <;> intro _)
  all_goals (intro hI; simp only [DrvKept, DrvInv] at hI ⊢; simp_all [AudioState.Audio_In_Ctx, Ev.isDrvCall, WM8904_Probe_fst] <;> (have hb := hI (by first | (left; omega) | (right; omega)); simp [hb]))

/-- `BSP_AUDIO_OUT_RegisterDefaultMspCallbacks` keeps the codec driver bound. -/
theorem OUT_RegisterDefaultMspCallbacks_keepsDrv (c : BoardConf) (h : Hal) (i : Nat) (s : AudioState) :
    KeepsDrv c h s (BSP_AUDIO_OUT_RegisterDefaultMspCallbacks h i s) := by
  simp only [BSP_AUDIO_OUT_RegisterDefaultMspCallbacks]
  repeat' (with_reducible apply ite_elim (KeepsDrv c h s) <;> intro _)
  all_goals (intro hI; simp only [DrvKept, DrvInv] at hI ⊢; simp_all [AudioState.Audio_In_Ctx, Ev.isDrvCall, WM8904_Probe_fst] <;> (have hb := hI (by first | (left; omega) | (right; omega)); simp [hb]))

/-- `BSP_AUDIO_IN_Init` keeps the codec driver bound. -/
theorem IN_Init_keepsDrv (c : BoardConf) (h : Hal) (i : Nat) (a : BSP_AUDIO_Init_t) (s : AudioState) :
    KeepsDrv c h s (BSP_AUDIO_IN_Init c h i a s) := by
  rcases Nat.lt_or_ge i AUDIO_IN_INSTANCES_NBR with hi | hi
  · simp only [AUDIO_IN_INSTANCES_NBR] at hi
    interval_cases i
    all_goals simp only [BSP_AUDIO_IN_Init, BSP_AUDIO_IN_Init_0, BSP_AUDIO_IN_Init_0_i2s, BSP_AUDIO_IN_Init_1, BSP_AUDIO_IN_Init_1_mdf]
    all_goals repeat' (with_reducible apply ite_elim (KeepsDrv c h s) <;> intro _)
    all_goals (intro hI; simp only [DrvKept, DrvInv] at hI ⊢; simp_all [AudioState.Audio_In_Ctx, Ev.isDrvCall, WM8904_Probe_fst] <;> (have hb := hI (by first | (left; omega) | (right; omega)); simp [hb]))
  · unfold BSP_AUDIO_IN_Init
    rw [if_pos (by first | exact hi | exact Or.inl hi)]
    exact fun hI => ⟨hI, id, id, fun hc => absurd hc (lt_irrefl _)⟩

/-- `BSP_AUDIO_IN_DeInit` keeps the codec driver bound. -/
theorem IN_DeInit_keepsDrv (c : BoardConf) (h : Hal) (i : Nat) (s : AudioState) :
    KeepsDrv c h s (BSP_AUDIO_IN_DeInit c h i s) := by
  rcases Nat.lt_or_ge i AUDIO_IN_INSTANCES_NBR with hi | hi
  · simp only [AUDIO_IN_INSTANCES_NBR] at hi
    interval_cases i
    all_goals simp only [BSP_AUDIO_IN_DeInit]
    all_goals repeat' (with_reducible apply ite_elim (KeepsDrv c h s) <;> intro _)
    all_goals (intro hI; simp only [DrvKept, DrvInv] at hI ⊢; simp_all [AudioState.Audio_In_Ctx, Ev.isDrvCall, WM8904_Probe_fst] <;> (have hb := hI (by first | (left; omega) | (right; omega)); simp [hb]))
  · unfold BSP_AUDIO_IN_DeInit
    rw [if_pos (by first | exact hi | exact Or.inl hi)]
    exact fun hI => ⟨hI, id, id, fun hc => absurd hc (lt_irrefl _)⟩

/-- `BSP_AUDIO_IN_Record` keeps the codec driver bound. -/
theorem IN_Record_keepsDrv (c : BoardConf) (h : Hal) (i p n : Nat) (s : AudioState) :
    KeepsDrv c h s (BSP_AUDIO_IN_Record c h i p n s) := by
  rcases Nat.lt_or_ge i AUDIO_IN_INSTANCES_NBR with hi | hi
  · simp only [AUDIO_IN_INSTANCES_NBR] at hi
    interval_cases i
    all_goals simp only [BSP_AUDIO_IN_Record]
    all_goals repeat' (with_reducible apply ite_elim (KeepsDrv c h s) <;> intro _)
    all_goals (intro hI; simp only [DrvKept, DrvInv] at hI ⊢; simp_all [AudioState.Audio_In_Ctx, Ev.isDrvCall, WM8904_Probe_fst] <;> (have hb := hI (by first | (left; omega) | (right; omega)); simp [hb]))
  · unfold BSP_AUDIO_IN_Record
    rw [if_pos (by first | exact hi | exact Or.inl hi)]
    exact fun hI => ⟨hI, id, id, fun hc => absurd hc (lt_irrefl _)⟩

/-- `BSP_AUDIO_IN_Pause` keeps the codec driver bound. -/
theorem IN_Pause_keepsDrv (c : BoardConf) (h : Hal) (i : Nat) (s : AudioState) :
    KeepsDrv c h s (BSP_AUDIO_IN_Pause h i s) := by
  rcases Nat.lt_or_ge i AUDIO_IN_INSTANCES_NBR with hi | hi
  · simp only [AUDIO_IN_INSTANCES_NBR] at hi
    interval_cases i
    all_goals simp only [BSP_AUDIO_IN_Pause]
    all_goals repeat' (with_reducible apply ite_elim (KeepsDrv c h s) <;> intro _)
    all_goals (intro hI; simp only [DrvKept, DrvInv] at hI ⊢; simp_all [AudioState.Audio_In_Ctx, Ev.isDrvCall, WM8904_Probe_fst] <;> (have hb := hI (by first | (left; omega) | (right; omega)); simp [hb]))
  · unfold BSP_AUDIO_IN_Pause
    rw [if_pos (by first | exact hi | exact Or.inl hi)]
    exact fun hI => ⟨hI, id, id, fun hc => absurd hc (lt_irrefl _)⟩

/-- `BSP_AUDIO_IN_Resume` keeps the codec driver bound. -/
theorem IN_Resume_keepsDrv (c : BoardConf) (h : Hal) (i : Nat) (s : AudioState) :
    KeepsDrv c h s (BSP_AUDIO_IN_Resume h i s) := by
  rcases Nat.lt_or_ge i AUDIO_IN_INSTANCES_NBR with hi | hi
  · simp only [AUDIO_IN_INSTANCES_NBR] at hi
    interval_cases i
    all_goals simp only [BSP_AUDIO_IN_Resume]
    all_goals repeat' (with_reducible apply ite_elim (KeepsDrv c h s) <;> intro _)
    all_goals (intro hI; simp only [DrvKept, DrvInv] at hI ⊢; simp_all [AudioState.Audio_In_Ctx, Ev.isDrvCall, WM8904_Probe_fst] <;> (have hb := hI (by first | (left; omega) | (right; omega)); simp [hb]))
  · unfold BSP_AUDIO_IN_Resume
    rw [if_pos (by first | exact hi | exact Or.inl hi)]
    exact fun hI => ⟨hI, id, id, fun hc => absurd hc (lt_irrefl _)⟩

/-- `BSP_AUDIO_IN_Stop` keeps the codec driver bound. -/
theorem IN_Stop_keepsDrv (c : BoardConf) (h : Hal) (i : Nat) (s : AudioState) :
    KeepsDrv c h s (BSP_AUDIO_IN_Stop h i s) := by
  rcases Nat.lt_or_ge i AUDIO_IN_INSTANCES_NBR with hi | hi
  · simp only [AUDIO_IN_INSTANCES_NBR] at hi
    interval_cases i
    all_goals simp only [BSP_AUDIO_IN_Stop]
    all_goals repeat' (with_reducible apply ite_elim (KeepsDrv c h s) <;> intro _)
    all_goals (intro hI; simp only [DrvKept, DrvInv] at hI ⊢; simp_all [AudioState.Audio_In_Ctx, Ev.isDrvCall, WM8904_Probe_fst] <;> (have hb := hI (by first | (left; omega) | (right; omega)); simp [hb]))
  · unfold BSP_AUDIO_IN_Stop
    rw [if_pos (by first | exact hi | exact Or.inl hi)]
    exact fun hI => ⟨hI, id, id, fun hc => absurd hc (lt_irrefl _)⟩

/-- `BSP_AUDIO_IN_SetVolume` keeps the codec driver bound. -/
theorem IN_SetVolume_keepsDrv (c : BoardConf) (h : Hal) (i v : Nat) (s : AudioState) :
    KeepsDrv c h s (BSP_AUDIO_IN_SetVolume i v s) := by
  simp only [BSP_AUDIO_IN_SetVolume]
  repeat' (with_reducible apply ite_elim (KeepsDrv c h s) <;> intro _)
  all_goals (intro hI; simp only [DrvKept, DrvInv] at hI ⊢; simp_all [AudioState.Audio_In_Ctx, Ev.isDrvCall, WM8904_Probe_fst] <;> (have hb := hI (by first | (left; omega) | (right; omega)); simp [hb]))

/-- `BSP_AUDIO_IN_SetSampleRate` keeps the codec driver bound. -/
theorem IN_SetSampleRate_keepsDrv (c : BoardConf) (h : Hal) (i f : Nat) (s : AudioState) :
    KeepsDrv c h s (BSP_AUDIO_IN_SetSampleRate c h i f s) := by
  rcases Nat.lt_or_ge i AUDIO_IN_INSTANCES_NBR with hi | hi
  · simp only [AUDIO_IN_INSTANCES_NBR] at hi
    interval_cases i
    all_goals simp only [BSP_AUDIO_IN_SetSampleRate, BSP_AUDIO_IN_SetSampleRate_0, BSP_AUDIO_IN_SetSampleRate_1]
    all_goals repeat' (with_reducible apply ite_elim (KeepsDrv c h s) <;> intro _)
    all_goals (intro hI; simp only [DrvKept, DrvInv] at hI ⊢; simp_all [AudioState.Audio_In_Ctx, Ev.isDrvCall, WM8904_Probe_fst] <;> (have hb := hI (by first | (left; omega) | (right; omega)); simp [hb]))
  · unfold BSP_AUDIO_IN_SetSampleRate
    rw [if_pos (by first | exact hi | exact Or.inl hi)]
    exact fun hI => ⟨hI, id, id, fun hc => absurd hc (lt_irrefl _)⟩

/-- `BSP_AUDIO_IN_SetDevice` keeps the codec driver bound. -/
theorem IN_SetDevice_keepsDrv (c : BoardConf) (h : Hal) (i d : Nat) (s : AudioState) :
    KeepsDrv c h s (BSP_AUDIO_IN_SetDevice i d s) := by
  simp only [BSP_AUDIO_IN_SetDevice]
  repeat' (with_reducible apply ite_elim (KeepsDrv c h s) <;> intro _)
  all_goals (intro hI; simp only [DrvKept, DrvInv] at hI ⊢; simp_all [AudioState.Audio_In_Ctx, Ev.isDrvCall, WM8904_Probe_fst] <;> (have hb := hI (by first | (left; omega) | (right; omega)); simp [hb]))

/-- `BSP_AUDIO_IN_SetBitsPerSample` keeps the codec driver bound. -/
theorem IN_SetBitsPerSample_keepsDrv (c : BoardConf) (h : Hal) (i b : Nat) (s : AudioState) :
    KeepsDrv c h s (BSP_AUDIO_IN_SetBitsPerSample i b s) := by
  simp only [BSP_AUDIO_IN_SetBitsPerSample]
  repeat' (with_reducible apply ite_elim (KeepsDrv c h s) <;> intro _)
  all_goals (intro hI; simp only [DrvKept, DrvInv] at hI ⊢; simp_all [AudioState.Audio_In_Ctx, Ev.isDrvCall, WM8904_Probe_fst] <;> (have hb := hI (by first | (left; omega) | (right; omega)); simp [hb]))

/-- `BSP_AUDIO_IN_SetChannelsNbr` keeps the codec driver bound. -/
theorem IN_SetChannelsNbr_keepsDrv (c : BoardConf) (h : Hal) (i n : Nat) (s : AudioState) :
    KeepsDrv c h s (BSP_AUDIO_IN_SetChannelsNbr i n s) := by
  simp only [BSP_AUDIO_IN_SetChannelsNbr]
  repeat' (with_reducible apply ite_elim (KeepsDrv c h s) <;> intro _)
  all_goals (intro hI; simp only [DrvKept, DrvInv] at hI ⊢; simp_all [AudioState.Audio_In_Ctx, Ev.isDrvCall, WM8904_Probe_fst] <;> (have hb := hI (by first | (left; omega) | (right; omega)); simp [hb]))

/-- `BSP_AUDIO_IN_RegisterDefaultMspCallbacks` keeps the codec driver bound. -/
theorem IN_RegisterDefaultMspCallbacks_keepsDrv (c : BoardConf) (h : Hal) (i : Nat) (s : AudioState) :
    KeepsDrv c h s (BSP_AUDIO_IN_RegisterDefaultMspCallbacks h i s) := by
  simp only [BSP_AUDIO_IN_RegisterDefaultMspCallbacks]
  repeat' (with_reducible apply ite_elim (KeepsDrv c h s) <;> intro _)
  all_goals (intro hI; simp only [DrvKept, DrvInv] at hI ⊢; simp_all [AudioState.Audio_In_Ctx, Ev.isDrvCall, WM8904_Probe_fst] <;> (have hb := hI (by first | (left; omega) | (right; omega)); simp [hb]))

/-- Every public operation keeps the codec driver bound. -/
theorem step_keepsDrv (c : BoardConf) (h : Hal) (o : Op) (s : AudioState) (hI : DrvInv s) :
    DrvKept c h s (step c h o s).2 := by
  cases o
  case OUT_Init i a => exact OUT_Init_keepsDrv c h i a s hI
  case OUT_DeInit i => exact OUT_DeInit_keepsDrv c h i s hI
  case OUT_Play i p n => exact OUT_Play_keepsDrv c h i p n s hI
  case OUT_Pause i => exact OUT_Pause_keepsDrv c h i s hI
  case OUT_Resume i => exact OUT_Resume_keepsDrv c h i s hI
  case OUT_Stop i => exact OUT_Stop_keepsDrv c h i s hI
  case OUT_Mute i => exact OUT_Mute_keepsDrv c h i s hI
  case OUT_UnMute i => exact OUT_UnMute_keepsDrv c h i s hI
  case OUT_IsMute i => exact ⟨hI, id, id, fun hc => absurd hc (lt_irrefl _)⟩
  case OUT_SetVolume i v => exact OUT_SetVolume_keepsDrv c h i v s hI
  case OUT_GetVolume i => exact ⟨hI, id, id, fun hc => absurd hc (lt_irrefl _)⟩
  case OUT_SetSampleRate i f => exact OUT_SetSampleRate_keepsDrv c h i f s hI
  case OUT_GetSampleRate i => exact ⟨hI, id, id, fun hc => absurd hc (lt_irrefl _)⟩
  case OUT_SetDevice i d => exact OUT_SetDevice_keepsDrv c h i d s hI
  case OUT_GetDevice i => exact ⟨hI, id, id, fun hc => absurd hc (lt_irrefl _)⟩
  case OUT_SetBitsPerSample i b => exact OUT_SetBitsPerSample_keepsDrv c h i b s hI
  case OUT_GetBitsPerSample i => exact ⟨hI, id, id, fun hc => absurd hc (lt_irrefl _)⟩
  case OUT_SetChannelsNbr i n => exact OUT_SetChannelsNbr_keepsDrv c h i n s hI
  case OUT_GetChannelsNbr i => exact ⟨hI, id, id, fun hc => absurd hc (lt_irrefl _)⟩
  case OUT_GetState i => exact ⟨hI, id, id, fun hc => absurd hc (lt_irrefl _)⟩
  case OUT_RegisterDefaultMspCallbacks i => exact OUT_RegisterDefaultMspCallbacks_keepsDrv c h i s hI
  case OUT_RegisterMspCallbacks i => exact OUT_RegisterDefaultMspCallbacks_keepsDrv c h i s hI
  case OUT_IRQHandler i d =>
    simp only [step, BSP_AUDIO_OUT_IRQHandler, BSP_AUDIO_IN_IRQHandler]
    all_goals ((try split_ifs) <;> (simp only [DrvKept, DrvInv] at hI ⊢; simp_all [Ev.isDrvCall]))
  case IN_Init i a => exact IN_Init_keepsDrv c h i a s hI
  case IN_DeInit i => exact IN_DeInit_keepsDrv c h i s hI
  case IN_Record i p n => exact IN_Record_keepsDrv c h i p n s hI
  case IN_Pause i => exact IN_Pause_keepsDrv c h i s hI
  case IN_Resume i => exact IN_Resume_keepsDrv c h i s hI
  case IN_Stop i => exact IN_Stop_keepsDrv c h i s hI
  case IN_SetVolume i v => exact IN_SetVolume_keepsDrv c h i v s hI
  case IN_GetVolume i => exact ⟨hI, id, id, fun hc => absurd hc (lt_irrefl _)⟩
  case IN_SetSampleRate i f => exact IN_SetSampleRate_keepsDrv c h i f s hI
  case IN_GetSampleRate i => exact ⟨hI, id, id, fun hc => absurd hc (lt_irrefl _)⟩
  case IN_SetDevice i d => exact IN_SetDevice_keepsDrv c h i d s hI
  case IN_GetDevice i => exact ⟨hI, id, id, fun hc => absurd hc (lt_irrefl _)⟩
  case IN_SetBitsPerSample i b => exact IN_SetBitsPerSample_keepsDrv c h i b s hI
  case IN_GetBitsPerSample i => exact ⟨hI, id, id, fun hc => absurd hc (lt_irrefl _)⟩
  case IN_SetChannelsNbr i n => exact IN_SetChannelsNbr_keepsDrv c h i n s hI
  case IN_GetChannelsNbr i => exact ⟨hI, id, id, fun hc => absurd hc (lt_irrefl _)⟩
  case IN_GetState i => exact ⟨hI, id, id, fun hc => absurd hc (lt_irrefl _)⟩
  case IN_RegisterDefaultMspCallbacks i => exact IN_RegisterDefaultMspCallbacks_keepsDrv c h i s hI
  case IN_RegisterMspCallbacks i => exact IN_RegisterDefaultMspCallbacks_keepsDrv c h i s hI
  case IN_IRQHandler i d =>
    simp only [step, BSP_AUDIO_OUT_IRQHandler, BSP_AUDIO_IN_IRQHandler]
    all_goals ((try split_ifs) <;> (simp only [DrvKept, DrvInv] at hI ⊢; simp_all [Ev.isDrvCall]))

/-! ## The acquisition start in force: one lemma per operation -/

/-- `BSP_AUDIO_OUT_Init` keeps the acquisition start in force. -/
theorem OUT_Init_keepsAcq (c : BoardConf) (h : Hal) (i : Nat) (a : BSP_AUDIO_Init_t) (s : AudioState) :
    KeepsAcq s (BSP_AUDIO_OUT_Init c h i a s) := by
  simp only [BSP_AUDIO_OUT_Init, BSP_AUDIO_OUT_Init_i2s, BSP_AUDIO_OUT_Init_codec]
  repeat' (with_reducible apply ite_elim (KeepsAcq s) <;> intro _)
  all_goals (intro hI; simp only [AcqKept, AcqInv, AcqAlive] at hI ⊢; simp_all [AudioState.Audio_In_Ctx, Ev.acqStartArgs])

/-- `BSP_AUDIO_OUT_DeInit` keeps the acquisition start in force. -/
theorem OUT_DeInit_keepsAcq (c : BoardConf) (h : Hal) (i : Nat) (s : AudioState) :
    KeepsAcq s (BSP_AUDIO_OUT_DeInit c h i s) := by
  simp only [BSP_AUDIO_OUT_DeInit]
  repeat' (with_reducible apply ite_elim (KeepsAcq s) <;> intro _)
  all_goals (intro hI; simp only [AcqKept, AcqInv, AcqAlive] at hI ⊢; simp_all [AudioState.Audio_In_Ctx, Ev.acqStartArgs])

/-- `BSP_AUDIO_OUT_Play` keeps the acquisition start in force. -/
theorem OUT_Play_keepsAcq (h : Hal) (i p n : Nat) (s : AudioState) :
    KeepsAcq s (BSP_AUDIO_OUT_Play h i p n s) := by
  simp only [BSP_AUDIO_OUT_Play]
  repeat' (with_reducible apply ite_elim (KeepsAcq s) <;> intro _)
  all_goals (intro hI; simp only [AcqKept, AcqInv, AcqAlive] at hI ⊢; simp_all [AudioState.Audio_In_Ctx, Ev.acqStartArgs])

/-- `BSP_AUDIO_OUT_Pause` keeps the acquisition start in force. -/
theorem OUT_Pause_keepsAcq (h : Hal) (i : Nat) (s : AudioState) :
    KeepsAcq s (BSP_AUDIO_OUT_Pause h i s) := by
  simp only [BSP_AUDIO_OUT_Pause]
  repeat' (with_reducible apply ite_elim (KeepsAcq s) <;> intro _)
  all_goals (intro hI; simp only [AcqKept, AcqInv, AcqAlive] at hI ⊢; simp_all [AudioState.Audio_In_Ctx, Ev.acqStartArgs])

/-- `BSP_AUDIO_OUT_Resume` keeps the acquisition start in force. -/
theorem OUT_Resume_keepsAcq (h : Hal) (i : Nat) (s : AudioState) :
    KeepsAcq s (BSP_AUDIO_OUT_Resume h i s) := by
  simp only [BSP_AUDIO_OUT_Resume]
  repeat' (with_reducible apply ite_elim (KeepsAcq s) <;> intro _)
  all_goals (intro hI; simp only [AcqKept, AcqInv, AcqAlive] at hI ⊢; simp_all [AudioState.Audio_In_Ctx, Ev.acqStartArgs])

/-- `BSP_AUDIO_OUT_Stop` keeps the acquisition start in force. -/
theorem OUT_Stop_keepsAcq (h : Hal) (i : Nat) (s : AudioState) :
    KeepsAcq s (BSP_AUDIO_OUT_Stop h i s) := by
  simp only [BSP_AUDIO_OUT_Stop]
  repeat' (with_reducible apply ite_elim (KeepsAcq s) <;> intro _)
  all_goals (intro hI; simp only [AcqKept, AcqInv, AcqAlive] at hI ⊢; simp_all [AudioState.Audio_In_Ctx, Ev.acqStartArgs])

/-- `BSP_AUDIO_OUT_Mute` keeps the acquisition start in force. -/
theorem OUT_Mute_keepsAcq (h : Hal) (i : Nat) (s : AudioState) :
    KeepsAcq s (BSP_AUDIO_OUT_Mute h i s) := by
  simp only [BSP_AUDIO_OUT_Mute]
  repeat' (with_reducible apply ite_elim (KeepsAcq s) <;> intro _)
  all_goals (intro hI; simp only [AcqKept, AcqInv, AcqAlive] at hI ⊢; simp_all [AudioState.Audio_In_Ctx, Ev.acqStartArgs])

/-- `BSP_AUDIO_OUT_UnMute` keeps the acquisition start in force. -/
theorem OUT_UnMute_keepsAcq (h : Hal) (i : Nat) (s : AudioState) :
    KeepsAcq s (BSP_AUDIO_OUT_UnMute h i s) := by
  simp only [BSP_AUDIO_OUT_UnMute]
  repeat' (with_reducible apply ite_elim (KeepsAcq s) <;> intro _)
  all_goals (intro hI; simp only [AcqKept, AcqInv, AcqAlive] at hI ⊢; simp_all [AudioState.Audio_In_Ctx, Ev.acqStartArgs])

/-- `BSP_AUDIO_OUT_SetVolume` keeps the acquisition start in force. -/
theorem OUT_SetVolume_keepsAcq (h : Hal) (i v : Nat) (s : AudioState) :
    KeepsAcq s (BSP_AUDIO_OUT_SetVolume h i v s) := by
  simp only [BSP_AUDIO_OUT_SetVolume]
  repeat' (with_reducible apply ite_elim (KeepsAcq s) <;> intro _)
  all_goals (intro hI; simp only [AcqKept, AcqInv, AcqAlive] at hI ⊢; simp_all [AudioState.Audio_In_Ctx, Ev.acqStartArgs])

/-- `BSP_AUDIO_OUT_SetSampleRate` keeps the acquisition start in force. -/
theorem OUT_SetSampleRate_keepsAcq (c : BoardConf) (h : Hal) (i f : Nat) (s : AudioState) :
    KeepsAcq s (BSP_AUDIO_OUT_SetSampleRate c h i f s) := by
  simp only [BSP_AUDIO_OUT_SetSampleRate]
  repeat' (with_reducible apply ite_elim (KeepsAcq s) <;> intro _)
  all_goals (intro hI; simp only [AcqKept, AcqInv, AcqAlive] at hI ⊢; simp_all [AudioState.Audio_In_Ctx, Ev.acqStartArgs])

/-- `BSP_AUDIO_OUT_SetDevice` keeps the acquisition start in force. -/
theorem OUT_SetDevice_keepsAcq (i d : Nat) (s : AudioState) :
    KeepsAcq s (BSP_AUDIO_OUT_SetDevice i d s) := by
  simp only [BSP_AUDIO_OUT_SetDevice]
  repeat' (with_reducible apply ite_elim (KeepsAcq s) <;> intro _)
  all_goals (intro hI; simp only [AcqKept, AcqInv, AcqAlive] at hI ⊢; simp_all [AudioState.Audio_In_Ctx, Ev.acqStartArgs])

/-- `BSP_AUDIO_OUT_SetBitsPerSample` keeps the acquisition start in force. -/
theorem OUT_SetBitsPerSample_keepsAcq (c : BoardConf) (h : Hal) (i b : Nat) (s : AudioState) :
    KeepsAcq s (BSP_AUDIO_OUT_SetBitsPerSample c h i b s) := by
  simp only [BSP_AUDIO_OUT_SetBitsPerSample]
  repeat' (with_reducible apply ite_elim (KeepsAcq s) <;> intro _)
  all_goals (intro hI; simp only [AcqKept, AcqInv, AcqAlive] at hI ⊢; simp_all [AudioState.Audio_In_Ctx, Ev.acqStartArgs])

/-- `BSP_AUDIO_OUT_SetChannelsNbr` keeps the acquisition start in force. -/
theorem OUT_SetChannelsNbr_keepsAcq (i n : Nat) (s : AudioState) :
    KeepsAcq s (BSP_AUDIO_OUT_SetChannelsNbr i n s) := by
  simp only [BSP_AUDIO_OUT_SetChannelsNbr]
  repeat' (with_reducible apply ite_elim (KeepsAcq s) <;> intro _)
  all_goals (intro hI; simp only [AcqKept, AcqInv, AcqAlive] at hI ⊢; simp_all [AudioState.Audio_In_Ctx, Ev.acqStartArgs])

/-- `BSP_AUDIO_OUT_RegisterDefaultMspCallbacks` keeps the acquisition start in force. -/
theorem OUT_RegisterDefaultMspCallbacks_keepsAcq (h : Hal) (i : Nat) (s : AudioState) :
    KeepsAcq s (BSP_AUDIO_OUT_RegisterDefaultMspCallbacks h i s) := by
  simp only [BSP_AUDIO_OUT_RegisterDefaultMspCallbacks]
  repeat' (with_reducible apply ite_elim (KeepsAcq s) <;> intro _)
  all_goals (intro hI; simp only [AcqKept, AcqInv, AcqAlive] at hI ⊢; simp_all [AudioState.Audio_In_Ctx, Ev.acqStartArgs])

/-- `BSP_AUDIO_IN_Init` keeps the acquisition start in force. -/
theorem IN_Init_keepsAcq (c : BoardConf) (h : Hal) (i : Nat) (a : BSP_AUDIO_Init_t) (s : AudioState) :
    KeepsAcq s (BSP_AUDIO_IN_Init c h i a s) := by
  rcases Nat.lt_or_ge i AUDIO_IN_INSTANCES_NBR with hi | hi
  · simp only [AUDIO_IN_INSTANCES_NBR] at hi
    interval_cases i
    all_goals simp only [BSP_AUDIO_IN_Init, BSP_AUDIO_IN_Init_0, BSP_AUDIO_IN_Init_0_i2s, BSP_AUDIO_IN_Init_1, BSP_AUDIO_IN_Init_1_mdf]
    all_goals repeat' (with_reducible apply ite_elim (KeepsAcq s) <;> intro _)
    all_goals (intro hI; simp only [AcqKept, AcqInv, AcqAlive] at hI ⊢; simp_all [AudioState.Audio_In_Ctx, Ev.acqStartArgs])
  · unfold BSP_AUDIO_IN_Init
    rw [if_pos (by first | exact hi | exact Or.inl hi)]
    exact fun hI => ⟨hI, fun _ _ => rfl⟩

/-- `BSP_AUDIO_IN_DeInit` keeps the acquisition start in force. -/
theorem IN_DeInit_keepsAcq (c : BoardConf) (h : Hal) (i : Nat) (s : AudioState) :
    KeepsAcq s (BSP_AUDIO_IN_DeInit c h i s) := by
  rcases Nat.lt_or_ge i AUDIO_IN_INSTANCES_NBR with hi | hi
  · simp only [AUDIO_IN_INSTANCES_NBR] at hi
    interval_cases i
    all_goals simp only [BSP_AUDIO_IN_DeInit]
    all_goals repeat' (with_reducible apply ite_elim (KeepsAcq s) <;> intro _)
    all_goals (intro hI; simp only [AcqKept, AcqInv, AcqAlive] at hI ⊢; simp_all [AudioState.Audio_In_Ctx, Ev.acqStartArgs])
  · unfold BSP_AUDIO_IN_DeInit
    rw [if_pos (by first | exact hi | exact Or.inl hi)]
    exact fun hI => ⟨hI, fun _ _ => rfl⟩

/-- `BSP_AUDIO_IN_Record` keeps the acquisition start in force. -/
theorem IN_Record_keepsAcq (c : BoardConf) (h : Hal) (i p n : Nat) (s : AudioState) :
    KeepsAcq s (BSP_AUDIO_IN_Record c h i p n s) := by
  rcases Nat.lt_or_ge i AUDIO_IN_INSTANCES_NBR with hi | hi
  · simp only [AUDIO_IN_INSTANCES_NBR] at hi
    interval_cases i
    all_goals simp only [BSP_AUDIO_IN_Record]
    all_goals repeat' (with_reducible apply ite_elim (KeepsAcq s) <;> intro _)
    all_goals (intro hI; simp only [AcqKept, AcqInv, AcqAlive] at hI ⊢; simp_all [AudioState.Audio_In_Ctx, Ev.acqStartArgs])
  · unfold BSP_AUDIO_IN_Record
    rw [if_pos (by first | exact hi | exact Or.inl hi)]
    exact fun hI => ⟨hI, fun _ _ => rfl⟩

/-- `BSP_AUDIO_IN_Pause` keeps the acquisition start in force. -/
theorem IN_Pause_keepsAcq (h : Hal) (i : Nat) (s : AudioState) :
    KeepsAcq s (BSP_AUDIO_IN_Pause h i s) := by
  rcases Nat.lt_or_ge i AUDIO_IN_INSTANCES_NBR with hi | hi
  · simp only [AUDIO_IN_INSTANCES_NBR] at hi
    interval_cases i
    all_goals simp only [BSP_AUDIO_IN_Pause]
    all_goals repeat' (with_reducible apply ite_elim (KeepsAcq s) <;> intro _)
    all_goals (intro hI; simp only [AcqKept, AcqInv, AcqAlive] at hI ⊢; simp_all [AudioState.Audio_In_Ctx, Ev.acqStartArgs])
  · unfold BSP_AUDIO_IN_Pause
    rw [if_pos (by first | exact hi | exact Or.inl hi)]
    exact fun hI => ⟨hI, fun _ _ => rfl⟩

/-- `BSP_AUDIO_IN_Resume` keeps the acquisition start in force. -/
theorem IN_Resume_keepsAcq (h : Hal) (i : Nat) (s : AudioState) :
    KeepsAcq s (BSP_AUDIO_IN_Resume h i s) := by
  rcases Nat.lt_or_ge i AUDIO_IN_INSTANCES_NBR with hi | hi
  · simp only [AUDIO_IN_INSTANCES_NBR] at hi
    interval_cases i
    all_goals simp only [BSP_AUDIO_IN_Resume]
    all_goals repeat' (with_reducible apply ite_elim (KeepsAcq s) <;> intro _)
    all_goals (intro hI; simp only [AcqKept, AcqInv, AcqAlive] at hI ⊢; simp_all [AudioState.Audio_In_Ctx, Ev.acqStartArgs])
  · unfold BSP_AUDIO_IN_Resume
    rw [if_pos (by first | exact hi | exact Or.inl hi)]
    exact fun hI => ⟨hI, fun _ _ => rfl⟩

/-- `BSP_AUDIO_IN_Stop` keeps the acquisition start in force. -/
theorem IN_Stop_keepsAcq (h : Hal) (i : Nat) (s : AudioState) :
    KeepsAcq s (BSP_AUDIO_IN_Stop h i s) := by
  rcases Nat.lt_or_ge i AUDIO_IN_INSTANCES_NBR with hi | hi
  · simp only [AUDIO_IN_INSTANCES_NBR] at hi
    interval_cases i
    all_goals simp only [BSP_AUDIO_IN_Stop]
    all_goals repeat' (with_reducible apply ite_elim (KeepsAcq s) <;> intro _)
    all_goals (intro hI; simp only [AcqKept, AcqInv, AcqAlive] at hI ⊢; simp_all [AudioState.Audio_In_Ctx, Ev.acqStartArgs])
  · unfold BSP_AUDIO_IN_Stop
    rw [if_pos (by first | exact hi | exact Or.inl hi)]
    exact fun hI => ⟨hI, fun _ _ => rfl⟩

/-- `BSP_AUDIO_IN_SetVolume` keeps the acquisition start in force. -/
theorem IN_SetVolume_keepsAcq (i v : Nat) (s : AudioState) :
    KeepsAcq s (BSP_AUDIO_IN_SetVolume i v s) := by
  simp only [BSP_AUDIO_IN_SetVolume]
  repeat' (with_reducible apply ite_elim (KeepsAcq s) <;> intro _)
  all_goals (intro hI; simp only [AcqKept, AcqInv, AcqAlive] at hI ⊢; simp_all [AudioState.Audio_In_Ctx, Ev.acqStartArgs])

/-- `BSP_AUDIO_IN_SetSampleRate` keeps the acquisition start in force. -/
theorem IN_SetSampleRate_keepsAcq (c : BoardConf) (h : Hal) (i f : Nat) (s : AudioState) :
    KeepsAcq s (BSP_AUDIO_IN_SetSampleRate c h i f s) := by
  rcases Nat.lt_or_ge i AUDIO_IN_INSTANCES_NBR with hi | hi
  · simp only [AUDIO_IN_INSTANCES_NBR] at hi
    interval_cases i
    all_goals simp only [BSP_AUDIO_IN_SetSampleRate, BSP_AUDIO_IN_SetSampleRate_0, BSP_AUDIO_IN_SetSampleRate_1]
    all_goals repeat' (with_reducible apply ite_elim (KeepsAcq s) <;> intro _)
    all_goals (intro hI; simp only [AcqKept, AcqInv, AcqAlive] at hI ⊢; simp_all [AudioState.Audio_In_Ctx, Ev.acqStartArgs])
  · unfold BSP_AUDIO_IN_SetSampleRate
    rw [if_pos (by first | exact hi | exact Or.inl hi)]
    exact fun hI => ⟨hI, fun _ _ => rfl⟩

/-- `BSP_AUDIO_IN_SetDevice` keeps the acquisition start in force. -/
theorem IN_SetDevice_keepsAcq (i d : Nat) (s : AudioState) :
    KeepsAcq s (BSP_AUDIO_IN_SetDevice i d s) := by
  simp only [BSP_AUDIO_IN_SetDevice]
  repeat' (with_reducible apply ite_elim (KeepsAcq s) <;> intro _)
  all_goals (intro hI; simp only [AcqKept, AcqInv, AcqAlive] at hI ⊢; simp_all [AudioState.Audio_In_Ctx, Ev.acqStartArgs])

/-- `BSP_AUDIO_IN_SetBitsPerSample` keeps the acquisition start in force. -/
theorem IN_SetBitsPerSample_keepsAcq (i b : Nat) (s : AudioState) :
    KeepsAcq s (BSP_AUDIO_IN_SetBitsPerSample i b s) := by
  simp only [BSP_AUDIO_IN_SetBitsPerSample]
  repeat' (with_reducible apply ite_elim (KeepsAcq s) <;> intro _)
  all_goals (intro hI; simp only [AcqKept, AcqInv, AcqAlive] at hI ⊢; simp_all [AudioState.Audio_In_Ctx, Ev.acqStartArgs])

/-- `BSP_AUDIO_IN_SetChannelsNbr` keeps the acquisition start in force. -/
theorem IN_SetChannelsNbr_keepsAcq (i n : Nat) (s : AudioState) :
    KeepsAcq s (BSP_AUDIO_IN_SetChannelsNbr i n s) := by
  simp only [BSP_AUDIO_IN_SetChannelsNbr]
  repeat' (with_reducible apply ite_elim (KeepsAcq s) <;> intro _)
  all_goals (intro hI; simp only [AcqKept, AcqInv, AcqAlive] at hI ⊢; simp_all [AudioState.Audio_In_Ctx, Ev.acqStartArgs])

/-- `BSP_AUDIO_IN_RegisterDefaultMspCallbacks` keeps the acquisition start in force. -/
theorem IN_RegisterDefaultMspCallbacks_keepsAcq (h : Hal) (i : Nat) (s : AudioState) :
    KeepsAcq s (BSP_AUDIO_IN_RegisterDefaultMspCallbacks h i s) := by
  simp only [BSP_AUDIO_IN_RegisterDefaultMspCallbacks]
  repeat' (with_reducible apply ite_elim (KeepsAcq s) <;> intro _)
  all_goals (intro hI; simp only [AcqKept, AcqInv, AcqAlive] at hI ⊢; simp_all [AudioState.Audio_In_Ctx, Ev.acqStartArgs])

/-- Every public operation keeps the acquisition start in force. -/
theorem step_keepsAcq (c : BoardConf) (h : Hal) (o : Op) (s : AudioState) (hI : AcqInv s) :
    AcqKept s (step c h o s).2 := by
  cases o
  case OUT_Init i a => exact OUT_Init_keepsAcq c h i a s hI
  case OUT_DeInit i => exact OUT_DeInit_keepsAcq c h i s hI
  case OUT_Play i p n => exact OUT_Play_keepsAcq h i p n s hI
  case OUT_Pause i => exact OUT_Pause_keepsAcq h i s hI
  case OUT_Resume i => exact OUT_Resume_keepsAcq h i s hI
  case OUT_Stop i => exact OUT_Stop_keepsAcq h i s hI
  case OUT_Mute i => exact OUT_Mute_keepsAcq h i s hI
  case OUT_UnMute i => exact OUT_UnMute_keepsAcq h i s hI
  case OUT_IsMute i => exact ⟨hI, fun _ _ => rfl⟩
  case OUT_SetVolume i v => exact OUT_SetVolume_keepsAcq h i v s hI
  case OUT_GetVolume i => exact ⟨hI, fun _ _ => rfl⟩
  case OUT_SetSampleRate i f => exact OUT_SetSampleRate_keepsAcq c h i f s hI
  case OUT_GetSampleRate i => exact ⟨hI, fun _ _ => rfl⟩
  case OUT_SetDevice i d => exact OUT_SetDevice_keepsAcq i d s hI
  case OUT_GetDevice i => exact ⟨hI, fun _ _ => rfl⟩
  case OUT_SetBitsPerSample i b => exact OUT_SetBitsPerSample_keepsAcq c h i b s hI
  case OUT_GetBitsPerSample i => exact ⟨hI, fun _ _ => rfl⟩
  case OUT_SetChannelsNbr i n => exact OUT_SetChannelsNbr_keepsAcq i n s hI
  case OUT_GetChannelsNbr i => exact ⟨hI, fun _ _ => rfl⟩
  case OUT_GetState i => exact ⟨hI, fun _ _ => rfl⟩
  case OUT_RegisterDefaultMspCallbacks i => exact OUT_RegisterDefaultMspCallbacks_keepsAcq h i s hI
  case OUT_RegisterMspCallbacks i => exact OUT_RegisterDefaultMspCallbacks_keepsAcq h i s hI
  case OUT_IRQHandler i d =>
    simp only [step, BSP_AUDIO_OUT_IRQHandler, BSP_AUDIO_IN_IRQHandler]
    all_goals ((try split_ifs) <;> (simp only [AcqKept, AcqInv, AcqAlive] at hI ⊢; simp_all [Ev.acqStartArgs]))
  case IN_Init i a => exact IN_Init_keepsAcq c h i a s hI
  case IN_DeInit i => exact IN_DeInit_keepsAcq c h i s hI
  case IN_Record i p n => exact IN_Record_keepsAcq c h i p n s hI
  case IN_Pause i => exact IN_Pause_keepsAcq h i s hI
  case IN_Resume i => exact IN_Resume_keepsAcq h i s hI
  case IN_Stop i => exact IN_Stop_keepsAcq h i s hI
  case IN_SetVolume i v => exact IN_SetVolume_keepsAcq i v s hI
  case IN_GetVolume i => exact ⟨hI, fun _ _ => rfl⟩
  case IN_SetSampleRate i f => exact IN_SetSampleRate_keepsAcq c h i f s hI
  case IN_GetSampleRate i => exact ⟨hI, fun _ _ => rfl⟩
  case IN_SetDevice i d => exact IN_SetDevice_keepsAcq i d s hI
  case IN_GetDevice i => exact ⟨hI, fun _ _ => rfl⟩
  case IN_SetBitsPerSample i b => exact IN_SetBitsPerSample_keepsAcq i b s hI
  case IN_GetBitsPerSample i => exact ⟨hI, fun _ _ => rfl⟩
  case IN_SetChannelsNbr i n => exact IN_SetChannelsNbr_keepsAcq i n s hI
  case IN_GetChannelsNbr i => exact ⟨hI, fun _ _ => rfl⟩
  case IN_GetState i => exact ⟨hI, fun _ _ => rfl⟩
  case IN_RegisterDefaultMspCallbacks i => exact IN_RegisterDefaultMspCallbacks_keepsAcq h i s hI
  case IN_RegisterMspCallbacks i => exact IN_RegisterDefaultMspCallbacks_keepsAcq h i s hI
  case IN_IRQHandler i d =>
    simp only [step, BSP_AUDIO_OUT_IRQHandler, BSP_AUDIO_IN_IRQHandler]
    all_goals ((try split_ifs) <;> (simp only [AcqKept, AcqInv, AcqAlive] at hI ⊢; simp_all [Ev.acqStartArgs]))

/-- The initial globals satisfy `DrvInv`. -/
theorem initial_DrvInv : DrvInv AudioState.initial := by
  simp [DrvInv, AudioState.initial]

/-- In every reachable state the codec driver is bound while the output or the analog input is
out of Reset. -/
theorem reachable_DrvInv (c : BoardConf) (s : AudioState) (hr : Reachable c s) : DrvInv s := by
  induction hr with
  | init => exact initial_DrvInv
  | step h o s _ ih => exact (step_keepsDrv c h o s ih).1

/-- The initial globals satisfy `AcqInv`. -/
theorem initial_AcqInv : AcqInv AudioState.initial := by
  simp [AcqInv, AcqAlive, AudioState.initial]

/-- In every reachable state `AcqInv` holds. -/
theorem reachable_AcqInv (c : BoardConf) (s : AudioState) (hr : Reachable c s) : AcqInv s := by
  induction hr with
  | init => exact initial_AcqInv
  | step h o s _ ih => exact (step_keepsAcq c h o s ih).1

/-! ## Starts of the streams -/

/-- What a successful `BSP_AUDIO_IN_Record` stores and starts. -/
theorem IN_Record_done (c : BoardConf) (h : Hal) (i p n : Nat) (s : AudioState)
    (hi : i < AUDIO_IN_INSTANCES_NBR) : RecordDone i p n s (BSP_AUDIO_IN_Record c h i p n s) := by
  simp only [AUDIO_IN_INSTANCES_NBR] at hi
  interval_cases i
  all_goals simp only [BSP_AUDIO_IN_Record]
  all_goals repeat' (with_reducible apply ite_elim (RecordDone _ p n s) <;> intro _)
  all_goals (simp only [RecordDone]; simp_all [AudioState.Audio_In_Ctx, Ev.acqStartArgs] <;> omega)

/-- The globals of the scenario in which the digital input is Stopped are reachable. -/
theorem in1Stopped_reachable : Reachable BoardConf.dk Scenario.in1Stopped :=
  Reachable.step (Hal.allOk BoardConf.dk) (Op.IN_Init 1 Scenario.cfgIn1) AudioState.initial
    Reachable.init

/-- The globals of the scenario in which the digital input is Paused are reachable. -/
theorem in1Paused_reachable : Reachable BoardConf.dk Scenario.in1Paused :=
  Reachable.step (Hal.allOk BoardConf.dk) (Op.IN_Pause 1) _
    (Reachable.step (Hal.allOk BoardConf.dk) (Op.IN_Record 1 Scenario.buf 4096)
      Scenario.in1Stopped in1Stopped_reachable)

/-- The globals of the scenario with the output volume 200 are reachable. -/
theorem outLoud_reachable : Reachable BoardConf.dk Scenario.outLoud :=
  Reachable.step (Hal.allOk BoardConf.dk) (Op.OUT_Init 0 Scenario.cfgOutLoud) AudioState.initial
    Reachable.init

/-! ## The two I2S Rx handlers on a buffer of bytes -/

/-- C1. `BSP_AUDIO_OUT_Init` on instance 0, called while the output context and input context 0
are both in Reset with a 16-bit stereo configuration (any sample rate, any volume): when the
codec probe, the clock configuration, the I2S initialisation (with its callback registrations
where they are compiled in) and the codec `Init` command all succeed, the call returns
`BSP_ERROR_NONE`, the state field is written exactly twice, first Init and then Stopped, so the
final state is Stopped, and the stored Device, SampleRate, BitsPerSample, ChannelsNbr and Volume
are those of the configuration. -/
theorem out_init_success (c : BoardConf) (h : Hal) (AudioInit : BSP_AUDIO_Init_t)
    (s : AudioState)
    (hOut : s.Audio_Out_Ctx.State = AUDIO_OUT_STATE_RESET)
    (hIn : s.Audio_In_Ctx_0.State = AUDIO_IN_STATE_RESET)
    (hBits : AudioInit.BitsPerSample = AUDIO_RESOLUTION_16B)
    (hChan : AudioInit.ChannelsNbr = 2)
    (hProbe : h.probeOk c)
    (hOsc : h.HAL_RCC_OscConfig = HAL_OK)
    (hClk : h.HAL_RCCEx_PeriphCLKConfig = HAL_OK)
    (hI2s : h.HAL_I2S_Init = HAL_OK)
    (hReg : c.USE_HAL_I2S_REGISTER_CALLBACKS = true →
      ∀ id, h.HAL_I2S_RegisterCallback id = HAL_OK)
    (hCodec : 0 ≤ h.Drv_Init) :
    (BSP_AUDIO_OUT_Init c h 0 AudioInit s).1 = BSP_ERROR_NONE
    ∧ outStateWrites (BSP_AUDIO_OUT_Init c h 0 AudioInit s).2.log
        = outStateWrites s.log ++ [AUDIO_OUT_STATE_INIT, AUDIO_OUT_STATE_STOP]
    ∧ (BSP_AUDIO_OUT_Init c h 0 AudioInit s).2.Audio_Out_Ctx.State = AUDIO_OUT_STATE_STOP
    ∧ (BSP_AUDIO_OUT_Init c h 0 AudioInit s).2.Audio_Out_Ctx.Device = AudioInit.Device
    ∧ (BSP_AUDIO_OUT_Init c h 0 AudioInit s).2.Audio_Out_Ctx.SampleRate = AudioInit.SampleRate
    ∧ (BSP_AUDIO_OUT_Init c h 0 AudioInit s).2.Audio_Out_Ctx.BitsPerSample
        = AudioInit.BitsPerSample
    ∧ (BSP_AUDIO_OUT_Init c h 0 AudioInit s).2.Audio_Out_Ctx.ChannelsNbr
        = AudioInit.ChannelsNbr
    ∧ (BSP_AUDIO_OUT_Init c h 0 AudioInit s).2.Audio_Out_Ctx.Volume = AudioInit.Volume := by
  obtain ⟨hBus, hRead, hId⟩ := hProbe
  have hc : ¬ h.Drv_Init < 0 := not_lt.mpr hCodec
  simp only [AUDIO_RESOLUTION_16B] at hBits
  simp only [AUDIO_OUT_STATE_RESET] at hOut
  simp only [AUDIO_IN_STATE_RESET] at hIn
  cases hcb : c.USE_HAL_I2S_REGISTER_CALLBACKS
  · simp [BSP_AUDIO_OUT_Init, BSP_AUDIO_OUT_Init_i2s, BSP_AUDIO_OUT_Init_codec, WM8904_Probe,
      MX_I2S6_ClockConfig, MX_I2S6_Init, I2S_MspInit, outStateWrites, List.filterMap_append,
      hOut, hIn, hBits, hChan, hBus, hRead, hId, hOsc, hClk, hI2s, hcb, hc]
  · have hr := hReg hcb
    by_cases hv : s.AudioOut_IsMspCbValid = 0
    · simp [BSP_AUDIO_OUT_Init, BSP_AUDIO_OUT_Init_i2s, BSP_AUDIO_OUT_Init_codec, WM8904_Probe,
        MX_I2S6_ClockConfig, MX_I2S6_Init, BSP_AUDIO_OUT_RegisterDefaultMspCallbacks,
        I2S_RegisterCallbacks, outStateWrites, List.filterMap_append,
        hOut, hIn, hBits, hChan, hBus, hRead, hId, hOsc, hClk, hI2s, hcb, hc, hr, hv]
    · simp [BSP_AUDIO_OUT_Init, BSP_AUDIO_OUT_Init_i2s, BSP_AUDIO_OUT_Init_codec, WM8904_Probe,
        MX_I2S6_ClockConfig, MX_I2S6_Init, BSP_AUDIO_OUT_RegisterDefaultMspCallbacks,
        I2S_RegisterCallbacks, outStateWrites, List.filterMap_append,
        hOut, hIn, hBits, hChan, hBus, hRead, hId, hOsc, hClk, hI2s, hcb, hc, hr, hv]

/-- Scenario A of the specification, run on the initial globals: 48 000 Hz, 16 bit, stereo,
volume 50. -/
theorem out_init_success_witness :
    (BSP_AUDIO_OUT_Init BoardConf.dk (Hal.allOk BoardConf.dk) 0
        ⟨AUDIO_OUT_HEADPHONE, 48000, 16, 2, 50⟩ AudioState.initial).1 = BSP_ERROR_NONE
    ∧ outStateWrites (BSP_AUDIO_OUT_Init BoardConf.dk (Hal.allOk BoardConf.dk) 0
        ⟨AUDIO_OUT_HEADPHONE, 48000, 16, 2, 50⟩ AudioState.initial).2.log
        = [AUDIO_OUT_STATE_INIT, AUDIO_OUT_STATE_STOP]
    ∧ (BSP_AUDIO_OUT_Init BoardConf.dk (Hal.allOk BoardConf.dk) 0
        ⟨AUDIO_OUT_HEADPHONE, 48000, 16, 2, 50⟩ AudioState.initial).2.Audio_Out_Ctx
        = { Device := AUDIO_OUT_HEADPHONE, SampleRate := 48000, BitsPerSample := 16,
            Volume := 50, ChannelsNbr := 2, IsMute := 0, State := AUDIO_OUT_STATE_STOP } := by
  have w := out_init_success BoardConf.dk (Hal.allOk BoardConf.dk)
    ⟨AUDIO_OUT_HEADPHONE, 48000, 16, 2, 50⟩ AudioState.initial rfl rfl rfl rfl
    ⟨rfl, rfl, by decide⟩ rfl rfl rfl (fun _ _ => rfl) (by decide)
  refine ⟨w.1, w.2.1, ?_⟩
  decide

/-- C2. Mutual exclusion of the shared serial-audio peripheral: in every state reachable from
the initial globals by any sequence of public operations, whatever the HAL and the codec answer
in each call, `Audio_Out_Ctx[0]` or `Audio_In_Ctx[0]` is in Reset, so the two are never both out
of Reset. -/
theorem out_in0_never_both_active (c : BoardConf) (s : AudioState) (hr : Reachable c s) :
    ¬ (s.Audio_Out_Ctx.State ≠ AUDIO_OUT_STATE_RESET
        ∧ s.Audio_In_Ctx_0.State ≠ AUDIO_IN_STATE_RESET) := by
  rintro ⟨ho, hi⟩
  rcases (reachable_Inv c s hr).1 with h0 | h0
  · exact ho h0
  · exact hi h0

/-- After a successful `BSP_AUDIO_OUT_Init` and a `BSP_AUDIO_OUT_Play` the output is Playing,
and the analog input is not out of Reset as well. -/
theorem out_in0_never_both_active_witness :
    Scenario.outPlaying.Audio_Out_Ctx.State = AUDIO_OUT_STATE_PLAYING
    ∧ ¬ (Scenario.outPlaying.Audio_Out_Ctx.State ≠ AUDIO_OUT_STATE_RESET
        ∧ Scenario.outPlaying.Audio_In_Ctx_0.State ≠ AUDIO_IN_STATE_RESET) :=
  ⟨by decide, out_in0_never_both_active BoardConf.dk Scenario.outPlaying outPlaying_reachable⟩

/-- C3. A refused call changes nothing. Whatever public operation is run, with whatever
arguments and in whatever state, if it returns `BSP_ERROR_WRONG_PARAM`, `BSP_ERROR_BUSY` or
`BSP_ERROR_FEATURE_NOT_SUPPORTED` then the globals after the call equal the globals before it:
the three stream contexts are unchanged and, the log being part of the globals, no codec or
peripheral command was issued. In particular `BSP_AUDIO_OUT_Init` on the output while the analog
input is out of Reset, and `BSP_AUDIO_IN_Init` on the analog input in a reachable state in which
the output is out of Reset, return `BSP_ERROR_FEATURE_NOT_SUPPORTED` and change nothing, and so
do `BSP_AUDIO_OUT_SetChannelsNbr` and `BSP_AUDIO_IN_SetChannelsNbr` with a channel count other
than the supported one (2 for the output and the analog input, 1 for the digital input). -/
theorem rejected_calls_do_not_mutate (c : BoardConf) (h : Hal) (s : AudioState) :
    (∀ (o : Op) (st : BspStatus), (step c h o s).1 = some st →
        (st = BSP_ERROR_WRONG_PARAM ∨ st = BSP_ERROR_BUSY
          ∨ st = BSP_ERROR_FEATURE_NOT_SUPPORTED) →
        (step c h o s).2 = s)
    ∧ (∀ a : BSP_AUDIO_Init_t, s.Audio_In_Ctx_0.State ≠ AUDIO_IN_STATE_RESET →
        BSP_AUDIO_OUT_Init c h 0 a s = (BSP_ERROR_FEATURE_NOT_SUPPORTED, s))
    ∧ (∀ a : BSP_AUDIO_Init_t, Reachable c s →
        s.Audio_Out_Ctx.State ≠ AUDIO_OUT_STATE_RESET →
        BSP_AUDIO_IN_Init c h 0 a s = (BSP_ERROR_FEATURE_NOT_SUPPORTED, s))
    ∧ (∀ n : Nat, n ≠ 2 →
        BSP_AUDIO_OUT_SetChannelsNbr 0 n s = (BSP_ERROR_FEATURE_NOT_SUPPORTED, s))
    ∧ (∀ n : Nat, n ≠ 2 →
        BSP_AUDIO_IN_SetChannelsNbr 0 n s = (BSP_ERROR_FEATURE_NOT_SUPPORTED, s))
    ∧ (∀ n : Nat, n ≠ 1 →
        BSP_AUDIO_IN_SetChannelsNbr 1 n s = (BSP_ERROR_FEATURE_NOT_SUPPORTED, s)) := by
  refine ⟨fun o st hst hrej => step_rejectFrame c h o s st hst hrej, ?_, ?_, ?_, ?_, ?_⟩
  · intro a hne
    unfold BSP_AUDIO_OUT_Init
    rw [if_neg (by simp)]
    by_cases hb : (0 : Nat) = 0 ∧ (a.BitsPerSample = AUDIO_RESOLUTION_32B
        ∨ a.BitsPerSample = AUDIO_RESOLUTION_8B)
    · rw [if_pos hb]
    · rw [if_neg hb]
      by_cases hc : (0 : Nat) = 0 ∧ a.ChannelsNbr ≠ 2
      · rw [if_pos hc]
      · rw [if_neg hc, if_pos ⟨rfl, hne⟩]
  · intro a hr hne
    have h0 : s.Audio_In_Ctx_0.State = AUDIO_IN_STATE_RESET := by
      rcases (reachable_Inv c s hr).1 with h0 | h0
      · exact absurd h0 hne
      · exact h0
    unfold BSP_AUDIO_IN_Init
    rw [if_neg (by simp), if_neg (by simp [AudioState.Audio_In_Ctx, h0])]
    by_cases hb : a.BitsPerSample ≠ AUDIO_RESOLUTION_16B
    · rw [if_pos hb]
    · rw [if_neg hb]
      by_cases hc : (0 : Nat) = 0 ∧ a.ChannelsNbr ≠ 2
      · rw [if_pos hc]
      · rw [if_neg hc, if_neg (by simp), if_pos ⟨rfl, hne⟩]
  · intro n hn
    simp [BSP_AUDIO_OUT_SetChannelsNbr, hn]
  · intro n hn
    simp [BSP_AUDIO_IN_SetChannelsNbr, hn]
  · intro n hn
    simp [BSP_AUDIO_IN_SetChannelsNbr, hn]

/-- Scenario E and the channel-count edge case on the globals in which the output is Stopped:
`BSP_AUDIO_IN_Init` on the analog input is refused with `BSP_ERROR_FEATURE_NOT_SUPPORTED`, a
`BSP_AUDIO_OUT_Pause` is refused with `BSP_ERROR_BUSY`, a mono request is refused, and the globals
stay as they were. -/
theorem rejected_calls_do_not_mutate_witness :
    BSP_AUDIO_IN_Init BoardConf.dk (Hal.allOk BoardConf.dk) 0 Scenario.cfgIn0
        Scenario.outStopped = (BSP_ERROR_FEATURE_NOT_SUPPORTED, Scenario.outStopped)
    ∧ (step BoardConf.dk (Hal.allOk BoardConf.dk) (Op.OUT_Pause 0) Scenario.outStopped).1
        = some BSP_ERROR_BUSY
    ∧ (step BoardConf.dk (Hal.allOk BoardConf.dk) (Op.OUT_Pause 0) Scenario.outStopped).2
        = Scenario.outStopped
    ∧ BSP_AUDIO_OUT_SetChannelsNbr 0 1 Scenario.outStopped
        = (BSP_ERROR_FEATURE_NOT_SUPPORTED, Scenario.outStopped) :=
  have w := rejected_calls_do_not_mutate BoardConf.dk (Hal.allOk BoardConf.dk)
    Scenario.outStopped
  ⟨w.2.2.1 Scenario.cfgIn0 outStopped_reachable (by decide),
   by decide,
   w.1 (Op.OUT_Pause 0) BSP_ERROR_BUSY (by decide) (Or.inr (Or.inl rfl)),
   w.2.2.2.1 1 (by decide)⟩

/-- C4, the claim as stated fails. On the initial globals (output in Reset), with every
collaborator succeeding except `HAL_RCC_OscConfig`, `BSP_AUDIO_OUT_Init` returns
`BSP_ERROR_CLOCK_FAILURE` and the output state after the call is Init, not Reset. -/
theorem failed_init_leaves_reset_counterexample :
    AudioState.initial.Audio_Out_Ctx.State = AUDIO_OUT_STATE_RESET
    ∧ (BSP_AUDIO_OUT_Init BoardConf.dk (Hal.oscFails BoardConf.dk) 0 Scenario.cfgOut
        AudioState.initial).1 = BSP_ERROR_CLOCK_FAILURE
    ∧ (BSP_AUDIO_OUT_Init BoardConf.dk (Hal.oscFails BoardConf.dk) 0 Scenario.cfgOut
        AudioState.initial).1 ≠ BSP_ERROR_NONE
    ∧ (BSP_AUDIO_OUT_Init BoardConf.dk (Hal.oscFails BoardConf.dk) 0 Scenario.cfgOut
        AudioState.initial).2.Audio_Out_Ctx.State = AUDIO_OUT_STATE_INIT
    ∧ (BSP_AUDIO_OUT_Init BoardConf.dk (Hal.oscFails BoardConf.dk) 0 Scenario.cfgOut
        AudioState.initial).2.Audio_Out_Ctx.State ≠ AUDIO_OUT_STATE_RESET := by
  decide

/-- C4, amended. When Init is called on an instance that is in Reset and returns a status other
than `BSP_ERROR_NONE`: for the output and for the analog input the state after the call is Reset
if the call was refused (`BSP_ERROR_WRONG_PARAM` or `BSP_ERROR_FEATURE_NOT_SUPPORTED`) or the
probe of the codec failed, and it is Init if the probe succeeded and a later step (clock
configuration, MSP callback registration, I2S initialisation, callback registration or the codec
`Init` command) failed; for the digital input the state after the call is Reset in every
case. -/
theorem failed_init_state (c : BoardConf) (h : Hal) (a : BSP_AUDIO_Init_t) (s : AudioState) :
    (s.Audio_Out_Ctx.State = AUDIO_OUT_STATE_RESET →
      (BSP_AUDIO_OUT_Init c h 0 a s).1 ≠ BSP_ERROR_NONE →
        (((BSP_AUDIO_OUT_Init c h 0 a s).1 = BSP_ERROR_WRONG_PARAM
            ∨ (BSP_AUDIO_OUT_Init c h 0 a s).1 = BSP_ERROR_FEATURE_NOT_SUPPORTED
            ∨ ¬ h.probeOk c →
          (BSP_AUDIO_OUT_Init c h 0 a s).2.Audio_Out_Ctx.State = AUDIO_OUT_STATE_RESET)
        ∧ ((BSP_AUDIO_OUT_Init c h 0 a s).1 ≠ BSP_ERROR_WRONG_PARAM
            ∧ (BSP_AUDIO_OUT_Init c h 0 a s).1 ≠ BSP_ERROR_FEATURE_NOT_SUPPORTED
            ∧ h.probeOk c →
          (BSP_AUDIO_OUT_Init c h 0 a s).2.Audio_Out_Ctx.State = AUDIO_OUT_STATE_INIT)))
    ∧ (s.Audio_In_Ctx_0.State = AUDIO_IN_STATE_RESET →
      (BSP_AUDIO_IN_Init c h 0 a s).1 ≠ BSP_ERROR_NONE →
        (((BSP_AUDIO_IN_Init c h 0 a s).1 = BSP_ERROR_WRONG_PARAM
            ∨ (BSP_AUDIO_IN_Init c h 0 a s).1 = BSP_ERROR_FEATURE_NOT_SUPPORTED
            ∨ ¬ h.probeOk c →
          (BSP_AUDIO_IN_Init c h 0 a s).2.Audio_In_Ctx_0.State = AUDIO_IN_STATE_RESET)
        ∧ ((BSP_AUDIO_IN_Init c h 0 a s).1 ≠ BSP_ERROR_WRONG_PARAM
            ∧ (BSP_AUDIO_IN_Init c h 0 a s).1 ≠ BSP_ERROR_FEATURE_NOT_SUPPORTED
            ∧ h.probeOk c →
          (BSP_AUDIO_IN_Init c h 0 a s).2.Audio_In_Ctx_0.State = AUDIO_IN_STATE_INIT)))
    ∧ (s.Audio_In_Ctx_1.State = AUDIO_IN_STATE_RESET →
      (BSP_AUDIO_IN_Init c h 1 a s).1 ≠ BSP_ERROR_NONE →
        (BSP_AUDIO_IN_Init c h 1 a s).2.Audio_In_Ctx_1.State = AUDIO_IN_STATE_RESET) := by
  refine ⟨OUT_Init_failed c h 0 a s, ?_, ?_⟩
  · intro h0 hne
    have w := IN_Init_failed c h 0 (by decide) a s h0 hne
    exact ⟨fun hx => w.1 (Or.inr hx), fun hx => w.2 ⟨rfl, hx⟩⟩
  · intro h0 hne
    exact (IN_Init_failed c h 1 (by decide) a s h0 hne).1 (Or.inl rfl)

/-- On the initial globals, with the probe succeeding and the oscillator configuration failing:
`BSP_AUDIO_OUT_Init` leaves the output in Init, and `BSP_AUDIO_IN_Init` on the digital input
leaves that input in Reset. -/
theorem failed_init_state_witness :
    (BSP_AUDIO_OUT_Init BoardConf.dk (Hal.oscFails BoardConf.dk) 0 Scenario.cfgOut
        AudioState.initial).2.Audio_Out_Ctx.State = AUDIO_OUT_STATE_INIT
    ∧ (BSP_AUDIO_IN_Init BoardConf.dk (Hal.oscFails BoardConf.dk) 1 Scenario.cfgIn1
        AudioState.initial).2.Audio_In_Ctx_1.State = AUDIO_IN_STATE_RESET :=
  have w := failed_init_state BoardConf.dk (Hal.oscFails BoardConf.dk)
  ⟨((w Scenario.cfgOut AudioState.initial).1 rfl (by decide)).2
      ⟨by decide, by decide, rfl, rfl, by decide⟩,
   (w Scenario.cfgIn1 AudioState.initial).2.2 rfl (by decide)⟩

/-- C5. A failed start leaves the stream Stopped: if `BSP_AUDIO_OUT_Play` is called while the
output is Stopped, or `BSP_AUDIO_IN_Record` while input 0 or input 1 is Stopped, and the call
returns a status other than `BSP_ERROR_NONE` (a bad argument, a DMA that does not start, a
codec `Play` command that fails), then the state of that instance after the call is still
Stopped. -/
theorem failed_start_leaves_stopped (c : BoardConf) (h : Hal) (pData NbrOfBytes : Nat)
    (s : AudioState) :
    (∀ i : Nat, s.Audio_Out_Ctx.State = AUDIO_OUT_STATE_STOP →
      (BSP_AUDIO_OUT_Play h i pData NbrOfBytes s).1 ≠ BSP_ERROR_NONE →
      (BSP_AUDIO_OUT_Play h i pData NbrOfBytes s).2.Audio_Out_Ctx.State = AUDIO_OUT_STATE_STOP)
    ∧ (∀ i : Nat, i < AUDIO_IN_INSTANCES_NBR →
      (s.Audio_In_Ctx i).State = AUDIO_IN_STATE_STOP →
      (BSP_AUDIO_IN_Record c h i pData NbrOfBytes s).1 ≠ BSP_ERROR_NONE →
      ((BSP_AUDIO_IN_Record c h i pData NbrOfBytes s).2.Audio_In_Ctx i).State
        = AUDIO_IN_STATE_STOP) := by
  constructor
  · intro i h0 hne
    rw [(OUT_Play_outcome h i pData NbrOfBytes s).2 hne, h0]
  · intro i hi h0 hne
    rw [(IN_Record_outcome c h i hi pData NbrOfBytes s).2 hne, h0]

/-- On the globals in which the output is Stopped, a `BSP_AUDIO_OUT_Play` whose DMA does not
start returns `BSP_ERROR_PERIPH_FAILURE` and the output is still Stopped; on the globals in
which the analog input is Stopped, a `BSP_AUDIO_IN_Record` whose DMA does not start leaves the
input Stopped. -/
theorem failed_start_leaves_stopped_witness :
    (BSP_AUDIO_OUT_Play (Hal.txDmaFails BoardConf.dk) 0 Scenario.buf 4800
        Scenario.outStopped).1 = BSP_ERROR_PERIPH_FAILURE
    ∧ (BSP_AUDIO_OUT_Play (Hal.txDmaFails BoardConf.dk) 0 Scenario.buf 4800
        Scenario.outStopped).2.Audio_Out_Ctx.State = AUDIO_OUT_STATE_STOP
    ∧ ((BSP_AUDIO_IN_Record BoardConf.dk (Hal.rxDmaFails BoardConf.dk) 0 Scenario.buf 4800
        Scenario.in0Stopped).2.Audio_In_Ctx 0).State = AUDIO_IN_STATE_STOP :=
  have w := failed_start_leaves_stopped BoardConf.dk
  ⟨by decide,
   (w (Hal.txDmaFails BoardConf.dk) Scenario.buf 4800 Scenario.outStopped).1 0
     (by decide) (by decide),
   (w (Hal.rxDmaFails BoardConf.dk) Scenario.buf 4800 Scenario.in0Stopped).2 0
     (by decide) (by decide) (by decide)⟩

/-- C6, the claim as stated fails. On the globals in which the output is Playing, a
`BSP_AUDIO_OUT_Stop` whose codec `Stop` command fails returns `BSP_ERROR_COMPONENT_FAILURE` and
the output is still Playing, not Stopped; on the globals in which the output is Stopped, a
`BSP_AUDIO_OUT_DeInit` whose `HAL_I2S_DeInit` fails returns `BSP_ERROR_PERIPH_FAILURE` and the
output is still Stopped, not Reset. -/
theorem teardown_reaches_terminal_counterexample :
    Scenario.outPlaying.Audio_Out_Ctx.State = AUDIO_OUT_STATE_PLAYING
    ∧ (BSP_AUDIO_OUT_Stop (Hal.codecStopFails BoardConf.dk) 0 Scenario.outPlaying).1
        = BSP_ERROR_COMPONENT_FAILURE
    ∧ (BSP_AUDIO_OUT_Stop (Hal.codecStopFails BoardConf.dk) 0
        Scenario.outPlaying).2.Audio_Out_Ctx.State = AUDIO_OUT_STATE_PLAYING
    ∧ (BSP_AUDIO_OUT_Stop (Hal.codecStopFails BoardConf.dk) 0
        Scenario.outPlaying).2.Audio_Out_Ctx.State ≠ AUDIO_OUT_STATE_STOP
    ∧ Scenario.outStopped.Audio_Out_Ctx.State = AUDIO_OUT_STATE_STOP
    ∧ (BSP_AUDIO_OUT_DeInit BoardConf.dk (Hal.i2sDeInitFails BoardConf.dk) 0
        Scenario.outStopped).1 = BSP_ERROR_PERIPH_FAILURE
    ∧ (BSP_AUDIO_OUT_DeInit BoardConf.dk (Hal.i2sDeInitFails BoardConf.dk) 0
        Scenario.outStopped).2.Audio_Out_Ctx.State ≠ AUDIO_OUT_STATE_RESET := by
  decide

/-- C6, amended. For the output and for each input, whatever the collaborators answer: after
DeInit is called on an instance that is not in Reset the state is Reset when the call returns
`BSP_ERROR_NONE`, and it is the state from before the call when the call reports a failure;
after Stop is called on a Streaming or Paused instance the state is Stopped when the call
returns `BSP_ERROR_NONE`, and it is the state from before the call when the call reports a
failure. -/
theorem teardown_outcome (c : BoardConf) (h : Hal) (s : AudioState) :
    (s.Audio_Out_Ctx.State ≠ AUDIO_OUT_STATE_RESET →
      ((BSP_AUDIO_OUT_DeInit c h 0 s).1 = BSP_ERROR_NONE →
        (BSP_AUDIO_OUT_DeInit c h 0 s).2.Audio_Out_Ctx.State = AUDIO_OUT_STATE_RESET)
      ∧ ((BSP_AUDIO_OUT_DeInit c h 0 s).1 ≠ BSP_ERROR_NONE →
        (BSP_AUDIO_OUT_DeInit c h 0 s).2.Audio_Out_Ctx.State = s.Audio_Out_Ctx.State))
    ∧ (s.Audio_Out_Ctx.State = AUDIO_OUT_STATE_PLAYING
        ∨ s.Audio_Out_Ctx.State = AUDIO_OUT_STATE_PAUSE →
      ((BSP_AUDIO_OUT_Stop h 0 s).1 = BSP_ERROR_NONE →
        (BSP_AUDIO_OUT_Stop h 0 s).2.Audio_Out_Ctx.State = AUDIO_OUT_STATE_STOP)
      ∧ ((BSP_AUDIO_OUT_Stop h 0 s).1 ≠ BSP_ERROR_NONE →
        (BSP_AUDIO_OUT_Stop h 0 s).2.Audio_Out_Ctx.State = s.Audio_Out_Ctx.State))
    ∧ (∀ i : Nat, i < AUDIO_IN_INSTANCES_NBR →
      (s.Audio_In_Ctx i).State ≠ AUDIO_IN_STATE_RESET →
      ((BSP_AUDIO_IN_DeInit c h i s).1 = BSP_ERROR_NONE →
        ((BSP_AUDIO_IN_DeInit c h i s).2.Audio_In_Ctx i).State = AUDIO_IN_STATE_RESET)
      ∧ ((BSP_AUDIO_IN_DeInit c h i s).1 ≠ BSP_ERROR_NONE →
        ((BSP_AUDIO_IN_DeInit c h i s).2.Audio_In_Ctx i).State = (s.Audio_In_Ctx i).State))
    ∧ (∀ i : Nat, i < AUDIO_IN_INSTANCES_NBR →
      ((s.Audio_In_Ctx i).State = AUDIO_IN_STATE_RECORDING
        ∨ (s.Audio_In_Ctx i).State = AUDIO_IN_STATE_PAUSE) →
      ((BSP_AUDIO_IN_Stop h i s).1 = BSP_ERROR_NONE →
        ((BSP_AUDIO_IN_Stop h i s).2.Audio_In_Ctx i).State = AUDIO_IN_STATE_STOP)
      ∧ ((BSP_AUDIO_IN_Stop h i s).1 ≠ BSP_ERROR_NONE →
        ((BSP_AUDIO_IN_Stop h i s).2.Audio_In_Ctx i).State = (s.Audio_In_Ctx i).State)) :=
  ⟨fun _ => OUT_DeInit_outcome c h 0 s, fun _ => OUT_Stop_outcome h 0 s,
   fun i hi _ => IN_DeInit_outcome c h i hi s, fun i hi _ => IN_Stop_outcome h i hi s⟩

/-- On the globals in which the output is Playing: a `BSP_AUDIO_OUT_Stop` with every
collaborator succeeding leaves the output Stopped, and a `BSP_AUDIO_OUT_DeInit` leaves it in
Reset. -/
theorem teardown_outcome_witness :
    (BSP_AUDIO_OUT_Stop (Hal.allOk BoardConf.dk) 0 Scenario.outPlaying).2.Audio_Out_Ctx.State
      = AUDIO_OUT_STATE_STOP
    ∧ (BSP_AUDIO_OUT_DeInit BoardConf.dk (Hal.allOk BoardConf.dk) 0
        Scenario.outPlaying).2.Audio_Out_Ctx.State = AUDIO_OUT_STATE_RESET :=
  have w := teardown_outcome BoardConf.dk (Hal.allOk BoardConf.dk) Scenario.outPlaying
  ⟨(w.2.1 (Or.inl (by decide))).1 (by decide), (w.1 (by decide)).1 (by decide)⟩

/-- C7. Start length boundary: `BSP_AUDIO_OUT_Play` and `BSP_AUDIO_IN_Record` return
`BSP_ERROR_WRONG_PARAM`, and change nothing, for every `NbrOfBytes > 65535` on every instance,
in every state and whatever the buffer; with `NbrOfBytes = 65535`, a buffer that is not `NULL`,
the instance Stopped and the DMA start and the codec `Play` command succeeding,
`BSP_AUDIO_OUT_Play` on the output returns `BSP_ERROR_NONE` and leaves it Playing, and
`BSP_AUDIO_IN_Record` on the analog input returns `BSP_ERROR_NONE` and leaves it Recording. -/
theorem start_length_boundary (c : BoardConf) (h : Hal) (pData : Nat) (s : AudioState) :
    (∀ i n : Nat, n > 65535 → BSP_AUDIO_OUT_Play h i pData n s = (BSP_ERROR_WRONG_PARAM, s))
    ∧ (∀ i n : Nat, n > 65535 →
        BSP_AUDIO_IN_Record c h i pData n s = (BSP_ERROR_WRONG_PARAM, s))
    ∧ (pData ≠ 0 → s.Audio_Out_Ctx.State = AUDIO_OUT_STATE_STOP →
        h.HAL_I2S_Transmit_DMA = HAL_OK → 0 ≤ h.Drv_Play →
        (BSP_AUDIO_OUT_Play h 0 pData 65535 s).1 = BSP_ERROR_NONE
        ∧ (BSP_AUDIO_OUT_Play h 0 pData 65535 s).2.Audio_Out_Ctx.State
            = AUDIO_OUT_STATE_PLAYING)
    ∧ (pData ≠ 0 → s.Audio_In_Ctx_0.State = AUDIO_IN_STATE_STOP →
        h.HAL_I2S_Receive_DMA = HAL_OK → 0 ≤ h.Drv_Play →
        (BSP_AUDIO_IN_Record c h 0 pData 65535 s).1 = BSP_ERROR_NONE
        ∧ (BSP_AUDIO_IN_Record c h 0 pData 65535 s).2.Audio_In_Ctx_0.State
            = AUDIO_IN_STATE_RECORDING) := by
  refine ⟨?_, ?_, ?_, ?_⟩
  · intro i n hn
    unfold BSP_AUDIO_OUT_Play
    rw [if_pos (Or.inr (Or.inr hn))]
  · intro i n hn
    unfold BSP_AUDIO_IN_Record
    rw [if_pos (Or.inr (Or.inr hn))]
  · intro hp h0 hdma hplay
    have g := not_lt.mpr hplay
    simp only [AUDIO_OUT_STATE_STOP] at h0
    simp [BSP_AUDIO_OUT_Play, hp, h0, hdma, g]
  · intro hp h0 hdma hplay
    have g := not_lt.mpr hplay
    simp only [AUDIO_IN_STATE_STOP] at h0
    simp [BSP_AUDIO_IN_Record, AudioState.Audio_In_Ctx, AudioState.setIn,
      AudioState.setInState, hp, h0, hdma, g]

/-- On the globals in which the output is Stopped, a start of 65536 bytes is refused and one of
65535 bytes moves the output to Playing; on the globals in which the analog input is Stopped, a
record of 65535 bytes moves it to Recording. -/
theorem start_length_boundary_witness :
    BSP_AUDIO_OUT_Play (Hal.allOk BoardConf.dk) 0 Scenario.buf 65536 Scenario.outStopped
      = (BSP_ERROR_WRONG_PARAM, Scenario.outStopped)
    ∧ ((BSP_AUDIO_OUT_Play (Hal.allOk BoardConf.dk) 0 Scenario.buf 65535
          Scenario.outStopped).1 = BSP_ERROR_NONE
      ∧ (BSP_AUDIO_OUT_Play (Hal.allOk BoardConf.dk) 0 Scenario.buf 65535
          Scenario.outStopped).2.Audio_Out_Ctx.State = AUDIO_OUT_STATE_PLAYING)
    ∧ ((BSP_AUDIO_IN_Record BoardConf.dk (Hal.allOk BoardConf.dk) 0 Scenario.buf 65535
          Scenario.in0Stopped).1 = BSP_ERROR_NONE
      ∧ (BSP_AUDIO_IN_Record BoardConf.dk (Hal.allOk BoardConf.dk) 0 Scenario.buf 65535
          Scenario.in0Stopped).2.Audio_In_Ctx_0.State = AUDIO_IN_STATE_RECORDING) :=
  have w := start_length_boundary BoardConf.dk (Hal.allOk BoardConf.dk) Scenario.buf
  ⟨(w Scenario.outStopped).1 0 65536 (by decide),
   (w Scenario.outStopped).2.2.1 (by decide) (by decide) rfl (by decide),
   (w Scenario.in0Stopped).2.2.2 (by decide) (by decide) rfl (by decide)⟩

/-- C8. Output volume boundary and round trip: `BSP_AUDIO_OUT_SetVolume` on the output returns
`BSP_ERROR_WRONG_PARAM` for every volume above 100 and changes nothing, the stored volume in
particular; for every volume `v` up to 100, with the output Stopped and the codec `SetVolume`
command succeeding, it returns `BSP_ERROR_NONE` and a following `BSP_AUDIO_OUT_GetVolume`
returns `BSP_ERROR_NONE` and exactly `v`. -/
theorem out_volume_boundary (h : Hal) (v : Nat) (s : AudioState) :
    (v > 100 →
      BSP_AUDIO_OUT_SetVolume h 0 v s = (BSP_ERROR_WRONG_PARAM, s)
      ∧ (BSP_AUDIO_OUT_SetVolume h 0 v s).2.Audio_Out_Ctx.Volume = s.Audio_Out_Ctx.Volume)
    ∧ (v ≤ 100 → s.Audio_Out_Ctx.State = AUDIO_OUT_STATE_STOP → 0 ≤ h.Drv_SetVolume →
      (BSP_AUDIO_OUT_SetVolume h 0 v s).1 = BSP_ERROR_NONE
      ∧ BSP_AUDIO_OUT_GetVolume 0 (BSP_AUDIO_OUT_SetVolume h 0 v s).2
          = (BSP_ERROR_NONE, some v)) := by
  constructor
  · intro hv
    have e : BSP_AUDIO_OUT_SetVolume h 0 v s = (BSP_ERROR_WRONG_PARAM, s) := by
      unfold BSP_AUDIO_OUT_SetVolume
      rw [if_pos (Or.inr hv)]
    exact ⟨e, by rw [e]⟩
  · intro hv h0 hc
    have g := not_lt.mpr hc
    have gv := not_lt.mpr hv
    simp only [AUDIO_OUT_STATE_STOP] at h0
    simp [BSP_AUDIO_OUT_SetVolume, BSP_AUDIO_OUT_GetVolume, h0, g, gv]

/-- On the globals in which the output is Stopped with volume 50: volume 101 is refused and
the stored volume stays 50; volume 100 is accepted and read back. -/
theorem out_volume_boundary_witness :
    Scenario.outStopped.Audio_Out_Ctx.Volume = 50
    ∧ (BSP_AUDIO_OUT_SetVolume (Hal.allOk BoardConf.dk) 0 101 Scenario.outStopped
        = (BSP_ERROR_WRONG_PARAM, Scenario.outStopped)
      ∧ (BSP_AUDIO_OUT_SetVolume (Hal.allOk BoardConf.dk) 0 101
          Scenario.outStopped).2.Audio_Out_Ctx.Volume = Scenario.outStopped.Audio_Out_Ctx.Volume)
    ∧ ((BSP_AUDIO_OUT_SetVolume (Hal.allOk BoardConf.dk) 0 100 Scenario.outStopped).1
        = BSP_ERROR_NONE
      ∧ BSP_AUDIO_OUT_GetVolume 0
          (BSP_AUDIO_OUT_SetVolume (Hal.allOk BoardConf.dk) 0 100 Scenario.outStopped).2
          = (BSP_ERROR_NONE, some 100)) :=
  ⟨by decide,
   (out_volume_boundary (Hal.allOk BoardConf.dk) 101 Scenario.outStopped).1 (by decide),
   (out_volume_boundary (Hal.allOk BoardConf.dk) 100 Scenario.outStopped).2 (by decide)
     (by decide) (by decide)⟩

/-- C9, the claim as stated fails. On the globals in which the output is Playing, so not
Stopped, with volume 50 stored, `BSP_AUDIO_OUT_SetVolume` with volume 60 and the codec
succeeding returns `BSP_ERROR_NONE`, not `BSP_ERROR_BUSY`; it issues the codec `SetVolume`
command and stores 60. -/
theorem set_volume_busy_unless_stopped_counterexample :
    Scenario.outPlaying.Audio_Out_Ctx.State = AUDIO_OUT_STATE_PLAYING
    ∧ Scenario.outPlaying.Audio_Out_Ctx.Volume = 50
    ∧ (BSP_AUDIO_OUT_SetVolume (Hal.allOk BoardConf.dk) 0 60 Scenario.outPlaying).1
        = BSP_ERROR_NONE
    ∧ (BSP_AUDIO_OUT_SetVolume (Hal.allOk BoardConf.dk) 0 60 Scenario.outPlaying).1
        ≠ BSP_ERROR_BUSY
    ∧ (BSP_AUDIO_OUT_SetVolume (Hal.allOk BoardConf.dk) 0 60
        Scenario.outPlaying).2.Audio_Out_Ctx.Volume = 60
    ∧ (BSP_AUDIO_OUT_SetVolume (Hal.allOk BoardConf.dk) 0 60 Scenario.outPlaying).2.log
        = Scenario.outPlaying.log ++ [Ev.Drv_SetVolume 60] := by
  decide

/-- C9, amended. For the output and every volume `v` up to 100, `BSP_AUDIO_OUT_SetVolume`
returns `BSP_ERROR_BUSY` exactly when the output is in Reset, and then nothing changes: the
stored volume is as before and no codec command is issued. In every other state (Init, Stopped,
Playing, Paused) it issues the codec `SetVolume` command with `v`; when the command succeeds the
call returns `BSP_ERROR_NONE` and `v` is stored, and when it fails the call returns
`BSP_ERROR_COMPONENT_FAILURE` and the stored volume is as before. -/
theorem set_volume_busy_iff_reset (h : Hal) (v : Nat) (s : AudioState) (hv : v ≤ 100) :
    ((BSP_AUDIO_OUT_SetVolume h 0 v s).1 = BSP_ERROR_BUSY
      ↔ s.Audio_Out_Ctx.State = AUDIO_OUT_STATE_RESET)
    ∧ (s.Audio_Out_Ctx.State = AUDIO_OUT_STATE_RESET →
        BSP_AUDIO_OUT_SetVolume h 0 v s = (BSP_ERROR_BUSY, s))
    ∧ (s.Audio_Out_Ctx.State ≠ AUDIO_OUT_STATE_RESET →
        (BSP_AUDIO_OUT_SetVolume h 0 v s).2.log = s.log ++ [Ev.Drv_SetVolume (v % 256)]
        ∧ (0 ≤ h.Drv_SetVolume →
            (BSP_AUDIO_OUT_SetVolume h 0 v s).1 = BSP_ERROR_NONE
            ∧ (BSP_AUDIO_OUT_SetVolume h 0 v s).2.Audio_Out_Ctx.Volume = v)
        ∧ (h.Drv_SetVolume < 0 →
            (BSP_AUDIO_OUT_SetVolume h 0 v s).1 = BSP_ERROR_COMPONENT_FAILURE
            ∧ (BSP_AUDIO_OUT_SetVolume h 0 v s).2.Audio_Out_Ctx.Volume
                = s.Audio_Out_Ctx.Volume)) := by
  have gv := not_lt.mpr hv
  by_cases h0 : s.Audio_Out_Ctx.State = AUDIO_OUT_STATE_RESET
  · simp only [AUDIO_OUT_STATE_RESET] at h0
    simp [BSP_AUDIO_OUT_SetVolume, h0, gv]
  · simp only [AUDIO_OUT_STATE_RESET] at h0
    by_cases hc : h.Drv_SetVolume < 0
    · simp [BSP_AUDIO_OUT_SetVolume, h0, gv, hc]
    · have hc2 := not_lt.mp hc
      simp [BSP_AUDIO_OUT_SetVolume, h0, gv, hc, hc2]

/-- On the initial globals (output in Reset) volume 60 is refused with `BSP_ERROR_BUSY`; on the
globals in which the output is Playing it is accepted and stored. -/
theorem set_volume_busy_iff_reset_witness :
    BSP_AUDIO_OUT_SetVolume (Hal.allOk BoardConf.dk) 0 60 AudioState.initial
      = (BSP_ERROR_BUSY, AudioState.initial)
    ∧ ((BSP_AUDIO_OUT_SetVolume (Hal.allOk BoardConf.dk) 0 60 Scenario.outPlaying).1
        = BSP_ERROR_NONE
      ∧ (BSP_AUDIO_OUT_SetVolume (Hal.allOk BoardConf.dk) 0 60
          Scenario.outPlaying).2.Audio_Out_Ctx.Volume = 60) :=
  ⟨(set_volume_busy_iff_reset (Hal.allOk BoardConf.dk) 60 AudioState.initial
      (by decide)).2.1 rfl,
   ((set_volume_busy_iff_reset (Hal.allOk BoardConf.dk) 60 Scenario.outPlaying
      (by decide)).2.2 (by decide)).2.1 (by decide)⟩

/-- C10. Stream transition table. For the output and for each input, with a buffer that is not
`NULL`, a length of at most 65535 bytes (for the digital input also half the length at most
`DEFAULT_AUDIO_IN_BUFFER_SIZE`, the size of the scratch buffer) and every collaborator of the
streaming operations succeeding, the status returned and the state after Start
(Play or Record), Pause, Resume, Stop and DeInit are those of `transitionTable`: Start succeeds
exactly in Stopped and yields Streaming, Pause exactly in Streaming and yields Paused, Resume
exactly in Paused and yields Streaming, Stop exactly in Streaming, Paused or Stopped and yields
Stopped, DeInit always succeeds and yields Reset, and in every other case the call returns
`BSP_ERROR_BUSY` and the globals are unchanged. In every reachable state each of the three
`State` fields holds Reset, Streaming, Stopped, Paused or Init. -/
theorem stream_transition_table (c : BoardConf) (h : Hal) (pData NbrOfBytes : Nat)
    (s : AudioState) (hp : pData ≠ 0) (hn : NbrOfBytes ≤ 65535) (hok : h.streamOk) :
    (∀ op : StreamOp,
      (op.runOut c h pData NbrOfBytes s).1 = (transitionTable op s.Audio_Out_Ctx.State).1
      ∧ (op.runOut c h pData NbrOfBytes s).2.Audio_Out_Ctx.State
          = (transitionTable op s.Audio_Out_Ctx.State).2
      ∧ ((transitionTable op s.Audio_Out_Ctx.State).1 = BSP_ERROR_BUSY →
          (op.runOut c h pData NbrOfBytes s).2 = s))
    ∧ (∀ (op : StreamOp) (i : Nat), i < AUDIO_IN_INSTANCES_NBR →
      (i = 1 → NbrOfBytes / 2 ≤ c.DEFAULT_AUDIO_IN_BUFFER_SIZE) →
      (op.runIn c h i pData NbrOfBytes s).1 = (transitionTable op (s.Audio_In_Ctx i).State).1
      ∧ ((op.runIn c h i pData NbrOfBytes s).2.Audio_In_Ctx i).State
          = (transitionTable op (s.Audio_In_Ctx i).State).2
      ∧ ((transitionTable op (s.Audio_In_Ctx i).State).1 = BSP_ERROR_BUSY →
          (op.runIn c h i pData NbrOfBytes s).2 = s))
    ∧ (Reachable c s →
      StateInRange s.Audio_Out_Ctx.State ∧ StateInRange s.Audio_In_Ctx_0.State
        ∧ StateInRange s.Audio_In_Ctx_1.State) :=
  ⟨fun op => runOut_followsTable c h op pData NbrOfBytes s hp hn hok,
   fun op i hi hbuf => runIn_followsTable c h op i hi pData NbrOfBytes s hp hn hbuf hok,
   fun hr => (reachable_Inv c s hr).2⟩

/-- Scenario B and its neighbours: on the globals in which the output is Stopped a start of
4800 bytes succeeds and yields Playing; on the globals in which the output is Playing a second
start returns `BSP_ERROR_BUSY` and changes nothing, and a pause yields Paused; the state there is
one of the five values. -/
theorem stream_transition_table_witness :
    ((StreamOp.Start.runOut BoardConf.dk (Hal.allOk BoardConf.dk) Scenario.buf 4800
        Scenario.outStopped).1 = BSP_ERROR_NONE
      ∧ (StreamOp.Start.runOut BoardConf.dk (Hal.allOk BoardConf.dk) Scenario.buf 4800
        Scenario.outStopped).2.Audio_Out_Ctx.State = AUDIO_OUT_STATE_PLAYING)
    ∧ ((StreamOp.Start.runOut BoardConf.dk (Hal.allOk BoardConf.dk) Scenario.buf 4800
        Scenario.outPlaying).1 = BSP_ERROR_BUSY
      ∧ (StreamOp.Start.runOut BoardConf.dk (Hal.allOk BoardConf.dk) Scenario.buf 4800
        Scenario.outPlaying).2 = Scenario.outPlaying)
    ∧ StateInRange Scenario.outPlaying.Audio_Out_Ctx.State :=
  have ok : (Hal.allOk BoardConf.dk).streamOk :=
    ⟨rfl, rfl, rfl, rfl, rfl, rfl, rfl, rfl, rfl, by decide, by decide, by decide, by decide,
      by decide⟩
  have w := fun s => stream_transition_table BoardConf.dk (Hal.allOk BoardConf.dk)
    Scenario.buf 4800 s (by decide) (by decide) ok
  ⟨⟨((w Scenario.outStopped).1 StreamOp.Start).1, ((w Scenario.outStopped).1 StreamOp.Start).2.1⟩,
   ⟨((w Scenario.outPlaying).1 StreamOp.Start).1,
    ((w Scenario.outPlaying).1 StreamOp.Start).2.2 (by decide)⟩,
   ((w Scenario.outPlaying).2.2 outPlaying_reachable).1⟩

/-- C11. Start/Stop round trip. After a successful Init of the output, of the analog input or
of the digital input, for every `n` the sequence Start; Stop repeated `n` times and followed by
Start, always with the same buffer (not `NULL`) and the same accepted length (at most 65535
bytes, for the digital input also half of it at most `DEFAULT_AUDIO_IN_BUFFER_SIZE`) and with
the collaborators of the streaming operations succeeding, returns `BSP_ERROR_NONE` at each of
its `2 * n + 1` steps without any DeInit, and ends in the Streaming state with the configured
parameters (device, sample rate, bits per sample, channels, volume) equal to those given to
Init. -/
theorem start_stop_round_trip (c : BoardConf) (h0 h : Hal) (a : BSP_AUDIO_Init_t)
    (s : AudioState) (pData NbrOfBytes n : Nat) (hp : pData ≠ 0) (hlen : NbrOfBytes ≤ 65535)
    (hok : h.streamOk) :
    ((BSP_AUDIO_OUT_Init c h0 0 a s).1 = BSP_ERROR_NONE →
      (runOps c h (roundTripOut pData NbrOfBytes n) (BSP_AUDIO_OUT_Init c h0 0 a s).2).1
          = List.replicate (2 * n + 1) (some BSP_ERROR_NONE)
      ∧ (runOps c h (roundTripOut pData NbrOfBytes n)
          (BSP_AUDIO_OUT_Init c h0 0 a s).2).2.Audio_Out_Ctx.State = AUDIO_OUT_STATE_PLAYING
      ∧ (runOps c h (roundTripOut pData NbrOfBytes n)
          (BSP_AUDIO_OUT_Init c h0 0 a s).2).2.Audio_Out_Ctx.config = a)
    ∧ (∀ i : Nat, i < AUDIO_IN_INSTANCES_NBR →
      (i = 1 → NbrOfBytes / 2 ≤ c.DEFAULT_AUDIO_IN_BUFFER_SIZE) →
      (BSP_AUDIO_IN_Init c h0 i a s).1 = BSP_ERROR_NONE →
      (runOps c h (roundTripIn i pData NbrOfBytes n) (BSP_AUDIO_IN_Init c h0 i a s).2).1
          = List.replicate (2 * n + 1) (some BSP_ERROR_NONE)
      ∧ ((runOps c h (roundTripIn i pData NbrOfBytes n)
          (BSP_AUDIO_IN_Init c h0 i a s).2).2.Audio_In_Ctx i).State = AUDIO_IN_STATE_RECORDING
      ∧ ((runOps c h (roundTripIn i pData NbrOfBytes n)
          (BSP_AUDIO_IN_Init c h0 i a s).2).2.Audio_In_Ctx i).config = a) := by
  constructor
  · intro hinit
    have d := OUT_Init_done c h0 0 a s hinit
    have w := roundTripOut_ok c h pData NbrOfBytes hp hlen hok n _ d.1
    exact ⟨w.1, w.2.1, w.2.2.trans d.2⟩
  · intro i hi hbuf hinit
    have d := IN_Init_done c h0 i hi a s hinit
    have w := roundTripIn_ok c h i hi pData NbrOfBytes hp hlen hbuf hok n _ d.1
    exact ⟨w.1, w.2.1, w.2.2.trans d.2⟩

/-- The round trip of the specification on the initial globals: Init of the output with the
configuration of scenario A, then Play; Stop; Play; Stop; Play with 4800 bytes. The five calls
return `BSP_ERROR_NONE` and the output ends Playing with that configuration. -/
theorem start_stop_round_trip_witness :
    (runOps BoardConf.dk (Hal.allOk BoardConf.dk) (roundTripOut Scenario.buf 4800 2)
        Scenario.outStopped).1
      = [some BSP_ERROR_NONE, some BSP_ERROR_NONE, some BSP_ERROR_NONE, some BSP_ERROR_NONE,
         some BSP_ERROR_NONE]
    ∧ (runOps BoardConf.dk (Hal.allOk BoardConf.dk) (roundTripOut Scenario.buf 4800 2)
        Scenario.outStopped).2.Audio_Out_Ctx.State = AUDIO_OUT_STATE_PLAYING
    ∧ (runOps BoardConf.dk (Hal.allOk BoardConf.dk) (roundTripOut Scenario.buf 4800 2)
        Scenario.outStopped).2.Audio_Out_Ctx.config = Scenario.cfgOut :=
  (start_stop_round_trip BoardConf.dk (Hal.allOk BoardConf.dk) (Hal.allOk BoardConf.dk)
    Scenario.cfgOut AudioState.initial Scenario.buf 4800 2 (by decide) (by decide)
    ⟨rfl, rfl, rfl, rfl, rfl, rfl, rfl, rfl, rfl, by decide, by decide, by decide, by decide,
      by decide⟩).1 (by decide)

/-- C12. Idempotence of Mute and Stop. `BSP_AUDIO_OUT_Mute` on an output that is out of Reset
and already muted, and `BSP_AUDIO_OUT_UnMute` on one that is out of Reset and already unmuted,
return `BSP_ERROR_NONE` and leave the globals, log included, as they were: no codec `SetMute`
command is issued and the output context is unchanged. Stop on an instance that is already
Stopped (the output or either input) returns `BSP_ERROR_NONE` and leaves the globals as they
were: no codec or DMA command is issued. Consequently a Mute that follows a successful Mute,
and a Stop that follows a successful Stop, succeeds and changes nothing. -/
theorem mute_stop_idempotent (h h2 : Hal) (s : AudioState) :
    (s.Audio_Out_Ctx.State ≠ AUDIO_OUT_STATE_RESET →
      s.Audio_Out_Ctx.IsMute = AUDIO_MUTE_ENABLED →
      BSP_AUDIO_OUT_Mute h 0 s = (BSP_ERROR_NONE, s))
    ∧ (s.Audio_Out_Ctx.State ≠ AUDIO_OUT_STATE_RESET →
      s.Audio_Out_Ctx.IsMute = AUDIO_MUTE_DISABLED →
      BSP_AUDIO_OUT_UnMute h 0 s = (BSP_ERROR_NONE, s))
    ∧ (s.Audio_Out_Ctx.State = AUDIO_OUT_STATE_STOP →
      BSP_AUDIO_OUT_Stop h 0 s = (BSP_ERROR_NONE, s))
    ∧ (∀ i : Nat, i < AUDIO_IN_INSTANCES_NBR →
      (s.Audio_In_Ctx i).State = AUDIO_IN_STATE_STOP →
      BSP_AUDIO_IN_Stop h i s = (BSP_ERROR_NONE, s))
    ∧ ((BSP_AUDIO_OUT_Mute h 0 s).1 = BSP_ERROR_NONE →
      BSP_AUDIO_OUT_Mute h2 0 (BSP_AUDIO_OUT_Mute h 0 s).2
        = (BSP_ERROR_NONE, (BSP_AUDIO_OUT_Mute h 0 s).2))
    ∧ ((BSP_AUDIO_OUT_Stop h 0 s).1 = BSP_ERROR_NONE →
      BSP_AUDIO_OUT_Stop h2 0 (BSP_AUDIO_OUT_Stop h 0 s).2
        = (BSP_ERROR_NONE, (BSP_AUDIO_OUT_Stop h 0 s).2))
    ∧ (∀ i : Nat, i < AUDIO_IN_INSTANCES_NBR →
      (BSP_AUDIO_IN_Stop h i s).1 = BSP_ERROR_NONE →
      BSP_AUDIO_IN_Stop h2 i (BSP_AUDIO_IN_Stop h i s).2
        = (BSP_ERROR_NONE, (BSP_AUDIO_IN_Stop h i s).2)) := by
  have stopOut : ∀ (g : Hal) (t : AudioState),
      t.Audio_Out_Ctx.State = AUDIO_OUT_STATE_STOP →
      BSP_AUDIO_OUT_Stop g 0 t = (BSP_ERROR_NONE, t) := by
    intro g t ht
    unfold BSP_AUDIO_OUT_Stop
    rw [if_neg (by simp), if_pos ht]
  have stopIn : ∀ (g : Hal) (t : AudioState) (i : Nat), i < AUDIO_IN_INSTANCES_NBR →
      (t.Audio_In_Ctx i).State = AUDIO_IN_STATE_STOP →
      BSP_AUDIO_IN_Stop g i t = (BSP_ERROR_NONE, t) := by
    intro g t i hi ht
    unfold BSP_AUDIO_IN_Stop
    rw [if_neg (not_le.mpr hi), if_pos ht]
  have muteOut : ∀ (g : Hal) (t : AudioState),
      t.Audio_Out_Ctx.State ≠ AUDIO_OUT_STATE_RESET → t.Audio_Out_Ctx.IsMute = 1 →
      BSP_AUDIO_OUT_Mute g 0 t = (BSP_ERROR_NONE, t) := by
    intro g t ht hm
    unfold BSP_AUDIO_OUT_Mute
    rw [if_neg (by simp), if_neg ht, if_pos hm]
  refine ⟨muteOut h s, ?_, stopOut h s, stopIn h s, ?_, ?_, ?_⟩
  · intro ht hm
    unfold BSP_AUDIO_OUT_UnMute
    rw [if_neg (by simp), if_neg ht, if_pos (show s.Audio_Out_Ctx.IsMute = 0 from hm)]
  · intro hok
    have m := OUT_Mute_muted h 0 s hok
    exact muteOut h2 _ m.1 m.2
  · intro hok
    exact stopOut h2 _ ((OUT_Stop_outcome h 0 s).1 hok)
  · intro i hi hok
    exact stopIn h2 _ i hi ((IN_Stop_outcome h i hi s).1 hok)

/-- On the globals in which the output is Stopped: a second Stop changes nothing, a Mute
succeeds and a second Mute changes nothing more. -/
theorem mute_stop_idempotent_witness :
    BSP_AUDIO_OUT_Stop (Hal.allOk BoardConf.dk) 0 Scenario.outStopped
      = (BSP_ERROR_NONE, Scenario.outStopped)
    ∧ (BSP_AUDIO_OUT_Mute (Hal.allOk BoardConf.dk) 0 Scenario.outStopped).2.Audio_Out_Ctx.IsMute
      = AUDIO_MUTE_ENABLED
    ∧ BSP_AUDIO_OUT_Mute (Hal.allOk BoardConf.dk) 0
        (BSP_AUDIO_OUT_Mute (Hal.allOk BoardConf.dk) 0 Scenario.outStopped).2
      = (BSP_ERROR_NONE, (BSP_AUDIO_OUT_Mute (Hal.allOk BoardConf.dk) 0 Scenario.outStopped).2) :=
  have w := mute_stop_idempotent (Hal.allOk BoardConf.dk) (Hal.allOk BoardConf.dk)
    Scenario.outStopped
  ⟨w.2.2.1 (by decide), by decide, w.2.2.2.2.1 (by decide)⟩

/-- C13. Analog-input half-complete channel duplication. For every stored length `Size` and
every content of the record buffer, seen as interleaved 16-bit samples, after
`HAL_I2S_RxHalfCpltCallback` (`I2S_RxHalfCpltCallback` has the same body) has run: for every
frame index `i < Size / 8` the right sample, at index `2 * i + 1`, equals the left sample, at
index `2 * i`; every left sample has its original value; every sample at an index from
`2 * (Size / 8)` on is unchanged; and the handler has called
`BSP_AUDIO_IN_HalfTransfer_CallBack(0)`, once, and no other user callback. -/
theorem rx_half_duplicates_left (s : AudioState) (RecBuff : Nat → Nat) :
    (∀ i : Nat, i < s.Audio_In_Ctx_0.Size / 8 →
      (HAL_I2S_RxHalfCpltCallback s RecBuff).1 (2 * i + 1)
        = (HAL_I2S_RxHalfCpltCallback s RecBuff).1 (2 * i))
    ∧ (∀ i : Nat, (HAL_I2S_RxHalfCpltCallback s RecBuff).1 (2 * i) = RecBuff (2 * i))
    ∧ (∀ k : Nat, 2 * (s.Audio_In_Ctx_0.Size / 8) ≤ k →
      (HAL_I2S_RxHalfCpltCallback s RecBuff).1 k = RecBuff k)
    ∧ (HAL_I2S_RxHalfCpltCallback s RecBuff).2 = [BSP_AUDIO_IN_HalfTransfer_CallBack 0] := by
  refine ⟨?_, ?_, ?_, rfl⟩
  · intro i hi
    simp only [HAL_I2S_RxHalfCpltCallback, I2S_Rx_loop_spec]
    rw [if_pos (by omega), if_neg (by omega)]
    congr 1
  · intro i
    simp only [HAL_I2S_RxHalfCpltCallback, I2S_Rx_loop_spec]
    rw [if_neg (by omega)]
  · intro k hk
    simp only [HAL_I2S_RxHalfCpltCallback, I2S_Rx_loop_spec]
    rw [if_neg (by omega)]

/-- A record of 16 bytes (two frames in the half) over the samples `100, 101, 102, ...`: after
the handler the buffer starts `100, 100, 102, 102` and goes on with `104, 105`. -/
theorem rx_half_duplicates_left_witness :
    (List.range 6).map
      (HAL_I2S_RxHalfCpltCallback
        { AudioState.initial with
          Audio_In_Ctx_0 := { AudioState.initial.Audio_In_Ctx_0 with Size := 16 } }
        (fun k => 100 + k)).1 = [100, 100, 102, 102, 104, 105]
    ∧ (HAL_I2S_RxHalfCpltCallback
        { AudioState.initial with
          Audio_In_Ctx_0 := { AudioState.initial.Audio_In_Ctx_0 with Size := 16 } }
        (fun k => 100 + k)).1 (2 * 1 + 1)
      = (HAL_I2S_RxHalfCpltCallback
        { AudioState.initial with
          Audio_In_Ctx_0 := { AudioState.initial.Audio_In_Ctx_0 with Size := 16 } }
        (fun k => 100 + k)).1 (2 * 1) :=
  ⟨by decide,
   (rx_half_duplicates_left
      { AudioState.initial with
        Audio_In_Ctx_0 := { AudioState.initial.Audio_In_Ctx_0 with Size := 16 } }
      (fun k => 100 + k)).1 1 (by decide)⟩

/-- C14. Digital-microphone sample conversion. For every content of the scratch buffer
`Audio_DigMicRecBuff` and every index `i` that `HAL_MDF_AcqHalfCpltCallback` (indices below
`Size / 2 / 2`) or `HAL_MDF_AcqCpltCallback` (indices from `Size / 2 / 2` up to `Size / 2`)
processes, the bytes of the caller buffer at offsets `2 * i` and `2 * i + 1` after the handler
are the low and the high byte of the two's-complement 16-bit encoding of
`clamp(r / 256, -32768, 32767)`, where `r` is the raw sample at index `i` and `/` truncates
toward zero. A raw sample of 8000000 gives 31250, bytes `0x12` and `0x7A`; `2^31 - 1` gives
32767 and `-2^31` gives -32768. -/
theorem mdf_sample_conversion (s : AudioState) (Audio_DigMicRecBuff : Nat → Int)
    (pBuff : Nat → Nat) (i : Nat) :
    (i < s.Audio_In_Ctx_1.Size / 2 / 2 →
      (HAL_MDF_AcqHalfCpltCallback s Audio_DigMicRecBuff pBuff).1 (2 * i)
        = (int16LE (clampDiv256 (Audio_DigMicRecBuff i))).1
      ∧ (HAL_MDF_AcqHalfCpltCallback s Audio_DigMicRecBuff pBuff).1 (2 * i + 1)
        = (int16LE (clampDiv256 (Audio_DigMicRecBuff i))).2)
    ∧ (s.Audio_In_Ctx_1.Size / 2 / 2 ≤ i → i < s.Audio_In_Ctx_1.Size / 2 →
      (HAL_MDF_AcqCpltCallback s Audio_DigMicRecBuff pBuff).1 (2 * i)
        = (int16LE (clampDiv256 (Audio_DigMicRecBuff i))).1
      ∧ (HAL_MDF_AcqCpltCallback s Audio_DigMicRecBuff pBuff).1 (2 * i + 1)
        = (int16LE (clampDiv256 (Audio_DigMicRecBuff i))).2)
    ∧ clampDiv256 8000000 = 31250 ∧ int16LE 31250 = (0x12, 0x7A)
    ∧ clampDiv256 (2 ^ 31 - 1) = 32767 ∧ clampDiv256 (-(2 ^ 31)) = -32768 := by
  have hd0 : 2 * i / 2 = i := by omega
  have hd1 : (2 * i + 1) / 2 = i := by omega
  refine ⟨?_, ?_, by decide, by decide, by decide, by decide⟩
  · intro hi
    simp only [HAL_MDF_AcqHalfCpltCallback, MDF_Acq_loop_spec]
    rw [if_pos (by omega), if_pos (by omega), if_pos (by omega), if_neg (by omega), hd0, hd1]
    exact ⟨rfl, rfl⟩
  · intro hlo hhi
    simp only [HAL_MDF_AcqCpltCallback, MDF_Acq_loop_spec]
    rw [if_pos (by omega), if_pos (by omega), if_pos (by omega), if_neg (by omega), hd0, hd1]
    exact ⟨rfl, rfl⟩

/-- Scenario D and the two saturation bounds, run through the handlers: with a stored length
of 16 bytes the half-complete handler drains the scratch indices 0 to 3 and the complete
handler the indices 4 to 7. The raw sample 8000000 at index 1 comes out as the bytes `0x12`,
`0x7A`; `2^31 - 1` at index 2 as `0xFF`, `0x7F`; `-2^31` at index 5 as `0x00`, `0x80`. -/
theorem mdf_sample_conversion_witness :
    ((HAL_MDF_AcqHalfCpltCallback
        { AudioState.initial with
          Audio_In_Ctx_1 := { AudioState.initial.Audio_In_Ctx_1 with Size := 16 } }
        (fun k => if k = 1 then 8000000 else if k = 2 then 2147483647 else -2147483648)
        (fun _ => 0)).1 (2 * 1)
        = (int16LE (clampDiv256 8000000)).1
      ∧ (HAL_MDF_AcqHalfCpltCallback
        { AudioState.initial with
          Audio_In_Ctx_1 := { AudioState.initial.Audio_In_Ctx_1 with Size := 16 } }
        (fun k => if k = 1 then 8000000 else if k = 2 then 2147483647 else -2147483648)
        (fun _ => 0)).1 (2 * 1 + 1)
        = (int16LE (clampDiv256 8000000)).2)
    ∧ (List.range 6).map
        (HAL_MDF_AcqHalfCpltCallback
          { AudioState.initial with
            Audio_In_Ctx_1 := { AudioState.initial.Audio_In_Ctx_1 with Size := 16 } }
          (fun k => if k = 1 then 8000000 else if k = 2 then 2147483647 else -2147483648)
          (fun _ => 0)).1 = [0x00, 0x80, 0x12, 0x7A, 0xFF, 0x7F]
    ∧ (List.range 12).map
        (HAL_MDF_AcqCpltCallback
          { AudioState.initial with
            Audio_In_Ctx_1 := { AudioState.initial.Audio_In_Ctx_1 with Size := 16 } }
          (fun k => if k = 1 then 8000000 else if k = 2 then 2147483647 else -2147483648)
          (fun _ => 0)).1 = [0, 0, 0, 0, 0, 0, 0, 0, 0x00, 0x80, 0x00, 0x80] :=
  ⟨(mdf_sample_conversion
      { AudioState.initial with
        Audio_In_Ctx_1 := { AudioState.initial.Audio_In_Ctx_1 with Size := 16 } }
      (fun k => if k = 1 then 8000000 else if k = 2 then 2147483647 else -2147483648)
      (fun _ => 0) 1).1 (by decide),
   by decide, by decide⟩

/-- C15. Error fan-out and exactly-once dispatch. The I2S error handler calls
`BSP_AUDIO_OUT_Error_CallBack(0)` and `BSP_AUDIO_IN_Error_CallBack(0)`, each exactly once, and
no other user callback; the MDF error handler calls only `BSP_AUDIO_IN_Error_CallBack(1)`,
exactly once; each of the I2S Tx, I2S Rx and MDF half-complete and complete handlers calls
exactly one user callback, the HalfTransfer or TransferComplete callback of its direction, with
instance 0 for I2S and 1 for MDF, whatever the contexts and the sample memory hold. -/
theorem callback_dispatch (s : AudioState) (RecBuff pBuff : Nat → Nat)
    (Audio_DigMicRecBuff : Nat → Int) (cb : UserCallback) :
    HAL_I2S_ErrorCallback.count cb
        = (if cb = BSP_AUDIO_OUT_Error_CallBack 0 ∨ cb = BSP_AUDIO_IN_Error_CallBack 0
            then 1 else 0)
    ∧ HAL_MDF_ErrorCallback.count cb = (if cb = BSP_AUDIO_IN_Error_CallBack 1 then 1 else 0)
    ∧ HAL_I2S_TxCpltCallback = [BSP_AUDIO_OUT_TransferComplete_CallBack 0]
    ∧ HAL_I2S_TxHalfCpltCallback = [BSP_AUDIO_OUT_HalfTransfer_CallBack 0]
    ∧ (HAL_I2S_RxCpltCallback s RecBuff).2 = [BSP_AUDIO_IN_TransferComplete_CallBack 0]
    ∧ (HAL_I2S_RxHalfCpltCallback s RecBuff).2 = [BSP_AUDIO_IN_HalfTransfer_CallBack 0]
    ∧ (HAL_MDF_AcqCpltCallback s Audio_DigMicRecBuff pBuff).2
        = [BSP_AUDIO_IN_TransferComplete_CallBack 1]
    ∧ (HAL_MDF_AcqHalfCpltCallback s Audio_DigMicRecBuff pBuff).2
        = [BSP_AUDIO_IN_HalfTransfer_CallBack 1] := by
  refine ⟨?_, ?_, rfl, rfl, rfl, rfl, rfl, rfl⟩
  · cases cb <;> simp [HAL_I2S_ErrorCallback, List.count_cons]
    all_goals (split_ifs <;> first | rfl | omega)
  · cases cb <;> simp [HAL_MDF_ErrorCallback, List.count_cons]
    all_goals (split_ifs <;> first | rfl | omega)

/-- C16. SetSampleRate contract, for the output and for each input and every rate `f`.
`BSP_AUDIO_OUT_SetSampleRate` and `BSP_AUDIO_IN_SetSampleRate` return `BSP_ERROR_BUSY`, and
change nothing, unless the instance is Stopped. When it is Stopped and `f` is the stored rate
they return `BSP_ERROR_NONE` and leave the globals, log included, as they were, so neither the
clock configurator nor the peripheral initialisation is called. Whenever the call returns
`BSP_ERROR_NONE` the stored rate is `f` afterwards, and whenever it returns another status the
stored rate is the one from before; so for a rate that differs the stored rate is updated
exactly when the call succeeds. When it is Stopped, `f` differs and the clock configurator
fails, the call returns `BSP_ERROR_CLOCK_FAILURE`. After a successful call GetSampleRate
returns `BSP_ERROR_NONE` and `f`. -/
theorem set_sample_rate_contract (c : BoardConf) (h : Hal) (f : Nat) (s : AudioState) :
    ((s.Audio_Out_Ctx.State ≠ AUDIO_OUT_STATE_STOP →
        BSP_AUDIO_OUT_SetSampleRate c h 0 f s = (BSP_ERROR_BUSY, s))
      ∧ (s.Audio_Out_Ctx.State = AUDIO_OUT_STATE_STOP → s.Audio_Out_Ctx.SampleRate = f →
        BSP_AUDIO_OUT_SetSampleRate c h 0 f s = (BSP_ERROR_NONE, s))
      ∧ ((BSP_AUDIO_OUT_SetSampleRate c h 0 f s).1 = BSP_ERROR_NONE →
        (BSP_AUDIO_OUT_SetSampleRate c h 0 f s).2.Audio_Out_Ctx.SampleRate = f)
      ∧ ((BSP_AUDIO_OUT_SetSampleRate c h 0 f s).1 ≠ BSP_ERROR_NONE →
        (BSP_AUDIO_OUT_SetSampleRate c h 0 f s).2.Audio_Out_Ctx.SampleRate
          = s.Audio_Out_Ctx.SampleRate)
      ∧ (s.Audio_Out_Ctx.State = AUDIO_OUT_STATE_STOP → s.Audio_Out_Ctx.SampleRate ≠ f →
        (MX_I2S6_ClockConfig h f).1 ≠ HAL_OK →
        (BSP_AUDIO_OUT_SetSampleRate c h 0 f s).1 = BSP_ERROR_CLOCK_FAILURE)
      ∧ ((BSP_AUDIO_OUT_SetSampleRate c h 0 f s).1 = BSP_ERROR_NONE →
        BSP_AUDIO_OUT_GetSampleRate 0 (BSP_AUDIO_OUT_SetSampleRate c h 0 f s).2
          = (BSP_ERROR_NONE, some f)))
    ∧ (∀ i : Nat, i < AUDIO_IN_INSTANCES_NBR →
      ((s.Audio_In_Ctx i).State ≠ AUDIO_IN_STATE_STOP →
        BSP_AUDIO_IN_SetSampleRate c h i f s = (BSP_ERROR_BUSY, s))
      ∧ ((s.Audio_In_Ctx i).State = AUDIO_IN_STATE_STOP → (s.Audio_In_Ctx i).SampleRate = f →
        BSP_AUDIO_IN_SetSampleRate c h i f s = (BSP_ERROR_NONE, s))
      ∧ ((BSP_AUDIO_IN_SetSampleRate c h i f s).1 = BSP_ERROR_NONE →
        ((BSP_AUDIO_IN_SetSampleRate c h i f s).2.Audio_In_Ctx i).SampleRate = f)
      ∧ ((BSP_AUDIO_IN_SetSampleRate c h i f s).1 ≠ BSP_ERROR_NONE →
        ((BSP_AUDIO_IN_SetSampleRate c h i f s).2.Audio_In_Ctx i).SampleRate
          = (s.Audio_In_Ctx i).SampleRate)
      ∧ ((s.Audio_In_Ctx i).State = AUDIO_IN_STATE_STOP →
        (s.Audio_In_Ctx i).SampleRate ≠ f → inClockConfig h i f ≠ HAL_OK →
        (BSP_AUDIO_IN_SetSampleRate c h i f s).1 = BSP_ERROR_CLOCK_FAILURE)
      ∧ ((BSP_AUDIO_IN_SetSampleRate c h i f s).1 = BSP_ERROR_NONE →
        BSP_AUDIO_IN_GetSampleRate i (BSP_AUDIO_IN_SetSampleRate c h i f s).2
          = (BSP_ERROR_NONE, some f))) :=
  ⟨OUT_SetSampleRate_contract c h f s, fun i hi => IN_SetSampleRate_contract c h i hi f s⟩

/-- On the globals in which the output is Stopped at 48 kHz: a change to 44.1 kHz succeeds and
is read back; with the oscillator configuration failing it returns `BSP_ERROR_CLOCK_FAILURE` and
the stored rate stays 48 kHz; on the globals in which the output is Playing it returns
`BSP_ERROR_BUSY`. -/
theorem set_sample_rate_contract_witness :
    BSP_AUDIO_OUT_GetSampleRate 0
        (BSP_AUDIO_OUT_SetSampleRate BoardConf.dk (Hal.allOk BoardConf.dk) 0 44100
          Scenario.outStopped).2 = (BSP_ERROR_NONE, some 44100)
    ∧ (BSP_AUDIO_OUT_SetSampleRate BoardConf.dk (Hal.oscFails BoardConf.dk) 0 44100
        Scenario.outStopped).1 = BSP_ERROR_CLOCK_FAILURE
    ∧ (BSP_AUDIO_OUT_SetSampleRate BoardConf.dk (Hal.oscFails BoardConf.dk) 0 44100
        Scenario.outStopped).2.Audio_Out_Ctx.SampleRate = 48000
    ∧ BSP_AUDIO_OUT_SetSampleRate BoardConf.dk (Hal.allOk BoardConf.dk) 0 44100
        Scenario.outPlaying = (BSP_ERROR_BUSY, Scenario.outPlaying) :=
  ⟨(set_sample_rate_contract BoardConf.dk (Hal.allOk BoardConf.dk) 44100
      Scenario.outStopped).1.2.2.2.2.2 (by decide),
   (set_sample_rate_contract BoardConf.dk (Hal.oscFails BoardConf.dk) 44100
      Scenario.outStopped).1.2.2.2.2.1 (by decide) (by decide) (by decide),
   by decide,
   (set_sample_rate_contract BoardConf.dk (Hal.allOk BoardConf.dk) 44100
      Scenario.outPlaying).1.1 (by decide)⟩

/-- C17, the claim as stated fails. The globals `Scenario.outTuned` are reachable (Init at
48 kHz, Mute, SetVolume 70) with the output Stopped; `BSP_AUDIO_OUT_DeInit` returns
`BSP_ERROR_NONE` there and the output context afterwards still holds sample rate 48000 and
volume 70, so it is not the default context (sample rate 8000, volume 50). -/
theorem deinit_resets_defaults_counterexample :
    Scenario.outTuned.Audio_Out_Ctx.State = AUDIO_OUT_STATE_STOP
    ∧ (BSP_AUDIO_OUT_DeInit BoardConf.dk (Hal.allOk BoardConf.dk) 0 Scenario.outTuned).1
        = BSP_ERROR_NONE
    ∧ (BSP_AUDIO_OUT_DeInit BoardConf.dk (Hal.allOk BoardConf.dk) 0
        Scenario.outTuned).2.Audio_Out_Ctx
        = { Device := AUDIO_OUT_HEADPHONE, SampleRate := 48000, BitsPerSample := 16,
            Volume := 70, ChannelsNbr := 2, IsMute := 0, State := AUDIO_OUT_STATE_RESET }
    ∧ (BSP_AUDIO_OUT_DeInit BoardConf.dk (Hal.allOk BoardConf.dk) 0
        Scenario.outTuned).2.Audio_Out_Ctx ≠ AudioState.initial.Audio_Out_Ctx
    ∧ Reachable BoardConf.dk Scenario.outTuned :=
  ⟨by decide, by decide, by decide, by decide, outTuned_reachable⟩

/-- C17, amended. For every output context that is out of Reset, after
`BSP_AUDIO_OUT_DeInit` returns `BSP_ERROR_NONE` the output is in Reset and unmuted, and its
device, sample rate, bits per sample, volume and channel count are those from before the
call. -/
theorem deinit_resets_state_and_mute (c : BoardConf) (h : Hal) (s : AudioState)
    (hs : s.Audio_Out_Ctx.State ≠ AUDIO_OUT_STATE_RESET)
    (hok : (BSP_AUDIO_OUT_DeInit c h 0 s).1 = BSP_ERROR_NONE) :
    (BSP_AUDIO_OUT_DeInit c h 0 s).2.Audio_Out_Ctx
      = { Device := s.Audio_Out_Ctx.Device, SampleRate := s.Audio_Out_Ctx.SampleRate,
          BitsPerSample := s.Audio_Out_Ctx.BitsPerSample, Volume := s.Audio_Out_Ctx.Volume,
          ChannelsNbr := s.Audio_Out_Ctx.ChannelsNbr, IsMute := AUDIO_MUTE_DISABLED,
          State := AUDIO_OUT_STATE_RESET } :=
  OUT_DeInit_ctx c h 0 s hs hok

/-- On the globals in which the output is Stopped, muted, at 48 kHz with volume 70, a
successful DeInit leaves it in Reset and unmuted, still at 48 kHz with volume 70. -/
theorem deinit_resets_state_and_mute_witness :
    (BSP_AUDIO_OUT_DeInit BoardConf.dk (Hal.allOk BoardConf.dk) 0
        Scenario.outTuned).2.Audio_Out_Ctx
      = { Device := Scenario.outTuned.Audio_Out_Ctx.Device,
          SampleRate := Scenario.outTuned.Audio_Out_Ctx.SampleRate,
          BitsPerSample := Scenario.outTuned.Audio_Out_Ctx.BitsPerSample,
          Volume := Scenario.outTuned.Audio_Out_Ctx.Volume,
          ChannelsNbr := Scenario.outTuned.Audio_Out_Ctx.ChannelsNbr,
          IsMute := AUDIO_MUTE_DISABLED, State := AUDIO_OUT_STATE_RESET } :=
  deinit_resets_state_and_mute BoardConf.dk (Hal.allOk BoardConf.dk) Scenario.outTuned
    (by decide) (by decide)

/-- C18, the claim as stated fails. On the globals in which the analog input is Recording into
the buffer at `Scenario.buf` with 4800 bytes, `BSP_AUDIO_IN_Stop` returns `BSP_ERROR_NONE`, the
input is Stopped afterwards, and the context still holds that buffer pointer, which is not
`NULL`, and the length 4800. The state after the call is reachable, so the pointer and the
length are set in a reachable state in which the input is neither Recording nor Paused. -/
theorem stop_clears_buffer_counterexample :
    Scenario.in0Recording.Audio_In_Ctx_0.State = AUDIO_IN_STATE_RECORDING
    ∧ (BSP_AUDIO_IN_Stop (Hal.allOk BoardConf.dk) 0 Scenario.in0Recording).1 = BSP_ERROR_NONE
    ∧ (BSP_AUDIO_IN_Stop (Hal.allOk BoardConf.dk) 0
        Scenario.in0Recording).2.Audio_In_Ctx_0.State = AUDIO_IN_STATE_STOP
    ∧ (BSP_AUDIO_IN_Stop (Hal.allOk BoardConf.dk) 0
        Scenario.in0Recording).2.Audio_In_Ctx_0.pBuff = Scenario.buf
    ∧ (BSP_AUDIO_IN_Stop (Hal.allOk BoardConf.dk) 0
        Scenario.in0Recording).2.Audio_In_Ctx_0.pBuff ≠ 0
    ∧ (BSP_AUDIO_IN_Stop (Hal.allOk BoardConf.dk) 0
        Scenario.in0Recording).2.Audio_In_Ctx_0.Size = 4800
    ∧ Reachable BoardConf.dk
        (BSP_AUDIO_IN_Stop (Hal.allOk BoardConf.dk) 0 Scenario.in0Recording).2 :=
  ⟨by decide, by decide, by decide, by decide, by decide, by decide,
   Reachable.step (Hal.allOk BoardConf.dk) (Op.IN_Stop 0) Scenario.in0Recording
     in0Recording_reachable⟩

/-- C18, amended. For each input, after `BSP_AUDIO_IN_Stop` returns `BSP_ERROR_NONE` from
Recording or Paused the input is Stopped and the buffer pointer and the byte length of its
context are those from before the call: Stop does not clear them. In every reachable state,
while an input is Recording or Paused its buffer pointer is not `NULL` and its length is at
most 65535 bytes. -/
theorem stop_keeps_record_buffer (c : BoardConf) (h : Hal) (s : AudioState) :
    (∀ i : Nat, i < AUDIO_IN_INSTANCES_NBR →
      ((s.Audio_In_Ctx i).State = AUDIO_IN_STATE_RECORDING
        ∨ (s.Audio_In_Ctx i).State = AUDIO_IN_STATE_PAUSE) →
      (BSP_AUDIO_IN_Stop h i s).1 = BSP_ERROR_NONE →
      ((BSP_AUDIO_IN_Stop h i s).2.Audio_In_Ctx i).State = AUDIO_IN_STATE_STOP
      ∧ ((BSP_AUDIO_IN_Stop h i s).2.Audio_In_Ctx i).pBuff = (s.Audio_In_Ctx i).pBuff
      ∧ ((BSP_AUDIO_IN_Stop h i s).2.Audio_In_Ctx i).Size = (s.Audio_In_Ctx i).Size)
    ∧ (Reachable c s → ∀ i : Nat, i < AUDIO_IN_INSTANCES_NBR →
      ((s.Audio_In_Ctx i).State = AUDIO_IN_STATE_RECORDING
        ∨ (s.Audio_In_Ctx i).State = AUDIO_IN_STATE_PAUSE) →
      (s.Audio_In_Ctx i).pBuff ≠ 0 ∧ (s.Audio_In_Ctx i).Size ≤ 65535) := by
  constructor
  · intro i hi _ hok
    exact ⟨(IN_Stop_outcome h i hi s).1 hok, (IN_Stop_bufKept h i hi s).1,
      (IN_Stop_bufKept h i hi s).2⟩
  · intro hr i hi hst
    have w := reachable_BufInv c s hr
    simp only [AUDIO_IN_INSTANCES_NBR] at hi
    interval_cases i
    · exact w.1 hst
    · exact w.2 hst

/-- On the globals in which the analog input is Recording 4800 bytes into the buffer at
`Scenario.buf`: the pointer is not `NULL`, and after a successful Stop the context holds the
same pointer and length. -/
theorem stop_keeps_record_buffer_witness :
    ((Scenario.in0Recording.Audio_In_Ctx 0).pBuff ≠ 0
      ∧ (Scenario.in0Recording.Audio_In_Ctx 0).Size ≤ 65535)
    ∧ (((BSP_AUDIO_IN_Stop (Hal.allOk BoardConf.dk) 0
          Scenario.in0Recording).2.Audio_In_Ctx 0).State = AUDIO_IN_STATE_STOP
      ∧ ((BSP_AUDIO_IN_Stop (Hal.allOk BoardConf.dk) 0
          Scenario.in0Recording).2.Audio_In_Ctx 0).pBuff
          = (Scenario.in0Recording.Audio_In_Ctx 0).pBuff
      ∧ ((BSP_AUDIO_IN_Stop (Hal.allOk BoardConf.dk) 0
          Scenario.in0Recording).2.Audio_In_Ctx 0).Size
          = (Scenario.in0Recording.Audio_In_Ctx 0).Size) :=
  have w := stop_keeps_record_buffer BoardConf.dk (Hal.allOk BoardConf.dk)
    Scenario.in0Recording
  ⟨w.2 in0Recording_reachable 0 (by decide) (Or.inl (by decide)),
   w.1 0 (by decide) (Or.inl (by decide)) (by decide)⟩

/-- C19, the claim as stated fails. On the initial globals, with every collaborator
succeeding, `BSP_AUDIO_OUT_Init` with 24 bits per sample and two channels returns
`BSP_ERROR_NONE`, leaves the output Stopped with `BitsPerSample` 24 stored and initialises the
I2S peripheral with the 24-bit data format. -/
theorem init_only_16_bits_counterexample :
    Scenario.cfgOut24.BitsPerSample = 24
    ∧ (BSP_AUDIO_OUT_Init BoardConf.dk (Hal.allOk BoardConf.dk) 0 Scenario.cfgOut24
        AudioState.initial).1 = BSP_ERROR_NONE
    ∧ (BSP_AUDIO_OUT_Init BoardConf.dk (Hal.allOk BoardConf.dk) 0 Scenario.cfgOut24
        AudioState.initial).2.Audio_Out_Ctx.State = AUDIO_OUT_STATE_STOP
    ∧ (BSP_AUDIO_OUT_Init BoardConf.dk (Hal.allOk BoardConf.dk) 0 Scenario.cfgOut24
        AudioState.initial).2.Audio_Out_Ctx.BitsPerSample = 24
    ∧ Ev.I2S_Init_DataFormat haudio_out_i2s I2S_DATAFORMAT_24B
        ∈ (BSP_AUDIO_OUT_Init BoardConf.dk (Hal.allOk BoardConf.dk) 0 Scenario.cfgOut24
            AudioState.initial).2.log := by
  decide

/-- C19, amended. For the output, Init can return `BSP_ERROR_NONE` only if `BitsPerSample` is
neither 8 nor 32 and `ChannelsNbr` is 2, and a request with 8 or 32 bits or another channel
count returns `BSP_ERROR_FEATURE_NOT_SUPPORTED` and changes nothing. For each input, Init can
return `BSP_ERROR_NONE` only if `BitsPerSample` is 16 and `ChannelsNbr` is the fixed count of
the path (2 for the analog input, 1 for the digital one), and a request with any other bit
depth or channel count is turned down (`BSP_ERROR_BUSY` when the input is out of Reset,
`BSP_ERROR_FEATURE_NOT_SUPPORTED` otherwise) and changes nothing. -/
theorem init_capability (c : BoardConf) (h : Hal) (a : BSP_AUDIO_Init_t) (s : AudioState) :
    ((BSP_AUDIO_OUT_Init c h 0 a s).1 = BSP_ERROR_NONE →
      a.BitsPerSample ≠ AUDIO_RESOLUTION_8B ∧ a.BitsPerSample ≠ AUDIO_RESOLUTION_32B
        ∧ a.ChannelsNbr = 2)
    ∧ (a.BitsPerSample = AUDIO_RESOLUTION_8B ∨ a.BitsPerSample = AUDIO_RESOLUTION_32B
        ∨ a.ChannelsNbr ≠ 2 →
      BSP_AUDIO_OUT_Init c h 0 a s = (BSP_ERROR_FEATURE_NOT_SUPPORTED, s))
    ∧ (∀ i : Nat, i < AUDIO_IN_INSTANCES_NBR →
      ((BSP_AUDIO_IN_Init c h i a s).1 = BSP_ERROR_NONE →
        a.BitsPerSample = AUDIO_RESOLUTION_16B ∧ a.ChannelsNbr = inChannels i)
      ∧ (a.BitsPerSample ≠ AUDIO_RESOLUTION_16B ∨ a.ChannelsNbr ≠ inChannels i →
        ((BSP_AUDIO_IN_Init c h i a s).1 = BSP_ERROR_BUSY
          ∨ (BSP_AUDIO_IN_Init c h i a s).1 = BSP_ERROR_FEATURE_NOT_SUPPORTED)
        ∧ (BSP_AUDIO_IN_Init c h i a s).2 = s)) :=
  ⟨(OUT_Init_cap c h a s).1, (OUT_Init_cap c h a s).2, fun i hi => IN_Init_cap c h i hi a s⟩

/-- On the initial globals: the output refuses 32 bits, the analog input refuses 24 bits, and
the digital input refuses two channels, each with `BSP_ERROR_FEATURE_NOT_SUPPORTED` and without
a change. -/
theorem init_capability_witness :
    BSP_AUDIO_OUT_Init BoardConf.dk (Hal.allOk BoardConf.dk) 0
        { Scenario.cfgOut with BitsPerSample := 32 } AudioState.initial
      = (BSP_ERROR_FEATURE_NOT_SUPPORTED, AudioState.initial)
    ∧ (BSP_AUDIO_IN_Init BoardConf.dk (Hal.allOk BoardConf.dk) 0
        { Scenario.cfgIn0 with BitsPerSample := 24 } AudioState.initial).2 = AudioState.initial
    ∧ (BSP_AUDIO_IN_Init BoardConf.dk (Hal.allOk BoardConf.dk) 1
        { Scenario.cfgIn1 with ChannelsNbr := 2 } AudioState.initial).2 = AudioState.initial :=
  ⟨(init_capability BoardConf.dk (Hal.allOk BoardConf.dk)
      { Scenario.cfgOut with BitsPerSample := 32 } AudioState.initial).2.1
      (Or.inr (Or.inl rfl)),
   ((init_capability BoardConf.dk (Hal.allOk BoardConf.dk)
      { Scenario.cfgIn0 with BitsPerSample := 24 } AudioState.initial).2.2 0 (by decide)).2
      (Or.inl (by decide)) |>.2,
   ((init_capability BoardConf.dk (Hal.allOk BoardConf.dk)
      { Scenario.cfgIn1 with ChannelsNbr := 2 } AudioState.initial).2.2 1 (by decide)).2
      (Or.inr (by decide)) |>.2⟩

/-- C20. Codec probe error kinds. `WM8904_Probe` returns `BSP_ERROR_BUS_FAILURE` when the bus
registration fails, `BSP_ERROR_COMPONENT_FAILURE` when the registration succeeds and the read
of the identifier fails, `BSP_ERROR_UNKNOWN_COMPONENT` when both succeed and
`(id & WM8904_ID_MASK) != WM8904_ID`, and `BSP_ERROR_NONE` otherwise; the three error statuses
are pairwise distinct. It does not retry: one probe calls the bus registration at most once and
the identifier read at most once, and it calls nothing else. It binds `Audio_Drv` and
`Audio_CompObj` when it returns `BSP_ERROR_NONE` and leaves both as they were when it returns
an error, so starting unbound they are bound afterwards exactly when it returned
`BSP_ERROR_NONE`. -/
theorem probe_error_kinds (c : BoardConf) (h : Hal) (s : AudioState) :
    (h.WM8904_RegisterBus ≠ c.WM8904_OK → (WM8904_Probe c h s).1 = BSP_ERROR_BUS_FAILURE)
    ∧ (h.WM8904_RegisterBus = c.WM8904_OK → h.WM8904_ReadID ≠ c.WM8904_OK →
        (WM8904_Probe c h s).1 = BSP_ERROR_COMPONENT_FAILURE)
    ∧ (h.WM8904_RegisterBus = c.WM8904_OK → h.WM8904_ReadID = c.WM8904_OK →
        h.wm8904_id &&& c.WM8904_ID_MASK ≠ c.WM8904_ID →
        (WM8904_Probe c h s).1 = BSP_ERROR_UNKNOWN_COMPONENT)
    ∧ (h.WM8904_RegisterBus = c.WM8904_OK → h.WM8904_ReadID = c.WM8904_OK →
        h.wm8904_id &&& c.WM8904_ID_MASK = c.WM8904_ID →
        (WM8904_Probe c h s).1 = BSP_ERROR_NONE)
    ∧ (BSP_ERROR_BUS_FAILURE ≠ BSP_ERROR_COMPONENT_FAILURE
        ∧ BSP_ERROR_BUS_FAILURE ≠ BSP_ERROR_UNKNOWN_COMPONENT
        ∧ BSP_ERROR_COMPONENT_FAILURE ≠ BSP_ERROR_UNKNOWN_COMPONENT)
    ∧ (∃ l : List Ev, (WM8904_Probe c h s).2.log = s.log ++ l
        ∧ l.count Ev.WM8904_RegisterBus ≤ 1 ∧ l.count Ev.WM8904_ReadID ≤ 1
        ∧ ∀ e ∈ l, e = Ev.WM8904_RegisterBus ∨ e = Ev.WM8904_ReadID)
    ∧ ((WM8904_Probe c h s).1 = BSP_ERROR_NONE →
        (WM8904_Probe c h s).2.Audio_Drv = true ∧ (WM8904_Probe c h s).2.Audio_CompObj = true)
    ∧ ((WM8904_Probe c h s).1 ≠ BSP_ERROR_NONE →
        (WM8904_Probe c h s).2.Audio_Drv = s.Audio_Drv
        ∧ (WM8904_Probe c h s).2.Audio_CompObj = s.Audio_CompObj)
    ∧ (s.Audio_Drv = false → s.Audio_CompObj = false →
        (((WM8904_Probe c h s).2.Audio_Drv = true ∧ (WM8904_Probe c h s).2.Audio_CompObj = true)
          ↔ (WM8904_Probe c h s).1 = BSP_ERROR_NONE)) := by
  unfold WM8904_Probe
  refine ⟨?_, ?_, ?_, ?_, by decide, ?_, ?_, ?_, ?_⟩
  · intro h1; rw [if_pos h1]
  · intro h1 h2; rw [if_neg (not_not.mpr h1), if_pos h2]
  · intro h1 h2 h3; rw [if_neg (not_not.mpr h1), if_neg (not_not.mpr h2), if_pos h3]
  · intro h1 h2 h3
    rw [if_neg (not_not.mpr h1), if_neg (not_not.mpr h2), if_neg (not_not.mpr h3)]
  · split_ifs
    · exact ⟨[Ev.WM8904_RegisterBus], rfl, by decide, by decide, by simp⟩
    · exact ⟨[Ev.WM8904_RegisterBus, Ev.WM8904_ReadID], rfl, by decide, by decide, by simp⟩
    · exact ⟨[Ev.WM8904_RegisterBus, Ev.WM8904_ReadID], rfl, by decide, by decide, by simp⟩
    · exact ⟨[Ev.WM8904_RegisterBus, Ev.WM8904_ReadID], rfl, by decide, by decide, by simp⟩
  · split_ifs <;> simp
  · split_ifs <;> simp
  · intro hd hc
    split_ifs <;> simp [hd, hc]

/-- The three failures and the success on the initial globals (nothing bound yet): a failing
bus registration, a failing identifier read, the identifier `0x1234` and the identifier
`0x8904`. -/
theorem probe_error_kinds_witness :
    (WM8904_Probe BoardConf.dk (Hal.busFails BoardConf.dk) AudioState.initial).1
      = BSP_ERROR_BUS_FAILURE
    ∧ (WM8904_Probe BoardConf.dk (Hal.readIdFails BoardConf.dk) AudioState.initial).1
      = BSP_ERROR_COMPONENT_FAILURE
    ∧ (WM8904_Probe BoardConf.dk (Hal.withId BoardConf.dk 0x1234) AudioState.initial).1
      = BSP_ERROR_UNKNOWN_COMPONENT
    ∧ (WM8904_Probe BoardConf.dk (Hal.withId BoardConf.dk 0x1234) AudioState.initial).2.Audio_Drv
      = false
    ∧ (WM8904_Probe BoardConf.dk (Hal.allOk BoardConf.dk) AudioState.initial).2.Audio_Drv
      = true :=
  ⟨(probe_error_kinds BoardConf.dk (Hal.busFails BoardConf.dk) AudioState.initial).1
      (by decide),
   (probe_error_kinds BoardConf.dk (Hal.readIdFails BoardConf.dk) AudioState.initial).2.1
      rfl (by decide),
   (probe_error_kinds BoardConf.dk (Hal.withId BoardConf.dk 0x1234)
      AudioState.initial).2.2.1 rfl rfl (by decide),
   by decide,
   ((probe_error_kinds BoardConf.dk (Hal.allOk BoardConf.dk)
      AudioState.initial).2.2.2.2.2.2.1 (by decide)).1⟩

/-- C21. Stored output volume. `BSP_AUDIO_OUT_Init` stores `AudioInit->Volume` without a range
check: called on the initial globals for a volume of 200 (headphone, 48 kHz, 16 bit, stereo,
every collaborator succeeding) it answers `BSP_ERROR_NONE`; the state it reaches holds
`Volume = 200`, above 100, and `BSP_AUDIO_OUT_GetVolume` succeeds there and returns 200.
`BSP_AUDIO_OUT_SetVolume` refuses the same value with `BSP_ERROR_WRONG_PARAM`. -/
theorem out_init_stores_volume_unchecked :
    (BSP_AUDIO_OUT_Init BoardConf.dk (Hal.allOk BoardConf.dk) 0 Scenario.cfgOutLoud
      AudioState.initial).1 = BSP_ERROR_NONE
    ∧ Reachable BoardConf.dk Scenario.outLoud
    ∧ Scenario.outLoud.Audio_Out_Ctx.Volume = 200
    ∧ ¬ Scenario.outLoud.Audio_Out_Ctx.Volume ≤ 100
    ∧ BSP_AUDIO_OUT_GetVolume 0 Scenario.outLoud = (BSP_ERROR_NONE, some 200)
    ∧ (BSP_AUDIO_OUT_SetVolume (Hal.allOk BoardConf.dk) 0 200 Scenario.outStopped).1
        = BSP_ERROR_WRONG_PARAM :=
  ⟨by decide, outLoud_reachable, by decide, by decide, by decide, by decide⟩

/-- C23. Digital-microphone double-buffer partition. With `n = Size / 2` samples and
`h = n / 2`: the half-complete handler leaves every caller-buffer byte from `2 * h` on as it
was, makes every byte below `2 * h` the low or high byte of the converted scratch sample of
index `k / 2`, and does not depend on the scratch samples from index `h` on; the complete
handler leaves every byte below `2 * h` and every byte from `2 * n` on as it was, makes every
byte in `[2 * h, 2 * n)` the low or high byte of the converted scratch sample of index `k / 2`,
and does not depend on the scratch samples outside `[h, n)`. A byte offset is below `2 * n`
exactly when it lies in one of the two ranges, never in both, and `2 * n ≤ Size`. -/
theorem mdf_double_buffer_partition (s : AudioState) (scratch scratch2 : Nat → Int)
    (pBuff : Nat → Nat) :
    (∀ k : Nat, 2 * (s.Audio_In_Ctx_1.Size / 2 / 2) ≤ k →
      (HAL_MDF_AcqHalfCpltCallback s scratch pBuff).1 k = pBuff k)
    ∧ (∀ k : Nat, k < 2 * (s.Audio_In_Ctx_1.Size / 2 / 2) →
      (HAL_MDF_AcqHalfCpltCallback s scratch pBuff).1 k
        = if k % 2 = 0 then (int16LE (clampDiv256 (scratch (k / 2)))).1
          else (int16LE (clampDiv256 (scratch (k / 2)))).2)
    ∧ ((∀ j : Nat, j < s.Audio_In_Ctx_1.Size / 2 / 2 → scratch j = scratch2 j) →
      (HAL_MDF_AcqHalfCpltCallback s scratch pBuff).1
        = (HAL_MDF_AcqHalfCpltCallback s scratch2 pBuff).1)
    ∧ (∀ k : Nat, k < 2 * (s.Audio_In_Ctx_1.Size / 2 / 2) ∨ 2 * (s.Audio_In_Ctx_1.Size / 2) ≤ k →
      (HAL_MDF_AcqCpltCallback s scratch pBuff).1 k = pBuff k)
    ∧ (∀ k : Nat, 2 * (s.Audio_In_Ctx_1.Size / 2 / 2) ≤ k → k < 2 * (s.Audio_In_Ctx_1.Size / 2) →
      (HAL_MDF_AcqCpltCallback s scratch pBuff).1 k
        = if k % 2 = 0 then (int16LE (clampDiv256 (scratch (k / 2)))).1
          else (int16LE (clampDiv256 (scratch (k / 2)))).2)
    ∧ ((∀ j : Nat, s.Audio_In_Ctx_1.Size / 2 / 2 ≤ j → j < s.Audio_In_Ctx_1.Size / 2 →
        scratch j = scratch2 j) →
      (HAL_MDF_AcqCpltCallback s scratch pBuff).1
        = (HAL_MDF_AcqCpltCallback s scratch2 pBuff).1)
    ∧ (∀ k : Nat, k < 2 * (s.Audio_In_Ctx_1.Size / 2) ↔
        (k < 2 * (s.Audio_In_Ctx_1.Size / 2 / 2)
          ∨ (2 * (s.Audio_In_Ctx_1.Size / 2 / 2) ≤ k ∧ k < 2 * (s.Audio_In_Ctx_1.Size / 2))))
    ∧ (∀ k : Nat, ¬ (k < 2 * (s.Audio_In_Ctx_1.Size / 2 / 2)
          ∧ (2 * (s.Audio_In_Ctx_1.Size / 2 / 2) ≤ k ∧ k < 2 * (s.Audio_In_Ctx_1.Size / 2))))
    ∧ 2 * (s.Audio_In_Ctx_1.Size / 2) ≤ s.Audio_In_Ctx_1.Size := by
  refine ⟨?_, ?_, ?_, ?_, ?_, ?_, fun k => by omega, fun k => by omega, by omega⟩
  · intro k hk
    simp only [HAL_MDF_AcqHalfCpltCallback, MDF_Acq_loop_spec]
    rw [if_neg (by omega)]
  · intro k hk
    simp only [HAL_MDF_AcqHalfCpltCallback, MDF_Acq_loop_spec]
    rw [if_pos (by omega)]
  · intro hs
    funext k
    simp only [HAL_MDF_AcqHalfCpltCallback, MDF_Acq_loop_spec]
    by_cases hk : 2 * 0 ≤ k ∧ k < 2 * (0 + s.Audio_In_Ctx_1.Size / 2 / 2)
    · rw [if_pos hk, if_pos hk, hs (k / 2) (by omega)]
    · rw [if_neg hk, if_neg hk]
  · intro k hk
    simp only [HAL_MDF_AcqCpltCallback, MDF_Acq_loop_spec]
    rw [if_neg (by omega)]
  · intro k hlo hhi
    simp only [HAL_MDF_AcqCpltCallback, MDF_Acq_loop_spec]
    rw [if_pos (by omega)]
  · intro hs
    funext k
    simp only [HAL_MDF_AcqCpltCallback, MDF_Acq_loop_spec]
    by_cases hk : 2 * (s.Audio_In_Ctx_1.Size / 2 / 2) ≤ k
        ∧ k < 2 * (s.Audio_In_Ctx_1.Size / 2 / 2
          + (s.Audio_In_Ctx_1.Size / 2 - s.Audio_In_Ctx_1.Size / 2 / 2))
    · rw [if_pos hk, if_pos hk, hs (k / 2) (by omega) (by omega)]
    · rw [if_neg hk, if_neg hk]

/-- A stored length of 16 bytes: the half-complete handler writes the bytes 0 to 7 only and the
complete handler the bytes 8 to 15 only, over a buffer of bytes `0xEE`. -/
theorem mdf_double_buffer_partition_witness :
    (List.range 18).map
        (HAL_MDF_AcqHalfCpltCallback
          { AudioState.initial with
            Audio_In_Ctx_1 := { AudioState.initial.Audio_In_Ctx_1 with Size := 16 } }
          (fun _ => 256) (fun _ => 0xEE)).1
      = [1, 0, 1, 0, 1, 0, 1, 0, 0xEE, 0xEE, 0xEE, 0xEE, 0xEE, 0xEE, 0xEE, 0xEE, 0xEE, 0xEE]
    ∧ (List.range 18).map
        (HAL_MDF_AcqCpltCallback
          { AudioState.initial with
            Audio_In_Ctx_1 := { AudioState.initial.Audio_In_Ctx_1 with Size := 16 } }
          (fun _ => 256) (fun _ => 0xEE)).1
      = [0xEE, 0xEE, 0xEE, 0xEE, 0xEE, 0xEE, 0xEE, 0xEE, 1, 0, 1, 0, 1, 0, 1, 0, 0xEE, 0xEE]
    ∧ (HAL_MDF_AcqHalfCpltCallback
        { AudioState.initial with
          Audio_In_Ctx_1 := { AudioState.initial.Audio_In_Ctx_1 with Size := 16 } }
        (fun _ => 256) (fun _ => 0xEE)).1 9 = 0xEE :=
  ⟨by decide, by decide,
   (mdf_double_buffer_partition
      { AudioState.initial with
        Audio_In_Ctx_1 := { AudioState.initial.Audio_In_Ctx_1 with Size := 16 } }
      (fun _ => 256) (fun _ => 256) (fun _ => 0xEE)).1 9 (by decide)⟩

/-- C24. Scratch-buffer capacity. With a scratch buffer of 2048 words (8192 bytes),
`BSP_AUDIO_IN_Record(1, buf, 4097)` on the Stopped digital input is not refused: `4097 / 2` is
2048, which is not above the capacity, so the call answers `BSP_ERROR_NONE` and arms
`HAL_MDF_AcqStart_DMA` with a data length of `2 * 4097 = 8194` bytes, more than the 8192 bytes
of the scratch buffer. The handlers read the scratch indices below `4097 / 2 = 2048` only. -/
theorem dmic_record_odd_length_overruns :
    (BSP_AUDIO_IN_Record BoardConf.dk (Hal.allOk BoardConf.dk) 1 Scenario.buf 4097
      Scenario.in1Stopped).1 = BSP_ERROR_NONE
    ∧ Scenario.in1Stopped.Audio_In_Ctx_1.State = AUDIO_IN_STATE_STOP
    ∧ BoardConf.dk.DEFAULT_AUDIO_IN_BUFFER_SIZE = 2048
    ∧ (acqStarts Scenario.in1Recording4097.log).getLast?
        = some (Scenario.in1Stopped.Audio_AdfFilterConfig, 8194)
    ∧ 4 * BoardConf.dk.DEFAULT_AUDIO_IN_BUFFER_SIZE < 8194
    ∧ Scenario.in1Recording4097.Audio_In_Ctx_1.Size / 2
        ≤ BoardConf.dk.DEFAULT_AUDIO_IN_BUFFER_SIZE := by
  have hsz : Scenario.in1Recording4097.Audio_In_Ctx_1.Size = 4097 := by decide
  refine ⟨by decide, by decide, rfl, by decide, by decide, ?_⟩
  rw [hsz]
  decide

/-- C25, as the code has it. On an accepted call (a buffer address other than `NULL`, at most
65535 bytes, the stream Stopped): `BSP_AUDIO_OUT_Play` disables the I2S, arms
`HAL_I2S_Transmit_DMA` with `NbrOfBytes / 2` units when the stored sample width is 16 bits and
`NbrOfBytes / 4` units otherwise, and only then, if the DMA was armed, issues the codec `Play`
command; `BSP_AUDIO_IN_Record` on the analog input issues the codec `Play` command first and,
only if it succeeded, arms `HAL_I2S_Receive_DMA`, always with `NbrOfBytes / 2` units. Nothing
else is done but the write of the new state on success, and the status names the step that
failed. -/
theorem start_ordering (c : BoardConf) (h : Hal) (pData n : Nat) (s : AudioState)
    (hp : pData ≠ 0) (hn : n ≤ 65535) :
    (s.Audio_Out_Ctx.State = AUDIO_OUT_STATE_STOP →
      (BSP_AUDIO_OUT_Play h 0 pData n s).2.log
          = s.log ++ [Ev.I2S_DISABLE haudio_out_i2s,
              Ev.HAL_I2S_Transmit_DMA pData
                (if s.Audio_Out_Ctx.BitsPerSample = AUDIO_RESOLUTION_16B then n / 2 else n / 4)]
            ++ (if h.HAL_I2S_Transmit_DMA = HAL_OK then
                  Ev.Drv_Play ::
                    (if 0 ≤ h.Drv_Play then [Ev.Audio_Out_Ctx_State AUDIO_OUT_STATE_PLAYING]
                     else [])
                else [])
      ∧ (BSP_AUDIO_OUT_Play h 0 pData n s).1
          = (if h.HAL_I2S_Transmit_DMA = HAL_OK then
              (if 0 ≤ h.Drv_Play then BSP_ERROR_NONE else BSP_ERROR_COMPONENT_FAILURE)
             else BSP_ERROR_PERIPH_FAILURE))
    ∧ (s.Audio_In_Ctx_0.State = AUDIO_IN_STATE_STOP →
      (BSP_AUDIO_IN_Record c h 0 pData n s).2.log
          = s.log ++ Ev.Drv_Play ::
              (if 0 ≤ h.Drv_Play then
                [Ev.I2S_DISABLE haudio_in_i2s, Ev.HAL_I2S_Receive_DMA pData (n / 2)]
                  ++ (if h.HAL_I2S_Receive_DMA = HAL_OK then
                        [Ev.Audio_In_Ctx_State 0 AUDIO_IN_STATE_RECORDING]
                      else [])
               else [])
      ∧ (BSP_AUDIO_IN_Record c h 0 pData n s).1
          = (if 0 ≤ h.Drv_Play then
              (if h.HAL_I2S_Receive_DMA = HAL_OK then BSP_ERROR_NONE
               else BSP_ERROR_PERIPH_FAILURE)
             else BSP_ERROR_COMPONENT_FAILURE)) := by
  have h2 : n / 2 % 65536 = n / 2 := Nat.mod_eq_of_lt (by omega)
  have h4 : n / 4 % 65536 = n / 4 := Nat.mod_eq_of_lt (by omega)
  have hc : (0 ≤ h.Drv_Play ∧ ¬ h.Drv_Play < 0) ∨ (¬ 0 ≤ h.Drv_Play ∧ h.Drv_Play < 0) := by
    omega
  constructor
  · intro hs
    simp only [AUDIO_OUT_STATE_STOP] at hs
    rcases hc with ⟨hc, hc2⟩ | ⟨hc, hc2⟩ <;> by_cases hd : h.HAL_I2S_Transmit_DMA = HAL_OK <;>
      by_cases hb : s.Audio_Out_Ctx.BitsPerSample = 16 <;>
      simp [BSP_AUDIO_OUT_Play, hp, hs, hd, hc, hc2, hb, h2, h4, not_lt.mpr hn,
        AudioState.emit, AudioState.emitAll, AudioState.setOutState]
  · intro hs
    simp only [AUDIO_IN_STATE_STOP] at hs
    rcases hc with ⟨hc, hc2⟩ | ⟨hc, hc2⟩ <;> by_cases hd : h.HAL_I2S_Receive_DMA = HAL_OK <;>
      simp [BSP_AUDIO_IN_Record, hp, hs, hd, hc, hc2, h2, not_lt.mpr hn, AudioState.Audio_In_Ctx,
        AudioState.emit, AudioState.emitAll, AudioState.setInState, AudioState.setIn]

/-- The Stopped output of scenario A, all collaborators succeeding, 4800 bytes: the log grows
by the I2S disable, the DMA start for 2400 units, the codec `Play` and the write of Playing, in
this order. -/
theorem start_ordering_witness :
    (BSP_AUDIO_OUT_Play (Hal.allOk BoardConf.dk) 0 Scenario.buf 4800 Scenario.outStopped).2.log
        = Scenario.outStopped.log ++ [Ev.I2S_DISABLE haudio_out_i2s,
            Ev.HAL_I2S_Transmit_DMA Scenario.buf
              (if Scenario.outStopped.Audio_Out_Ctx.BitsPerSample = AUDIO_RESOLUTION_16B
               then 4800 / 2 else 4800 / 4)]
          ++ (if (Hal.allOk BoardConf.dk).HAL_I2S_Transmit_DMA = HAL_OK then
                Ev.Drv_Play ::
                  (if 0 ≤ (Hal.allOk BoardConf.dk).Drv_Play
                   then [Ev.Audio_Out_Ctx_State AUDIO_OUT_STATE_PLAYING] else [])
              else [])
    ∧ (BSP_AUDIO_OUT_Play (Hal.allOk BoardConf.dk) 0 Scenario.buf 4800 Scenario.outStopped).1
        = (if (Hal.allOk BoardConf.dk).HAL_I2S_Transmit_DMA = HAL_OK then
            (if 0 ≤ (Hal.allOk BoardConf.dk).Drv_Play then BSP_ERROR_NONE
             else BSP_ERROR_COMPONENT_FAILURE)
           else BSP_ERROR_PERIPH_FAILURE) :=
  (start_ordering BoardConf.dk (Hal.allOk BoardConf.dk) Scenario.buf 4800 Scenario.outStopped
    (by decide) (by decide)).1 (by decide)

/-- The Stopped output of scenario A with a codec whose `Play` command fails:
`BSP_AUDIO_OUT_Play` answers `BSP_ERROR_COMPONENT_FAILURE`, and the DMA transfer was armed
before the codec was asked to play. -/
theorem start_ordering_counterexample :
    (BSP_AUDIO_OUT_Play (Hal.codecPlayFails BoardConf.dk) 0 Scenario.buf 4800
      Scenario.outStopped).1 = BSP_ERROR_COMPONENT_FAILURE
    ∧ (BSP_AUDIO_OUT_Play (Hal.codecPlayFails BoardConf.dk) 0 Scenario.buf 4800
        Scenario.outStopped).2.log
      = Scenario.outStopped.log ++ [Ev.I2S_DISABLE haudio_out_i2s,
          Ev.HAL_I2S_Transmit_DMA Scenario.buf 2400, Ev.Drv_Play] := by
  decide

/-- C26. Digital-microphone Resume re-issues the start parameters. The scratch buffer handed to
`HAL_MDF_AcqStart_DMA` is always `Audio_DigMicRecBuff`; the filter configuration and the DMA
data length are the arguments recorded in the log. In every reachable state `s`:
if input 1 is Paused, `BSP_AUDIO_IN_Resume(1)` starts the acquisition once more, with exactly
the arguments of the last start in the log; as long as input 1 stays Recording or Paused from
one public operation to the next, the arguments of the last start do not change; a
`BSP_AUDIO_IN_Record(1, buf, NbrOfBytes)` that answers `BSP_ERROR_NONE` makes one start, with
the filter configuration in force and the data length `2 * NbrOfBytes`; and
`BSP_AUDIO_IN_Pause(1)` on a Recording input calls `HAL_MDF_AcqStop_DMA` and nothing else but
the write of the Paused state when the stop succeeded. -/
theorem dmic_resume_reissues_start (c : BoardConf) (s : AudioState) (hr : Reachable c s) :
    (s.Audio_In_Ctx_1.State = AUDIO_IN_STATE_PAUSE →
      ∀ h : Hal, ∃ p : Option MDF_FilterConfigTypeDef × Nat,
        (acqStarts s.log).getLast? = some p
        ∧ acqStarts (BSP_AUDIO_IN_Resume h 1 s).2.log = acqStarts s.log ++ [p])
    ∧ (∀ (h : Hal) (o : Op), AcqAlive s → AcqAlive (step c h o s).2 →
        (acqStarts (step c h o s).2.log).getLast? = (acqStarts s.log).getLast?)
    ∧ (∀ (h : Hal) (pData n : Nat) (s0 : AudioState),
        (BSP_AUDIO_IN_Record c h 1 pData n s0).1 = BSP_ERROR_NONE →
        acqStarts (BSP_AUDIO_IN_Record c h 1 pData n s0).2.log
          = acqStarts s0.log ++ [(s0.Audio_AdfFilterConfig, 2 * n)])
    ∧ (∀ (h : Hal) (s1 : AudioState), s1.Audio_In_Ctx_1.State = AUDIO_IN_STATE_RECORDING →
        (BSP_AUDIO_IN_Pause h 1 s1).2.log
          = s1.log ++ Ev.HAL_MDF_AcqStop_DMA ::
              (if h.HAL_MDF_AcqStop_DMA = HAL_OK then
                [Ev.Audio_In_Ctx_State 1 AUDIO_IN_STATE_PAUSE]
               else [])) := by
  have hI := reachable_AcqInv c s hr
  refine ⟨?_, ?_, ?_, ?_⟩
  · intro hp h
    refine ⟨_, hI (Or.inr hp), ?_⟩
    simp only [AUDIO_IN_STATE_PAUSE] at hp
    by_cases hd : h.HAL_MDF_AcqStart_DMA = HAL_OK <;>
      simp [BSP_AUDIO_IN_Resume, hp, hd, AudioState.Audio_In_Ctx, Ev.acqStartArgs]
  · intro h o
    exact (step_keepsAcq c h o s hI).2
  · intro h pData n s0 hok
    have hd := (IN_Record_done c h 1 pData n s0 (by decide) hok).2.2.2
    rw [hd, if_pos rfl]
  · intro h s1 hs
    simp only [AUDIO_IN_STATE_RECORDING] at hs
    by_cases hd : h.HAL_MDF_AcqStop_DMA = HAL_OK <;>
      simp [BSP_AUDIO_IN_Pause, hs, hd, AudioState.Audio_In_Ctx, AudioState.emit,
        AudioState.setInState, AudioState.setIn]

/-- The digital input Paused after a record of 4096 bytes at 16 kHz: the last start in the log
is repeated by `BSP_AUDIO_IN_Resume(1)`, and the log then holds two starts with the data
length 8192. -/
theorem dmic_resume_reissues_start_witness :
    (∃ p : Option MDF_FilterConfigTypeDef × Nat,
      (acqStarts Scenario.in1Paused.log).getLast? = some p
      ∧ acqStarts (BSP_AUDIO_IN_Resume (Hal.allOk BoardConf.dk) 1 Scenario.in1Paused).2.log
          = acqStarts Scenario.in1Paused.log ++ [p])
    ∧ (acqStarts (BSP_AUDIO_IN_Resume (Hal.allOk BoardConf.dk) 1 Scenario.in1Paused).2.log).map
        Prod.snd = [8192, 8192] :=
  ⟨(dmic_resume_reissues_start BoardConf.dk Scenario.in1Paused in1Paused_reachable).1
      (by decide) (Hal.allOk BoardConf.dk),
   by decide⟩

/-- C27. Clock lookup table. The oscillator settings built by `MX_I2S6_ClockConfig` and by
`MX_ADF1_ClockConfig` depend on the sample rate alone, with `M = 32` always. For the serial
audio tree only PLL2 is on (PLL1 and PLL3 `NONE`) and `(N, Q)` is `(96, 17)` for 11025, 22050
and 44100, `(384, 17)` for 88200 and 176400 and `(172, 7)` for every other rate. For the
digital-microphone tree only PLL3 is on (PLL1 and PLL2 `NONE`) and `(N, P)` is `(96, 17)` for
11025, 22050 and 44100, `(384, 17)` for 88200 and 176400, `(344, 7)` for 96000 and 192000 and
`(172, 7)` for every other rate. Each function hands these settings to `HAL_RCC_OscConfig`;
if that fails it returns `HAL_ERROR` without a call of `HAL_RCCEx_PeriphCLKConfig`, otherwise
it routes SPI6 to PLL2Q, respectively ADF1 to PLL3P, and returns the status of that call. -/
theorem clock_lookup_table (h : Hal) (f : Nat) :
    (MX_I2S6_ClockConfig_osc f).PLLM = 32
    ∧ (MX_I2S6_ClockConfig_osc f).PLL1State = RCC_PLLState.RCC_PLL_NONE
    ∧ (MX_I2S6_ClockConfig_osc f).PLL2State = RCC_PLLState.RCC_PLL_ON
    ∧ (MX_I2S6_ClockConfig_osc f).PLL3State = RCC_PLLState.RCC_PLL_NONE
    ∧ ((MX_I2S6_ClockConfig_osc f).PLLN, (MX_I2S6_ClockConfig_osc f).PLLDiv)
        = (if f = 11025 ∨ f = 22050 ∨ f = 44100 then (96, 17)
           else if f = 88200 ∨ f = 176400 then (384, 17)
           else (172, 7))
    ∧ (MX_ADF1_ClockConfig_osc f).PLLM = 32
    ∧ (MX_ADF1_ClockConfig_osc f).PLL1State = RCC_PLLState.RCC_PLL_NONE
    ∧ (MX_ADF1_ClockConfig_osc f).PLL2State = RCC_PLLState.RCC_PLL_NONE
    ∧ (MX_ADF1_ClockConfig_osc f).PLL3State = RCC_PLLState.RCC_PLL_ON
    ∧ ((MX_ADF1_ClockConfig_osc f).PLLN, (MX_ADF1_ClockConfig_osc f).PLLDiv)
        = (if f = 11025 ∨ f = 22050 ∨ f = 44100 then (96, 17)
           else if f = 88200 ∨ f = 176400 then (384, 17)
           else if f = 96000 ∨ f = 192000 then (344, 7)
           else (172, 7))
    ∧ MX_I2S6_ClockConfig h f
        = (if h.HAL_RCC_OscConfig = HAL_OK then
            (h.HAL_RCCEx_PeriphCLKConfig,
              [Ev.HAL_RCC_OscConfig (MX_I2S6_ClockConfig_osc f),
               Ev.HAL_RCCEx_PeriphCLKConfig RCC_PeriphCLK.RCC_PERIPHCLK_SPI6_from_PLL2Q])
           else (HAL_ERROR, [Ev.HAL_RCC_OscConfig (MX_I2S6_ClockConfig_osc f)]))
    ∧ MX_ADF1_ClockConfig h f
        = (if h.HAL_RCC_OscConfig = HAL_OK then
            (h.HAL_RCCEx_PeriphCLKConfig,
              [Ev.HAL_RCC_OscConfig (MX_ADF1_ClockConfig_osc f),
               Ev.HAL_RCCEx_PeriphCLKConfig RCC_PeriphCLK.RCC_PERIPHCLK_ADF1_from_PLL3P])
           else (HAL_ERROR, [Ev.HAL_RCC_OscConfig (MX_ADF1_ClockConfig_osc f)])) := by
  refine ⟨rfl, rfl, rfl, rfl, ?_, rfl, rfl, rfl, rfl, ?_, ?_, ?_⟩
  · simp only [MX_I2S6_ClockConfig_osc, AUDIO_FREQUENCY_11K, AUDIO_FREQUENCY_22K,
      AUDIO_FREQUENCY_44K, AUDIO_FREQUENCY_88K, AUDIO_FREQUENCY_176K]
  · simp only [MX_ADF1_ClockConfig_osc, AUDIO_FREQUENCY_11K, AUDIO_FREQUENCY_22K,
      AUDIO_FREQUENCY_44K, AUDIO_FREQUENCY_88K, AUDIO_FREQUENCY_176K, AUDIO_FREQUENCY_96K,
      AUDIO_FREQUENCY_192K]
  · unfold MX_I2S6_ClockConfig
    by_cases hd : h.HAL_RCC_OscConfig = HAL_OK <;> simp [hd]
  · unfold MX_ADF1_ClockConfig
    by_cases hd : h.HAL_RCC_OscConfig = HAL_OK <;> simp [hd]

/-- C28. The codec driver is bound whenever it can be called. In every state reachable from
the initial globals (`Audio_Drv` and `Audio_CompObj` `NULL`, all contexts Reset) by public
operations with arbitrary arguments and collaborator answers: if the output state or the state
of the analog input is not Reset, `Audio_Drv` and `Audio_CompObj` are bound. Whatever public
operation runs next, with whatever answers: if it makes a call through `Audio_Drv`, the driver
and the component object are bound when it returns, and were bound already before the call
unless the probe of the codec, which binds them at the start of the two `Init` operations,
succeeds; and a bound driver and a bound component object stay bound. -/
theorem codec_driver_bound (c : BoardConf) (s : AudioState) (hr : Reachable c s) :
    ((s.Audio_Out_Ctx.State ≠ AUDIO_OUT_STATE_RESET
        ∨ s.Audio_In_Ctx_0.State ≠ AUDIO_IN_STATE_RESET) →
      s.Audio_Drv = true ∧ s.Audio_CompObj = true)
    ∧ (∀ (h : Hal) (o : Op),
        (drvCalls s.log < drvCalls (step c h o s).2.log →
          ((step c h o s).2.Audio_Drv = true ∧ (step c h o s).2.Audio_CompObj = true)
          ∧ (¬ h.probeOk c → s.Audio_Drv = true ∧ s.Audio_CompObj = true))
        ∧ (s.Audio_Drv = true → (step c h o s).2.Audio_Drv = true)
        ∧ (s.Audio_CompObj = true → (step c h o s).2.Audio_CompObj = true)) := by
  have hI := reachable_DrvInv c s hr
  refine ⟨hI, ?_⟩
  intro h o
  have hk := step_keepsDrv c h o s hI
  exact ⟨hk.2.2.2, hk.2.1, hk.2.2.1⟩

/-- The Stopped output of scenario A: the driver is bound, and a `BSP_AUDIO_OUT_Mute`, which
calls the codec, leaves it bound. -/
theorem codec_driver_bound_witness :
    (Scenario.outStopped.Audio_Drv = true ∧ Scenario.outStopped.Audio_CompObj = true)
    ∧ drvCalls Scenario.outStopped.log
        < drvCalls (step BoardConf.dk (Hal.allOk BoardConf.dk) (Op.OUT_Mute 0)
            Scenario.outStopped).2.log
    ∧ ((step BoardConf.dk (Hal.allOk BoardConf.dk) (Op.OUT_Mute 0)
          Scenario.outStopped).2.Audio_Drv = true
        ∧ (step BoardConf.dk (Hal.allOk BoardConf.dk) (Op.OUT_Mute 0)
          Scenario.outStopped).2.Audio_CompObj = true) :=
  ⟨(codec_driver_bound BoardConf.dk Scenario.outStopped outStopped_reachable).1
      (Or.inl (by decide)),
   by decide,
   (((codec_driver_bound BoardConf.dk Scenario.outStopped outStopped_reachable).2
      (Hal.allOk BoardConf.dk) (Op.OUT_Mute 0)).1 (by decide)).1⟩

/-- C29. The digital-microphone tables realise the requested rate. For each of the eleven
sample rates `R`, with the PLL3P frequency `64000000 / 32 * N / P` for the `N` and `P` that
`MX_ADF1_ClockConfig` selects and the values of `MDF_PROC_CLOCK_DIVIDER`,
`MDF_OUTPUT_CLOCK_DIVIDER` and `MDF_DECIMATION_RATIO` for `R`, the sample frequency
`F / (ProcClockDivider * OutputClockDivider * DecimationRatio * 4)`, computed in the rational
numbers, differs from `R` by less than a thousandth of `R`. -/
theorem adf1_tables_realise_rate (f : Nat) (hf : f ∈ audioFrequencies) :
    |ADF1_sampleFrequency f - (f : ℚ)| < (f : ℚ) / 1000 := by
  simp only [audioFrequencies, List.mem_cons, List.mem_singleton, List.not_mem_nil,
    or_false] at hf
  rcases hf with rfl | rfl | rfl | rfl | rfl | rfl | rfl | rfl | rfl | rfl | rfl <;>
    (rw [abs_lt]
     simp only [ADF1_sampleFrequency, ADF1_kernelClock, MX_ADF1_ClockConfig_osc, mxMdfInit,
       MDF_PROC_CLOCK_DIVIDER, MDF_OUTPUT_CLOCK_DIVIDER, MDF_DECIMATION_RATIO, HSI_VALUE,
       MDF_RSF_DECIMATION_RATIO_4, AUDIO_FREQUENCY_8K, AUDIO_FREQUENCY_11K, AUDIO_FREQUENCY_16K,
       AUDIO_FREQUENCY_22K, AUDIO_FREQUENCY_32K, AUDIO_FREQUENCY_44K, AUDIO_FREQUENCY_48K,
       AUDIO_FREQUENCY_88K, AUDIO_FREQUENCY_96K, AUDIO_FREQUENCY_176K, AUDIO_FREQUENCY_192K]
     norm_num)

/-- The rate 48000 Hz: PLL3P runs at `64000000 / 32 * 172 / 7` Hz, the dividers are 2, 8, 16
and 4, and the sample frequency is `5375000 / 112` Hz, about 47991 Hz. -/
theorem adf1_tables_realise_rate_witness :
    |ADF1_sampleFrequency 48000 - ((48000 : Nat) : ℚ)| < ((48000 : Nat) : ℚ) / 1000
    ∧ ADF1_sampleFrequency 48000 = 5375000 / 112 :=
  ⟨adf1_tables_realise_rate 48000 (by decide), by
    simp only [ADF1_sampleFrequency, ADF1_kernelClock, MX_ADF1_ClockConfig_osc, mxMdfInit,
      MDF_PROC_CLOCK_DIVIDER, MDF_OUTPUT_CLOCK_DIVIDER, MDF_DECIMATION_RATIO, HSI_VALUE,
      MDF_RSF_DECIMATION_RATIO_4, AUDIO_FREQUENCY_8K, AUDIO_FREQUENCY_11K, AUDIO_FREQUENCY_16K,
      AUDIO_FREQUENCY_22K, AUDIO_FREQUENCY_32K, AUDIO_FREQUENCY_44K, AUDIO_FREQUENCY_48K,
      AUDIO_FREQUENCY_88K, AUDIO_FREQUENCY_96K, AUDIO_FREQUENCY_176K, AUDIO_FREQUENCY_192K]
    norm_num⟩

/-- C30. `BSP_AUDIO_OUT_SetBitsPerSample` on failure. The function stores the new width before
it re-initialises the I2S: on the Stopped 16-bit output of scenario A, with `HAL_I2S_Init`
failing, `BSP_AUDIO_OUT_SetBitsPerSample(0, 24)` answers `BSP_ERROR_PERIPH_FAILURE` and leaves
`BitsPerSample = 24`; `BSP_AUDIO_OUT_GetBitsPerSample` then returns 24 and a
`BSP_AUDIO_OUT_Play` of 4800 bytes arms the DMA for `4800 / 4 = 1200` units, where the
16-bit output arms it for 2400. `BSP_AUDIO_OUT_SetSampleRate`, under the same failure, answers
`BSP_ERROR_PERIPH_FAILURE` and keeps the stored rate. -/
theorem set_bits_failure_stores_new_width :
    Scenario.outStopped.Audio_Out_Ctx.State = AUDIO_OUT_STATE_STOP
    ∧ Scenario.outStopped.Audio_Out_Ctx.BitsPerSample = AUDIO_RESOLUTION_16B
    ∧ (BSP_AUDIO_OUT_SetBitsPerSample BoardConf.dk (Hal.i2sInitFails BoardConf.dk) 0
        AUDIO_RESOLUTION_24B Scenario.outStopped).1 = BSP_ERROR_PERIPH_FAILURE
    ∧ Scenario.outFailed24.Audio_Out_Ctx.BitsPerSample = AUDIO_RESOLUTION_24B
    ∧ BSP_AUDIO_OUT_GetBitsPerSample 0 Scenario.outFailed24 = (BSP_ERROR_NONE, some 24)
    ∧ (BSP_AUDIO_OUT_Play (Hal.allOk BoardConf.dk) 0 Scenario.buf 4800
        Scenario.outFailed24).2.log
        = Scenario.outFailed24.log ++ [Ev.I2S_DISABLE haudio_out_i2s,
            Ev.HAL_I2S_Transmit_DMA Scenario.buf 1200, Ev.Drv_Play,
            Ev.Audio_Out_Ctx_State AUDIO_OUT_STATE_PLAYING]
    ∧ (BSP_AUDIO_OUT_Play (Hal.allOk BoardConf.dk) 0 Scenario.buf 4800
        Scenario.outStopped).2.log
        = Scenario.outStopped.log ++ [Ev.I2S_DISABLE haudio_out_i2s,
            Ev.HAL_I2S_Transmit_DMA Scenario.buf 2400, Ev.Drv_Play,
            Ev.Audio_Out_Ctx_State AUDIO_OUT_STATE_PLAYING]
    ∧ (BSP_AUDIO_OUT_SetSampleRate BoardConf.dk (Hal.i2sInitFails BoardConf.dk) 0
        AUDIO_FREQUENCY_44K Scenario.outStopped).1 = BSP_ERROR_PERIPH_FAILURE
    ∧ (BSP_AUDIO_OUT_SetSampleRate BoardConf.dk (Hal.i2sInitFails BoardConf.dk) 0
        AUDIO_FREQUENCY_44K Scenario.outStopped).2.Audio_Out_Ctx.SampleRate
        = AUDIO_FREQUENCY_48K := by
  decide

end STM32H7S78
